import Mathlib

/-! AirPlay 2 output backend (`src/outputs/airplay.c`): a verification development.

A shallow embedding of the audio pipeline and of the per-device session state
machine of `airplay.c`, with theorems about them.

Conventions of the embedding:

* a byte is a `Nat` below 256; a store to a `uint8_t` is an explicit `% 256`;
* memory reached through a `uint8_t *` is a function from offsets to bytes
  (`Mem`), the pointer being the offset;
* results of library calls that are not part of `airplay.c` (libgcrypt, evrtsp,
  the pairing library, plist parsing, sockets) are inputs of the functions that
  use them: the calls of the control plane read them from a stream (`Sys.ext`)
  in the order the calls are made;
* what the module does to the outside (packets sent, requests queued, callbacks
  and handlers called, timers armed) is appended to a trace (`Sys.log`);
* allocation by libc succeeds.
-/

namespace Airplay

/-! ## Memory -/

/-- Memory behind a `uint8_t *`: offset to byte. -/
abbrev Mem := Nat → Nat

/-- The store `p[a] = v`. -/
def Mem.store (m : Mem) (a v : Nat) : Mem := fun i => if i = a then v else m i

/-- The bytes `p[start], ..., p[start + n - 1]`. -/
def readBytes (m : Mem) (start n : Nat) : List Nat :=
  (List.range n).map (fun i => m (start + i))

/-- A buffer given by its bytes (offsets past the end read as 0). -/
def Mem.ofList (l : List Nat) : Mem := fun i => l.getD i 0

/-! ## ALAC bit writer (`alac_write_bits`, `alac_encode`) -/

/-- The pair `(*p, *bpos)` that `alac_write_bits` updates, with the memory `*p`
points into. -/
structure BitWriter where
  mem : Mem
  p : Nat
  bpos : Nat

/-- `alac_write_bits(&p, val, blen, &bpos)`. `lb`, `rb` are C `int`s; `bd` is an
`int` truncated to `uint8_t` when stored. -/
def alac_write_bits (w : BitWriter) (val : Nat) (blen : Nat) : BitWriter :=
  -- Remaining bits in the current byte
  let lb : Int := 7 - (w.bpos : Int) + 1
  -- Number of bits overflowing
  let rb : Int := lb - (blen : Int)
  if 0 ≤ rb then
    let bd := val <<< rb.toNat
    let mem :=
      if w.bpos = 0 then w.mem.store w.p (bd % 256)
      else w.mem.store w.p ((w.mem w.p ||| bd) % 256)
    if rb = 0 then
      { mem := mem, p := w.p + 1, bpos := 0 }
    else
      { mem := mem, p := w.p, bpos := w.bpos + blen }
  else
    -- Fill current byte
    let bd := val >>> (-rb).toNat
    let mem := w.mem.store w.p ((w.mem w.p ||| bd) % 256)
    -- Overflow goes to the next byte
    let mem := mem.store (w.p + 1) ((val <<< (8 + rb).toNat) % 256)
    { mem := mem, p := w.p + 1, bpos := (-rb).toNat }

/-- The loop `for (; raw < maxraw; raw += 4)` of `alac_encode`; `r` is the offset
of `raw` from its initial value, `maxraw` the offset `len`. The first argument
bounds the number of iterations (`maxraw` always suffices). -/
def alac_encode_loop (raw : Mem) (maxraw : Nat) : Nat → Nat → BitWriter → BitWriter
  | 0, _, w => w
  | fuel + 1, r, w =>
    if r < maxraw then
      -- Byteswap to big endian
      let w := alac_write_bits w (raw (r + 1)) 8
      let w := alac_write_bits w (raw r) 8
      let w := alac_write_bits w (raw (r + 3)) 8
      let w := alac_write_bits w (raw (r + 2)) 8
      alac_encode_loop raw maxraw fuel (r + 4) w
    else w

/-- `alac_encode(dst, raw, len)`: the state of the writer when the function
returns; `mem` is the memory behind `dst`. A negative `len` runs no iteration. -/
def alac_encode (dst : Mem) (raw : Mem) (len : Int) : BitWriter :=
  let w : BitWriter := { mem := dst, p := 0, bpos := 0 }
  let w := alac_write_bits w 1 3 -- channel=1, stereo
  let w := alac_write_bits w 0 4 -- unknown
  let w := alac_write_bits w 0 8 -- unknown
  let w := alac_write_bits w 0 4 -- unknown
  let w := alac_write_bits w 0 1 -- hassize
  let w := alac_write_bits w 0 2 -- unused
  let w := alac_write_bits w 1 1 -- is-not-compressed
  alac_encode_loop raw len.toNat len.toNat 0 w

/-! ### Reading the output as a bitstream -/

/-- The `width` bits of the field value `val`, most significant first. -/
def fieldBits (val width : Nat) : List Bool :=
  (List.range width).map (fun i => decide (val / 2 ^ (width - 1 - i) % 2 = 1))

/-- A byte sequence read as a bitstream, each byte most significant bit first. -/
def bitsOf (bytes : List Nat) : List Bool := bytes.flatMap (fun b => fieldBits b 8)

/-- The four bytes written for the PCM frame at frame index `k`, in the order of
the loop body of `alac_encode`. -/
def frameBytes (raw : Mem) (k : Nat) : List Nat :=
  [raw (4 * k + 1), raw (4 * k), raw (4 * k + 3), raw (4 * k + 2)]

/-- The byte sequence of the frames `k0, ..., k0 + m - 1`. -/
def framesBytes (raw : Mem) (k0 m : Nat) : List Nat :=
  (List.range m).flatMap (fun k => frameBytes raw (k0 + k))

/-- The 8-bit write of `alac_write_bits` repeated over a byte sequence. -/
def writeBytes (w : BitWriter) (bs : List Nat) : BitWriter :=
  bs.foldl (fun w b => alac_write_bits w b 8) w

/-- What a run of 8-bit writes at bit position 7 leaves in memory, from the byte
under the pointer (`c`) on: every byte is split over two consecutive bytes. -/
def shifted (c : Nat) : List Nat → List Nat
  | [] => [c]
  | b :: bs => ((c ||| (b >>> 7)) % 256) :: shifted ((b <<< 1) % 256) bs

/-! ## Constants (`#define`s of `airplay.c`) -/

def ALAC_HEADER_LEN : Nat := 3
def RAOP_SAMPLES_PER_PACKET : Nat := 352
def RAOP_RTP_PAYLOADTYPE : Nat := 0x60
def RAOP_PACKET_BUFFER_SIZE : Nat := 1000
def RAOP_MD_DELAY_STARTUP : Nat := 15360
def RAOP_MD_DELAY_SWITCH : Nat := RAOP_MD_DELAY_STARTUP * 2
def RAOP_MD_WANTS_TEXT : Nat := 1 <<< 0
def RAOP_MD_WANTS_ARTWORK : Nat := 1 <<< 1
def RAOP_MD_WANTS_PROGRESS : Nat := 1 <<< 2
def RAOP_CONFIG_MAX_VOLUME : Nat := 11
def AIRPLAY_STATE_F_STARTUP : Nat := 1 <<< 13
def AIRPLAY_STATE_F_CONNECTED : Nat := 1 <<< 14
def AIRPLAY_STATE_F_FAILED : Nat := 1 <<< 15
def RTSP_OK : Nat := 200
def RTSP_UNAUTHORIZED : Nat := 401
def RTSP_FORBIDDEN : Nat := 403
def RTSP_CONNECTION_AUTH_REQUIRED : Nat := 470

/-! ## Data model -/

/-- `enum airplay_state`. -/
inductive airplay_state
  | STOPPED | STARTUP | OPTIONS | ANNOUNCE | SETUP | RECORD
  | CONNECTED | STREAMING | TEARDOWN | FAILED | PASSWORD
  deriving DecidableEq, Repr

/-- The integer value of an `enum airplay_state` constant. -/
def airplay_state.val : airplay_state → Nat
  | .STOPPED => 0
  | .STARTUP => AIRPLAY_STATE_F_STARTUP ||| 0x01
  | .OPTIONS => AIRPLAY_STATE_F_STARTUP ||| 0x02
  | .ANNOUNCE => AIRPLAY_STATE_F_STARTUP ||| 0x03
  | .SETUP => AIRPLAY_STATE_F_STARTUP ||| 0x04
  | .RECORD => AIRPLAY_STATE_F_STARTUP ||| 0x05
  | .CONNECTED => AIRPLAY_STATE_F_CONNECTED ||| 0x01
  | .STREAMING => AIRPLAY_STATE_F_CONNECTED ||| 0x02
  | .TEARDOWN => AIRPLAY_STATE_F_CONNECTED ||| 0x03
  | .FAILED => AIRPLAY_STATE_F_FAILED ||| 0x01
  | .PASSWORD => AIRPLAY_STATE_F_FAILED ||| 0x02

/-- The test `state & flag` of C, as a boolean. -/
def airplay_state.has (s : airplay_state) (flag : Nat) : Bool := s.val &&& flag != 0

/-- `enum airplay_seq_type`. -/
inductive airplay_seq_type
  | ABORT | START | START_RERUN | START_AP2 | PROBE | FLUSH | STOP | FAILURE | PIN_START
  | SEND_VOLUME | SEND_TEXT | SEND_PROGRESS | SEND_ARTWORK | PAIR_SETUP | PAIR_VERIFY
  | PAIR_TRANSIENT | FEEDBACK | CONTINUE
  deriving DecidableEq, Repr

/-- `enum pair_type` of `pair.h`, the two values `airplay.c` uses. -/
inductive pair_type
  | HOMEKIT_NORMAL | HOMEKIT_TRANSIENT
  deriving DecidableEq, Repr

/-- `enum airplay_devtype`. -/
inductive airplay_devtype
  | APEX1_80211G | APEX2_80211N | APEX3_80211N | APPLETV | APPLETV4 | HOMEPOD | OTHER
  deriving DecidableEq, Repr

/-- `struct timespec`. -/
structure timespec where
  tv_sec : Int
  tv_nsec : Int
  deriving DecidableEq, Repr

/-- `struct media_quality`. -/
structure media_quality where
  sample_rate : Int
  bits_per_sample : Int
  channels : Int
  deriving DecidableEq, Repr

/-- `struct rtcp_timestamp`: `pos` is a `uint32_t`. -/
structure rtcp_timestamp where
  pos : Nat
  ts : timespec
  deriving DecidableEq, Repr

/-- Modelled from the spec: `struct rtp_packet` of `rtp_common.h`, a framed RTP
packet. `header` and `payload` are the bytes behind the two pointers
(`header_len` and `payload_len` are their lengths), `data_len` the length of the
whole packet and `seqnum` the sequence number as a `uint16_t`. -/
structure rtp_packet where
  seqnum : Nat
  samples : Nat
  header : List Nat
  payload : List Nat
  data_len : Nat
  deriving DecidableEq, Repr

/-- Modelled from the spec: `struct rtp_session` of `rtp_common.h`: the sequence
number (16 bits), the RTP timestamp cursor `pos` (32 bits, in samples) and the
retransmit ring, here the committed packets, newest first, at most
`pktbuf_size` of them. -/
structure rtp_session where
  quality : media_quality
  ssrc_id : Nat
  seqnum : Nat
  pos : Nat
  pktbuf : List rtp_packet
  pktbuf_size : Nat
  deriving DecidableEq, Repr

/-- `struct airplay_master_session`; `id` stands for the address of the struct. -/
structure airplay_master_session where
  id : Nat
  evbuf : List Nat
  evbuf_samples : Int
  rtp_session : rtp_session
  cur_stamp : rtcp_timestamp
  rawbuf : List Nat
  rawbuf_size : Nat
  samples_per_packet : Int
  encrypt : Bool
  output_buffer_samples : Int
  deriving DecidableEq, Repr

/-! ## Packet encryption (`encrypt_chacha`, `packet_encrypt`) -/

/-- The ChaCha20-Poly1305 computation that `encrypt_chacha` asks of libgcrypt:
from key, nonce, associated data and plaintext to ciphertext and tag, or
failure. -/
abbrev Aead := List Nat → List Nat → List Nat → List Nat → Option (List Nat × List Nat)

/-- What `encrypt_chacha` relies on: libgcrypt writes as many ciphertext bytes as
there are plaintext bytes, and a tag of the 16 bytes asked for. -/
def Aead.sized (aead : Aead) : Prop :=
  ∀ key nonce ad plain c t, aead key nonce ad plain = some (c, t) →
    c.length = plain.length ∧ t.length = 16

/-- `memcpy(dst + off, src, n)` where `src` are the `n` bytes copied. -/
def memcpy (m : Mem) (off : Nat) (src : List Nat) : Mem :=
  fun a => if off ≤ a ∧ a < off + src.length then src.getD (a - off) 0 else m a

/-- The two bytes of a `uint16_t` as the host stores them. -/
def stored_u16 (big_endian_host : Bool) (s : Nat) : List Nat :=
  if big_endian_host then [s / 256 % 256, s % 256] else [s % 256, s / 256 % 256]

/-- The nonce `packet_encrypt` builds: `uint8_t nonce[12] = { 0 }` and then
`memcpy(nonce + nonce_offset, &pkt->seqnum, sizeof(pkt->seqnum))`. -/
def packet_nonce (big_endian_host : Bool) (seqnum : Nat) : List Nat :=
  readBytes (memcpy (Mem.ofList (List.replicate 12 0)) 4 (stored_u16 big_endian_host seqnum)) 0 12

/-- `packet_encrypt(&out, &out_len, pkt, rs)`: `none` for the return value -1,
otherwise the `out_len` bytes at `*out`. `heap` is the content of the block
`malloc` returns. The associated data `pkt->header + 4` (8 bytes) lies inside the
header for headers of at least 12 bytes. -/
def packet_encrypt (aead : Aead) (big_endian_host : Bool) (heap : Mem) (pkt : rtp_packet)
    (shared_secret : List Nat) : Option (List Nat) :=
  let nonce := packet_nonce big_endian_host pkt.seqnum
  let nonce_offset := 4
  -- Alloc so authtag and nonce can be appended
  let out_len := pkt.data_len + 16 + 12 - nonce_offset
  let out := heap
  -- The RTP header is not encrypted
  let out := memcpy out 0 pkt.header
  let write_ptr := pkt.header.length
  -- Timestamp and SSRC are used as AAD = pkt->header + 4, len 8
  match aead shared_secret nonce ((pkt.header.drop 4).take 8) pkt.payload with
  | none => none
  | some (cipher, authtag) =>
    let out := memcpy out write_ptr cipher
    let write_ptr := write_ptr + pkt.payload.length
    let out := memcpy out write_ptr authtag
    let write_ptr := write_ptr + 16
    let out := memcpy out write_ptr (nonce.drop nonce_offset)
    some (readBytes out 0 out_len)

/-- A stand-in cipher for evaluating the code on concrete packets: every
plaintext byte plus one, and a tag made of the key length. It is `Aead.sized`. -/
def toyAead : Aead := fun key _ _ plain =>
  some (plain.map (fun b => (b + 1) % 256), List.replicate 16 (key.length % 256))

/-! ## Sessions, devices and the module state -/

/-- `struct airplay_extra`. -/
structure airplay_extra where
  devtype : airplay_devtype
  wanted_metadata : Nat
  encrypt : Bool
  supports_auth_setup : Bool
  supports_pairing_transient : Bool
  deriving DecidableEq, Repr

/-- The address families `airplay.c` distinguishes. -/
inductive sa_family
  | AF_UNSPEC | AF_INET | AF_INET6
  deriving DecidableEq, Repr

/-- `struct output_device` of `outputs.h`, the fields `airplay.c` reads or
writes. A `char *` is `none` when `NULL`. -/
structure output_device where
  id : Nat
  name : String
  password : Option String
  auth_key : Option String
  requires_auth : Bool
  v6_disabled : Bool
  v4_address : Option String
  v6_address : Option String
  v4_port : Nat
  v6_port : Nat
  volume : Int
  quality : media_quality
  extra_device_info : airplay_extra
  deriving DecidableEq, Repr

/-- `struct airplay_session`. `ptr` stands for the address of the struct,
`master_session` holds the `id` of the master session (`none` is `NULL`), a
context pointer is `true` when not `NULL`, `deferred_pending` tells whether the
timer `deferredev` has been added, `closecb` whether `rtsp_close_cb` is installed
on the control connection, and `shared_secret` is `none` as long as the array
holds the zeros `calloc` left. -/
structure airplay_session where
  ptr : Nat
  device_id : Nat
  callback_id : Int
  master_session : Option Nat
  state : airplay_state
  next_seq : airplay_seq_type
  wanted_metadata : Nat
  req_has_auth : Bool
  encrypt : Bool
  auth_quirk_itunes : Bool
  supports_post : Bool
  supports_auth_setup : Bool
  deferred_pending : Bool
  closecb : Bool
  reqs_in_flight : Int
  cseq : Int
  session : Option String
  session_id : Nat
  session_url : Option String
  realm : Option (List Char)
  nonce : Option (List Char)
  password : Option String
  devname : String
  address : Option String
  family : sa_family
  volume : Int
  local_address : Option String
  data_port : Nat
  control_port : Nat
  events_port : Nat
  timing_port : Nat
  pair_type : pair_type
  control_cipher_ctx : Bool
  events_cipher_ctx : Bool
  pair_verify_ctx : Bool
  pair_setup_ctx : Bool
  shared_secret : Option (List Nat)
  server_fd : Int
  events_fd : Int
  deriving DecidableEq, Repr

/-- `enum output_device_state` of `outputs.h`, the values `session_status`
reports. -/
inductive output_device_state
  | OUTPUT_STATE_STOPPED | OUTPUT_STATE_STARTUP | OUTPUT_STATE_CONNECTED
  | OUTPUT_STATE_STREAMING | OUTPUT_STATE_FAILED | OUTPUT_STATE_PASSWORD
  deriving DecidableEq, Repr

/-- Modelled from the spec: the sync packet `rtp_sync_packet_next` of
`rtp_common.c` builds, by its flags byte (`0x90` initial, `0x80` steady), the
anchor it carries and the RTP position of the session. -/
structure sync_packet where
  flags : Nat
  cur_stamp : rtcp_timestamp
  rtptime : Nat
  deriving DecidableEq, Repr

/-- What the module does to the outside, in order of occurrence:
`data_send rs bytes ret` is `send(rs->server_fd, bytes)` returning `ret`,
`control_send rs pkt` the `sendto` of a sync packet to the control port of
session `rs`, `outputs_cb` the callback to the player, `request` a request
handed to `evrtsp_make_request` (step `idx` of sequence `seq`),
`sequence_start` a call of `sequence_start`, `handler` a call of the response
handler of a step with its return value (traced when it returns), `on_error` and
`on_success` a call of the terminator callbacks of a sequence,
`deferred rs` the arming of the deferred-failure timer, and `keep_alive_add`
the arming of the keep-alive timer. -/
inductive Event
  | data_send (rs : Nat) (bytes : List Nat) (ret : Int)
  | control_send (rs : Nat) (pkt : sync_packet)
  | outputs_cb (callback_id : Int) (device_id : Nat) (state : output_device_state)
  | request (rs : Nat) (seq : airplay_seq_type) (idx : Nat)
  | sequence_start (rs : Nat) (seq : airplay_seq_type)
  | handler (rs : Nat) (seq : airplay_seq_type) (idx : Nat) (ret : airplay_seq_type)
  | on_error (rs : Nat) (seq : airplay_seq_type)
  | on_success (rs : Nat) (seq : airplay_seq_type)
  | deferred (rs : Nat)
  | keep_alive_add
  deriving DecidableEq, Repr

/-- One result of a call into the environment (libc, libevent, libgcrypt, the
pairing library, libplist): a return value and, where the call yields bytes, the
bytes. -/
structure ExtVal where
  ret : Int
  data : List Nat
  deriving DecidableEq, Repr

/-- The part of the machine the module does not own: the platform's byte order
and cipher, the results of the calls into the environment in the order the
calls are made (`ext`, `tick` counting the calls made so far), and the trace of
what the module has done (`log`, oldest first). -/
structure Sys where
  aead : Aead
  big_endian_host : Bool
  ext : Nat → ExtVal
  tick : Nat
  log : List Event

/-- The next result from the environment. -/
def Sys.call (sys : Sys) : ExtVal × Sys :=
  (sys.ext sys.tick, { sys with tick := sys.tick + 1 })

/-- Append to the trace. -/
def Sys.emit (sys : Sys) (e : Event) : Sys := { sys with log := sys.log ++ [e] }

/-! ## RTP session (`rtp_common.c`) -/

/-- The four bytes of a 32-bit value in network order. -/
def be32 (x : Nat) : List Nat := [x / 2 ^ 24 % 256, x / 2 ^ 16 % 256, x / 2 ^ 8 % 256, x % 256]

/-- The 32-bit value of four bytes in network order (0 when there are not four). -/
def be32_decode : List Nat → Nat
  | [a, b, c, d] => a * 2 ^ 24 + b * 2 ^ 16 + c * 2 ^ 8 + d
  | _ => 0

/-- Modelled from the spec: `rtp_packet_next` of `rtp_common.c` frames the next
packet of the session with its 12-byte RTP header: version byte `0x80`, marker
bit and payload type, the 16-bit sequence number, the 32-bit RTP timestamp
(`pos`) and the SSRC, in network order. The payload (of `payload_len` bytes) is
still to be written. -/
def rtp_packet_next (session : rtp_session) (payload_len : Nat) (samples : Nat)
    (payload_type : Nat) (marker_bit : Nat) : rtp_packet :=
  { seqnum := session.seqnum
    samples := samples
    header := [0x80, ((marker_bit <<< 7) ||| payload_type) % 256,
               session.seqnum / 256 % 256, session.seqnum % 256]
              ++ be32 session.pos ++ be32 session.ssrc_id
    payload := List.replicate payload_len 0
    data_len := 12 + payload_len }

/-- Modelled from the spec: `rtp_packet_commit` of `rtp_common.c` puts the packet
in the retransmit ring (which keeps the last `pktbuf_size` packets) and advances
the sequence number (16 bits) by one and the position (32 bits) by the samples
of the packet. -/
def rtp_packet_commit (session : rtp_session) (pkt : rtp_packet) : rtp_session :=
  { session with
    pktbuf := (pkt :: session.pktbuf).take session.pktbuf_size
    seqnum := (session.seqnum + 1) % 2 ^ 16
    pos := (session.pos + pkt.samples) % 2 ^ 32 }

/-- Modelled from the spec: `rtp_packet_get` of `rtp_common.c` looks a sequence
number up in the retransmit ring. -/
def rtp_packet_get (session : rtp_session) (seqnum : Nat) : Option rtp_packet :=
  session.pktbuf.find? (fun pkt => pkt.seqnum == seqnum)

/-- Modelled from the spec: `rtp_sync_packet_next` of `rtp_common.c`. -/
def rtp_sync_packet_next (session : rtp_session) (cur_stamp : rtcp_timestamp) (type : Nat) :
    sync_packet :=
  { flags := type, cur_stamp := cur_stamp, rtptime := session.pos }

/-- The RTP timestamp a framed packet carries (header bytes 4 to 7). -/
def rtp_packet.rtptime (pkt : rtp_packet) : Nat := be32_decode ((pkt.header.drop 4).take 4)

/-! ## Sending RTP packets (`packet_send`, `packets_resend`, `packets_send`,
`timestamp_set`, `packets_sync_send`, `airplay_write`) -/

/-- `deferred_session_failure(rs)`. -/
def deferred_session_failure (rs : airplay_session) (sys : Sys) : airplay_session × Sys :=
  let rs := if rs.state ≠ .PASSWORD then { rs with state := .FAILED } else rs
  ({ rs with deferred_pending := true }, sys.emit (.deferred rs.ptr))

/-- `packet_send(rs, pkt)` for a non-null `rs`: the return value, the session and
the rest of the machine. The heap block `malloc` returns is taken zeroed; every
byte of it is overwritten before it is sent when
`data_len = header_len + payload_len`. -/
def packet_send (rs : airplay_session) (pkt : rtp_packet) (sys : Sys) :
    Int × airplay_session × Sys :=
  match packet_encrypt sys.aead sys.big_endian_host (fun _ => 0) pkt
      (rs.shared_secret.getD (List.replicate 32 0)) with
  | none => (-1, rs, sys)
  | some encrypted =>
    let (r, sys) := sys.call
    let ret := r.ret
    let sys := sys.emit (.data_send rs.ptr encrypted ret)
    if ret < 0 then
      -- Can't free it right away
      let (rs, sys) := deferred_session_failure rs sys
      (-1, rs, sys)
    else if ret ≠ encrypted.length then
      (-1, rs, sys)
    else
      (0, rs, sys)

/-- The loop of `packets_resend(rs, seqnum, len)`: `i` counts `len` down, `s` is
the `uint16_t` sequence number. -/
def packets_resend_loop (rtp : rtp_session) : Nat → Nat → airplay_session → Sys →
    airplay_session × Sys
  | 0, _, rs, sys => (rs, sys)
  | i + 1, s, rs, sys =>
    match rtp_packet_get rtp s with
    | some pkt =>
      let (_, rs, sys) := packet_send rs pkt sys
      packets_resend_loop rtp i ((s + 1) % 2 ^ 16) rs sys
    | none => packets_resend_loop rtp i ((s + 1) % 2 ^ 16) rs sys

/-- `packets_resend(rs, seqnum, len)`, with `rtp` the RTP session of the master
session of `rs`. -/
def packets_resend (rtp : rtp_session) (rs : airplay_session) (seqnum : Nat) (len : Int)
    (sys : Sys) : airplay_session × Sys :=
  packets_resend_loop rtp len.toNat seqnum rs sys

/-- The store `pkt->header[1] = v`. -/
def rtp_packet.set_header1 (pkt : rtp_packet) (v : Nat) : rtp_packet :=
  { pkt with header := pkt.header.set 1 v }

/-- The loop over `airplay_sessions` in `packets_send`. -/
def packets_send_loop (rms_id : Nat) : List airplay_session → rtp_packet → Sys →
    List airplay_session × rtp_packet × Sys
  | [], pkt, sys => ([], pkt, sys)
  | rs :: rest, pkt, sys =>
    if rs.master_session ≠ some rms_id then
      let (rest, pkt, sys) := packets_send_loop rms_id rest pkt sys
      (rs :: rest, pkt, sys)
    -- Device just joined
    else if rs.state = .CONNECTED then
      let pkt := pkt.set_header1 (((1 <<< 7) ||| RAOP_RTP_PAYLOADTYPE) % 256)
      let (_, rs, sys) := packet_send rs pkt sys
      let (rest, pkt, sys) := packets_send_loop rms_id rest pkt sys
      (rs :: rest, pkt, sys)
    else if rs.state = .STREAMING then
      let pkt := pkt.set_header1 RAOP_RTP_PAYLOADTYPE
      let (_, rs, sys) := packet_send rs pkt sys
      let (rest, pkt, sys) := packets_send_loop rms_id rest pkt sys
      (rs :: rest, pkt, sys)
    else
      let (rest, pkt, sys) := packets_send_loop rms_id rest pkt sys
      (rs :: rest, pkt, sys)

/-- The first two statements of `packets_send(rms)`: the packet `rtp_packet_next`
frames, with the payload `alac_encode` writes into it from `rms->rawbuf`. -/
def packets_send_packet (rms : airplay_master_session) : rtp_packet :=
  let pkt := rtp_packet_next rms.rtp_session (ALAC_HEADER_LEN + rms.rawbuf_size)
    rms.samples_per_packet.toNat RAOP_RTP_PAYLOADTYPE 0
  { pkt with
    payload := readBytes (alac_encode (Mem.ofList pkt.payload) (Mem.ofList rms.rawbuf)
      rms.rawbuf_size).mem 0 pkt.payload.length }

/-- `packets_send(rms)`: the master session, the sessions and the rest of the
machine afterwards. -/
def packets_send (rms : airplay_master_session) (sessions : List airplay_session) (sys : Sys) :
    airplay_master_session × List airplay_session × Sys :=
  let pkt := packets_send_packet rms
  let (sessions, pkt, sys) := packets_send_loop rms.id sessions pkt sys
  -- Commits packet to retransmit buffer, and prepares the session for the next packet
  ({ rms with rtp_session := rtp_packet_commit rms.rtp_session pkt }, sessions, sys)

/-- `timestamp_set(rms, ts)`; `cur_stamp.pos` is a `uint32_t`. -/
def timestamp_set (rms : airplay_master_session) (ts : timespec) : airplay_master_session :=
  { rms with cur_stamp :=
    { ts := ts
      pos := (((rms.rtp_session.pos : Int) + rms.evbuf_samples - rms.output_buffer_samples)
               % 2 ^ 32).toNat } }

/-- `control_packet_send(rs, pkt)`; the session's family is one of the two the
`switch` accepts once a session exists. -/
def control_packet_send (rs : airplay_session) (pkt : sync_packet) (sys : Sys) : Sys :=
  match rs.family with
  | .AF_INET => sys.emit (.control_send rs.ptr pkt)
  | .AF_INET6 => sys.emit (.control_send rs.ptr pkt)
  | .AF_UNSPEC => sys

/-- The loop over `airplay_sessions` in `packets_sync_send`. -/
def packets_sync_send_loop (rms : airplay_master_session) (is_sync_time : Bool) :
    List airplay_session → Sys → Sys
  | [], sys => sys
  | rs :: rest, sys =>
    if rs.master_session ≠ some rms.id then
      packets_sync_send_loop rms is_sync_time rest sys
    -- A device has joined and should get an init sync packet
    else if rs.state = .CONNECTED then
      let sync_pkt := rtp_sync_packet_next rms.rtp_session rms.cur_stamp 0x90
      packets_sync_send_loop rms is_sync_time rest (control_packet_send rs sync_pkt sys)
    else if is_sync_time && rs.state = .STREAMING then
      let sync_pkt := rtp_sync_packet_next rms.rtp_session rms.cur_stamp 0x80
      packets_sync_send_loop rms is_sync_time rest (control_packet_send rs sync_pkt sys)
    else
      packets_sync_send_loop rms is_sync_time rest sys

/-- `packets_sync_send(rms)`; whether a sync is due (`rtp_sync_is_time`) is asked
of the RTP session of `rtp_common.c`, here of the environment. -/
def packets_sync_send (rms : airplay_master_session) (sessions : List airplay_session)
    (sys : Sys) : Sys :=
  let (r, sys) := sys.call
  packets_sync_send_loop rms (r.ret != 0) sessions sys

/-- One entry of `obuf->data[]` with a non-null `buffer` (of `bufsize` bytes). -/
structure output_data where
  quality : media_quality
  buffer : List Nat
  samples : Int
  deriving DecidableEq, Repr

/-- `struct output_buffer`: `data` lists the entries before the first one whose
`buffer` is `NULL`. -/
structure output_buffer where
  pts : timespec
  data : List output_data
  deriving DecidableEq, Repr

/-- The loop `while (evbuffer_get_length(rms->evbuf) >= rms->rawbuf_size)` of
`airplay_write`. The first argument bounds the number of iterations; the length
of `evbuf` plus one suffices when `rawbuf_size` is not 0. -/
def airplay_write_drain : Nat → airplay_master_session → List airplay_session → Sys →
    airplay_master_session × List airplay_session × Sys
  | 0, rms, sessions, sys => (rms, sessions, sys)
  | fuel + 1, rms, sessions, sys =>
    if rms.evbuf.length ≥ rms.rawbuf_size then
      let rms := { rms with
        rawbuf := rms.evbuf.take rms.rawbuf_size
        evbuf := rms.evbuf.drop rms.rawbuf_size }
      let rms := { rms with evbuf_samples := rms.evbuf_samples - rms.samples_per_packet }
      let (rms, sessions, sys) := packets_send rms sessions sys
      airplay_write_drain fuel rms sessions sys
    else (rms, sessions, sys)

/-- The loop over `obuf->data[i]` in `airplay_write`, for one master session. -/
def airplay_write_data (pts : timespec) : List output_data → airplay_master_session →
    List airplay_session → Sys → airplay_master_session × List airplay_session × Sys
  | [], rms, sessions, sys => (rms, sessions, sys)
  | d :: rest, rms, sessions, sys =>
    if d.quality ≠ rms.rtp_session.quality then
      airplay_write_data pts rest rms sessions sys
    else
      -- Set rms->cur_stamp
      let rms := timestamp_set rms pts
      -- Sends sync packets to new sessions, and if it is sync time then also to old sessions
      let sys := packets_sync_send rms sessions sys
      let rms := { rms with evbuf := rms.evbuf ++ d.buffer }
      let rms := { rms with evbuf_samples := rms.evbuf_samples + d.samples }
      -- Send as many packets as we have data for
      let (rms, sessions, sys) :=
        airplay_write_drain (rms.evbuf.length + 1) rms sessions sys
      airplay_write_data pts rest rms sessions sys

/-- The loop over `airplay_master_sessions` in `airplay_write`. -/
def airplay_write_masters (obuf : output_buffer) : List airplay_master_session →
    List airplay_session → Sys → List airplay_master_session × List airplay_session × Sys
  | [], sessions, sys => ([], sessions, sys)
  | rms :: rest, sessions, sys =>
    let (rms, sessions, sys) := airplay_write_data obuf.pts obuf.data rms sessions sys
    let (rest, sessions, sys) := airplay_write_masters obuf rest sessions sys
    (rms :: rest, sessions, sys)

/-- The last loop of `airplay_write`: sessions that have joined since the last
write start streaming. `pending` is `event_pending(keep_alive_timer, ...)`. -/
def airplay_write_join : List airplay_session → Bool → Sys → List airplay_session × Bool × Sys
  | [], pending, sys => ([], pending, sys)
  | rs :: rest, pending, sys =>
    if rs.state ≠ .CONNECTED then
      let (rest, pending, sys) := airplay_write_join rest pending sys
      (rs :: rest, pending, sys)
    else
      -- Start sending progress to keep ATV's alive
      let sys := if !pending then sys.emit .keep_alive_add else sys
      let (rest, pending, sys) := airplay_write_join rest true sys
      ({ rs with state := .STREAMING } :: rest, pending, sys)

/-- The state `airplay_write` works on: the two lists of the module, the
keep-alive timer and the rest of the machine. -/
structure Audio where
  airplay_master_sessions : List airplay_master_session
  airplay_sessions : List airplay_session
  keep_alive_pending : Bool
  sys : Sys

/-- `airplay_write(obuf)`. -/
def airplay_write (obuf : output_buffer) (a : Audio) : Audio :=
  let (masters, sessions, sys) :=
    airplay_write_masters obuf a.airplay_master_sessions a.airplay_sessions a.sys
  let (sessions, pending, sys) := airplay_write_join sessions a.keep_alive_pending sys
  { airplay_master_sessions := masters, airplay_sessions := sessions,
    keep_alive_pending := pending, sys := sys }

/-! ## Properties of the packet stream (used by the theorems on `packets_send`) -/

/-- Packet `p2` follows packet `p1`: next 16-bit sequence number, RTP timestamp
352 samples later in 32-bit arithmetic. -/
def follows (p2 p1 : rtp_packet) : Prop :=
  p2.seqnum = (p1.seqnum + 1) % 2 ^ 16 ∧ p2.rtptime = (p1.rtptime + 352) % 2 ^ 32

/-- Every packet of a list (newest first) follows the one after it. -/
def rtp_chain : List rtp_packet → Prop
  | p2 :: p1 :: rest => follows p2 p1 ∧ rtp_chain (p1 :: rest)
  | _ => True

/-- The counters of an RTP session are in range, the packets of its retransmit
ring follow each other, and the next packet will follow the newest one. -/
def rtp_session.consistent (r : rtp_session) : Prop :=
  r.seqnum < 2 ^ 16 ∧ r.pos < 2 ^ 32 ∧ rtp_chain r.pktbuf ∧
  ∀ p, r.pktbuf.head? = some p →
    r.seqnum = (p.seqnum + 1) % 2 ^ 16 ∧ r.pos = (p.rtptime + 352) % 2 ^ 32

/-- A master session as `master_session_make` sets it up (352 samples per
packet) whose RTP session is consistent. -/
def airplay_master_session.consistent (rms : airplay_master_session) : Prop :=
  rms.samples_per_packet = (RAOP_SAMPLES_PER_PACKET : Int) ∧ rms.rtp_session.consistent

/-! ## Concrete states used to evaluate the code -/

/-- The default quality: 44100 Hz, 16 bits, 2 channels. -/
def airplay_quality_default : media_quality :=
  { sample_rate := 44100, bits_per_sample := 16, channels := 2 }

/-- A machine whose cipher is the stand-in cipher and whose calls into the
environment all return `ret`, with an empty trace. -/
def exampleSys (ret : Int) : Sys :=
  { aead := toyAead, big_endian_host := false, ext := fun _ => { ret := ret, data := [] },
    tick := 0, log := [] }

/-- A master session as `master_session_make` makes it for the default quality
(1408 bytes and 352 samples per packet), with nothing buffered, whose RTP
session is at sequence number `seqnum` and position `pos`. -/
def exampleMaster (seqnum pos : Nat) : airplay_master_session :=
  { id := 0, evbuf := [], evbuf_samples := 0,
    rtp_session := { quality := airplay_quality_default, ssrc_id := 1, seqnum := seqnum,
                     pos := pos, pktbuf := [], pktbuf_size := RAOP_PACKET_BUFFER_SIZE },
    cur_stamp := { pos := 0, ts := { tv_sec := 0, tv_nsec := 0 } },
    rawbuf := List.replicate 1408 0, rawbuf_size := 1408, samples_per_packet := 352,
    encrypt := false,
    output_buffer_samples := 0 }

/-- A player buffer of `samples` silent samples of the default quality. -/
def exampleBuffer (samples : Nat) : output_buffer :=
  { pts := { tv_sec := 10, tv_nsec := 0 },
    data := [{ quality := airplay_quality_default, buffer := List.replicate (4 * samples) 0,
               samples := samples }] }


/-- A session of device `ptr` as `session_make` leaves it, attached to the master
session 0 over IPv4, put in state `state`, with a shared secret of 32 bytes
`ptr`. -/
def exampleSession (ptr : Nat) (state : airplay_state) : airplay_session :=
  { ptr := ptr, device_id := ptr, callback_id := -1, master_session := some 0, state := state,
    next_seq := .CONTINUE, wanted_metadata := 0, req_has_auth := false, encrypt := false,
    auth_quirk_itunes := false, supports_post := false, supports_auth_setup := false,
    deferred_pending := false, closecb := true, reqs_in_flight := 0, cseq := 1,
    session := none, session_id := 0, session_url := none, realm := none, nonce := none,
    password := none, devname := "speaker", address := some "192.168.1.10",
    family := .AF_INET, volume := 50, local_address := none, data_port := 49152,
    control_port := 49153, events_port := 7000, timing_port := 0,
    pair_type := .HOMEKIT_TRANSIENT, control_cipher_ctx := true, events_cipher_ctx := true,
    pair_verify_ctx := false, pair_setup_ctx := true,
    shared_secret := some (List.replicate 32 ptr), server_fd := 5, events_fd := 6 }

/-! ## The control plane: requests, responses and the module state one session
touches -/

/-- `struct output_metadata` of `outputs.h` with the `struct airplay_metadata`
behind `priv`: the fields `airplay.c` reads. -/
structure output_metadata where
  item_id : Nat
  pos_ms : Nat
  len_ms : Nat
  pts : timespec
  startup : Bool
  metadata : List Nat
  artwork : Option (List Nat)
  artwork_fmt : Int
  deriving DecidableEq, Repr

/-- The `void *arg` a sequence is started with: `NULL`, the pin of
`airplay_device_authorize`, or the metadata of the metadata sequences. -/
inductive payload_arg
  | null
  | pin (pin : String)
  | metadata (md : output_metadata)
  deriving DecidableEq, Repr

/-- The items of a binary plist reply that the response handlers look up
(`streams[0]` of the stream SETUP reply). -/
structure plist_stream where
  dataPort : Option Nat
  controlPort : Option Nat
  deriving DecidableEq, Repr

/-- The items of a binary plist reply that the response handlers look up. An
integer item is the `uint64_t` that `plist_get_uint_val` gives. -/
structure plist_dict where
  eventPort : Option Nat
  timingPort : Option Nat
  streams : Option (List plist_stream)
  deriving DecidableEq, Repr

/-- `struct evrtsp_request` of `evrtsp.h` as a response: the response code, the
input headers the handlers look for, and the body as `wplist_from_evbuf` parses
it (`none` when it does not parse). -/
structure evrtsp_request where
  response_code : Nat
  www_authenticate : Option (List Char)
  public_methods : Option (List Char)
  audio_latency : Option (List Char)
  body : Option plist_dict
  deriving DecidableEq, Repr

/-- `enum evrtsp_cmd_type` of `evrtsp.h`, the methods the table uses. -/
inductive evrtsp_cmd_type
  | OPTIONS | SETUP | SETPEERS | SET_PARAMETER | RECORD | FLUSH | TEARDOWN | POST
  deriving DecidableEq, Repr

/-- The functions the column `payload_make` of the table points to. -/
inductive payload_maker
  | flush | teardown | set_volume | send_progress | send_artwork | send_text
  | setup_stream | setpeers | record | setup_session | pin_start
  | pair_setup1 | pair_setup2 | pair_setup3 | pair_verify1 | pair_verify2
  deriving DecidableEq, Repr

/-- The functions the column `response_handler` of the table points to. -/
inductive response_handler
  | pin_start | record | setup_stream | volume_start | setup_session | flush | teardown
  | teardown_failure | options_probe | options_start
  | pair_setup1 | pair_setup2 | pair_setup3 | pair_verify1 | pair_verify2
  deriving DecidableEq, Repr

/-- The functions the columns `on_success` and `on_error` of
`airplay_seq_definition` point to. -/
inductive seq_callback
  | start_retry | session_connected | start_failure | session_success | probe_failure
  | session_status | session_failure | session_pair_success
  deriving DecidableEq, Repr

/-- `struct airplay_seq_definition`; a `NULL` callback is `none`. -/
structure airplay_seq_def where
  seq_type : airplay_seq_type
  on_success : Option seq_callback
  on_error : Option seq_callback
  deriving DecidableEq, Repr

/-- `struct airplay_seq_request`; `NULL` is `none`. -/
structure airplay_seq_request where
  seq_type : airplay_seq_type
  name : String
  rtsp_type : evrtsp_cmd_type
  payload_make : Option payload_maker
  response_handler : Option response_handler
  content_type : Option String
  uri : Option String
  proceed_on_rtsp_not_ok : Bool
  deriving DecidableEq, Repr

/-- The table `airplay_seq_definition[]`, by sequence type (`ABORT` and
`CONTINUE` are not sequences and index no entry). -/
def airplay_seq_definition : airplay_seq_type → airplay_seq_def
  | .START => { seq_type := .START, on_success := none, on_error := some .start_retry }
  | .START_RERUN =>
    { seq_type := .START_RERUN, on_success := none, on_error := some .start_retry }
  | .START_AP2 => { seq_type := .START_AP2, on_success := some .session_connected,
                    on_error := some .start_failure }
  | .PROBE => { seq_type := .PROBE, on_success := some .session_success,
                on_error := some .probe_failure }
  | .FLUSH => { seq_type := .FLUSH, on_success := some .session_status,
                on_error := some .session_failure }
  | .STOP => { seq_type := .STOP, on_success := some .session_success,
               on_error := some .session_failure }
  | .FAILURE => { seq_type := .FAILURE, on_success := some .session_success,
                  on_error := some .session_failure }
  | .PIN_START => { seq_type := .PIN_START, on_success := some .session_success,
                    on_error := some .session_failure }
  | .SEND_VOLUME => { seq_type := .SEND_VOLUME, on_success := some .session_status,
                      on_error := some .session_failure }
  | .SEND_TEXT => { seq_type := .SEND_TEXT, on_success := none,
                    on_error := some .session_failure }
  | .SEND_PROGRESS => { seq_type := .SEND_PROGRESS, on_success := none,
                        on_error := some .session_failure }
  | .SEND_ARTWORK => { seq_type := .SEND_ARTWORK, on_success := none,
                       on_error := some .session_failure }
  | .PAIR_SETUP => { seq_type := .PAIR_SETUP, on_success := some .session_pair_success,
                     on_error := some .session_failure }
  | .PAIR_VERIFY => { seq_type := .PAIR_VERIFY, on_success := some .session_pair_success,
                      on_error := some .session_failure }
  | .PAIR_TRANSIENT => { seq_type := .PAIR_TRANSIENT, on_success := some .session_pair_success,
                         on_error := some .session_failure }
  | .FEEDBACK => { seq_type := .FEEDBACK, on_success := none,
                   on_error := some .session_failure }
  | .ABORT => { seq_type := .ABORT, on_success := none, on_error := none }
  | .CONTINUE => { seq_type := .CONTINUE, on_success := none, on_error := none }

/-- The table `airplay_seq_request[][7]`, by sequence type: the entries of a row
before its zero terminator. -/
def airplay_seq_request_rows : airplay_seq_type → List airplay_seq_request
  | .START =>
    [{ seq_type := .START, name := "OPTIONS", rtsp_type := .OPTIONS, payload_make := none,
       response_handler := some .options_start, content_type := none, uri := some "*",
       proceed_on_rtsp_not_ok := true }]
  | .START_RERUN =>
    [{ seq_type := .START_RERUN, name := "OPTIONS (re-run)", rtsp_type := .OPTIONS,
       payload_make := none, response_handler := some .options_start, content_type := none,
       uri := some "*", proceed_on_rtsp_not_ok := false }]
  | .START_AP2 =>
    [{ seq_type := .START_AP2, name := "SETUP (session)", rtsp_type := .SETUP,
       payload_make := some .setup_session, response_handler := some .setup_session,
       content_type := some "application/x-apple-binary-plist", uri := none,
       proceed_on_rtsp_not_ok := false },
     { seq_type := .START_AP2, name := "SETPEERS", rtsp_type := .SETPEERS,
       payload_make := some .setpeers, response_handler := none,
       content_type := some "/peer-list-changed", uri := none,
       proceed_on_rtsp_not_ok := false },
     { seq_type := .START_AP2, name := "SETUP (stream)", rtsp_type := .SETUP,
       payload_make := some .setup_stream, response_handler := some .setup_stream,
       content_type := some "application/x-apple-binary-plist", uri := none,
       proceed_on_rtsp_not_ok := false },
     { seq_type := .START_AP2, name := "SET_PARAMETER (volume)", rtsp_type := .SET_PARAMETER,
       payload_make := some .set_volume, response_handler := some .volume_start,
       content_type := some "text/parameters", uri := none, proceed_on_rtsp_not_ok := true },
     { seq_type := .START_AP2, name := "RECORD", rtsp_type := .RECORD,
       payload_make := some .record, response_handler := some .record, content_type := none,
       uri := none, proceed_on_rtsp_not_ok := false }]
  | .PROBE =>
    [{ seq_type := .PROBE, name := "OPTIONS (probe)", rtsp_type := .OPTIONS,
       payload_make := none, response_handler := some .options_probe, content_type := none,
       uri := some "*", proceed_on_rtsp_not_ok := true }]
  | .FLUSH =>
    [{ seq_type := .FLUSH, name := "FLUSH", rtsp_type := .FLUSH, payload_make := some .flush,
       response_handler := some .flush, content_type := none, uri := none,
       proceed_on_rtsp_not_ok := false }]
  | .STOP =>
    [{ seq_type := .STOP, name := "TEARDOWN", rtsp_type := .TEARDOWN,
       payload_make := some .teardown, response_handler := some .teardown,
       content_type := none, uri := none, proceed_on_rtsp_not_ok := true }]
  | .FAILURE =>
    [{ seq_type := .FAILURE, name := "TEARDOWN (failure)", rtsp_type := .TEARDOWN,
       payload_make := some .teardown, response_handler := some .teardown_failure,
       content_type := none, uri := none, proceed_on_rtsp_not_ok := false }]
  | .PIN_START =>
    [{ seq_type := .PIN_START, name := "PIN start", rtsp_type := .POST,
       payload_make := some .pin_start, response_handler := some .pin_start,
       content_type := none, uri := some "/pair-pin-start", proceed_on_rtsp_not_ok := false }]
  | .SEND_VOLUME =>
    [{ seq_type := .SEND_VOLUME, name := "SET_PARAMETER (volume)", rtsp_type := .SET_PARAMETER,
       payload_make := some .set_volume, response_handler := none,
       content_type := some "text/parameters", uri := none, proceed_on_rtsp_not_ok := true }]
  | .SEND_TEXT =>
    [{ seq_type := .SEND_TEXT, name := "SET_PARAMETER (text)", rtsp_type := .SET_PARAMETER,
       payload_make := some .send_text, response_handler := none,
       content_type := some "application/x-dmap-tagged", uri := none,
       proceed_on_rtsp_not_ok := true }]
  | .SEND_PROGRESS =>
    [{ seq_type := .SEND_PROGRESS, name := "SET_PARAMETER (progress)",
       rtsp_type := .SET_PARAMETER, payload_make := some .send_progress,
       response_handler := none, content_type := some "text/parameters", uri := none,
       proceed_on_rtsp_not_ok := true }]
  | .SEND_ARTWORK =>
    [{ seq_type := .SEND_ARTWORK, name := "SET_PARAMETER (artwork)",
       rtsp_type := .SET_PARAMETER, payload_make := some .send_artwork,
       response_handler := none, content_type := none, uri := none,
       proceed_on_rtsp_not_ok := true }]
  | .PAIR_SETUP =>
    [{ seq_type := .PAIR_SETUP, name := "pair setup 1", rtsp_type := .POST,
       payload_make := some .pair_setup1, response_handler := some .pair_setup1,
       content_type := some "application/octet-stream", uri := some "/pair-setup",
       proceed_on_rtsp_not_ok := false },
     { seq_type := .PAIR_SETUP, name := "pair setup 2", rtsp_type := .POST,
       payload_make := some .pair_setup2, response_handler := some .pair_setup2,
       content_type := some "application/octet-stream", uri := some "/pair-setup",
       proceed_on_rtsp_not_ok := false },
     { seq_type := .PAIR_SETUP, name := "pair setup 3", rtsp_type := .POST,
       payload_make := some .pair_setup3, response_handler := some .pair_setup3,
       content_type := some "application/octet-stream", uri := some "/pair-setup",
       proceed_on_rtsp_not_ok := false }]
  | .PAIR_VERIFY =>
    [{ seq_type := .PAIR_VERIFY, name := "pair verify 1", rtsp_type := .POST,
       payload_make := some .pair_verify1, response_handler := some .pair_verify1,
       content_type := some "application/octet-stream", uri := some "/pair-verify",
       proceed_on_rtsp_not_ok := true },
     { seq_type := .PAIR_VERIFY, name := "pair verify 2", rtsp_type := .POST,
       payload_make := some .pair_verify2, response_handler := some .pair_verify2,
       content_type := some "application/octet-stream", uri := some "/pair-verify",
       proceed_on_rtsp_not_ok := false }]
  | .PAIR_TRANSIENT =>
    [{ seq_type := .PAIR_TRANSIENT, name := "pair setup 1", rtsp_type := .POST,
       payload_make := some .pair_setup1, response_handler := some .pair_setup1,
       content_type := some "application/octet-stream", uri := some "/pair-setup",
       proceed_on_rtsp_not_ok := true },
     { seq_type := .PAIR_TRANSIENT, name := "pair setup 2", rtsp_type := .POST,
       payload_make := some .pair_setup2, response_handler := some .pair_setup2,
       content_type := some "application/octet-stream", uri := some "/pair-setup",
       proceed_on_rtsp_not_ok := false }]
  | .FEEDBACK =>
    [{ seq_type := .FEEDBACK, name := "POST /feedback", rtsp_type := .POST,
       payload_make := none, response_handler := none, content_type := none,
       uri := some "/feedback", proceed_on_rtsp_not_ok := true }]
  | .ABORT => []
  | .CONTINUE => []

/-- `struct airplay_seq_ctx`: `cur_request` is the entry `idx` of the row
`seq_type` of `airplay_seq_request`, `session` the `ptr` of the session. -/
structure airplay_seq_ctx where
  seq_type : airplay_seq_type
  idx : Nat
  on_success : Option seq_callback
  on_error : Option seq_callback
  session : Nat
  payload_make_arg : payload_arg
  deriving DecidableEq, Repr

/-- `seq_ctx->cur_request`, `none` when it points at the zero terminator of the
row (`cur_request->name` is `NULL`). -/
def airplay_seq_ctx.cur_request (ctx : airplay_seq_ctx) : Option airplay_seq_request :=
  (airplay_seq_request_rows ctx.seq_type)[ctx.idx]?


/-- The module state that the callbacks of one device's session read and write:
the device as `outputs_device_get(rs->device_id)` finds it (`none` when it is no
longer registered), the session `rs`, whether it is in `airplay_sessions`
(`alive`: from `session_make` to `session_cleanup`), the sequence contexts of
the session whose request is in flight, the current metadata, the sockets of the
IPv6 services, the next fresh address and the rest of the machine. -/
structure Ctl where
  device : Option output_device
  rs : airplay_session
  alive : Bool
  seq_ctxs : List airplay_seq_ctx
  airplay_cur_metadata : Option output_metadata
  timing_6svc_fd : Int
  control_6svc_fd : Int
  next_ptr : Nat
  sys : Sys

/-- Append to the trace. -/
def Ctl.emit (c : Ctl) (e : Event) : Ctl := { c with sys := c.sys.emit e }

/-- The next result from the environment. -/
def Ctl.call (c : Ctl) : ExtVal × Ctl :=
  (c.sys.call.1, { c with sys := c.sys.call.2 })

/-- `ART_FMT_PNG` of `artwork.h`. -/
def ART_FMT_PNG : Int := 1
/-- `ART_FMT_JPEG` of `artwork.h`. -/
def ART_FMT_JPEG : Int := 2

/-! ### Session handling -/

/-- `session_status(rs)`. -/
def session_status (c : Ctl) : Ctl :=
  let state : output_device_state :=
    match c.rs.state with
    | .PASSWORD => .OUTPUT_STATE_PASSWORD
    | .FAILED => .OUTPUT_STATE_FAILED
    | .STOPPED => .OUTPUT_STATE_STOPPED
    | .STARTUP | .OPTIONS | .ANNOUNCE | .SETUP | .RECORD => .OUTPUT_STATE_STARTUP
    | .CONNECTED => .OUTPUT_STATE_CONNECTED
    | .STREAMING => .OUTPUT_STATE_STREAMING
    | .TEARDOWN => .OUTPUT_STATE_STOPPED
  let c := c.emit (.outputs_cb c.rs.callback_id c.rs.device_id state)
  { c with rs := { c.rs with callback_id := -1 } }

/-- `session_cleanup(rs)`: the session leaves `airplay_sessions` and is freed;
`evrtsp_connection_free` drops the requests queued on the connection without
calling back, so no context of the session gets a callback any more. -/
def session_cleanup (c : Ctl) : Ctl :=
  { c with alive := false, seq_ctxs := [] }

/-- `session_failure(rs)`. -/
def session_failure (c : Ctl) : Ctl :=
  -- Session failed, let our user know
  let c := if c.rs.state ≠ .PASSWORD then { c with rs := { c.rs with state := .FAILED } } else c
  session_cleanup (session_status c)

/-- `deferred_session_failure(rs)` on the module state. -/
def Ctl.defer_failure (c : Ctl) : Ctl :=
  { c with rs := (deferred_session_failure c.rs c.sys).1,
           sys := (deferred_session_failure c.rs c.sys).2 }

/-- `session_success(rs)`. -/
def session_success (c : Ctl) : Ctl := session_cleanup (session_status c)

/-- `session_connected(rs)`. -/
def session_connected (c : Ctl) : Ctl :=
  session_status { c with rs := { c.rs with state := .CONNECTED } }

/-! ### Sending requests -/

/-- `request_header_auth_add(req, rs, method, uri)`. The MD5 computations of
libgcrypt and the formatting of the header are one call into the environment; a
negative result stands for any of their failures. -/
def request_header_auth_add (c : Ctl) : Int × Ctl :=
  let c := { c with rs := { c.rs with req_has_auth := false } }
  if c.rs.nonce.isNone then (0, c)
  else if c.rs.password.isNone then (-2, c)
  else
    let (r, c) := c.call
    if r.ret < 0 then (-1, c)
    else (0, { c with rs := { c.rs with req_has_auth := true } })

/-- `request_headers_add(req, rs, req_method)`. -/
def request_headers_add (c : Ctl) : Int × Ctl :=
  let c := { c with rs := { c.rs with cseq := c.rs.cseq + 1 } }
  -- Add Authorization header
  let (ret, c) := request_header_auth_add c
  if ret < 0 then
    let c := if ret = -2 then { c with rs := { c.rs with state := .PASSWORD } } else c
    (-1, c)
  else (0, c)

/-- One call into the environment that returns an `int`, negative on failure:
the model of library calls whose result the payload makers only test. -/
def Ctl.call_ret (c : Ctl) : Int × Ctl :=
  ((if c.call.1.ret < 0 then -1 else 0), c.call.2)

/-- `payload_make_pair_generic(step, req, rs)`: the pairing library gives the
request body or `NULL`. -/
def payload_make_pair_generic (c : Ctl) : Int × Ctl := c.call_ret

/-- The payload makers `payload_make_*(req, rs, arg)`, by name. The bodies they
write are not part of this state; what is kept is the return value and what they
do to the session. -/
def payload_make (pm : payload_maker) (arg : payload_arg) (c : Ctl) : Int × Ctl :=
  match pm with
  | .flush => (0, c)
  | .teardown =>
    -- we want to stop writing to the device immediately
    (0, { c with rs := { c.rs with state := .TEARDOWN } })
  | .set_volume => c.call_ret
  | .send_progress => c.call_ret
  | .send_artwork =>
    match arg with
    | .metadata md =>
      if md.artwork_fmt = ART_FMT_PNG ∨ md.artwork_fmt = ART_FMT_JPEG then c.call_ret
      else (-1, c)
    | _ => (-1, c)
  | .send_text => c.call_ret
  | .setup_stream => c.call_ret
  | .setpeers => c.call_ret
  | .record => (0, c)
  | .setup_session =>
    -- session_url_set(rs)
    let (r, c) := c.call
    if r.ret < 0 then (-1, c)
    else
      let c := { c with rs := { c.rs with session_id := r.ret.toNat % 2 ^ 32,
                                          session_url := some "rtsp://",
                                          local_address := some "local" } }
      c.call_ret
  | .pin_start => (0, c)
  | .pair_setup1 =>
    let c := match arg with
      | .pin _ => { c with rs := { c.rs with pair_type := .HOMEKIT_NORMAL } }
      | _ => c
    -- pair_setup_new
    let (r, c) := c.call
    if r.ret < 0 then (-1, c)
    else
      let c := { c with rs := { c.rs with pair_setup_ctx := true, state := .PASSWORD } }
      payload_make_pair_generic c
  | .pair_setup2 => payload_make_pair_generic c
  | .pair_setup3 => payload_make_pair_generic c
  | .pair_verify1 =>
    match c.device with
    | none => (-1, c)
    | some _ =>
      -- pair_verify_new
      let (r, c) := c.call
      if r.ret < 0 then (-1, c)
      else payload_make_pair_generic { c with rs := { c.rs with pair_verify_ctx := true } }
  | .pair_verify2 => payload_make_pair_generic c

/-- The label `error:` of `sequence_continue`: the failure is deferred and the
context freed. -/
def sequence_continue_error (c : Ctl) : Ctl := c.defer_failure

/-- The end of `sequence_continue`, from `evrtsp_make_request` on: the request
is queued with its context, the close callback is removed and
`reqs_in_flight` incremented. -/
def sequence_continue_send (seq_ctx : airplay_seq_ctx) (c : Ctl) : Ctl :=
  let (r, c) := c.call
  if r.ret < 0 then sequence_continue_error c
  else
    let c := c.emit (.request c.rs.ptr seq_ctx.seq_type seq_ctx.idx)
    { c with rs := { c.rs with closecb := false, reqs_in_flight := c.rs.reqs_in_flight + 1 },
             seq_ctxs := c.seq_ctxs ++ [seq_ctx] }

/-- `sequence_continue(seq_ctx)`. The first argument bounds the recursion on
skipped requests; a row has at most 6 entries. A context that points at the
terminator of its row is never passed by the callers; it takes the error path
here. -/
def sequence_continue : Nat → airplay_seq_ctx → Ctl → Ctl
  | 0, _, c => sequence_continue_error c
  | fuel + 1, seq_ctx, c =>
    match seq_ctx.cur_request with
    | none => sequence_continue_error c
    | some cur_request =>
      -- evrtsp_request_new
      let (r, c) := c.call
      if r.ret < 0 then sequence_continue_error c
      else
        let (ret, c) := request_headers_add c
        if ret < 0 then sequence_continue_error c
        else
          match cur_request.payload_make with
          | none => sequence_continue_send seq_ctx c
          | some pm =>
            let (ret, c) := payload_make pm seq_ctx.payload_make_arg c
            if ret > 0 then
              -- Skip to next request in sequence, if none -> error
              let seq_ctx := { seq_ctx with idx := seq_ctx.idx + 1 }
              if seq_ctx.cur_request.isNone then sequence_continue_error c
              else sequence_continue fuel seq_ctx c
            else if ret < 0 then sequence_continue_error c
            else sequence_continue_send seq_ctx c

/-- The context `sequence_start` allocates and fills in: at the first step of
the sequence, with the callbacks of `airplay_seq_definition`. -/
def airplay_seq_ctx.first (seq_type : airplay_seq_type) (session : Nat) (arg : payload_arg) :
    airplay_seq_ctx :=
  { seq_type := seq_type, idx := 0,
    on_success := (airplay_seq_definition seq_type).on_success,
    on_error := (airplay_seq_definition seq_type).on_error,
    session := session, payload_make_arg := arg }

/-- `sequence_start(seq_type, rs, arg, log_caller)`. -/
def sequence_start (seq_type : airplay_seq_type) (arg : payload_arg) (c : Ctl) : Ctl :=
  let c := c.emit (.sequence_start c.rs.ptr seq_type)
  sequence_continue 7 (airplay_seq_ctx.first seq_type c.rs.ptr arg) c

/-- `session_pair_success(rs)`. -/
def session_pair_success (c : Ctl) : Ctl :=
  if c.rs.next_seq ≠ .CONTINUE then
    let c := sequence_start c.rs.next_seq .null c
    { c with rs := { c.rs with next_seq := .CONTINUE } }
  else session_success c

/-! ### Making a session -/

/-- `session_connection_setup(rs, rd, family)`. `inet_pton` (with the interface
lookup for a scoped IPv6 address) and `evrtsp_connection_new` are calls into the
environment. -/
def session_connection_setup (rd : output_device) (family : sa_family) (c : Ctl) : Int × Ctl :=
  let go (address : Option String) (c : Ctl) : Int × Ctl :=
    let (r, c) := c.call
    if r.ret ≤ 0 then (-1, c)
    else
      let (r, c) := c.call
      if r.ret < 0 then (-1, c)
      else (0, { c with rs := { c.rs with address := address, family := family } })
  match family with
  | .AF_INET =>
    -- We always have the v4 services, so no need to check
    if rd.v4_address.isNone then (-1, c) else go rd.v4_address c
  | .AF_INET6 =>
    if rd.v6_address.isNone || rd.v6_disabled || decide (c.timing_6svc_fd < 0)
        || decide (c.control_6svc_fd < 0) then (-1, c)
    else go rd.v6_address c
  | .AF_UNSPEC => (-1, c)

/-- The session `session_make` allocates and fills in before it connects. -/
def session_make_init (rd : output_device) (callback_id : Int) (c : Ctl) : Ctl :=
  let re := rd.extra_device_info
  let quirks : Bool × Bool :=
    match re.devtype with
    | .APEX1_80211G => (true, true)
    | .APEX2_80211N => (true, false)
    | .APEX3_80211N => (false, false)
    | .APPLETV => (false, false)
    | .APPLETV4 => (false, false)
    | _ => (re.encrypt, false)
  let rs : airplay_session :=
    { ptr := c.next_ptr, device_id := rd.id, callback_id := callback_id,
      master_session := none, state := .STOPPED, next_seq := .CONTINUE,
      wanted_metadata := re.wanted_metadata, req_has_auth := false, encrypt := quirks.1,
      auth_quirk_itunes := quirks.2, supports_post := false,
      supports_auth_setup := re.supports_auth_setup, deferred_pending := false,
      closecb := false, reqs_in_flight := 0, cseq := 1, session := none, session_id := 0,
      session_url := none, realm := none, nonce := none, password := rd.password,
      devname := rd.name, address := none, family := .AF_UNSPEC, volume := rd.volume,
      local_address := none, data_port := 0, control_port := 0, events_port := 0,
      timing_port := 0,
      -- requires_auth will be set if the device returned a 470
      pair_type := if !rd.requires_auth && re.supports_pairing_transient
                   then .HOMEKIT_TRANSIENT else .HOMEKIT_NORMAL,
      control_cipher_ctx := false, events_cipher_ctx := false, pair_verify_ctx := false,
      pair_setup_ctx := false, shared_secret := none, server_fd := -1, events_fd := 0 }
  { c with rs := rs, alive := false, seq_ctxs := [], next_ptr := c.next_ptr + 1 }

/-- `session_make(rd, callback_id)`: `true` when a session is returned, `false`
for `NULL`. `master_session_make` finds or makes the master session, or fails,
as the environment says. -/
def session_make (rd : output_device) (callback_id : Int) (c : Ctl) : Bool × Ctl :=
  let c := session_make_init rd callback_id c
  let (ret, c) := session_connection_setup rd .AF_INET6 c
  let (ret, c) := if ret < 0 then session_connection_setup rd .AF_INET c else (ret, c)
  if ret < 0 then (false, c)
  else
    -- master_session_make
    let (r, c) := c.call
    if r.ret < 0 then (false, c)
    else
      (true, { c with rs := { c.rs with master_session := some r.ret.toNat }, alive := true })

/-- `airplay_device_start_generic(device, callback_id, only_probe)`. -/
def airplay_device_start_generic (device : output_device) (callback_id : Int)
    (only_probe : Bool) (c : Ctl) : Int × Ctl :=
  let (made, c) := session_make device callback_id c
  if !made then (-1, c)
  else
    -- After pairing/device verification, send an OPTIONS request.
    let c := { c with rs := { c.rs with next_seq := if only_probe then .PROBE else .START } }
    let c :=
      if device.auth_key.isSome then sequence_start .PAIR_VERIFY .null c
      else if c.rs.pair_type = .HOMEKIT_TRANSIENT then sequence_start .PAIR_TRANSIENT .null c
      else sequence_start .PIN_START .null c
    (1, c)

/-- `airplay_device_probe(device, callback_id)`. -/
def airplay_device_probe (device : output_device) (callback_id : Int) (c : Ctl) : Int × Ctl :=
  airplay_device_start_generic device callback_id true c

/-- `airplay_device_start(device, callback_id)`. -/
def airplay_device_start (device : output_device) (callback_id : Int) (c : Ctl) : Int × Ctl :=
  airplay_device_start_generic device callback_id false c

/-- `start_failure(rs)`. -/
def start_failure (c : Ctl) : Ctl :=
  -- Tear down the connection
  sequence_start .FAILURE .null c

/-- `start_retry(rs)`. -/
def start_retry (c : Ctl) : Ctl :=
  let callback_id := c.rs.callback_id
  match c.device with
  | none => session_failure c
  | some device =>
    if c.rs.session.isNone then session_failure c
    -- if the error wasn't a hard failure (bad password) we fall back to ipv4
    else if c.rs.family ≠ .AF_INET6 || c.rs.state.has AIRPLAY_STATE_F_FAILED then
      session_failure c
    else
      -- This flag is permanent and will not be overwritten by mdns advertisements
      let device := { device with v6_disabled := true }
      let c := { c with device := some device }
      -- Drop session, try again with ipv4
      let c := session_cleanup c
      (airplay_device_start device callback_id c).2

/-- `probe_failure(rs)`. -/
def probe_failure (c : Ctl) : Ctl :=
  match c.device with
  | none => session_failure c
  | some device =>
    session_failure { c with device := some { device with auth_key := none } }

/-- A call through one of the function pointers `on_success`, `on_error`. -/
def run_seq_callback (cb : seq_callback) (c : Ctl) : Ctl :=
  match cb with
  | .start_retry => start_retry c
  | .session_connected => session_connected c
  | .start_failure => start_failure c
  | .session_success => session_success c
  | .probe_failure => probe_failure c
  | .session_status => session_status c
  | .session_failure => session_failure c
  | .session_pair_success => session_pair_success c


/-! ### Metadata sequences -/

/-- `airplay_metadata_send_generic(rs, metadata, only_progress)`; returns 0. -/
def airplay_metadata_send_generic (metadata : output_metadata) (only_progress : Bool)
    (c : Ctl) : Int × Ctl :=
  let c := if c.rs.wanted_metadata &&& RAOP_MD_WANTS_PROGRESS != 0
    then sequence_start .SEND_PROGRESS (.metadata metadata) c else c
  let c := if !only_progress && (c.rs.wanted_metadata &&& RAOP_MD_WANTS_TEXT != 0)
    then sequence_start .SEND_TEXT (.metadata metadata) c else c
  let c := if !only_progress && (c.rs.wanted_metadata &&& RAOP_MD_WANTS_ARTWORK != 0)
      && metadata.artwork.isSome
    then sequence_start .SEND_ARTWORK (.metadata metadata) c else c
  (0, c)

/-- `airplay_metadata_startup_send(rs)`. -/
def airplay_metadata_startup_send (c : Ctl) : Int × Ctl :=
  match c.airplay_cur_metadata with
  | none => (0, c)
  | some md =>
    if c.rs.wanted_metadata = 0 then (0, c)
    else
      let md := { md with startup := true }
      airplay_metadata_send_generic md false { c with airplay_cur_metadata := some md }

/-! ### Response handlers -/

/-- `strtok_r(str, delim, &saveptr)` on the string `saveptr` points into: leading
delimiters are skipped; if nothing is left the token is `NULL`; otherwise the
token runs up to the next delimiter, which is overwritten by the terminator, and
`saveptr` is left after it. -/
def strtok_r (delim : List Char) (s : List Char) : Option (List Char) × List Char :=
  let s := s.dropWhile (fun ch => delim.contains ch)
  if s.isEmpty then (none, [])
  else (some (s.takeWhile (fun ch => !delim.contains ch)),
        (s.dropWhile (fun ch => !delim.contains ch)).drop 1)

/-- The delimiters `" ="`. -/
def delim_space_eq : List Char := " =".toList

/-- The delimiters `"=\""`: the equals sign and the double quote. -/
def delim_eq_quote : List Char := "=".toList ++ [Char.ofNat 34]

/-- The loop `while (token)` of `response_header_auth_parse`: the current token,
the rest of the string, and `rs->realm`, `rs->nonce`. The first argument bounds
the iterations; every iteration consumes at least one character, so the length
of the header plus one suffices. -/
def auth_parse_loop : Nat → Option (List Char) → List Char → Option (List Char) →
    Option (List Char) → Option (List Char) × Option (List Char)
  | 0, _, _, realm, nonce => (realm, nonce)
  | _ + 1, none, _, realm, nonce => (realm, nonce)
  | fuel + 1, some token, ptr, realm, nonce =>
    if token = "realm".toList then
      match strtok_r delim_eq_quote ptr with
      | (none, _) => (realm, nonce)
      | (some token, ptr) =>
        auth_parse_loop fuel (strtok_r delim_space_eq ptr).1 (strtok_r delim_space_eq ptr).2
          (some token) nonce
    else if token = "nonce".toList then
      match strtok_r delim_eq_quote ptr with
      | (none, _) => (realm, nonce)
      | (some token, ptr) =>
        auth_parse_loop fuel (strtok_r delim_space_eq ptr).1 (strtok_r delim_space_eq ptr).2
          realm (some token)
    else
      auth_parse_loop fuel (strtok_r delim_space_eq ptr).1 (strtok_r delim_space_eq ptr).2
        realm nonce

/-- `response_header_auth_parse(rs, req)`. -/
def response_header_auth_parse (req : evrtsp_request) (c : Ctl) : Int × Ctl :=
  let c := { c with rs := { c.rs with realm := none, nonce := none } }
  match req.www_authenticate with
  | none => (-1, c)
  | some param =>
    if !("Digest ".toList).isPrefixOf param then (-1, c)
    else
      -- token = strchr(auth, ' '); token++;
      let token := (param.dropWhile (fun ch => ch != Char.ofNat 32)).drop 1
      let found := auth_parse_loop (param.length + 1) (strtok_r delim_space_eq token).1
        (strtok_r delim_space_eq token).2 none none
      if found.1.isNone || found.2.isNone then (-1, c)
      else (0, { c with rs := { c.rs with realm := found.1, nonce := found.2 } })

/-- `strstr(haystack, needle) != NULL`. -/
def strstr_found : List Char → List Char → Bool
  | [], needle => needle.isEmpty
  | ch :: rest, needle => needle.isPrefixOf (ch :: rest) || strstr_found rest needle

/-- `response_handler_options_generic(req, rs)`. -/
def response_handler_options_generic (req : evrtsp_request) (c : Ctl) :
    airplay_seq_type × Ctl :=
  if req.response_code ≠ RTSP_OK ∧ req.response_code ≠ RTSP_UNAUTHORIZED
      ∧ req.response_code ≠ RTSP_FORBIDDEN then (.ABORT, c)
  else if req.response_code = RTSP_UNAUTHORIZED then
    if c.rs.req_has_auth then
      (.ABORT, { c with rs := { c.rs with state := .PASSWORD } })
    else
      let (ret, c) := response_header_auth_parse req c
      if ret < 0 then (.ABORT, c) else (.START_RERUN, c)
  else if req.response_code = RTSP_FORBIDDEN then
    match c.device with
    | none => (.ABORT, c)
    | some device => (.PIN_START, { c with device := some { device with requires_auth := true } })
  else
    let c : Ctl := match req.public_methods with
      | some param =>
        { c with rs := { c.rs with supports_post := strstr_found param "POST".toList } }
      | none => c
    (.CONTINUE, { c with rs := { c.rs with state := .OPTIONS } })

/-- `response_handler_options_probe(req, rs)`. -/
def response_handler_options_probe (req : evrtsp_request) (c : Ctl) : airplay_seq_type × Ctl :=
  response_handler_options_generic req c

/-- `response_handler_options_start(req, rs)`. -/
def response_handler_options_start (req : evrtsp_request) (c : Ctl) : airplay_seq_type × Ctl :=
  let (seq_type, c) := response_handler_options_generic req c
  if seq_type ≠ .CONTINUE then (seq_type, c) else (.START_AP2, c)

/-- `response_handler_pair_generic(step, req, rs)`: the pairing library takes the
response and says whether it accepts it. -/
def response_handler_pair_generic (c : Ctl) : airplay_seq_type × Ctl :=
  ((if c.call.1.ret < 0 then .ABORT else .CONTINUE), c.call.2)

/-- `response_handler_setup_stream(req, rs)`. `device_connect` is a call into the
environment that returns the socket or a negative value. -/
def response_handler_setup_stream (req : evrtsp_request) (c : Ctl) : airplay_seq_type × Ctl :=
  match req.body with
  | none => (.ABORT, c)
  | some response =>
    match response.streams with
    | none => (.ABORT, c)
    | some streams =>
      match streams[0]? with
      | none => (.ABORT, c)
      | some stream =>
        let c : Ctl := match stream.dataPort with
          | some uintval => { c with rs := { c.rs with data_port := uintval % 2 ^ 16 } }
          | none => c
        let c : Ctl := match stream.controlPort with
          | some uintval => { c with rs := { c.rs with control_port := uintval % 2 ^ 16 } }
          | none => c
        if c.rs.data_port = 0 ∨ c.rs.control_port = 0 then (.ABORT, c)
        else
          let (r, c) := c.call
          let c := { c with rs := { c.rs with server_fd := r.ret } }
          if r.ret < 0 then (.ABORT, c)
          else
            -- Reverse connection, used to receive playback events from device
            let (r, c) := c.call
            let c := { c with rs := { c.rs with events_fd := r.ret } }
            (.CONTINUE, { c with rs := { c.rs with state := .SETUP } })

/-- `response_handler_setup_session(req, rs)`. -/
def response_handler_setup_session (req : evrtsp_request) (c : Ctl) : airplay_seq_type × Ctl :=
  match req.body with
  | none => (.ABORT, c)
  | some response =>
    let c : Ctl := match response.eventPort with
      | some uintval => { c with rs := { c.rs with events_port := uintval % 2 ^ 16 } }
      | none => c
    let c : Ctl := match response.timingPort with
      | some uintval => { c with rs := { c.rs with timing_port := uintval % 2 ^ 16 } }
      | none => c
    if c.rs.events_port = 0 then (.ABORT, c) else (.CONTINUE, c)

/-- `response_handler_pair_setup1(req, rs)`. -/
def response_handler_pair_setup1 (req : evrtsp_request) (c : Ctl) : airplay_seq_type × Ctl :=
  if c.rs.pair_type = .HOMEKIT_TRANSIENT
      ∧ req.response_code = RTSP_CONNECTION_AUTH_REQUIRED then
    match c.device with
    | none => (.ABORT, c)
    | some device =>
      (.PIN_START, { c with device := some { device with requires_auth := true },
                            rs := { c.rs with pair_type := .HOMEKIT_NORMAL } })
  else response_handler_pair_generic c

/-- `response_handler_pair_setup2(req, rs)`. `pair_setup_result` gives the shared
secret as the bytes of a call into the environment. -/
def response_handler_pair_setup2 (_req : evrtsp_request) (c : Ctl) : airplay_seq_type × Ctl :=
  let (seq_type, c) := response_handler_pair_generic c
  if seq_type ≠ .CONTINUE then (seq_type, c)
  else if c.rs.pair_type ≠ .HOMEKIT_TRANSIENT then (seq_type, c)
  else
    let error (c : Ctl) : airplay_seq_type × Ctl :=
      (.ABORT, { c with rs := { c.rs with state := .FAILED } })
    let (r, c) := c.call
    if r.ret < 0 then error c
    -- We expect 64 bytes, and rs->shared_secret is 32 bytes
    else if r.data.length < 32 then error c
    else
      let c := { c with rs := { c.rs with shared_secret := some (r.data.take 32) } }
      let (r2, c2) := c.call
      let c2 := { c2 with rs := { c2.rs with control_cipher_ctx := decide (0 ≤ r2.ret) } }
      if r2.ret < 0 then error c2
      else
        let (r3, c3) := c2.call
        let c3 := { c3 with rs := { c3.rs with events_cipher_ctx := decide (0 ≤ r3.ret) } }
        if r3.ret < 0 then error c3
        else (.CONTINUE, { c3 with rs := { c3.rs with state := .STARTUP } })

/-- `response_handler_pair_setup3(req, rs)`. The authorization key is kept as the
text of the bytes the pairing library returns. -/
def response_handler_pair_setup3 (_req : evrtsp_request) (c : Ctl) : airplay_seq_type × Ctl :=
  let (seq_type, c) := response_handler_pair_generic c
  if seq_type ≠ .CONTINUE then (seq_type, c)
  else
    let (r, c) := c.call
    if r.ret < 0 then (.ABORT, c)
    else
      match c.device with
      | none => (.ABORT, c)
      | some device =>
        let key := String.mk (r.data.map Char.ofNat)
        -- No longer AIRPLAY_STATE_PASSWORD
        (.CONTINUE, { c with device := some { device with auth_key := some key },
                             rs := { c.rs with state := .STOPPED } })

/-- `response_handler_pair_verify1(req, rs)`. -/
def response_handler_pair_verify1 (_req : evrtsp_request) (c : Ctl) : airplay_seq_type × Ctl :=
  let (seq_type, c) := response_handler_pair_generic c
  if seq_type ≠ .CONTINUE then
    let c := { c with rs := { c.rs with state := .PASSWORD } }
    match c.device with
    | none => (.ABORT, c)
    | some device =>
      -- Clear auth_key, the device did not accept it
      (.ABORT, { c with device := some { device with auth_key := none } })
  else (seq_type, c)

/-- `response_handler_pair_verify2(req, rs)`. -/
def response_handler_pair_verify2 (_req : evrtsp_request) (c : Ctl) : airplay_seq_type × Ctl :=
  let error (c : Ctl) : airplay_seq_type × Ctl :=
    match c.device with
    | none => (.ABORT, c)
    | some device =>
      -- Clear auth_key, the device did not accept it, or some other unexpected error
      (.ABORT, { c with device := some { device with auth_key := none },
                        rs := { c.rs with state := .PASSWORD } })
  let (seq_type, c) := response_handler_pair_generic c
  if seq_type ≠ .CONTINUE then error c
  else
    let (r, c) := c.call
    if r.ret < 0 then error c
    else if r.data.length ≠ 32 then error c
    else
      let c := { c with rs := { c.rs with shared_secret := some r.data } }
      let (r2, c2) := c.call
      let c2 := { c2 with rs := { c2.rs with control_cipher_ctx := decide (0 ≤ r2.ret) } }
      if r2.ret < 0 then error c2
      else
        let (r3, c3) := c2.call
        let c3 := { c3 with rs := { c3.rs with events_cipher_ctx := decide (0 ≤ r3.ret) } }
        if r3.ret < 0 then error c3
        else (.CONTINUE, { c3 with rs := { c3.rs with state := .STARTUP } })

/-- A call through the function pointer `response_handler` of a request. -/
def run_response_handler (h : response_handler) (req : evrtsp_request) (c : Ctl) :
    airplay_seq_type × Ctl :=
  match h with
  | .pin_start => (.CONTINUE, { c with rs := { c.rs with state := .PASSWORD } })
  | .record => (.CONTINUE, { c with rs := { c.rs with state := .RECORD } })
  | .setup_stream => response_handler_setup_stream req c
  | .volume_start =>
    if (airplay_metadata_startup_send c).1 < 0 then (.ABORT, (airplay_metadata_startup_send c).2)
    else (.CONTINUE, (airplay_metadata_startup_send c).2)
  | .setup_session => response_handler_setup_session req c
  | .flush => (.CONTINUE, { c with rs := { c.rs with state := .CONNECTED } })
  | .teardown => (.CONTINUE, { c with rs := { c.rs with state := .STOPPED } })
  | .teardown_failure =>
    (.CONTINUE,
      if c.rs.state ≠ .PASSWORD then { c with rs := { c.rs with state := .FAILED } } else c)
  | .options_probe => response_handler_options_probe req c
  | .options_start => response_handler_options_start req c
  | .pair_setup1 => response_handler_pair_setup1 req c
  | .pair_setup2 => response_handler_pair_setup2 req c
  | .pair_setup3 => response_handler_pair_setup3 req c
  | .pair_verify1 => response_handler_pair_verify1 req c
  | .pair_verify2 => response_handler_pair_verify2 req c

/-! ### The sequence engine -/

/-- The label `error:` of `sequence_continue_cb`. -/
def sequence_continue_cb_error (seq_ctx : airplay_seq_ctx) (c : Ctl) : Ctl :=
  match seq_ctx.on_error with
  | some on_error => run_seq_callback on_error (c.emit (.on_error c.rs.ptr seq_ctx.seq_type))
  | none => c

/-- The first statements of `sequence_continue_cb`: the request is no longer in
flight, and with no request left in flight the close callback is set again. -/
def sequence_continue_cb_enter (c : Ctl) : Ctl :=
  let c := { c with rs := { c.rs with reqs_in_flight := c.rs.reqs_in_flight - 1 } }
  if c.rs.reqs_in_flight = 0 then { c with rs := { c.rs with closecb := true } } else c

/-- The end of `sequence_continue_cb`, reached without handler or after a handler
that returned CONTINUE: `seq_ctx->cur_request++`, then the next request, or
`on_success` when the row has no further entry. -/
def sequence_continue_cb_next (seq_ctx : airplay_seq_ctx) (c : Ctl) : Ctl :=
  let seq_ctx := { seq_ctx with idx := seq_ctx.idx + 1 }
  if seq_ctx.cur_request.isSome then sequence_continue 7 seq_ctx c
  else
    match seq_ctx.on_success with
    | some on_success =>
      run_seq_callback on_success (c.emit (.on_success c.rs.ptr seq_ctx.seq_type))
    | none => c

/-- `sequence_continue_cb(req, arg)`, called by evrtsp with the response (`none`
when there is none) for the context `seq_ctx`, which has left the requests in
flight. -/
def sequence_continue_cb (req : Option evrtsp_request) (seq_ctx : airplay_seq_ctx) (c : Ctl) :
    Ctl :=
  let c := sequence_continue_cb_enter c
  match seq_ctx.cur_request, req with
  | none, _ => sequence_continue_cb_error seq_ctx c
  | some _, none => sequence_continue_cb_error seq_ctx c
  | some cur_request, some req =>
    if req.response_code ≠ RTSP_OK ∧ !cur_request.proceed_on_rtsp_not_ok then
      sequence_continue_cb_error seq_ctx c
    else
      match cur_request.response_handler with
      | none => sequence_continue_cb_next seq_ctx c
      | some handler =>
        let (seq_type, c) := run_response_handler handler req c
        let c := c.emit (.handler c.rs.ptr seq_ctx.seq_type seq_ctx.idx seq_type)
        if seq_type ≠ .CONTINUE then
          if seq_type = .ABORT then sequence_continue_cb_error seq_ctx c
          -- Handler wanted to start a new sequence
          else sequence_start seq_type seq_ctx.payload_make_arg c
        else sequence_continue_cb_next seq_ctx c


/-- A device record: an Apple TV that supports transient pairing, reachable over
IPv4 only, with the given stored key and `requires_auth` flag. -/
def exampleDevice (auth_key : Option String) (requires_auth : Bool) : output_device :=
  { id := 1, name := "Living room", password := none, auth_key := auth_key,
    requires_auth := requires_auth, v6_disabled := false,
    v4_address := some "192.168.1.10", v6_address := none, v4_port := 7000, v6_port := 0,
    volume := 50, quality := airplay_quality_default,
    extra_device_info := { devtype := .APPLETV4, wanted_metadata := 0, encrypt := false,
                           supports_auth_setup := false, supports_pairing_transient := true } }

/-- A module state for one device and its session, with no request in flight,
in which every call into the environment returns `ret`. -/
def exampleCtl (device : Option output_device) (rs : airplay_session) (alive : Bool)
    (ret : Int) : Ctl :=
  { device := device, rs := rs, alive := alive, seq_ctxs := [], airplay_cur_metadata := none,
    timing_6svc_fd := 3, control_6svc_fd := 4, next_ptr := 100, sys := exampleSys ret }

/-- An OPTIONS response with the given code and `WWW-Authenticate` header. -/
def exampleResponse (code : Nat) (www_authenticate : Option String) : evrtsp_request :=
  { response_code := code, www_authenticate := www_authenticate.map String.toList,
    public_methods := none, audio_latency := none, body := none }


/-! ## Relations used to state what the engine changes -/

/-- Whether a trace event is the call of a response handler. -/
def Event.is_handler : Event → Bool
  | .handler _ _ _ _ => true
  | _ => false

/-- Whether a trace event is the call of an `on_success` callback. -/
def Event.is_on_success : Event → Bool
  | .on_success _ _ => true
  | _ => false

/-- The sequences a callback of `airplay_seq_definition` can start, for a session
whose `next_seq` is given: `start_failure` starts FAILURE, `start_retry` starts a
device again, `session_pair_success` starts `next_seq`. -/
def seq_callback.starts (cb : seq_callback) (next_seq : airplay_seq_type) :
    List airplay_seq_type :=
  match cb with
  | .start_failure => [.FAILURE]
  | .start_retry => [.PAIR_VERIFY, .PAIR_TRANSIENT, .PIN_START]
  | .session_pair_success => [next_seq]
  | _ => []

/-- An event that `sequence_continue` can add to the trace for a context: the
request of the context, or the arming of the deferred failure. -/
def is_send_event (ptr : Nat) (seq_ctx : airplay_seq_ctx) (e : Event) : Prop :=
  e = .request ptr seq_ctx.seq_type seq_ctx.idx ∨ e = .deferred ptr

/-- A context whose request leaves the pairing type of the session alone: only
`payload_make_pair_setup1` with a pin writes it. -/
def airplay_seq_ctx.keeps_pair_type (x : airplay_seq_ctx) : Prop :=
  (∀ pin, x.payload_make_arg ≠ .pin pin) ∨
    ∀ cur, x.cur_request = some cur → cur.payload_make ≠ some .pair_setup1

/-- What `sequence_continue` may change for the context `seq_ctx`: of the
session, the request bookkeeping, the state (only to PASSWORD, FAILED or
TEARDOWN), the pairing type (only for a first pairing request with a pin) and
what the payload makers set; of the module, the context may join the requests in
flight and the trace grows by send events. -/
structure SendEffect (seq_ctx : airplay_seq_ctx) (c c2 : Ctl) : Prop where
  device : c2.device = c.device
  alive : c2.alive = c.alive
  metadata : c2.airplay_cur_metadata = c.airplay_cur_metadata
  next_ptr : c2.next_ptr = c.next_ptr
  ptr : c2.rs.ptr = c.rs.ptr
  master : c2.rs.master_session = c.rs.master_session
  next_seq : c2.rs.next_seq = c.rs.next_seq
  secret : c2.rs.shared_secret = c.rs.shared_secret
  data_port : c2.rs.data_port = c.rs.data_port
  realm : c2.rs.realm = c.rs.realm
  nonce : c2.rs.nonce = c.rs.nonce
  family : c2.rs.family = c.rs.family
  session : c2.rs.session = c.rs.session
  callback_id : c2.rs.callback_id = c.rs.callback_id
  wanted : c2.rs.wanted_metadata = c.rs.wanted_metadata
  pair_type : seq_ctx.keeps_pair_type → c2.rs.pair_type = c.rs.pair_type
  state : c2.rs.state = c.rs.state ∨ c2.rs.state = .PASSWORD ∨ c2.rs.state = .FAILED
    ∨ c2.rs.state = .TEARDOWN
  ctxs : (c2.seq_ctxs = c.seq_ctxs ∧ c2.rs.reqs_in_flight = c.rs.reqs_in_flight) ∨
    (c2.seq_ctxs = c.seq_ctxs ++ [seq_ctx] ∧ c2.rs.reqs_in_flight = c.rs.reqs_in_flight + 1)
  log : ∃ evs, c2.sys.log = c.sys.log ++ evs ∧ ∀ e ∈ evs, is_send_event c.rs.ptr seq_ctx e

/-- What building a request (headers and payload) may change: as `SendEffect`,
with no request queued and nothing traced; the pairing type is kept when `keep`
holds. -/
structure BuildEffect (keep : Prop) (c c2 : Ctl) : Prop where
  device : c2.device = c.device
  alive : c2.alive = c.alive
  metadata : c2.airplay_cur_metadata = c.airplay_cur_metadata
  next_ptr : c2.next_ptr = c.next_ptr
  ptr : c2.rs.ptr = c.rs.ptr
  master : c2.rs.master_session = c.rs.master_session
  next_seq : c2.rs.next_seq = c.rs.next_seq
  secret : c2.rs.shared_secret = c.rs.shared_secret
  data_port : c2.rs.data_port = c.rs.data_port
  realm : c2.rs.realm = c.rs.realm
  nonce : c2.rs.nonce = c.rs.nonce
  family : c2.rs.family = c.rs.family
  session : c2.rs.session = c.rs.session
  callback_id : c2.rs.callback_id = c.rs.callback_id
  wanted : c2.rs.wanted_metadata = c.rs.wanted_metadata
  pair_type : keep → c2.rs.pair_type = c.rs.pair_type
  state : c2.rs.state = c.rs.state ∨ c2.rs.state = .PASSWORD ∨ c2.rs.state = .FAILED
    ∨ c2.rs.state = .TEARDOWN
  ctxs : c2.seq_ctxs = c.seq_ctxs
  in_flight : c2.rs.reqs_in_flight = c.rs.reqs_in_flight
  log : c2.sys.log = c.sys.log


/-- A trace event that a callback of a sequence may add: neither the call of a
response handler nor of an `on_success`, and if it is a request, the request of
a sequence among `starts`. -/
def is_callback_event (starts : List airplay_seq_type) (e : Event) : Prop :=
  e.is_handler = false ∧ e.is_on_success = false ∧ ∀ p t i, e = .request p t i → t ∈ starts


/-! ## The invariant of the session state machine -/

/-- The sequences that bring a session up: pairing, OPTIONS and the setup of
AirPlay 2. -/
def airplay_seq_type.mainline : airplay_seq_type → Bool
  | .PAIR_SETUP | .PAIR_VERIFY | .PAIR_TRANSIENT | .START | .START_RERUN | .START_AP2
  | .PROBE => true
  | _ => false

/-- The sequences that run after pairing. -/
def airplay_seq_type.after_pairing : airplay_seq_type → Bool
  | .START | .START_RERUN | .START_AP2 | .PROBE => true
  | _ => false

/-- The session has a shared secret, and the trace has the call of the response
handler of step 2 of PAIR_TRANSIENT or of PAIR_VERIFY for this session that
returned CONTINUE. -/
def Paired (c : Ctl) : Prop :=
  c.rs.shared_secret.isSome = true ∧
    (.handler c.rs.ptr .PAIR_TRANSIENT 1 .CONTINUE ∈ c.sys.log ∨
     .handler c.rs.ptr .PAIR_VERIFY 1 .CONTINUE ∈ c.sys.log)

/-- What the claim says of a STREAMING session. -/
def Setup (c : Ctl) : Prop :=
  c.rs.master_session.isSome = true ∧ Paired c ∧ c.rs.data_port ≠ 0

/-- A context as `sequence_start` makes it, at some step of its row. -/
def airplay_seq_ctx.wf (x : airplay_seq_ctx) : Prop :=
  x.on_success = (airplay_seq_definition x.seq_type).on_success ∧
  x.on_error = (airplay_seq_definition x.seq_type).on_error ∧
  x.cur_request.isSome = true

/-- What a context in flight requires of its session. -/
structure ctx_ok (c : Ctl) (x : airplay_seq_ctx) : Prop where
  wf : x.wf
  transient : x.seq_type = .PAIR_TRANSIENT → c.rs.pair_type = .HOMEKIT_TRANSIENT
  pair_setup : x.seq_type = .PAIR_SETUP → c.rs.next_seq = .CONTINUE
  flush : x.seq_type = .FLUSH → Setup c
  data_port : x.seq_type = .START_AP2 → 3 ≤ x.idx → c.rs.data_port ≠ 0
  paired : x.seq_type.after_pairing = true → Paired c
  state : x.seq_type.mainline = true → c.rs.state ≠ .CONNECTED ∧ c.rs.state ≠ .STREAMING

/-- The invariant: a live session has a master session; `next_seq` is CONTINUE,
START or PROBE; every context in flight is `ctx_ok`; at most one of them belongs
to a mainline sequence, and then none to FLUSH; and a CONNECTED or STREAMING
session is set up. -/
structure Inv (c : Ctl) : Prop where
  master : c.alive = true → c.rs.master_session.isSome = true
  next_seq : c.rs.next_seq = .CONTINUE ∨ c.rs.next_seq = .START ∨ c.rs.next_seq = .PROBE
  ctxs : ∀ x ∈ c.seq_ctxs, ctx_ok c x
  one : c.seq_ctxs.countP (fun x => x.seq_type.mainline) ≤ 1
  excl : (∃ x ∈ c.seq_ctxs, x.seq_type.mainline = true) → ∀ y ∈ c.seq_ctxs, y.seq_type ≠ .FLUSH
  setup : c.rs.state = .CONNECTED ∨ c.rs.state = .STREAMING → Setup c

/-- A step that leaves alone what the invariant reads of the session, except
that the state may leave CONNECTED and STREAMING and the trace may grow. -/
structure Stable (c c2 : Ctl) : Prop where
  alive : c2.alive = c.alive
  ptr : c2.rs.ptr = c.rs.ptr
  master : c2.rs.master_session = c.rs.master_session
  next_seq : c2.rs.next_seq = c.rs.next_seq
  secret : c2.rs.shared_secret = c.rs.shared_secret
  data_port : c2.rs.data_port = c.rs.data_port
  pair_type : c2.rs.pair_type = c.rs.pair_type
  state : c2.rs.state = c.rs.state ∨ (c2.rs.state ≠ .CONNECTED ∧ c2.rs.state ≠ .STREAMING)
  log : ∃ evs, c2.sys.log = c.sys.log ++ evs

/-- The call of the response handler of a request in `sequence_continue_cb`,
traced: what it returns (CONTINUE when the request has no handler) and the state
it leaves. -/
def sequence_continue_cb_handle (seq_ctx : airplay_seq_ctx) (h : Option response_handler)
    (req : evrtsp_request) (c : Ctl) : airplay_seq_type × Ctl :=
  match h with
  | none => (.CONTINUE, c)
  | some handler =>
    ((run_response_handler handler req c).1,
     (run_response_handler handler req c).2.emit
       (.handler (run_response_handler handler req c).2.rs.ptr seq_ctx.seq_type seq_ctx.idx
         (run_response_handler handler req c).1))

/-- What the response handler `h` of a request (`none`: the request has none), if
it returns `t`, may change. -/
structure HandlerEffect (h : Option response_handler) (c : Ctl) (t : airplay_seq_type)
    (c1 : Ctl) : Prop where
  alive : c1.alive = c.alive
  ptr : c1.rs.ptr = c.rs.ptr
  master : c1.rs.master_session = c.rs.master_session
  next_seq : c1.rs.next_seq = c.rs.next_seq
  secret : c.rs.shared_secret.isSome = true → c1.rs.shared_secret.isSome = true
  secret_set : t = .CONTINUE →
    (h = some .pair_verify2 ∨ (h = some .pair_setup2 ∧ c.rs.pair_type = .HOMEKIT_TRANSIENT)) →
    c1.rs.shared_secret.isSome = true
  data_port : h ≠ some .setup_stream → c1.rs.data_port = c.rs.data_port
  data_port_set : h = some .setup_stream → t = .CONTINUE → c1.rs.data_port ≠ 0
  pair_type : c1.rs.pair_type = c.rs.pair_type ∨ (h = some .pair_setup1 ∧ t = .PIN_START)
  state : c1.rs.state = c.rs.state ∨ (c1.rs.state ≠ .CONNECTED ∧ c1.rs.state ≠ .STREAMING)
    ∨ h = some .flush
  ret : t = .ABORT ∨ t = .CONTINUE ∨ t = .PIN_START
    ∨ ((h = some .options_probe ∨ h = some .options_start) ∧ t = .START_RERUN)
    ∨ (h = some .options_start ∧ t = .START_AP2)
  ctxs : ∃ extra, c1.seq_ctxs = c.seq_ctxs ++ extra ∧
    ∀ x ∈ extra, x.wf ∧ x.seq_type.mainline = false ∧ x.seq_type ≠ .FLUSH
  log : ∃ evs, c1.sys.log = c.sys.log ++ evs


/-- A stable step that adds to the requests in flight only contexts of sequences
that are neither mainline nor FLUSH. -/
def Side (c c2 : Ctl) : Prop :=
  Stable c c2 ∧ ∃ extra, c2.seq_ctxs = c.seq_ctxs ++ extra ∧
    ∀ x ∈ extra, x.wf ∧ x.seq_type.mainline = false ∧ x.seq_type ≠ .FLUSH


/-! ## The calls that drive a session (`airplay_device_stop`, ..., the timers) -/

/-- `airplay_device_stop(device, callback_id)`, with `rs = device->session`. -/
def airplay_device_stop (callback_id : Int) (c : Ctl) : Int × Ctl :=
  let c := { c with rs := { c.rs with callback_id := callback_id } }
  (1, sequence_start .STOP .null c)

/-- `airplay_device_flush(device, callback_id)`. -/
def airplay_device_flush (callback_id : Int) (c : Ctl) : Int × Ctl :=
  if c.rs.state ≠ .STREAMING then (0, c) -- No-op, nothing to flush
  else
    let c := { c with rs := { c.rs with callback_id := callback_id } }
    (1, sequence_start .FLUSH .null c)

/-- `airplay_device_cb_set(device, callback_id)`. -/
def airplay_device_cb_set (callback_id : Int) (c : Ctl) : Ctl :=
  { c with rs := { c.rs with callback_id := callback_id } }

/-- `airplay_device_authorize(device, pin, callback_id)`. -/
def airplay_device_authorize (device : output_device) (pin : String) (callback_id : Int)
    (c : Ctl) : Int × Ctl :=
  -- Make a session so we can communicate with the device
  let (made, c) := session_make device callback_id c
  if !made then (-1, c)
  else (1, sequence_start .PAIR_SETUP (.pin pin) c)

/-- `airplay_set_volume_one(device, callback_id)` for a device with a session. -/
def airplay_set_volume_one (device : output_device) (callback_id : Int) (c : Ctl) : Int × Ctl :=
  if !c.rs.state.has AIRPLAY_STATE_F_CONNECTED then (0, c)
  else
    let c := { c with rs := { c.rs with volume := device.volume, callback_id := callback_id } }
    (1, sequence_start .SEND_VOLUME .null c)

/-- `airplay_metadata_send(metadata)`, with this session the one in
`airplay_sessions`. -/
def airplay_metadata_send (metadata : output_metadata) (c : Ctl) : Ctl :=
  let c :=
    if !c.rs.state.has AIRPLAY_STATE_F_CONNECTED || c.rs.wanted_metadata = 0 then c
    else
      let (ret, c) := airplay_metadata_send_generic metadata false c
      if ret < 0 then session_failure c else c
  -- Replace current metadata with the new stuff
  { c with airplay_cur_metadata := some metadata }

/-- `airplay_keep_alive_timer_cb`, with this session the one in
`airplay_sessions`. -/
def airplay_keep_alive_timer_cb (c : Ctl) : Ctl :=
  let c := if !c.rs.state.has AIRPLAY_STATE_F_CONNECTED then c
    else sequence_start .FEEDBACK .null c
  c.emit .keep_alive_add

/-- `deferred_session_failure_cb`, the callback of the timer that
`deferred_session_failure` arms. -/
def deferred_session_failure_cb (c : Ctl) : Ctl := session_failure c

/-- `rtsp_close_cb`, the close callback of the RTSP connection. -/
def rtsp_close_cb (c : Ctl) : Ctl := c.defer_failure

/-- `airplay_write(obuf)`, with this session the one in `airplay_sessions`, for
any master sessions and keep-alive timer. -/
def airplay_write_session (obuf : output_buffer) (masters : List airplay_master_session)
    (pending : Bool) (c : Ctl) : Ctl :=
  let a := airplay_write obuf { airplay_master_sessions := masters, airplay_sessions := [c.rs],
                                keep_alive_pending := pending, sys := c.sys }
  { c with rs := a.airplay_sessions.headD c.rs, sys := a.sys }

/-- The retransmit request `airplay_control_cb` hands to `packets_resend`, from
the RTP session `rtp` of the master session of this session. -/
def airplay_control_resend (rtp : rtp_session) (seq_start : Nat) (seq_len : Int) (c : Ctl) :
    Ctl :=
  { c with rs := (packets_resend rtp c.rs seq_start seq_len c.sys).1,
           sys := (packets_resend rtp c.rs seq_start seq_len c.sys).2 }

/-- The states of the session state machine: a session is made by
`airplay_device_start`, `airplay_device_probe` or `airplay_device_authorize` (in
any state of the module, where the trace starts), and while it is in
`airplay_sessions` it is driven by
the responses to its requests in flight (in any order, or the lack of one), by
`airplay_write`, by the calls of the player, by the timers, by retransmit
requests, and the registry of devices may change under it. -/
inductive Reachable : Ctl → Prop
  | start (device : output_device) (callback_id : Int) (c : Ctl) :
      c.sys.log = [] → Reachable (airplay_device_start device callback_id c).2
  | probe (device : output_device) (callback_id : Int) (c : Ctl) :
      c.sys.log = [] → Reachable (airplay_device_probe device callback_id c).2
  | authorize (device : output_device) (pin : String) (callback_id : Int) (c : Ctl) :
      c.sys.log = [] → Reachable (airplay_device_authorize device pin callback_id c).2
  | response (c : Ctl) (before : List airplay_seq_ctx) (x : airplay_seq_ctx)
      (after : List airplay_seq_ctx) (req : Option evrtsp_request) :
      Reachable c → c.alive = true → c.seq_ctxs = before ++ x :: after →
      Reachable (sequence_continue_cb req x { c with seq_ctxs := before ++ after })
  | write (c : Ctl) (obuf : output_buffer) (masters : List airplay_master_session)
      (pending : Bool) :
      Reachable c → c.alive = true → Reachable (airplay_write_session obuf masters pending c)
  | resend (c : Ctl) (rtp : rtp_session) (seq_start : Nat) (seq_len : Int) :
      Reachable c → c.alive = true → Reachable (airplay_control_resend rtp seq_start seq_len c)
  | stop (c : Ctl) (callback_id : Int) :
      Reachable c → c.alive = true → Reachable (airplay_device_stop callback_id c).2
  | flush (c : Ctl) (callback_id : Int) :
      Reachable c → c.alive = true → Reachable (airplay_device_flush callback_id c).2
  | cb_set (c : Ctl) (callback_id : Int) :
      Reachable c → c.alive = true → Reachable (airplay_device_cb_set callback_id c)
  | set_volume (c : Ctl) (device : output_device) (callback_id : Int) :
      Reachable c → c.alive = true → Reachable (airplay_set_volume_one device callback_id c).2
  | metadata_send (c : Ctl) (metadata : output_metadata) :
      Reachable c → c.alive = true → Reachable (airplay_metadata_send metadata c)
  | keep_alive (c : Ctl) :
      Reachable c → c.alive = true → Reachable (airplay_keep_alive_timer_cb c)
  | deferred (c : Ctl) :
      Reachable c → c.alive = true → c.rs.deferred_pending = true →
      Reachable (deferred_session_failure_cb c)
  | rtsp_close (c : Ctl) :
      Reachable c → c.alive = true → c.rs.closecb = true → Reachable (rtsp_close_cb c)
  | device_update (c : Ctl) (device : Option output_device) :
      Reachable c → Reachable { c with device := device }

/-- What the data plane may change of a session: the state, to FAILED or from
CONNECTED to STREAMING, and the arming of the deferred failure. -/
structure DataEffect (rs rs2 : airplay_session) : Prop where
  ptr : rs2.ptr = rs.ptr
  master : rs2.master_session = rs.master_session
  next_seq : rs2.next_seq = rs.next_seq
  secret : rs2.shared_secret = rs.shared_secret
  data_port : rs2.data_port = rs.data_port
  pair_type : rs2.pair_type = rs.pair_type
  state : rs2.state = rs.state ∨ (rs2.state ≠ .CONNECTED ∧ rs2.state ≠ .STREAMING) ∨
    (rs.state = .CONNECTED ∧ rs2.state = .STREAMING)
  in_flight : rs2.reqs_in_flight = rs.reqs_in_flight

/-- A step that leaves alone what the invariant reads of the session, except
that the state may leave CONNECTED and STREAMING or go from CONNECTED to
STREAMING, the pairing type may change and the trace may grow. -/
structure Frame (c c2 : Ctl) : Prop where
  alive : c2.alive = c.alive
  ptr : c2.rs.ptr = c.rs.ptr
  master : c2.rs.master_session = c.rs.master_session
  next_seq : c2.rs.next_seq = c.rs.next_seq
  secret : c2.rs.shared_secret = c.rs.shared_secret
  data_port : c2.rs.data_port = c.rs.data_port
  state : c2.rs.state = c.rs.state ∨ (c2.rs.state ≠ .CONNECTED ∧ c2.rs.state ≠ .STREAMING) ∨
    (c.rs.state = .CONNECTED ∧ c2.rs.state = .STREAMING)
  log : ∃ evs, c2.sys.log = c.sys.log ++ evs


/-- The invariant while the callback of the context `x`, which has left the
requests in flight, runs: the session is live and allows `x`, and if `x` belongs
to a mainline sequence no other context in flight does, nor one of FLUSH. -/
structure Pending (c : Ctl) (x : airplay_seq_ctx) : Prop where
  inv : Inv c
  alive : c.alive = true
  ok : ctx_ok c x
  main : x.seq_type.mainline = true →
    c.seq_ctxs.countP (fun y => y.seq_type.mainline) = 0 ∧ ∀ y ∈ c.seq_ctxs, y.seq_type ≠ .FLUSH
  flush : x.seq_type = .FLUSH → c.seq_ctxs.countP (fun y => y.seq_type.mainline) = 0


/-- What the data plane may change of the sessions and of the trace. -/
def DataStep (l : List airplay_session) (sys : Sys) (l2 : List airplay_session) (sys2 : Sys) :
    Prop :=
  List.Forall₂ DataEffect l l2 ∧ ∃ evs, sys2.log = sys.log ++ evs


/-! ## A run that brings a session to STREAMING -/

/-- The response to the oldest request in flight (evrtsp answers the requests of
a connection in order): its context leaves the requests in flight and
`sequence_continue_cb` is called. -/
def deliver (req : Option evrtsp_request) (c : Ctl) : Ctl :=
  match c.seq_ctxs with
  | [] => c
  | x :: rest => sequence_continue_cb req x { c with seq_ctxs := rest }

/-- A machine in which every call into the environment succeeds: it returns 1,
and 32 bytes where bytes are asked for. -/
def exampleSysOk : Sys :=
  { aead := toyAead, big_endian_host := false,
    ext := fun _ => { ret := 1, data := List.replicate 32 7 }, tick := 0, log := [] }

/-- A 200 response with the given body. -/
def exampleOk (body : Option plist_dict) : evrtsp_request :=
  { response_code := 200, www_authenticate := none, public_methods := none,
    audio_latency := none, body := body }

/-- The body of the replies to the two SETUP requests: event port 7001, and one
stream with data port 7002 and control port 7003. -/
def exampleSetupReply : plist_dict :=
  { eventPort := some 7001, timingPort := none,
    streams := some [{ dataPort := some 7002, controlPort := some 7003 }] }

/-- The state after `airplay_device_start` for a device that supports transient
pairing and has no stored key: PAIR_TRANSIENT is in flight. -/
def exampleStarted : Ctl :=
  (airplay_device_start (exampleDevice none false) 7
    { device := some (exampleDevice none false), rs := exampleSession 1 .STOPPED, alive := false,
      seq_ctxs := [], airplay_cur_metadata := none, timing_6svc_fd := 3, control_6svc_fd := 4,
      next_ptr := 100, sys := exampleSysOk }).2

/-- The state after the two steps of PAIR_TRANSIENT got their 200: START is in
flight. -/
def examplePaired : Ctl :=
  deliver (some (exampleOk none)) (deliver (some (exampleOk none)) exampleStarted)

/-- The state after OPTIONS and the five requests of START_AP2 got their 200:
the session is CONNECTED. -/
def exampleConnected : Ctl :=
  deliver (some (exampleOk none)) (deliver (some (exampleOk none))
    (deliver (some (exampleOk (some exampleSetupReply))) (deliver (some (exampleOk none))
      (deliver (some (exampleOk (some exampleSetupReply)))
        (deliver (some (exampleOk none)) examplePaired)))))

/-- The state after an `airplay_write` (with no master session to feed): the
session is STREAMING. -/
def exampleStreaming : Ctl :=
  airplay_write_session (exampleBuffer 0) [] false exampleConnected


/-! ## A run in which the re-run of OPTIONS is refused -/

/-- A device record like `exampleDevice none false`, with a password. -/
def examplePasswordDevice : output_device :=
  { exampleDevice none false with password := some "secret" }

/-- The challenge `Digest realm="raop", nonce="4f2a"`. -/
def exampleChallenge : String :=
  "Digest realm=" ++ String.mk [Char.ofNat 34] ++ "raop" ++ String.mk [Char.ofNat 34]
    ++ ", nonce=" ++ String.mk [Char.ofNat 34] ++ "4f2a" ++ String.mk [Char.ofNat 34]

/-- The state after `airplay_device_start` for the device with a password, the
two steps of PAIR_TRANSIENT got their 200 and the OPTIONS of START got a 401 with
the challenge: the OPTIONS of START_RERUN is in flight. -/
def exampleRerun : Ctl :=
  deliver (some (exampleResponse 401 (some exampleChallenge)))
    (deliver (some (exampleOk none)) (deliver (some (exampleOk none))
      (airplay_device_start examplePasswordDevice 7
        { device := some examplePasswordDevice, rs := exampleSession 1 .STOPPED,
          alive := false, seq_ctxs := [], airplay_cur_metadata := none, timing_6svc_fd := 3,
          control_6svc_fd := 4, next_ptr := 100, sys := exampleSysOk }).2))


/-! ## A run in which the device refuses the stored key -/

/-- A machine in which the first `n` calls into the environment succeed (they
return 1, and 32 bytes where bytes are asked for) and every later call fails. -/
def exampleSysUntil (n : Nat) : Sys :=
  { aead := toyAead, big_endian_host := false,
    ext := fun k => if k < n then { ret := 1, data := List.replicate 32 7 }
                    else { ret := -1, data := [] },
    tick := 0, log := [] }

/-- The state after `airplay_device_start` for a device with a stored key, on a
machine where the seven calls into the environment this takes succeed and the
next one, the pairing library reading the response to step 1, fails: step 1 of
PAIR_VERIFY is in flight. -/
def exampleVerifying : Ctl :=
  (airplay_device_start (exampleDevice (some "key") false) 7
    { device := some (exampleDevice (some "key") false), rs := exampleSession 1 .STOPPED,
      alive := false, seq_ctxs := [], airplay_cur_metadata := none, timing_6svc_fd := 3,
      control_6svc_fd := 4, next_ptr := 100, sys := exampleSysUntil 7 }).2


/-! ## A run over IPv6 in which OPTIONS gets no response -/

/-- A device record like `exampleDevice none false` that is also reachable over
IPv6. -/
def exampleDualDevice : output_device :=
  { exampleDevice none false with v6_address := some "fe80::10", v6_port := 7000 }

/-- The state after `airplay_device_start` for the device with both addresses
and the two steps of PAIR_TRANSIENT got their 200: the session is connected over
IPv6 and the OPTIONS of START is in flight. -/
def exampleDualPaired : Ctl :=
  deliver (some (exampleOk none)) (deliver (some (exampleOk none))
    (airplay_device_start exampleDualDevice 7
      { device := some exampleDualDevice, rs := exampleSession 1 .STOPPED, alive := false,
        seq_ctxs := [], airplay_cur_metadata := none, timing_6svc_fd := 3,
        control_6svc_fd := 4, next_ptr := 100, sys := exampleSysOk }).2)


/-! ## Counting the requests in flight -/

/-- A live session counts in `reqs_in_flight` its requests in flight: the
contexts that await their callback. -/
def Counted (c : Ctl) : Prop := c.alive = true → c.rs.reqs_in_flight = c.seq_ctxs.length

/-- A step after which the session is gone, or counts its requests in flight, or
is as live as before with `reqs_in_flight` minus the number of requests in
flight changed by `k`. -/
def Counts (k : Int) (c c2 : Ctl) : Prop :=
  c2.alive = false ∨ c2.rs.reqs_in_flight = c2.seq_ctxs.length ∨
  (c2.alive = c.alive ∧
    c2.rs.reqs_in_flight - c2.seq_ctxs.length = c.rs.reqs_in_flight - c.seq_ctxs.length + k)

/-- A device record like `exampleDevice none false` that wants progress, text
and artwork. -/
def exampleMetadataDevice : output_device :=
  { exampleDevice none false with
    extra_device_info :=
      { devtype := .APPLETV4,
        wanted_metadata := RAOP_MD_WANTS_TEXT ||| RAOP_MD_WANTS_ARTWORK ||| RAOP_MD_WANTS_PROGRESS,
        encrypt := false, supports_auth_setup := false, supports_pairing_transient := true } }

/-- The metadata of an item of three minutes, with a JPEG artwork. -/
def exampleMetadata : output_metadata :=
  { item_id := 1, pos_ms := 0, len_ms := 180000, pts := { tv_sec := 10, tv_nsec := 0 },
    startup := false, metadata := [109, 108, 105, 116], artwork := some [255, 216, 255],
    artwork_fmt := ART_FMT_JPEG }

/-- The run of `exampleStreaming` for the device that wants metadata: started,
paired, set up and written to, with no request in flight. -/
def exampleMetadataStreaming : Ctl :=
  airplay_write_session (exampleBuffer 0) [] false
    (deliver (some (exampleOk none)) (deliver (some (exampleOk none))
      (deliver (some (exampleOk (some exampleSetupReply))) (deliver (some (exampleOk none))
        (deliver (some (exampleOk (some exampleSetupReply)))
          (deliver (some (exampleOk none))
            (deliver (some (exampleOk none)) (deliver (some (exampleOk none))
              (airplay_device_start exampleMetadataDevice 7
                { device := some exampleMetadataDevice, rs := exampleSession 1 .STOPPED,
                  alive := false, seq_ctxs := [], airplay_cur_metadata := none,
                  timing_6svc_fd := 3, control_6svc_fd := 4, next_ptr := 100,
                  sys := exampleSysOk }).2))))))))


/-! ## Progress metadata (`metadata_rtptimes_get`, `payload_make_send_progress`) -/

/-- The four RTP times `metadata_rtptimes_get` writes through its `uint32_t`
pointers. -/
structure rtptimes where
  start : Nat
  display : Nat
  pos : Nat
  end_ : Nat
  deriving DecidableEq, Repr

/-- `metadata_rtptimes_get(&start, &display, &pos, &end, rms, metadata)`. The
locals are `int64_t` (division truncates towards zero) and are taken not to
overflow; each result is stored in a `uint32_t`, and `MAX` compares the two
`uint32_t` values `rms->cur_stamp.pos` and `*start`. -/
def metadata_rtptimes_get (rms : airplay_master_session) (metadata : output_metadata) :
    rtptimes :=
  let sample_rate : Int := rms.rtp_session.quality.sample_rate
  -- First calculate the rtptime that streaming of this item started
  let diff_ms : Int := (rms.cur_stamp.ts.tv_sec - metadata.pts.tv_sec) * 1000
    + Int.tdiv (rms.cur_stamp.ts.tv_nsec - metadata.pts.tv_nsec) 1000000
  let elapsed_ms : Int := (metadata.pos_ms : Int) + diff_ms
  let elapsed_samples : Int := Int.tdiv (elapsed_ms * sample_rate) 1000
  let start : Nat := (((rms.cur_stamp.pos : Int) - elapsed_samples) % 2 ^ 32).toNat
  let len_samples : Int := Int.tdiv ((metadata.len_ms : Int) * sample_rate) 1000
  let display : Nat :=
    if metadata.startup then (((start : Int) - (RAOP_MD_DELAY_STARTUP : Int)) % 2 ^ 32).toNat
    else (((start : Int) - (RAOP_MD_DELAY_SWITCH : Int)) % 2 ^ 32).toNat
  let pos : Nat := max rms.cur_stamp.pos start
  let end_ : Nat :=
    if len_samples ≠ 0 then (((start : Int) + len_samples) % 2 ^ 32).toNat else pos
  { start := start, display := display, pos := pos, end_ := end_ }

/-- `rtpinfo_header_add(req, rs, metadata)`: the value of the header `RTP-Info`
(it fits the 32 bytes of the buffer), with `rms = rs->master_session`. -/
def rtpinfo_header_add (rms : airplay_master_session) (metadata : output_metadata) : String :=
  "rtptime=" ++ toString (metadata_rtptimes_get rms metadata).start

/-- `payload_make_send_progress(req, rs, arg)`: the body `evbuffer_add_printf`
adds to the request (`%u` prints a `uint32_t` in decimal), with
`rms = rs->master_session` and `metadata = arg`. -/
def payload_make_send_progress (rms : airplay_master_session) (metadata : output_metadata) :
    String :=
  "progress: " ++ toString (metadata_rtptimes_get rms metadata).display ++ "/"
    ++ toString (metadata_rtptimes_get rms metadata).pos ++ "/"
    ++ toString (metadata_rtptimes_get rms metadata).end_ ++ "\r\n"

/-- The progress position as the specification words it: the maximum of
`cur_stamp.pos` and `start = cur_stamp.pos - elapsed_samples`, both taken as
signed 64-bit values, cast to 32 bits afterwards. -/
def progress_pos_signed64 (rms : airplay_master_session) (metadata : output_metadata) : Nat :=
  let sample_rate : Int := rms.rtp_session.quality.sample_rate
  let diff_ms : Int := (rms.cur_stamp.ts.tv_sec - metadata.pts.tv_sec) * 1000
    + Int.tdiv (rms.cur_stamp.ts.tv_nsec - metadata.pts.tv_nsec) 1000000
  let elapsed_ms : Int := (metadata.pos_ms : Int) + diff_ms
  let elapsed_samples : Int := Int.tdiv (elapsed_ms * sample_rate) 1000
  let start : Int := (rms.cur_stamp.pos : Int) - elapsed_samples
  ((max (rms.cur_stamp.pos : Int) start) % 2 ^ 32).toNat

/-- A master session of the default quality whose anchor `cur_stamp` is at RTP
time `pos` and player time 10 s. -/
def exampleStamped (pos : Nat) : airplay_master_session :=
  { exampleMaster 0 pos with cur_stamp := { pos := pos, ts := { tv_sec := 10, tv_nsec := 0 } } }

/-- The metadata of an item of `len_ms` milliseconds that was at `pos_ms` at
player time 10 s, sent at startup. -/
def exampleProgress (pos_ms len_ms : Nat) : output_metadata :=
  { item_id := 1, pos_ms := pos_ms, len_ms := len_ms, pts := { tv_sec := 10, tv_nsec := 0 },
    startup := true, metadata := [], artwork := none, artwork_fmt := 0 }


/-! ## Floating point (`float`, `double`)

A finite `float` or `double` of the C code is the rational number it stands for.
Every conversion and every arithmetic operation rounds its exact result to the
nearest value of the format, ties to even (IEEE 754 binary32 and binary64 with
`FLT_EVAL_METHOD` 0, as on x86-64 and ARM64): `c_float` and `c_double` are that
rounding. The largest exponent of the formats is taken into account where a text
is read (`atof`), not in the arithmetic, whose values are far below it. -/

/-- The recursion of `ilog2`; the first argument bounds its depth. -/
def log2_fuel : Nat → Nat → Nat
  | 0, _ => 0
  | fuel + 1, n => if 2 ≤ n then log2_fuel fuel (n / 2) + 1 else 0

/-- The position of the leading binary digit of `n` (0 for 0). -/
def ilog2 (n : Nat) : Nat := log2_fuel n n

/-- The binary exponent `e` of a rational `q` other than 0:
`2^e <= |q| < 2^(e+1)`. -/
def binade (q : ℚ) : Int :=
  if (2 : ℚ) ^ ((ilog2 q.num.natAbs : Int) - (ilog2 q.den : Int)) ≤ |q| then
    (ilog2 q.num.natAbs : Int) - (ilog2 q.den : Int)
  else (ilog2 q.num.natAbs : Int) - (ilog2 q.den : Int) - 1

/-- The integer nearest to `y`, the even one of the two when `y` lies halfway. -/
def round_even (y : ℚ) : Int :=
  if y - ⌊y⌋ < 1 / 2 then ⌊y⌋
  else if 1 / 2 < y - ⌊y⌋ then ⌊y⌋ + 1
  else if ⌊y⌋ % 2 = 0 then ⌊y⌋
  else ⌊y⌋ + 1

/-- The spacing of the values of the format with `p` binary digits and least
normal exponent `emin` around `q`: `2^(e - p + 1)` for the exponent `e` of `q`,
and for `q` below the normal range that of `emin` (subnormal values). -/
def ulp (p : Nat) (emin : Int) (q : ℚ) : ℚ := (2 : ℚ) ^ (max (binade q) emin - ((p : Int) - 1))

/-- Rounding to the format with `p` binary digits and least normal exponent
`emin`: the multiple of `ulp` nearest to `q`, ties to even. -/
def fl (p : Nat) (emin : Int) (q : ℚ) : ℚ :=
  if q = 0 then 0 else round_even (q / ulp p emin q) * ulp p emin q

/-- Rounding to `float` (binary32). -/
def c_float (q : ℚ) : ℚ := fl 24 (-126) q

/-- Rounding to `double` (binary64). -/
def c_double (q : ℚ) : ℚ := fl 53 (-1022) q

/-- What a `float` or `double` holds: a number, an infinity or a NaN. -/
inductive c_fp
  | num (q : ℚ)
  | inf (negative : Bool)
  | nan
  deriving DecidableEq

/-- The `double` for the real number `q`: the nearest one, an infinity when that
is beyond the largest `double`. -/
def c_fp.of_real (q : ℚ) : c_fp :=
  if (2 : ℚ) ^ (1024 : Int) ≤ |c_double q| then .inf (decide (q < 0)) else .num (c_double q)

/-- The conversion of a `double` to `float`. -/
def c_fp.to_float : c_fp → c_fp
  | .num q =>
    if (2 : ℚ) ^ (128 : Int) ≤ |c_float q| then .inf (decide (q < 0)) else .num (c_float q)
  | .inf negative => .inf negative
  | .nan => .nan


/-- `q` is a value of the format with `p` binary digits and least normal exponent
`emin`: an integer below `2^p` in absolute value times a power of two that is not
finer than the spacing of the subnormal values. -/
def representable (p : Nat) (emin : Int) (q : ℚ) : Prop :=
  ∃ z k : Int, q = (z : ℚ) * (2 : ℚ) ^ k ∧ |z| < 2 ^ p ∧ emin - ((p : Int) - 1) ≤ k


/-! ## Volume (`airplay_volume_from_pct`, `airplay_volume_to_pct`,
`payload_make_set_volume`)

`cfg` is the entry `max_volume` of the section `airplay` of the device in the
configuration, `none` when the device has no section. -/

/-- The conversion `(int)x` of a floating-point value: truncation towards
zero. -/
def c_int (x : ℚ) : Int := Int.tdiv x.num x.den

/-- `airplay_volume_from_pct(volume, name)`. The product of the two `float`s is a
`float`, the other operations are done in `double`, and the result is stored in
a `float`. -/
def airplay_volume_from_pct (volume : Int) (cfg : Option Int) : ℚ :=
  let max_volume : Int := RAOP_CONFIG_MAX_VOLUME
  let max_volume : Int := match cfg with
    | some v => v
    | none => max_volume
  let max_volume : Int :=
    if max_volume < 1 ∨ max_volume > RAOP_CONFIG_MAX_VOLUME then RAOP_CONFIG_MAX_VOLUME
    else max_volume
  -- RAOP volume: -144.0 is off, 0 - 100 maps to -30.0 - 0
  if volume > 0 ∧ volume ≤ 100 then
    c_float (c_double (-30 +
      c_double (c_double (c_float (c_float max_volume * c_float volume) * 30)
        / c_double (100 * c_double (RAOP_CONFIG_MAX_VOLUME : ℚ)))))
  else c_float (-144)

/-- What `printf` writes for `%06d`: the decimal digits of the `int`, padded with
zeros on the left to six characters, the sign first. -/
def printf_06d (n : Int) : String :=
  if n < 0 then
    "-" ++ String.mk (List.replicate (5 - (toString n.natAbs).length) '0') ++ toString n.natAbs
  else String.mk (List.replicate (6 - (toString n.natAbs).length) '0') ++ toString n.natAbs

/-- The text `payload_make_set_volume` writes for the volume `raop_volume`, after
`volume: ` and before the line end: the format `-%d.%06d` applied to
`-(int)raop_volume` and
`-(int)(1000000.0 * (raop_volume - (int)raop_volume))`. The difference is a
`float`, the product a `double`. -/
def payload_make_set_volume_value (raop_volume : ℚ) : String :=
  "-" ++ toString (-(c_int raop_volume)) ++ "."
    ++ printf_06d (-(c_int (c_double
        (1000000 * c_float (raop_volume - c_float (c_int raop_volume : ℚ))))))

/-- `payload_make_set_volume(req, rs, arg)`: the body `evbuffer_add_printf` adds
to the request, for `rs->volume` and the configuration of `rs->devname`. -/
def payload_make_set_volume (volume : Int) (cfg : Option Int) : String :=
  "volume: " ++ payload_make_set_volume_value (airplay_volume_from_pct volume cfg) ++ "\r\n"

/-- `isspace(ch)` in the C locale. -/
def isspace (ch : Char) : Bool :=
  ch.toNat = 32 || (9 ≤ ch.toNat && ch.toNat ≤ 13)

/-- The value of a decimal digit, or with `hex` of a hexadecimal digit. -/
def digit_value (hex : Bool) (ch : Char) : Option Nat :=
  if 48 ≤ ch.toNat ∧ ch.toNat ≤ 57 then some (ch.toNat - 48)
  else if hex = true ∧ 97 ≤ ch.toNat ∧ ch.toNat ≤ 102 then some (ch.toNat - 87)
  else if hex = true ∧ 65 ≤ ch.toNat ∧ ch.toNat ≤ 70 then some (ch.toNat - 55)
  else none

/-- The digits at the head of a string: their value after the digits `acc` read
so far, their number added to `n`, and the rest of the string. -/
def atof_digits (hex : Bool) : List Char → Nat → Nat → Nat × Nat × List Char
  | [], acc, n => (acc, n, [])
  | ch :: rest, acc, n =>
    match digit_value hex ch with
    | some d => atof_digits hex rest (acc * (if hex then 16 else 10) + d) (n + 1)
    | none => (acc, n, ch :: rest)

/-- Digits with at most one point among them, at the head of a string: their
value, the number of digits and the rest of the string. -/
def atof_mantissa (hex : Bool) (l : List Char) : ℚ × Nat × List Char :=
  let int_part := atof_digits hex l 0 0
  let frac_part : Nat × Nat × List Char := match int_part.2.2 with
    | '.' :: rest => atof_digits hex rest 0 0
    | rest => (0, 0, rest)
  ((int_part.1 : ℚ) + (frac_part.1 : ℚ) / (if hex then 16 else 10) ^ frac_part.2.1,
   int_part.2.1 + frac_part.2.1, frac_part.2.2)

/-- The exponent part at the head of a string: the letter `marker` in either
case, an optional sign and at least one decimal digit; 0 when there is none. -/
def atof_exponent (marker : Char) (l : List Char) : Int :=
  match l with
  | [] => 0
  | ch :: rest =>
    if ch.toLower ≠ marker then 0
    else
      let signed : Bool × List Char := match rest with
        | '-' :: r => (true, r)
        | '+' :: r => (false, r)
        | r => (false, r)
      let digits := atof_digits false signed.2 0 0
      if digits.2.1 = 0 then 0
      else if signed.1 then -(digits.1 : Int) else (digits.1 : Int)

/-- `atof(s)` of the C library, which is `strtod(s, NULL)`, in the C locale:
white space is skipped, then an optional sign and the longest of `inf`, `nan`
(in any case), a hexadecimal number after `0x` with an optional binary exponent
after `p`, or a decimal number with an optional exponent after `e` is read; the
value is 0 when none is there. The result is the nearest `double` (glibc rounds
correctly). The sign of a zero is not kept. -/
def atof (s : String) : c_fp :=
  let signed : Bool × List Char := match s.toList.dropWhile isspace with
    | '-' :: rest => (true, rest)
    | '+' :: rest => (false, rest)
    | rest => (false, rest)
  let sign : ℚ := if signed.1 then -1 else 1
  if "inf".toList.isPrefixOf (signed.2.map Char.toLower) then .inf signed.1
  else if "nan".toList.isPrefixOf (signed.2.map Char.toLower) then .nan
  else
    let hex : ℚ × Nat × List Char := match signed.2 with
      | '0' :: x :: rest => if x.toLower = 'x' then atof_mantissa true rest else (0, 0, [])
      | _ => (0, 0, [])
    if hex.2.1 ≠ 0 then
      c_fp.of_real (sign * hex.1 * (2 : ℚ) ^ atof_exponent 'p' hex.2.2)
    else
      let dec := atof_mantissa false signed.2
      if dec.2.1 = 0 then .num 0
      else c_fp.of_real (sign * dec.1 * (10 : ℚ) ^ atof_exponent 'e' dec.2.2)

/-- `airplay_volume_to_pct(rd, volume)`, with `cfg` for `rd->name`. The `double`
of `atof` is stored in a `float`; the arithmetic is done in `double`. -/
def airplay_volume_to_pct (cfg : Option Int) (volume : String) : Int :=
  match (atof volume).to_float with
  | .num airplay_volume =>
    -- Basic sanity check
    if airplay_volume = 0 ∧ volume.toList.head? ≠ some '0' then -1
    else
      let max_volume : Int := RAOP_CONFIG_MAX_VOLUME
      let max_volume : Int := match cfg with
        | some v => v
        | none => max_volume
      let max_volume : Int :=
        if max_volume < 1 ∨ max_volume > RAOP_CONFIG_MAX_VOLUME then RAOP_CONFIG_MAX_VOLUME
        else max_volume
      -- RAOP volume: -144.0 is off, -30.0 - 0 scaled by max_volume maps to 0 - 100
      if airplay_volume > -30 ∧ airplay_volume ≤ 0 then
        c_int (c_double (c_double (c_double (100 * c_double (c_double (airplay_volume / 30) + 1))
          * c_double (RAOP_CONFIG_MAX_VOLUME : ℚ)) / c_float max_volume))
      else 0
  -- An infinity or a NaN is not equal to 0.0 and fails the test of the range
  | _ => 0


/-! ## Time service (`timespec_to_ntp`, `ntp_to_timespec`, `airplay_timing_cb`) -/

/-- `FRAC`: 2^32 as a double. -/
def FRAC : ℚ := 4294967296

/-- `NTP_EPOCH_DELTA`: 1970 - 1900 in seconds, an `unsigned int` constant. -/
def NTP_EPOCH_DELTA : Nat := 0x83aa7e80

/-- `struct ntp_stamp`: two `uint32_t`. -/
structure ntp_stamp where
  sec : Nat
  frac : Nat
  deriving DecidableEq, Repr

/-- `timespec_to_ntp(ts, ns)`. The sum is stored in a `uint32_t`. `1e-9` is the
`double` nearest to it and the two products are `double`s; the conversion
`(uint32_t)` truncates (a value out of range is taken modulo 2^32). -/
def timespec_to_ntp (ts : timespec) : ntp_stamp :=
  { -- Seconds since NTP Epoch (1900-01-01)
    sec := ((ts.tv_sec + (NTP_EPOCH_DELTA : Int)) % 2 ^ 32).toNat
    frac := (c_int (c_double (c_double (c_double (ts.tv_nsec : ℚ) * c_double (1 / 1000000000))
      * FRAC)) % 2 ^ 32).toNat }

/-- `ntp_to_timespec(ns, ts)`. The difference of the two unsigned 32-bit values
is an unsigned 32-bit value; the product `1e-9 * FRAC` and the quotient are
`double`s. -/
def ntp_to_timespec (ns : ntp_stamp) : timespec :=
  { -- Seconds since Unix Epoch (1970-01-01)
    tv_sec := ((ns.sec : Int) - (NTP_EPOCH_DELTA : Int)) % 2 ^ 32
    tv_nsec := c_int (c_double (c_double (ns.frac : ℚ)
      / c_double (c_double (1 / 1000000000) * FRAC))) }

/-- `airplay_timing_get_clock_ntp(ns)`: `clock` is what `clock_gettime` gives,
`none` when it fails (the function then returns -1). -/
def airplay_timing_get_clock_ntp (clock : Option timespec) : Option ntp_stamp :=
  clock.map timespec_to_ntp

/-- `recvfrom(fd, buf, len, 0, ...)` on a datagram socket: the return value and
the buffer afterwards. `dgram` is the datagram at the head of the queue of the
socket, `none` when the call fails. The first `len` bytes of the datagram are
stored in `buf` and their number is returned; what is left of a longer datagram
is discarded. -/
def recvfrom (dgram : Option (List Nat)) (buf : Mem) (len : Nat) : Int × Mem :=
  match dgram with
  | none => (-1, buf)
  | some bytes => (((bytes.take len).length : Nat), memcpy buf 0 (bytes.take len))

/-- `airplay_timing_cb(fd, what, arg)`: the 32 bytes handed to `sendto`, `none`
when `sendto` is not called. `recv_clock` and `xmit_clock` are the results of
the two calls of `clock_gettime`, `dgram` is the datagram `recvfrom` reads and
`stack` what the array `req[32]` holds before. -/
def airplay_timing_cb (recv_clock : Option timespec) (dgram : Option (List Nat)) (stack : Mem)
    (xmit_clock : Option timespec) : Option (List Nat) :=
  match airplay_timing_get_clock_ntp recv_clock with
  | none => none
  | some recv_stamp =>
    let ret := (recvfrom dgram stack 32).1
    let req := (recvfrom dgram stack 32).2
    if ret < 0 then none
    else if ret ≠ 32 then none
    else if req 0 ≠ 0x80 ∨ req 1 ≠ 0xd2 then none
    else
      let res : Mem := fun _ => 0
      -- Header
      let res := res.store 0 0x80
      let res := res.store 1 0xd3
      let res := res.store 2 (req 2)
      -- Copy client timestamp
      let res := memcpy res 8 (readBytes req 24 8)
      -- Receive timestamp
      let res := memcpy res 16 (be32 recv_stamp.sec)
      let res := memcpy res 20 (be32 recv_stamp.frac)
      -- Transmit timestamp
      let res :=
        match airplay_timing_get_clock_ntp xmit_clock with
        | none =>
          -- Still better than failing altogether
          memcpy (memcpy res 24 (be32 recv_stamp.sec)) 28 (be32 recv_stamp.frac)
        | some xmit_stamp =>
          memcpy (memcpy res 24 (be32 xmit_stamp.sec)) 28 (be32 xmit_stamp.frac)
      some (readBytes res 0 32)

/-- A timing request: 32 bytes with the header `80 d2`, the byte 7 at offset 2
and the client timestamp `1 2 3 4 5 6 7 8` at offset 24. -/
def exampleTimingRequest : List Nat :=
  [0x80, 0xd2, 7] ++ List.replicate 21 0 ++ [1, 2, 3, 4, 5, 6, 7, 8]


/-! ## The sample count of the buffered audio -/

/-- The invariant of the audio buffer of a master session: `evbuf` holds
`evbuf_samples` samples of `bits_per_sample / 8` bytes for each channel, and a
packet (`rawbuf_size` bytes) holds `samples_per_packet` of them. -/
def airplay_master_session.buffered (rms : airplay_master_session) : Prop :=
  rms.evbuf_samples * (rms.rtp_session.quality.bits_per_sample / 8)
      * rms.rtp_session.quality.channels = (rms.evbuf.length : Int) ∧
  rms.samples_per_packet * (rms.rtp_session.quality.bits_per_sample / 8)
      * rms.rtp_session.quality.channels = (rms.rawbuf_size : Int)

/-- Less than one packet is buffered: the state of `evbuf` between two calls of
`airplay_write`. -/
def airplay_master_session.drained (rms : airplay_master_session) : Prop :=
  rms.evbuf.length < rms.rawbuf_size

/-! ## Retransmit requests (`airplay_control_cb`) -/

/-- What `recvfrom` hands to `airplay_control_cb`: its return value `ret`, the
bytes in `req` and the family and address bytes of the source in `sa`. -/
structure control_datagram where
  ret : Int
  req : List Nat
  family : sa_family
  addr : List Nat
  deriving DecidableEq, Repr

/-- The `uint16_t` that `memcpy` and `be16toh` read from two bytes. -/
def be16toh (hi lo : Nat) : Nat := hi % 256 * 256 + lo % 256

/-- `airplay_control_cb` for the service `svc` (`AF_INET` for `control_4svc`,
`AF_INET6` for `control_6svc`). `sa_addr rs` stands for the address bytes that
`inet_pton` has stored in `rs->sa`, which the session of this model does not
carry; `rs.family` is `rs->sa.ss.ss_family`. The result is `none` when the
master session of the session found is not in `airplay_master_sessions`
(`packets_resend` dereferences `rs->master_session`). Re-adding the event
changes nothing here. -/
def airplay_control_cb (svc : sa_family) (sa_addr : airplay_session → List Nat)
    (dg : control_datagram) (a : Audio) : Option Audio :=
  if dg.ret < 0 then some a
  else if dg.ret ≠ 8 then some a
  else if dg.family = .AF_UNSPEC then some a
  else if svc ≠ dg.family then some a
  else
    match a.airplay_sessions.span
        (fun rs => !(decide (rs.family = dg.family) && decide (dg.addr = sa_addr rs))) with
    | (_, []) => some a
    | (before, rs :: after) =>
      if dg.req.getD 0 0 ≠ 0x80 ∨ dg.req.getD 1 0 ≠ 0xd5 then some a
      else
        let seq_start := be16toh (dg.req.getD 4 0) (dg.req.getD 5 0)
        let seq_len := be16toh (dg.req.getD 6 0) (dg.req.getD 7 0)
        match a.airplay_master_sessions.find? (fun rms => rs.master_session == some rms.id) with
        | none => none
        | some rms =>
          let (rs, sys) := packets_resend rms.rtp_session rs seq_start seq_len a.sys
          some { a with airplay_sessions := before ++ rs :: after, sys := sys }

/-- The sequence numbers a retransmit request for `seq_len` packets from
`seq_start` names, in order. -/
def resend_seqnums (seq_start seq_len : Nat) : List Nat :=
  (List.range seq_len).map (fun i => (seq_start + i) % 2 ^ 16)

/-- A committed packet of sequence number `seqnum` with a payload of three bytes. -/
def examplePacket (seqnum : Nat) : rtp_packet :=
  { seqnum := seqnum, samples := 352,
    header := [0x80, 0x60, seqnum / 256 % 256, seqnum % 256, 0, 0, 0, 0, 0, 0, 0, 1],
    payload := [1, 2, 3], data_len := 15 }

/-- A module with the session of device 1 streaming from a master session whose
retransmit ring holds the packets 1003 and 1002. -/
def exampleRing : Audio :=
  { airplay_master_sessions :=
      [{ exampleMaster 1004 1000 with
          rtp_session := { (exampleMaster 1004 1000).rtp_session with
            pktbuf := [examplePacket 1003, examplePacket 1002] } }],
    airplay_sessions := [exampleSession 1 .STREAMING],
    keep_alive_pending := true, sys := exampleSys 39 }

/-- The retransmit request `80 d5 00 00 03 EA 00 03` from the address of device 1. -/
def exampleResendRequest : control_datagram :=
  { ret := 8, req := [0x80, 0xd5, 0x00, 0x00, 0x03, 0xEA, 0x00, 0x03], family := .AF_INET,
    addr := [192, 168, 1, 10] }

/-! ## The `Content-Type` of a request -/

/-- The value `payload_make_*` gives the header `Content-Type` of the request,
where it adds one: `payload_make_send_artwork` does (`ctype`, when the artwork
format is PNG or JPEG; otherwise it returns -1 before adding a header), no other
payload maker adds a header of that name. -/
def payload_make_content_type (pm : payload_maker) (arg : payload_arg) : Option String :=
  match pm, arg with
  | .send_artwork, .metadata md =>
    if md.artwork_fmt = ART_FMT_PNG then some "image/png"
    else if md.artwork_fmt = ART_FMT_JPEG then some "image/jpeg"
    else none
  | _, _ => none

/-- The values of the `Content-Type` headers on the request `sequence_continue`
builds for the step `cur_request`: the column `content_type` of the table when it
is not `NULL`, then what the payload maker adds. -/
def request_content_types (cur_request : airplay_seq_request) (arg : payload_arg) :
    List String :=
  cur_request.content_type.toList
    ++ ((cur_request.payload_make.bind (fun pm => payload_make_content_type pm arg)).toList)

/-- The content types the specification lists. -/
def spec_content_types : List String :=
  ["application/x-apple-binary-plist", "application/octet-stream", "text/parameters",
   "application/x-dmap-tagged", "image/png", "image/jpeg"]

/-! ## Jumps between sequences -/

/-- The state after `airplay_device_probe` for the device with a password and the
two steps of PAIR_TRANSIENT got their 200: the OPTIONS of PROBE is in flight. -/
def exampleProbing : Ctl :=
  deliver (some (exampleOk none)) (deliver (some (exampleOk none))
    (airplay_device_probe examplePasswordDevice 7
      { device := some examplePasswordDevice, rs := exampleSession 1 .STOPPED,
        alive := false, seq_ctxs := [], airplay_cur_metadata := none, timing_6svc_fd := 3,
        control_6svc_fd := 4, next_ptr := 100, sys := exampleSysOk }).2)

/-- The jumps from one sequence to another that a response handler can make
`sequence_continue_cb` take: from START and PROBE (handlers of OPTIONS), from
START_RERUN (whose handler only sees a 200) and from PAIR_TRANSIENT (the handler
of its first step, on a 470). -/
def seq_jump : airplay_seq_type → airplay_seq_type → Bool
  | .START, .START_RERUN | .START, .START_AP2 | .START, .PIN_START => true
  | .PROBE, .START_RERUN | .PROBE, .PIN_START => true
  | .START_RERUN, .START_AP2 => true
  | .PAIR_TRANSIENT, .PIN_START => true
  | _, _ => false

/-- A bound on the requests that are still to be sent for a context at step
`idx` of its sequence, the sequences it can jump to included: the steps left in
the row, and for the sequences that jump to START_AP2 its five steps as well. -/
def airplay_seq_ctx.requests_left (x : airplay_seq_ctx) : Nat :=
  match x.seq_type with
  | .START => 7 - x.idx
  | .PROBE => 7 - x.idx
  | .START_RERUN => 6 - x.idx
  | t => (airplay_seq_request_rows t).length - x.idx

/-- The context `y` can be queued by `sequence_continue_cb` for the context `x`
when no callback of the sequence runs: `y` is the next step of the row, or the
first step of a sequence `x` jumps to from its first step, or the first step of
a metadata sequence that the handler of the volume step of START_AP2 starts. -/
def seq_ctx_next (x y : airplay_seq_ctx) : Prop :=
  y.wf ∧
  ((y.seq_type = x.seq_type ∧ y.idx = x.idx + 1) ∨
   (x.idx = 0 ∧ y.idx = 0 ∧ seq_jump x.seq_type y.seq_type = true) ∨
   (x.seq_type = .START_AP2 ∧ x.idx = 3 ∧ y.idx = 0 ∧
     (y.seq_type = .SEND_PROGRESS ∨ y.seq_type = .SEND_TEXT ∨ y.seq_type = .SEND_ARTWORK)))

/-- Some response to the request of the context `x`, in some state of the
module, makes `sequence_continue_cb` queue the request of the context `y`
without running `on_error` or `on_success` of the sequence of `x`. -/
def sequence_continues (x y : airplay_seq_ctx) : Prop :=
  ∃ (req : Option evrtsp_request) (c : Ctl),
    (∀ e ∈ (sequence_continue_cb req x c).sys.log.drop c.sys.log.length,
      e ≠ .on_error c.rs.ptr x.seq_type ∧ e ≠ .on_success c.rs.ptr x.seq_type) ∧
    y ∈ (sequence_continue_cb req x c).seq_ctxs.drop c.seq_ctxs.length

end Airplay

/-! # Theorems -/

namespace Airplay

/-! ## Lemmas: memory -/

theorem readBytes_length (m : Mem) (s n : Nat) : (readBytes m s n).length = n := by
  simp [readBytes]

theorem readBytes_zero (m : Mem) (s : Nat) : readBytes m s 0 = [] := by
  simp [readBytes]

theorem readBytes_succ (m : Mem) (s n : Nat) :
    readBytes m s (n + 1) = m s :: readBytes m (s + 1) n := by
  simp only [readBytes, List.range_succ_eq_map, List.map_cons, List.map_map, Nat.add_zero]
  congr 1
  apply List.map_congr_left
  intro i _
  simp only [Function.comp, Nat.succ_eq_add_one]
  congr 1
  omega

theorem readBytes_add (m : Mem) (s n k : Nat) :
    readBytes m s (n + k) = readBytes m s n ++ readBytes m (s + n) k := by
  induction n generalizing s with
  | zero => simp [readBytes_zero]
  | succ n ih =>
    have h : n + 1 + k = (n + k) + 1 := by omega
    rw [h, readBytes_succ, readBytes_succ, ih]
    have h2 : s + 1 + n = s + (n + 1) := by omega
    rw [h2]
    rfl

theorem readBytes_congr (m m' : Mem) (s n : Nat)
    (h : ∀ a, s ≤ a → a < s + n → m' a = m a) : readBytes m' s n = readBytes m s n := by
  simp only [readBytes]
  apply List.map_congr_left
  intro i hi
  rw [List.mem_range] at hi
  exact h _ (by omega) (by omega)

theorem readBytes_getD (m : Mem) (s n i : Nat) (h : i < n) :
    (readBytes m s n).getD i 0 = m (s + i) := by
  simp [readBytes, List.getD_eq_getElem?_getD, List.getElem?_map, List.getElem?_range h]

/-! ## Lemmas: the bit writer -/

theorem alac_write_bits_8_at_7 (w : BitWriter) (v : Nat) (h : w.bpos = 7) :
    alac_write_bits w v 8 =
      { mem := (w.mem.store w.p ((w.mem w.p ||| (v >>> 7)) % 256)).store (w.p + 1)
                 ((v <<< 1) % 256),
        p := w.p + 1, bpos := 7 } := by
  simp [alac_write_bits, h]

theorem writeBytes_spec (bs : List Nat) : ∀ w : BitWriter, w.bpos = 7 →
    (writeBytes w bs).p = w.p + bs.length ∧ (writeBytes w bs).bpos = 7 ∧
    readBytes (writeBytes w bs).mem w.p (bs.length + 1) = shifted (w.mem w.p) bs ∧
    ∀ a, (a < w.p ∨ w.p + bs.length < a) → (writeBytes w bs).mem a = w.mem a := by
  induction bs with
  | nil =>
    intro w h
    simp [writeBytes, shifted, readBytes_succ, readBytes_zero, h]
  | cons b bs ih =>
    intro w h
    have hw := alac_write_bits_8_at_7 w b h
    have e : writeBytes w (b :: bs) = writeBytes (alac_write_bits w b 8) bs := rfl
    obtain ⟨h1, h2, h3, h4⟩ := ih (alac_write_bits w b 8) (by rw [hw])
    rw [e]
    rw [hw] at h1 h2 h3 h4 ⊢
    simp only at h1 h3 h4
    refine ⟨by rw [h1, List.length_cons]; omega, h2, ?_, ?_⟩
    · rw [List.length_cons, readBytes_succ, h3, h4 _ (Or.inl (Nat.lt_succ_self _))]
      simp [shifted, Mem.store]
    · intro a ha
      rw [h4 a (by rw [List.length_cons] at ha; omega)]
      have h5 : a ≠ w.p + 1 := by rw [List.length_cons] at ha; omega
      have h6 : a ≠ w.p := by rw [List.length_cons] at ha; omega
      simp [Mem.store, h5, h6]

theorem framesBytes_succ (raw : Mem) (k0 m : Nat) :
    framesBytes raw k0 (m + 1) = frameBytes raw k0 ++ framesBytes raw (k0 + 1) m := by
  simp only [framesBytes, List.range_succ_eq_map, List.flatMap_cons, List.flatMap_map,
    Nat.add_zero]
  congr 1
  congr 1
  funext k
  simp only [Nat.succ_eq_add_one]
  congr 1
  omega

theorem framesBytes_length (raw : Mem) (k0 m : Nat) : (framesBytes raw k0 m).length = 4 * m := by
  induction m generalizing k0 with
  | zero => simp [framesBytes]
  | succ m ih => rw [framesBytes_succ, List.length_append, ih]; simp [frameBytes]; omega

theorem alac_encode_loop_eq (raw : Mem) (m : Nat) : ∀ (k fuel : Nat) (w : BitWriter),
    m ≤ fuel →
    alac_encode_loop raw (4 * (k + m)) fuel (4 * k) w = writeBytes w (framesBytes raw k m) := by
  induction m with
  | zero =>
    intro k fuel w _
    cases fuel <;> simp [alac_encode_loop, framesBytes, writeBytes]
  | succ m ih =>
    intro k fuel w hf
    obtain ⟨f, rfl⟩ : ∃ f, fuel = f + 1 := ⟨fuel - 1, by omega⟩
    have hlt : 4 * k < 4 * (k + (m + 1)) := by omega
    have e1 : 4 * (k + (m + 1)) = 4 * ((k + 1) + m) := by omega
    have e2 : 4 * k + 4 = 4 * (k + 1) := by omega
    simp only [alac_encode_loop, hlt, if_true]
    rw [e1, e2, ih (k + 1) f _ (by omega), framesBytes_succ]
    simp [writeBytes, frameBytes]

/-- The state of the writer after the 23 header bits. -/
theorem alac_header_state (dst : Mem) :
    ∃ w : BitWriter, (∀ (raw : Mem) (len : Int),
        alac_encode dst raw len = alac_encode_loop raw len.toNat len.toNat 0 w) ∧
      w.p = 2 ∧ w.bpos = 7 ∧ w.mem 0 = 0x20 ∧ w.mem 1 = 0 ∧ w.mem 2 = 2 ∧
      ∀ a, 3 ≤ a → w.mem a = dst a := by
  refine ⟨_, fun raw len => rfl, ?_, ?_, ?_, ?_, ?_, ?_⟩ <;>
    simp [alac_write_bits, Mem.store]
  intro a ha
  have h0 : a ≠ 0 := by omega
  have h1 : a ≠ 1 := by omega
  have h2 : a ≠ 2 := by omega
  simp [h0, h1, h2]

/-- The bytes `alac_encode` leaves in `dst` for a buffer of `n` frames: the two
first header bytes, then the frame bytes shifted by one bit after the header
byte `0x02`; everything from offset `4 n + 3` on is untouched. -/
theorem alac_encode_bytes (dst raw : Mem) (n : Nat) :
    readBytes (alac_encode dst raw (4 * n : Nat)).mem 0 (4 * n + 3)
      = [0x20, 0x00] ++ shifted 2 (framesBytes raw 0 n) ∧
    (alac_encode dst raw (4 * n : Nat)).p = 4 * n + 2 ∧
    (alac_encode dst raw (4 * n : Nat)).bpos = 7 ∧
    ∀ a, 4 * n + 3 ≤ a → (alac_encode dst raw (4 * n : Nat)).mem a = dst a := by
  obtain ⟨w, hw, hp, hb, h0, h1, h2, hrest⟩ := alac_header_state dst
  have hl := alac_encode_loop_eq raw n 0 (4 * n) w (by omega)
  simp only [Nat.zero_add, Nat.mul_zero] at hl
  have he : alac_encode dst raw (4 * n : Nat) = writeBytes w (framesBytes raw 0 n) := by
    rw [hw, Int.toNat_ofNat, hl]
  obtain ⟨s1, s2, s3, s4⟩ := writeBytes_spec (framesBytes raw 0 n) w hb
  rw [framesBytes_length, hp] at s1 s3 s4
  rw [he]
  refine ⟨?_, by rw [s1]; omega, s2, ?_⟩
  · have e : 4 * n + 3 = 2 + (4 * n + 1) := by omega
    rw [e, readBytes_add, Nat.zero_add, s3, h2]
    congr 1
    simp [readBytes, List.range_succ, s4, h0, h1]
  · intro a ha
    rw [s4 a (by omega), hrest a (by omega)]

/-! ## Lemmas: bytes split over a byte boundary -/

set_option maxRecDepth 100000 in
theorem lor_low_bit : ∀ c < 256, ∀ m < 2, c % 2 = 0 → c ||| m = c + m := by decide

theorem shifted_cons_eq (c b : Nat) (bs : List Nat) (hc : c < 256) (hc2 : c % 2 = 0)
    (hb : b < 256) :
    shifted c (b :: bs) = (c + b / 128) :: shifted (b * 2 % 256) bs := by
  have h1 : b >>> 7 = b / 128 := by rw [Nat.shiftRight_eq_div_pow]
  have h2 : b <<< 1 = b * 2 := by rw [Nat.shiftLeft_eq]
  have h3 : c ||| (b / 128) = c + b / 128 := lor_low_bit c hc (b / 128) (by omega) hc2
  have h4 : (c + b / 128) % 256 = c + b / 128 := by omega
  simp only [shifted, h1, h2, h3, h4]

theorem fieldBits_8 (v : Nat) :
    fieldBits v 8 = [decide (v / 128 % 2 = 1), decide (v / 64 % 2 = 1), decide (v / 32 % 2 = 1),
      decide (v / 16 % 2 = 1), decide (v / 8 % 2 = 1), decide (v / 4 % 2 = 1),
      decide (v / 2 % 2 = 1), decide (v % 2 = 1)] := by
  simp [fieldBits, List.range_succ]

theorem bitsOf_cons (b : Nat) (bs : List Nat) : bitsOf (b :: bs) = fieldBits b 8 ++ bitsOf bs := by
  simp [bitsOf]

theorem bitsOf_shifted (bs : List Nat) : ∀ c, c < 256 → c % 2 = 0 → (∀ b ∈ bs, b < 256) →
    bitsOf (shifted c bs) = (fieldBits c 8).take 7 ++ bitsOf bs ++ [false] := by
  induction bs with
  | nil =>
    intro c _ hc2 _
    simp only [shifted, bitsOf_cons, fieldBits_8]
    simp [bitsOf, hc2]
  | cons b bs ih =>
    intro c hc hc2 hbs
    have hb : b < 256 := hbs b (List.mem_cons_self _ _)
    rw [shifted_cons_eq c b bs hc hc2 hb, bitsOf_cons,
      ih (b * 2 % 256) (by omega) (by omega) (fun x hx => hbs x (List.mem_cons_of_mem _ hx)),
      bitsOf_cons]
    simp only [fieldBits_8, List.take, List.cons_append, List.nil_append, List.append_assoc,
      List.cons.injEq, decide_eq_decide, and_true]
    refine ⟨?_, ?_, ?_, ?_, ?_, ?_, ?_, ?_, ?_, ?_, ?_, ?_, ?_, ?_, ?_⟩ <;> omega

theorem shifted_head_div2 (bs : List Nat) (y : Nat) (hy : y < 256) (hy2 : y % 2 = 0)
    (hbs : ∀ b ∈ bs, b < 256) : (shifted y bs).getD 0 0 / 2 = y / 2 := by
  cases bs with
  | nil => simp [shifted]
  | cons b bs =>
    have hb : b < 256 := hbs b (List.mem_cons_self _ _)
    rw [shifted_cons_eq y b bs hy hy2 hb]
    simp only [List.getD_cons_zero]
    omega

theorem shifted_getD (bs : List Nat) : ∀ c i, c < 256 → c % 2 = 0 → (∀ b ∈ bs, b < 256) →
    i < bs.length →
    ((shifted c bs).getD i 0 % 2) * 128 + (shifted c bs).getD (i + 1) 0 / 2 = bs.getD i 0 := by
  induction bs with
  | nil => intro c i _ _ _ hi; simp at hi
  | cons b bs ih =>
    intro c i hc hc2 hbs hi
    have hb : b < 256 := hbs b (List.mem_cons_self _ _)
    have hbs2 : ∀ x ∈ bs, x < 256 := fun x hx => hbs x (List.mem_cons_of_mem _ hx)
    rw [shifted_cons_eq c b bs hc hc2 hb]
    cases i with
    | zero =>
      simp only [List.getD_cons_zero, List.getD_cons_succ, Nat.zero_add]
      rw [shifted_head_div2 bs (b * 2 % 256) (by omega) (by omega) hbs2]
      omega
    | succ i =>
      simp only [List.getD_cons_succ]
      exact ih (b * 2 % 256) i (by omega) (by omega) hbs2 (by simpa using hi)

theorem framesBytes_getD (raw : Mem) (n : Nat) : ∀ k0 k j, k < n → j < 4 →
    (framesBytes raw k0 n).getD (4 * k + j) 0 = (frameBytes raw (k0 + k)).getD j 0 := by
  induction n with
  | zero => intro k0 k j hk; omega
  | succ n ih =>
    intro k0 k j hk hj
    rw [framesBytes_succ]
    cases k with
    | zero =>
      rw [List.getD_append _ _ _ _ (by simp [frameBytes]; omega)]
      simp
    | succ k =>
      rw [List.getD_append_right _ _ _ _ (by simp [frameBytes]; omega)]
      have e : 4 * (k + 1) + j - (frameBytes raw k0).length = 4 * k + j := by
        simp [frameBytes]; omega
      rw [e, ih (k0 + 1) k j (by omega) hj]
      congr 2
      omega

theorem framesBytes_lt (raw : Mem) (n : Nat) (hraw : ∀ i, i < 4 * n → raw i < 256) :
    ∀ b ∈ framesBytes raw 0 n, b < 256 := by
  intro b hb
  simp only [framesBytes, List.mem_flatMap, List.mem_range, frameBytes, Nat.zero_add] at hb
  obtain ⟨k, hk, hb⟩ := hb
  simp only [List.mem_cons, List.mem_singleton, List.not_mem_nil, or_false] at hb
  rcases hb with h | h | h | h <;> rw [h] <;> apply hraw <;> omega

theorem bitsOf_framesBytes (raw : Mem) (n : Nat) :
    bitsOf (framesBytes raw 0 n) = (List.range n).flatMap (fun k =>
      fieldBits (raw (4 * k + 1)) 8 ++ fieldBits (raw (4 * k)) 8 ++
      fieldBits (raw (4 * k + 3)) 8 ++ fieldBits (raw (4 * k + 2)) 8) := by
  simp only [bitsOf, framesBytes, List.flatMap_assoc, frameBytes, Nat.zero_add,
    List.flatMap_cons, List.flatMap_nil, List.append_nil, List.append_assoc]

/-! ## Claims C1, C2: the ALAC framer -/

/-- C1 (as stated, refuted): for the one-frame PCM buffer `34 12 78 56` the four
output bytes at offsets 3..6 are `24 68 ac f0`, not the byte-swapped frame
`12 34 56 78`: the 23-bit header leaves the payload one bit before the byte
boundary. -/
theorem alac_encode_payload_not_byte_aligned :
    ((4 : Int) = 4 * ((1 : Nat) : Int)) ∧
    (∀ i, i < 4 → Mem.ofList [0x34, 0x12, 0x78, 0x56] i < 256) ∧
    readBytes (alac_encode (fun _ => 0) (Mem.ofList [0x34, 0x12, 0x78, 0x56]) 4).mem 3 4
      = [0x24, 0x68, 0xac, 0xf0] ∧
    readBytes (alac_encode (fun _ => 0) (Mem.ofList [0x34, 0x12, 0x78, 0x56]) 4).mem 3 4
      ≠ [Mem.ofList [0x34, 0x12, 0x78, 0x56] 1, Mem.ofList [0x34, 0x12, 0x78, 0x56] 0,
         Mem.ofList [0x34, 0x12, 0x78, 0x56] 3, Mem.ofList [0x34, 0x12, 0x78, 0x56] 2] := by
  decide

/-- C1 (amended): for a PCM buffer of `n` frames of bytes and the frame
`[L_lo, L_hi, R_lo, R_hi]` at index `k < n`, the bytes `[L_hi, L_lo, R_hi, R_lo]`
are found in the output one bit before offset `3 + 4 k`: each of them is the low
bit of the output byte before its offset followed by the high seven bits of the
output byte at its offset. -/
theorem alac_encode_frame_shifted (dst raw : Mem) (len : Int) (n k : Nat)
    (hlen : len = 4 * (n : Int)) (hk : k < n) (hraw : ∀ i, i < 4 * n → raw i < 256) :
    (List.range 4).map (fun j =>
        ((alac_encode dst raw len).mem (3 + 4 * k + j - 1) % 2) * 128
          + (alac_encode dst raw len).mem (3 + 4 * k + j) / 2)
      = [raw (4 * k + 1), raw (4 * k), raw (4 * k + 3), raw (4 * k + 2)] := by
  have hl : len = ((4 * n : Nat) : Int) := by rw [hlen]; push_cast; rfl
  subst hl
  obtain ⟨hbytes, -, -, -⟩ := alac_encode_bytes dst raw n
  have hlt := framesBytes_lt raw n hraw
  have key : ∀ i, i < 4 * n →
      ((alac_encode dst raw ((4 * n : Nat) : Int)).mem (2 + i) % 2) * 128
        + (alac_encode dst raw ((4 * n : Nat) : Int)).mem (3 + i) / 2
        = (framesBytes raw 0 n).getD i 0 := by
    intro i hi
    have g1 := readBytes_getD (alac_encode dst raw ((4 * n : Nat) : Int)).mem 0 (4 * n + 3)
      (2 + i) (by omega)
    have g2 := readBytes_getD (alac_encode dst raw ((4 * n : Nat) : Int)).mem 0 (4 * n + 3)
      (3 + i) (by omega)
    rw [hbytes] at g1 g2
    rw [Nat.zero_add] at g1 g2
    rw [← g1, ← g2]
    have e3 : 3 + i = 2 + (i + 1) := by omega
    rw [e3, List.getD_append_right _ _ _ _ (by simp), List.getD_append_right _ _ _ _ (by simp)]
    simp only [List.length_cons, List.length_nil, Nat.add_sub_cancel_left]
    exact shifted_getD (framesBytes raw 0 n) 2 i (by omega) (by omega) hlt
      (by rw [framesBytes_length]; exact hi)
  have f := fun j (hj : j < 4) => framesBytes_getD raw n 0 k j hk hj
  have k0 := key (4 * k + 0) (by omega)
  have k1 := key (4 * k + 1) (by omega)
  have k2 := key (4 * k + 2) (by omega)
  have k3 := key (4 * k + 3) (by omega)
  rw [f 0 (by omega)] at k0
  rw [f 1 (by omega)] at k1
  rw [f 2 (by omega)] at k2
  rw [f 3 (by omega)] at k3
  simp only [frameBytes, Nat.zero_add, List.getD_cons_zero, List.getD_cons_succ] at k0 k1 k2 k3
  simp only [List.range_succ, List.range_zero, List.nil_append, List.cons_append, List.map_cons,
    List.map_nil]
  have a0 : 3 + 4 * k + 0 - 1 = 2 + (4 * k + 0) := by omega
  have a1 : 3 + 4 * k + 1 - 1 = 2 + (4 * k + 1) := by omega
  have a2 : 3 + 4 * k + 2 - 1 = 2 + (4 * k + 2) := by omega
  have a3 : 3 + 4 * k + 3 - 1 = 2 + (4 * k + 3) := by omega
  have b0 : 3 + 4 * k + 0 = 3 + (4 * k + 0) := by omega
  have b1 : 3 + 4 * k + 1 = 3 + (4 * k + 1) := by omega
  have b2 : 3 + 4 * k + 2 = 3 + (4 * k + 2) := by omega
  have b3 : 3 + 4 * k + 3 = 3 + (4 * k + 3) := by omega
  rw [a0, a1, a2, a3, b0, b1, b2, b3, k0, k1, k2, k3]

/-- Witness for `alac_encode_frame_shifted`: the one-frame buffer `34 12 78 56`. -/
theorem alac_encode_frame_shifted_witness :
    ((4 : Int) = 4 * ((1 : Nat) : Int)) ∧ (0 < 1) ∧
    (∀ i, i < 4 * 1 → Mem.ofList [0x34, 0x12, 0x78, 0x56] i < 256) ∧
    (List.range 4).map (fun j =>
        ((alac_encode (fun _ => 0xff) (Mem.ofList [0x34, 0x12, 0x78, 0x56]) 4).mem
            (3 + 4 * 0 + j - 1) % 2) * 128
          + (alac_encode (fun _ => 0xff) (Mem.ofList [0x34, 0x12, 0x78, 0x56]) 4).mem
            (3 + 4 * 0 + j) / 2)
      = [Mem.ofList [0x34, 0x12, 0x78, 0x56] (4 * 0 + 1),
         Mem.ofList [0x34, 0x12, 0x78, 0x56] (4 * 0),
         Mem.ofList [0x34, 0x12, 0x78, 0x56] (4 * 0 + 3),
         Mem.ofList [0x34, 0x12, 0x78, 0x56] (4 * 0 + 2)] :=
  ⟨by decide, by decide, by decide,
    alac_encode_frame_shifted (fun _ => 0xff) (Mem.ofList [0x34, 0x12, 0x78, 0x56]) 4 1 0
      (by decide) (by decide) (by decide)⟩

/-- C2: for a PCM buffer of `n` frames of bytes (`len = 4 n`) and any prior
content of `dst`, the `len + 3` bytes `dst[0 .. len + 2]` after `alac_encode`,
read MSB-first, are the 23 header bits (fields 1, 0, 0, 0, 0, 0, 1 of widths
3, 4, 8, 4, 1, 2, 1), then for each frame `k` the bytes `raw[4k+1]`, `raw[4k]`,
`raw[4k+3]`, `raw[4k+2]`, then one 0 bit; the writer ends in byte `len + 2` with
one bit unused, and no byte from offset `len + 3` on is changed. -/
theorem alac_encode_bitstream (dst raw : Mem) (len : Int) (n : Nat)
    (hlen : len = 4 * (n : Int)) (hraw : ∀ i, i < 4 * n → raw i < 256) :
    bitsOf (readBytes (alac_encode dst raw len).mem 0 (4 * n + 3))
      = fieldBits 1 3 ++ fieldBits 0 4 ++ fieldBits 0 8 ++ fieldBits 0 4 ++ fieldBits 0 1
          ++ fieldBits 0 2 ++ fieldBits 1 1
          ++ (List.range n).flatMap (fun k =>
              fieldBits (raw (4 * k + 1)) 8 ++ fieldBits (raw (4 * k)) 8 ++
              fieldBits (raw (4 * k + 3)) 8 ++ fieldBits (raw (4 * k + 2)) 8)
          ++ [false] ∧
    (alac_encode dst raw len).p = 4 * n + 2 ∧ (alac_encode dst raw len).bpos = 7 ∧
    ∀ a, 4 * n + 3 ≤ a → (alac_encode dst raw len).mem a = dst a := by
  have hl : len = ((4 * n : Nat) : Int) := by rw [hlen]; push_cast; rfl
  subst hl
  obtain ⟨hbytes, hp, hb, hrest⟩ := alac_encode_bytes dst raw n
  refine ⟨?_, hp, hb, hrest⟩
  rw [hbytes]
  have h2 : bitsOf ([0x20, 0x00] ++ shifted 2 (framesBytes raw 0 n))
      = bitsOf [0x20, 0x00] ++ bitsOf (shifted 2 (framesBytes raw 0 n)) := by
    simp [bitsOf]
  rw [h2, bitsOf_shifted _ 2 (by omega) (by omega) (framesBytes_lt raw n hraw),
    bitsOf_framesBytes]
  have h3 : bitsOf [0x20, 0x00] ++ (fieldBits 2 8).take 7
      = fieldBits 1 3 ++ fieldBits 0 4 ++ fieldBits 0 8 ++ fieldBits 0 4 ++ fieldBits 0 1
          ++ fieldBits 0 2 ++ fieldBits 1 1 := by decide
  rw [← h3]
  simp only [List.append_assoc]

/-- Witness for `alac_encode_bitstream`: the one-frame buffer `34 12 78 56`
written over a destination full of `ff`. -/
theorem alac_encode_bitstream_witness :
    ((4 : Int) = 4 * ((1 : Nat) : Int)) ∧
    (∀ i, i < 4 * 1 → Mem.ofList [0x34, 0x12, 0x78, 0x56] i < 256) ∧
    bitsOf (readBytes (alac_encode (fun _ => 0xff)
        (Mem.ofList [0x34, 0x12, 0x78, 0x56]) 4).mem 0 (4 * 1 + 3))
      = fieldBits 1 3 ++ fieldBits 0 4 ++ fieldBits 0 8 ++ fieldBits 0 4 ++ fieldBits 0 1
          ++ fieldBits 0 2 ++ fieldBits 1 1
          ++ (List.range 1).flatMap (fun k =>
              fieldBits (Mem.ofList [0x34, 0x12, 0x78, 0x56] (4 * k + 1)) 8 ++
              fieldBits (Mem.ofList [0x34, 0x12, 0x78, 0x56] (4 * k)) 8 ++
              fieldBits (Mem.ofList [0x34, 0x12, 0x78, 0x56] (4 * k + 3)) 8 ++
              fieldBits (Mem.ofList [0x34, 0x12, 0x78, 0x56] (4 * k + 2)) 8)
          ++ [false] :=
  ⟨by decide, by decide,
    (alac_encode_bitstream (fun _ => 0xff) (Mem.ofList [0x34, 0x12, 0x78, 0x56]) 4 1
      (by decide) (by decide)).1⟩


/-! ## Claim C3: packet encryption -/

theorem memcpy_read (m : Mem) (off : Nat) (src : List Nat) :
    readBytes (memcpy m off src) off src.length = src := by
  apply List.ext_getElem
  · simp [readBytes]
  · intro i h1 h2
    simp only [readBytes, List.length_map, List.length_range] at h1
    simp [readBytes, memcpy, h1, List.getD_eq_getElem?_getD, List.getElem?_eq_getElem h2]

theorem memcpy_read_before (m : Mem) (off : Nat) (src : List Nat) (s n : Nat) (h : s + n ≤ off) :
    readBytes (memcpy m off src) s n = readBytes m s n := by
  apply readBytes_congr
  intro a _ h2
  have : ¬ (off ≤ a ∧ a < off + src.length) := by omega
  simp [memcpy, this]

theorem packet_nonce_eq (be : Bool) (s : Nat) :
    packet_nonce be s = [0, 0, 0, 0] ++ stored_u16 be s ++ [0, 0, 0, 0, 0, 0] := by
  cases be <;>
    simp [packet_nonce, readBytes, memcpy, stored_u16, Mem.ofList, List.range_succ,
      List.replicate]

/-- The bytes of a successful `packet_encrypt`, for a cipher that returns
`c`, `t` of the sizes asked for. -/
theorem packet_encrypt_some (aead : Aead) (be : Bool) (heap : Mem) (pkt : rtp_packet)
    (key c t : List Nat)
    (hdata : pkt.data_len = pkt.header.length + pkt.payload.length)
    (hc : c.length = pkt.payload.length) (ht : t.length = 16)
    (h : aead key (packet_nonce be pkt.seqnum) ((pkt.header.drop 4).take 8) pkt.payload
          = some (c, t)) :
    packet_encrypt aead be heap pkt key
      = some (pkt.header ++ c ++ t ++ (packet_nonce be pkt.seqnum).drop 4) := by
  have hn : ((packet_nonce be pkt.seqnum).drop 4).length = 8 := by
    rw [packet_nonce_eq]; cases be <;> simp [stored_u16]
  simp only [packet_encrypt, h, hdata]
  congr 1
  have e : pkt.header.length + pkt.payload.length + 16 + 12 - 4
      = pkt.header.length + (c.length + (t.length + ((packet_nonce be pkt.seqnum).drop 4).length))
      := by omega
  rw [e, readBytes_add, readBytes_add, readBytes_add, Nat.zero_add]
  have e1 : pkt.header.length + pkt.payload.length = pkt.header.length + c.length := by omega
  have e2 : pkt.header.length + c.length + 16 = pkt.header.length + c.length + t.length := by
    omega
  rw [e1, e2]
  have r1 : ∀ m : Mem, readBytes (memcpy (memcpy (memcpy (memcpy m 0 pkt.header)
      pkt.header.length c) (pkt.header.length + c.length) t)
      (pkt.header.length + c.length + t.length) ((packet_nonce be pkt.seqnum).drop 4))
      0 pkt.header.length = pkt.header := by
    intro m
    rw [memcpy_read_before _ _ _ _ _ (by omega), memcpy_read_before _ _ _ _ _ (by omega),
      memcpy_read_before _ _ _ _ _ (by omega)]
    exact memcpy_read m 0 pkt.header
  have r2 : ∀ m : Mem, readBytes (memcpy (memcpy (memcpy m
      pkt.header.length c) (pkt.header.length + c.length) t)
      (pkt.header.length + c.length + t.length) ((packet_nonce be pkt.seqnum).drop 4))
      pkt.header.length c.length = c := by
    intro m
    rw [memcpy_read_before _ _ _ _ _ (by omega), memcpy_read_before _ _ _ _ _ (by omega)]
    exact memcpy_read m _ c
  have r3 : ∀ m : Mem, readBytes (memcpy (memcpy m (pkt.header.length + c.length) t)
      (pkt.header.length + c.length + t.length) ((packet_nonce be pkt.seqnum).drop 4))
      (pkt.header.length + c.length) t.length = t := by
    intro m
    rw [memcpy_read_before _ _ _ _ _ (by omega)]
    exact memcpy_read m _ t
  rw [r1, r2, r3, memcpy_read]
  simp only [List.append_assoc]

theorem toyAead_sized : Aead.sized toyAead := by
  intro key nonce ad plain c t h
  simp only [toyAead, Option.some.injEq, Prod.mk.injEq] at h
  obtain ⟨h1, h2⟩ := h
  subst h1 h2
  simp

/-- C3: for a packet with header `H` of at least 12 bytes, payload `P`,
`data_len = header_len + payload_len`, sequence number `s` and a 32-byte key,
`packet_encrypt` fails exactly when the cipher fails, and when it succeeds its
output is `H`, then the ChaCha20-Poly1305 ciphertext of `P` under the nonce
`00 00 00 00 | s as stored | 00 00 00 00 00 00` with associated data `H[4..12)`,
then the 16-byte tag, then the last 8 bytes of the nonce:
`header_len + payload_len + 24` bytes. -/
theorem packet_encrypt_layout (aead : Aead) (haead : aead.sized) (be : Bool) (heap : Mem)
    (pkt : rtp_packet) (key : List Nat) (hkey : key.length = 32)
    (hhdr : 12 ≤ pkt.header.length)
    (hdata : pkt.data_len = pkt.header.length + pkt.payload.length) :
    packet_nonce be pkt.seqnum = [0, 0, 0, 0] ++ stored_u16 be pkt.seqnum ++ [0, 0, 0, 0, 0, 0] ∧
    ((pkt.header.drop 4).take 8).length = 8 ∧
    (aead key (packet_nonce be pkt.seqnum) ((pkt.header.drop 4).take 8) pkt.payload = none →
      packet_encrypt aead be heap pkt key = none) ∧
    ∀ c t, aead key (packet_nonce be pkt.seqnum) ((pkt.header.drop 4).take 8) pkt.payload
        = some (c, t) →
      packet_encrypt aead be heap pkt key
        = some (pkt.header ++ c ++ t ++ (packet_nonce be pkt.seqnum).drop 4) ∧
      c.length = pkt.payload.length ∧ t.length = 16 ∧
      ((packet_nonce be pkt.seqnum).drop 4).length = 8 ∧
      (pkt.header ++ c ++ t ++ (packet_nonce be pkt.seqnum).drop 4).length
        = pkt.header.length + pkt.payload.length + 24 := by
  have _ := hkey
  have hn : ((packet_nonce be pkt.seqnum).drop 4).length = 8 := by
    rw [packet_nonce_eq]; cases be <;> simp [stored_u16]
  refine ⟨packet_nonce_eq be pkt.seqnum, ?_, ?_, ?_⟩
  · simp only [List.length_take, List.length_drop]; omega
  · intro h
    simp [packet_encrypt, h]
  · intro c t h
    obtain ⟨hc, ht⟩ := haead _ _ _ _ _ _ h
    refine ⟨packet_encrypt_some aead be heap pkt key c t hdata hc ht h, hc, ht, hn, ?_⟩
    simp only [List.length_append, hn, hc, ht]

/-- Witness for `packet_encrypt_layout`: a 12-byte header, a 2-byte payload,
sequence number `0x0102` and a key of 32 zero bytes under the stand-in cipher. -/
theorem packet_encrypt_layout_witness :
    packet_encrypt toyAead false (fun _ => 0xaa)
        { seqnum := 0x0102, samples := 352, header := [0x80, 0x60, 1, 2, 0, 0, 0, 9, 5, 6, 7, 8],
          payload := [0x10, 0xff], data_len := 14 } (List.replicate 32 0)
      = some ([0x80, 0x60, 1, 2, 0, 0, 0, 9, 5, 6, 7, 8] ++ [0x11, 0x00]
          ++ List.replicate 16 32 ++ [2, 1, 0, 0, 0, 0, 0, 0]) :=
  ((packet_encrypt_layout toyAead toyAead_sized false (fun _ => 0xaa)
      { seqnum := 0x0102, samples := 352, header := [0x80, 0x60, 1, 2, 0, 0, 0, 9, 5, 6, 7, 8],
        payload := [0x10, 0xff], data_len := 14 } (List.replicate 32 0)
      (by decide) (by decide) (by decide)).2.2.2 [0x11, 0x00] (List.replicate 16 32)
      (by decide)).1


/-! ## Claim C5: sequence numbers and RTP timestamps of consecutive packets -/

theorem be32_decode_be32 (x : Nat) (h : x < 2 ^ 32) : be32_decode (be32 x) = x := by
  simp only [be32, be32_decode]
  norm_num at h ⊢
  omega

theorem rtp_chain_take (l : List rtp_packet) : ∀ n, rtp_chain l → rtp_chain (l.take n) := by
  induction l with
  | nil => intro n _; simp [rtp_chain]
  | cons p2 l ih =>
    intro n h
    cases n with
    | zero => simp [rtp_chain]
    | succ n =>
      cases l with
      | nil => simp [rtp_chain]
      | cons p1 rest =>
        cases n with
        | zero => simp [rtp_chain]
        | succ n =>
          have h2 := ih (n + 1) h.2
          simp only [List.take_succ_cons] at h2 ⊢
          exact ⟨h.1, h2⟩

theorem packets_send_loop_pkt (rms_id : Nat) (sessions : List airplay_session) :
    ∀ (pkt : rtp_packet) (sys : Sys),
      (packets_send_loop rms_id sessions pkt sys).2.1.seqnum = pkt.seqnum ∧
      (packets_send_loop rms_id sessions pkt sys).2.1.samples = pkt.samples ∧
      (packets_send_loop rms_id sessions pkt sys).2.1.payload = pkt.payload ∧
      (packets_send_loop rms_id sessions pkt sys).2.1.data_len = pkt.data_len ∧
      (packets_send_loop rms_id sessions pkt sys).2.1.header.length = pkt.header.length ∧
      (packets_send_loop rms_id sessions pkt sys).2.1.header.drop 2 = pkt.header.drop 2 := by
  induction sessions with
  | nil => intro pkt sys; simp [packets_send_loop]
  | cons rs rest ih =>
    intro pkt sys
    simp only [packets_send_loop]
    split
    · exact ih pkt sys
    · split
      · obtain ⟨h1, h2, h3, h4, h5, h6⟩ := ih
          (pkt.set_header1 (((1 <<< 7) ||| RAOP_RTP_PAYLOADTYPE) % 256))
          (packet_send rs (pkt.set_header1 (((1 <<< 7) ||| RAOP_RTP_PAYLOADTYPE) % 256)) sys).2.2
        refine ⟨h1, h2, h3, h4, ?_, ?_⟩
        · rw [h5]; simp [rtp_packet.set_header1]
        · rw [h6]; simp [rtp_packet.set_header1, List.drop_set]
      · split
        · obtain ⟨h1, h2, h3, h4, h5, h6⟩ := ih (pkt.set_header1 RAOP_RTP_PAYLOADTYPE)
            (packet_send rs (pkt.set_header1 RAOP_RTP_PAYLOADTYPE) sys).2.2
          refine ⟨h1, h2, h3, h4, ?_, ?_⟩
          · rw [h5]; simp [rtp_packet.set_header1]
          · rw [h6]; simp [rtp_packet.set_header1, List.drop_set]
        · exact ih pkt sys

/-- What `packets_send` does to the master session: one packet, stamped with the
sequence number and position the session had, is committed; nothing else of the
master session changes. -/
theorem packets_send_commit (rms : airplay_master_session) (sessions : List airplay_session)
    (sys : Sys) (hpos : rms.rtp_session.pos < 2 ^ 32) :
    ∃ pkt : rtp_packet,
      (packets_send rms sessions sys).1
        = { rms with rtp_session := rtp_packet_commit rms.rtp_session pkt } ∧
      pkt.seqnum = rms.rtp_session.seqnum ∧ pkt.rtptime = rms.rtp_session.pos ∧
      pkt.samples = rms.samples_per_packet.toNat := by
  obtain ⟨h1, h2, -, -, -, h6⟩ := packets_send_loop_pkt rms.id sessions
    (packets_send_packet rms) sys
  refine ⟨_, rfl, h1, ?_, h2⟩
  have hd : ∀ l : List Nat, (l.drop 4).take 4 = (((l.drop 2).drop 2).take 4) := by
    intro l; simp
  rw [rtp_packet.rtptime, hd, h6]
  have : (((packets_send_packet rms).header.drop 2).drop 2).take 4
      = be32 rms.rtp_session.pos := by
    simp [packets_send_packet, rtp_packet_next, be32]
  rw [this]
  exact be32_decode_be32 _ hpos

theorem rtp_packet_commit_consistent (r : rtp_session) (pkt : rtp_packet)
    (h : r.consistent) (h1 : pkt.seqnum = r.seqnum) (h2 : pkt.rtptime = r.pos)
    (h3 : pkt.samples = 352) : (rtp_packet_commit r pkt).consistent := by
  obtain ⟨hs, hp, hc, hh⟩ := h
  refine ⟨Nat.mod_lt _ (by norm_num), Nat.mod_lt _ (by norm_num), ?_, ?_⟩
  · apply rtp_chain_take
    cases hl : r.pktbuf with
    | nil => simp [rtp_chain]
    | cons p1 rest =>
      rw [hl] at hc
      obtain ⟨e1, e2⟩ := hh p1 (by rw [hl]; rfl)
      exact ⟨⟨by rw [h1, e1], by rw [h2, e2]⟩, hc⟩
  · intro p hp2
    simp only [rtp_packet_commit, List.head?_take] at hp2
    split at hp2
    · simp at hp2
    · simp only [List.head?_cons, Option.some.injEq] at hp2
      subst hp2
      simp only [rtp_packet_commit, h1, h2, h3]
      exact ⟨trivial, trivial⟩

theorem packets_send_consistent (rms : airplay_master_session) (sessions : List airplay_session)
    (sys : Sys) (h : rms.consistent) : (packets_send rms sessions sys).1.consistent := by
  obtain ⟨pkt, e, h1, h2, h3⟩ := packets_send_commit rms sessions sys h.2.2.1
  rw [e]
  refine ⟨h.1, rtp_packet_commit_consistent _ pkt h.2 h1 h2 ?_⟩
  rw [h3, h.1]
  rfl

theorem airplay_write_drain_consistent (fuel : Nat) : ∀ (rms : airplay_master_session)
    (sessions : List airplay_session) (sys : Sys), rms.consistent →
    (airplay_write_drain fuel rms sessions sys).1.consistent := by
  induction fuel with
  | zero => intro rms sessions sys h; exact h
  | succ fuel ih =>
    intro rms sessions sys h
    simp only [airplay_write_drain]
    split
    · apply ih
      apply packets_send_consistent
      exact h
    · exact h

theorem airplay_write_data_consistent (pts : timespec) (data : List output_data) :
    ∀ (rms : airplay_master_session) (sessions : List airplay_session) (sys : Sys),
    rms.consistent → (airplay_write_data pts data rms sessions sys).1.consistent := by
  induction data with
  | nil => intro rms sessions sys h; exact h
  | cons d rest ih =>
    intro rms sessions sys h
    simp only [airplay_write_data]
    split
    · exact ih rms sessions sys h
    · apply ih
      apply airplay_write_drain_consistent
      exact h

theorem airplay_write_masters_consistent (obuf : output_buffer)
    (masters : List airplay_master_session) :
    ∀ (sessions : List airplay_session) (sys : Sys),
    (∀ m ∈ masters, m.consistent) →
    ∀ m ∈ (airplay_write_masters obuf masters sessions sys).1, m.consistent := by
  induction masters with
  | nil => intro sessions sys _ m hm; simp [airplay_write_masters] at hm
  | cons rms rest ih =>
    intro sessions sys h m hm
    simp only [airplay_write_masters, List.mem_cons] at hm
    rcases hm with hm | hm
    · rw [hm]
      exact airplay_write_data_consistent _ _ _ _ _ (h rms (List.mem_cons_self _ _))
    · exact ih _ _ (fun x hx => h x (List.mem_cons_of_mem _ hx)) m hm


/-- C5 (as stated, refuted): two consecutive calls of `packets_send` on a master
session at sequence number 65535 and position `2^32 - 100` emit a first packet
with RTP timestamp `4294967196` and a second one with RTP timestamp `252`, which
is not the first plus 352: the timestamp is a 32-bit counter and wraps, as the
sequence number does (65535, then 0). -/
theorem rtptime_wraps_at_32_bits :
    (packets_send (packets_send (exampleMaster 65535 (2 ^ 32 - 100)) [] (exampleSys 0)).1 []
        (exampleSys 0)).1.rtp_session.pktbuf.map (fun p => (p.seqnum, p.rtptime))
      = [(0, 252), (65535, 4294967196)] ∧
    (252 : Nat) ≠ 4294967196 + 352 := by
  decide


theorem exampleMaster_consistent (seqnum pos : Nat) (h1 : seqnum < 2 ^ 16) (h2 : pos < 2 ^ 32) :
    (exampleMaster seqnum pos).consistent :=
  ⟨rfl, h1, h2, trivial, fun _ hp => Option.noConfusion hp⟩

/-- C5 (amended): as long as every master session is consistent (352 samples per
packet, counters in range, every packet of the retransmit ring following the one
before it with `seqnum + 1 mod 2^16` and `rtptime + 352 mod 2^32`, the session
counters following the newest packet), `airplay_write` keeps it so, within one
write and hence across writes; and every call of `packets_send` frames one
packet with the sequence number and position of the RTP session, of 352
samples, and commits it once. -/
theorem consecutive_packets_follow (obuf : output_buffer) (a : Audio)
    (h : ∀ m ∈ a.airplay_master_sessions, m.consistent) :
    (∀ m ∈ (airplay_write obuf a).airplay_master_sessions, m.consistent) ∧
    ∀ m ∈ a.airplay_master_sessions, ∀ (sessions : List airplay_session) (sys : Sys),
      (packets_send m sessions sys).1.consistent ∧
      ∃ pkt : rtp_packet,
        (packets_send m sessions sys).1
          = { m with rtp_session := rtp_packet_commit m.rtp_session pkt } ∧
        pkt.seqnum = m.rtp_session.seqnum ∧ pkt.rtptime = m.rtp_session.pos ∧
        pkt.samples = 352 := by
  constructor
  · intro m hm
    simp only [airplay_write] at hm
    exact airplay_write_masters_consistent obuf _ _ _ h m hm
  · intro m hm sessions sys
    refine ⟨packets_send_consistent m sessions sys (h m hm), ?_⟩
    obtain ⟨pkt, e, h1, h2, h3⟩ := packets_send_commit m sessions sys (h m hm).2.2.1
    refine ⟨pkt, e, h1, h2, ?_⟩
    rw [h3, (h m hm).1]
    rfl

/-- Witness for `consecutive_packets_follow`: a fresh master session about to
wrap both counters, given two packets of samples. -/
theorem consecutive_packets_follow_witness :
    (∀ m ∈ [exampleMaster 65535 (2 ^ 32 - 100)], m.consistent) ∧
    (∀ m ∈ (airplay_write (exampleBuffer 704)
        { airplay_master_sessions := [exampleMaster 65535 (2 ^ 32 - 100)],
          airplay_sessions := [], keep_alive_pending := false,
          sys := exampleSys 0 }).airplay_master_sessions, m.consistent) :=
  ⟨fun m hm => by
      rw [List.mem_singleton] at hm
      rw [hm]
      exact exampleMaster_consistent _ _ (by decide) (by decide),
   (consecutive_packets_follow (exampleBuffer 704)
      { airplay_master_sessions := [exampleMaster 65535 (2 ^ 32 - 100)],
        airplay_sessions := [], keep_alive_pending := false, sys := exampleSys 0 }
      (fun m hm => by
        rw [List.mem_singleton] at hm
        rw [hm]
        exact exampleMaster_consistent _ _ (by decide) (by decide))).1⟩


/-! ## Claim C4: retransmitted packets -/

/-- A `packet_send` whose cipher and `send` both succeed: the session is
unchanged, one `send` is traced, and byte 1 of what is sent is byte 1 of the
packet's header. -/
theorem packet_send_ok (rs : airplay_session) (pkt : rtp_packet) (sys : Sys)
    (hsized : sys.aead.sized) (henc : ∀ key nonce ad plain, (sys.aead key nonce ad plain).isSome)
    (hsend : ∀ n, 0 ≤ (sys.ext n).ret)
    (hhdr : 2 ≤ pkt.header.length)
    (hdata : pkt.data_len = pkt.header.length + pkt.payload.length) :
    ∃ bytes ret,
      (packet_send rs pkt sys).2.1 = rs ∧
      (packet_send rs pkt sys).2.2
        = { sys with tick := sys.tick + 1, log := sys.log ++ [.data_send rs.ptr bytes ret] } ∧
      bytes.getD 1 0 = pkt.header.getD 1 0 := by
  have h1 := henc (rs.shared_secret.getD (List.replicate 32 0))
    (packet_nonce sys.big_endian_host pkt.seqnum) ((pkt.header.drop 4).take 8) pkt.payload
  obtain ⟨⟨c, t⟩, hct⟩ := Option.isSome_iff_exists.mp h1
  obtain ⟨hc, ht⟩ := hsized _ _ _ _ _ _ hct
  have he := packet_encrypt_some sys.aead sys.big_endian_host (fun _ => 0) pkt
    (rs.shared_secret.getD (List.replicate 32 0)) c t hdata hc ht hct
  have hret : ¬ (sys.ext sys.tick).ret < 0 := not_lt.mpr (hsend _)
  refine ⟨pkt.header ++ c ++ t ++ (packet_nonce sys.big_endian_host pkt.seqnum).drop 4,
    (sys.ext sys.tick).ret, ?_, ?_, ?_⟩
  · simp only [packet_send, he, Sys.call, Sys.emit, hret, if_false]
    split <;> rfl
  · simp only [packet_send, he, Sys.call, Sys.emit, hret, if_false]
    split <;> rfl
  · rw [List.append_assoc, List.append_assoc, List.getD_append _ _ _ _ (by omega)]

theorem packets_send_packet_header (rms : airplay_master_session) :
    (packets_send_packet rms).header.length = 12 ∧
    (packets_send_packet rms).data_len
      = (packets_send_packet rms).header.length + (packets_send_packet rms).payload.length ∧
    (packets_send_packet rms).seqnum = rms.rtp_session.seqnum := by
  simp [packets_send_packet, rtp_packet_next, be32, readBytes_length]

/-- C4 (what the code does at the failing input): with two sessions on one
master session, the newer one (first in `airplay_sessions`) just CONNECTED and
the other STREAMING, and a cipher and `send` that succeed, `packets_send` sends
the first session a packet whose header byte 1 is `0xe0` (marker bit set), and
the retransmission of that sequence number by `packets_resend` sends the same
session a packet whose header byte 1 is `0x60`: the bytes differ. -/
theorem resend_differs_from_first_send (sys : Sys) (rms : airplay_master_session)
    (rsB rsA : airplay_session)
    (hB : rsB.master_session = some rms.id) (hBs : rsB.state = .CONNECTED)
    (hA : rsA.master_session = some rms.id) (hAs : rsA.state = .STREAMING)
    (hsized : sys.aead.sized) (henc : ∀ key nonce ad plain, (sys.aead key nonce ad plain).isSome)
    (hsend : ∀ n, 0 ≤ (sys.ext n).ret) (hring : 0 < rms.rtp_session.pktbuf_size) :
    ∃ b1 bA b2 r1 rA r2,
      (packets_send rms [rsB, rsA] sys).2.1 = [rsB, rsA] ∧
      (packets_send rms [rsB, rsA] sys).2.2.log
        = sys.log ++ [.data_send rsB.ptr b1 r1, .data_send rsA.ptr bA rA] ∧
      (packets_resend (packets_send rms [rsB, rsA] sys).1.rtp_session rsB
          rms.rtp_session.seqnum 1 (packets_send rms [rsB, rsA] sys).2.2).2.log
        = sys.log ++ [.data_send rsB.ptr b1 r1, .data_send rsA.ptr bA rA,
            .data_send rsB.ptr b2 r2] ∧
      b1.getD 1 0 = 0xe0 ∧ b2.getD 1 0 = 0x60 ∧ b1 ≠ b2 := by
  obtain ⟨hl, hd, hs⟩ := packets_send_packet_header rms
  -- first session: marker bit
  have hl1 : ((packets_send_packet rms).set_header1 (((1 <<< 7) ||| RAOP_RTP_PAYLOADTYPE) % 256)
      ).header.length = 12 := by simp [rtp_packet.set_header1, hl]
  obtain ⟨b1, r1, e1, f1, g1⟩ := packet_send_ok rsB
    ((packets_send_packet rms).set_header1 (((1 <<< 7) ||| RAOP_RTP_PAYLOADTYPE) % 256)) sys
    hsized henc hsend (by omega) (by simp [rtp_packet.set_header1, hd])
  -- second session: plain payload type, written into the same packet
  obtain ⟨bA, rA, eA, fA, gA⟩ := packet_send_ok rsA
    (((packets_send_packet rms).set_header1 (((1 <<< 7) ||| RAOP_RTP_PAYLOADTYPE) % 256)
      ).set_header1 RAOP_RTP_PAYLOADTYPE)
    { sys with tick := sys.tick + 1, log := sys.log ++ [.data_send rsB.ptr b1 r1] }
    hsized henc hsend (by simp [rtp_packet.set_header1, hl])
    (by simp [rtp_packet.set_header1, hd])
  -- the retransmission reads the packet back from the ring
  obtain ⟨b2, r2, e2, f2, g2⟩ := packet_send_ok rsB
    (((packets_send_packet rms).set_header1 (((1 <<< 7) ||| RAOP_RTP_PAYLOADTYPE) % 256)
      ).set_header1 RAOP_RTP_PAYLOADTYPE)
    { sys with tick := sys.tick + 1 + 1,
               log := sys.log ++ [.data_send rsB.ptr b1 r1] ++ [.data_send rsA.ptr bA rA] }
    hsized henc hsend (by simp [rtp_packet.set_header1, hl])
    (by simp [rtp_packet.set_header1, hd])
  have hBm : ¬ rsB.master_session ≠ some rms.id := by simp [hB]
  have hAm : ¬ rsA.master_session ≠ some rms.id := by simp [hA]
  have hAc : ¬ rsA.state = .CONNECTED := by simp [hAs]
  dsimp only at fA f2
  have hps : packets_send rms [rsB, rsA] sys =
      ({ rms with
          rtp_session := rtp_packet_commit rms.rtp_session
            (((packets_send_packet rms).set_header1
              (((1 <<< 7) ||| RAOP_RTP_PAYLOADTYPE) % 256)).set_header1 RAOP_RTP_PAYLOADTYPE) },
       [rsB, rsA],
       { sys with
          tick := sys.tick + 1 + 1,
          log := sys.log ++ [.data_send rsB.ptr b1 r1] ++ [.data_send rsA.ptr bA rA] })
      := by
    simp only [packets_send, packets_send_loop, hBm, hBs, hAm, hAs, if_true, if_false,
      reduceCtorEq]
    rw [f1, e1, fA, eA]
  have hget : rtp_packet_get (rtp_packet_commit rms.rtp_session
        (((packets_send_packet rms).set_header1 (((1 <<< 7) ||| RAOP_RTP_PAYLOADTYPE) % 256)
          ).set_header1 RAOP_RTP_PAYLOADTYPE)) rms.rtp_session.seqnum
      = some (((packets_send_packet rms).set_header1
          (((1 <<< 7) ||| RAOP_RTP_PAYLOADTYPE) % 256)).set_header1 RAOP_RTP_PAYLOADTYPE) := by
    obtain ⟨n, hn⟩ : ∃ n, rms.rtp_session.pktbuf_size = n + 1 :=
      ⟨rms.rtp_session.pktbuf_size - 1, by omega⟩
    simp [rtp_packet_get, rtp_packet_commit, hn, List.take_succ_cons, rtp_packet.set_header1, hs]
  have h1 : b1.getD 1 0 = 0xe0 := by
    rw [g1]
    simp only [rtp_packet.set_header1]
    rw [List.getD_eq_getElem _ _ (by simp [hl])]
    simp [RAOP_RTP_PAYLOADTYPE]
  have h2 : b2.getD 1 0 = 0x60 := by
    rw [g2]
    simp only [rtp_packet.set_header1]
    rw [List.getD_eq_getElem _ _ (by simp [hl])]
    simp [RAOP_RTP_PAYLOADTYPE]
  refine ⟨b1, bA, b2, r1, rA, r2, ?_, ?_, ?_, h1, h2, ?_⟩
  · rw [hps]
  · rw [hps]; simp
  · rw [hps]
    simp only [packets_resend, Int.toNat_one, packets_resend_loop, hget]
    rw [f2]
    simp
  · intro h
    rw [h, h2] at h1
    exact absurd h1 (by decide)

/-- Witness for `resend_differs_from_first_send`: the sessions of two devices on
a fresh master session, under the stand-in cipher, every `send` returning 36. -/
theorem resend_differs_from_first_send_witness :
    ∃ b1 bA b2 r1 rA r2,
      (packets_send (exampleMaster 7 1000)
          [exampleSession 2 .CONNECTED, exampleSession 1 .STREAMING] (exampleSys 36)).2.1
        = [exampleSession 2 .CONNECTED, exampleSession 1 .STREAMING] ∧
      (packets_send (exampleMaster 7 1000)
          [exampleSession 2 .CONNECTED, exampleSession 1 .STREAMING] (exampleSys 36)).2.2.log
        = (exampleSys 36).log ++ [.data_send (exampleSession 2 .CONNECTED).ptr b1 r1,
            .data_send (exampleSession 1 .STREAMING).ptr bA rA] ∧
      (packets_resend (packets_send (exampleMaster 7 1000)
            [exampleSession 2 .CONNECTED, exampleSession 1 .STREAMING]
            (exampleSys 36)).1.rtp_session (exampleSession 2 .CONNECTED)
          (exampleMaster 7 1000).rtp_session.seqnum 1
          (packets_send (exampleMaster 7 1000)
            [exampleSession 2 .CONNECTED, exampleSession 1 .STREAMING]
            (exampleSys 36)).2.2).2.log
        = (exampleSys 36).log ++ [.data_send (exampleSession 2 .CONNECTED).ptr b1 r1,
            .data_send (exampleSession 1 .STREAMING).ptr bA rA,
            .data_send (exampleSession 2 .CONNECTED).ptr b2 r2] ∧
      b1.getD 1 0 = 0xe0 ∧ b2.getD 1 0 = 0x60 ∧ b1 ≠ b2 :=
  resend_differs_from_first_send (exampleSys 36) (exampleMaster 7 1000)
    (exampleSession 2 .CONNECTED) (exampleSession 1 .STREAMING) rfl rfl rfl rfl
    toyAead_sized (fun _ _ _ _ => rfl) (fun _ => (by decide : (0 : Int) ≤ 36)) (by decide)


/-! ## Claim C7: the first packets to a session that joins -/

set_option maxRecDepth 100000 in
/-- C7 (what the code does at the failing input): a write of 100 samples (400
bytes, less than the 1408 bytes of a packet) to a master session with nothing
buffered and one session that is CONNECTED sends that session the initial sync
packet (flags `0x90`) and no audio packet at all, and still leaves it
STREAMING. -/
theorem short_write_streams_without_marker_packet :
    (airplay_write (exampleBuffer 100)
        { airplay_master_sessions := [exampleMaster 7 1000],
          airplay_sessions := [exampleSession 1 .CONNECTED],
          keep_alive_pending := false, sys := exampleSys 0 }).airplay_sessions.map
      (fun rs => rs.state) = [.STREAMING] ∧
    (airplay_write (exampleBuffer 100)
        { airplay_master_sessions := [exampleMaster 7 1000],
          airplay_sessions := [exampleSession 1 .CONNECTED],
          keep_alive_pending := false, sys := exampleSys 0 }).sys.log
      = [.control_send 1 { flags := 0x90,
                           cur_stamp := { pos := 1000, ts := { tv_sec := 10, tv_nsec := 0 } },
                           rtptime := 1000 },
         .keep_alive_add] := by
  decide


/-! ## Claim C10: the OPTIONS response handler of START -/

theorem response_header_auth_parse_cases (req : evrtsp_request) (c : Ctl) :
    (∃ realm nonce, response_header_auth_parse req c
      = (0, { c with rs := { c.rs with realm := some realm, nonce := some nonce } })) ∨
    response_header_auth_parse req c
      = (-1, { c with rs := { c.rs with realm := none, nonce := none } }) := by
  unfold response_header_auth_parse
  cases req.www_authenticate with
  | none => exact Or.inr rfl
  | some param =>
    simp only
    split
    · exact Or.inr rfl
    · generalize auth_parse_loop _ _ _ none none = found
      obtain ⟨r, n⟩ := found
      cases r <;> cases n <;> simp


set_option maxRecDepth 100000 in
/-- C10, as the code behaves: the 401 with the challenge
`Digest realm="raop", nonce="dGVzdA=="` to an OPTIONS request that carried no
Authorization header returns START_RERUN and stores the realm `raop`, but the
nonce it stores is `dGVzdA`, not `dGVzdA==` as the challenge has it: the value is
read by `strtok_r` with the delimiters `=` and `"`, which ends it at the first
equals sign. The stored nonce is the one the digest of the next request is
computed from. -/
theorem digest_nonce_is_cut_at_equals_sign :
    (response_handler_options_start
        (exampleResponse 401 (some ("Digest realm=" ++ String.mk [Char.ofNat 34] ++ "raop"
          ++ String.mk [Char.ofNat 34] ++ ", nonce=" ++ String.mk [Char.ofNat 34] ++ "dGVzdA=="
          ++ String.mk [Char.ofNat 34])))
        (exampleCtl none (exampleSession 1 .STARTUP) true 0)).1 = .START_RERUN ∧
    (response_handler_options_start
        (exampleResponse 401 (some ("Digest realm=" ++ String.mk [Char.ofNat 34] ++ "raop"
          ++ String.mk [Char.ofNat 34] ++ ", nonce=" ++ String.mk [Char.ofNat 34] ++ "dGVzdA=="
          ++ String.mk [Char.ofNat 34])))
        (exampleCtl none (exampleSession 1 .STARTUP) true 0)).2.rs.realm
      = some "raop".toList ∧
    (response_handler_options_start
        (exampleResponse 401 (some ("Digest realm=" ++ String.mk [Char.ofNat 34] ++ "raop"
          ++ String.mk [Char.ofNat 34] ++ ", nonce=" ++ String.mk [Char.ofNat 34] ++ "dGVzdA=="
          ++ String.mk [Char.ofNat 34])))
        (exampleCtl none (exampleSession 1 .STARTUP) true 0)).2.rs.nonce
      = some "dGVzdA".toList ∧
    (response_handler_options_start
        (exampleResponse 401 (some ("Digest realm=" ++ String.mk [Char.ofNat 34] ++ "raop"
          ++ String.mk [Char.ofNat 34] ++ ", nonce=" ++ String.mk [Char.ofNat 34] ++ "dGVzdA=="
          ++ String.mk [Char.ofNat 34])))
        (exampleCtl none (exampleSession 1 .STARTUP) true 0)).2.rs.nonce
      ≠ some "dGVzdA==".toList ∧
    (exampleCtl none (exampleSession 1 .STARTUP) true 0).rs.req_has_auth = false := by
  decide

set_option maxRecDepth 100000 in
/-- A 403 to the OPTIONS of START, when the device of the session is no longer
registered (`outputs_device_get` returns `NULL`), returns ABORT, and no
`requires_auth` is set. -/
theorem options_403_without_device_aborts :
    (response_handler_options_start (exampleResponse 403 none)
        (exampleCtl none (exampleSession 1 .STARTUP) true 0)).1 = .ABORT ∧
    (response_handler_options_start (exampleResponse 403 none)
        (exampleCtl none (exampleSession 1 .STARTUP) true 0)).2.device = none := by
  decide

/-- The branches of `response_handler_options_start`: a 401 to a request that
carried no Authorization header returns START_RERUN with the realm and nonce
`response_header_auth_parse` found, and ABORT with both unset when it found none;
a 401 to a request with Authorization header returns ABORT in state PASSWORD; a
403 sets `requires_auth` of the device and returns PIN_START if the device is
still registered and returns ABORT otherwise; a 200 sets the state to OPTIONS
and returns START_AP2; every other response code returns ABORT and changes
nothing. -/
theorem response_handler_options_start_branches (req : evrtsp_request) (c : Ctl) :
    (req.response_code = 401 → c.rs.req_has_auth = false →
      (response_handler_options_start req c
        = (if (response_header_auth_parse req c).1 < 0 then .ABORT else .START_RERUN,
           (response_header_auth_parse req c).2)) ∧
      ((response_handler_options_start req c).1 = .ABORT →
        (response_handler_options_start req c).2.rs.realm = none ∧
        (response_handler_options_start req c).2.rs.nonce = none)) ∧
    (req.response_code = 401 → c.rs.req_has_auth = true →
      response_handler_options_start req c
        = (.ABORT, { c with rs := { c.rs with state := .PASSWORD } })) ∧
    (req.response_code = 403 →
      (∀ device, c.device = some device →
        (response_handler_options_start req c).1 = .PIN_START ∧
        (response_handler_options_start req c).2.device
          = some { device with requires_auth := true }) ∧
      (c.device = none → (response_handler_options_start req c).1 = .ABORT)) ∧
    (req.response_code = 200 →
      (response_handler_options_start req c).1 = .START_AP2 ∧
      (response_handler_options_start req c).2.rs.state = .OPTIONS) ∧
    (req.response_code ≠ 200 → req.response_code ≠ 401 → req.response_code ≠ 403 →
      response_handler_options_start req c = (.ABORT, c)) := by
  refine ⟨?_, ?_, ?_, ?_, ?_⟩
  · intro h401 hauth
    rcases response_header_auth_parse_cases req c with ⟨realm, nonce, hparse⟩ | hparse
    · simp [response_handler_options_start, response_handler_options_generic, h401, hauth,
        RTSP_OK, RTSP_UNAUTHORIZED, RTSP_FORBIDDEN, hparse]
    · simp [response_handler_options_start, response_handler_options_generic, h401, hauth,
        RTSP_OK, RTSP_UNAUTHORIZED, RTSP_FORBIDDEN, hparse]
  · intro h401 hauth
    simp [response_handler_options_start, response_handler_options_generic, h401, hauth,
      RTSP_OK, RTSP_UNAUTHORIZED, RTSP_FORBIDDEN]
  · intro h403
    constructor
    · intro device hd
      simp [response_handler_options_start, response_handler_options_generic, h403, hd,
        RTSP_OK, RTSP_UNAUTHORIZED, RTSP_FORBIDDEN]
    · intro hd
      simp [response_handler_options_start, response_handler_options_generic, h403, hd,
        RTSP_OK, RTSP_UNAUTHORIZED, RTSP_FORBIDDEN]
  · intro h200
    simp only [response_handler_options_start, response_handler_options_generic, h200,
      RTSP_OK, RTSP_UNAUTHORIZED, RTSP_FORBIDDEN]
    cases req.public_methods <;> simp
  · intro h1 h2 h3
    simp [response_handler_options_start, response_handler_options_generic, h1, h2, h3,
      RTSP_OK, RTSP_UNAUTHORIZED, RTSP_FORBIDDEN]


/-! ## Lemmas: what sending a request changes -/

theorem payload_make_le (pm : payload_maker) (arg : payload_arg) (c : Ctl) :
    (payload_make pm arg c).1 ≤ 0 := by
  cases pm <;> simp only [payload_make, Ctl.call_ret, payload_make_pair_generic] <;>
    (repeat' split) <;> simp


theorem BuildEffect.refl (keep : Prop) (c : Ctl) : BuildEffect keep c c :=
  ⟨rfl, rfl, rfl, rfl, rfl, rfl, rfl, rfl, rfl, rfl, rfl, rfl, rfl, rfl, rfl, fun _ => rfl,
    Or.inl rfl, rfl, rfl, rfl⟩

theorem BuildEffect.mono {keep keep2 : Prop} {c c2 : Ctl} (h : BuildEffect keep c c2)
    (hk : keep2 → keep) : BuildEffect keep2 c c2 :=
  { h with pair_type := fun k => h.pair_type (hk k) }

theorem BuildEffect.trans {keep : Prop} {c c1 c2 : Ctl} (h1 : BuildEffect keep c c1)
    (h2 : BuildEffect keep c1 c2) : BuildEffect keep c c2 where
  device := h2.device.trans h1.device
  alive := h2.alive.trans h1.alive
  metadata := h2.metadata.trans h1.metadata
  next_ptr := h2.next_ptr.trans h1.next_ptr
  ptr := h2.ptr.trans h1.ptr
  master := h2.master.trans h1.master
  next_seq := h2.next_seq.trans h1.next_seq
  secret := h2.secret.trans h1.secret
  data_port := h2.data_port.trans h1.data_port
  realm := h2.realm.trans h1.realm
  nonce := h2.nonce.trans h1.nonce
  family := h2.family.trans h1.family
  session := h2.session.trans h1.session
  callback_id := h2.callback_id.trans h1.callback_id
  wanted := h2.wanted.trans h1.wanted
  pair_type := fun h => (h2.pair_type h).trans (h1.pair_type h)
  state := by
    rcases h2.state with h | h | h | h
    · rw [h]; exact h1.state
    · exact Or.inr (Or.inl h)
    · exact Or.inr (Or.inr (Or.inl h))
    · exact Or.inr (Or.inr (Or.inr h))
  ctxs := h2.ctxs.trans h1.ctxs
  in_flight := h2.in_flight.trans h1.in_flight
  log := h2.log.trans h1.log

theorem call_buildEffect (keep : Prop) (c : Ctl) : BuildEffect keep c c.call.2 :=
  ⟨rfl, rfl, rfl, rfl, rfl, rfl, rfl, rfl, rfl, rfl, rfl, rfl, rfl, rfl, rfl, fun _ => rfl,
    Or.inl rfl, rfl, rfl, rfl⟩

theorem request_headers_add_effect (keep : Prop) (c : Ctl) :
    BuildEffect keep c (request_headers_add c).2 := by
  simp only [request_headers_add, request_header_auth_add, Ctl.call, Sys.call]
  split_ifs <;> constructor <;> simp

theorem payload_make_effect (pm : payload_maker) (arg : payload_arg) (c : Ctl) :
    BuildEffect ((∀ pin, arg ≠ .pin pin) ∨ pm ≠ .pair_setup1) c (payload_make pm arg c).2 := by
  cases pm <;> simp only [payload_make, Ctl.call_ret, payload_make_pair_generic, Ctl.call,
    Sys.call]
  all_goals (repeat' split)
  all_goals first
    | exact BuildEffect.refl _ _
    | (constructor <;> simp_all)


theorem defer_failure_effect (seq_ctx : airplay_seq_ctx) (c0 c : Ctl)
    (h : BuildEffect seq_ctx.keeps_pair_type c0 c) : SendEffect seq_ctx c0 c.defer_failure where
  device := h.device
  alive := h.alive
  metadata := h.metadata
  next_ptr := h.next_ptr
  ptr := by simp only [Ctl.defer_failure, deferred_session_failure]; split <;> exact h.ptr
  master := by simp only [Ctl.defer_failure, deferred_session_failure]; split <;> exact h.master
  next_seq := by
    simp only [Ctl.defer_failure, deferred_session_failure]; split <;> exact h.next_seq
  secret := by simp only [Ctl.defer_failure, deferred_session_failure]; split <;> exact h.secret
  data_port := by
    simp only [Ctl.defer_failure, deferred_session_failure]; split <;> exact h.data_port
  realm := by simp only [Ctl.defer_failure, deferred_session_failure]; split <;> exact h.realm
  nonce := by simp only [Ctl.defer_failure, deferred_session_failure]; split <;> exact h.nonce
  family := by simp only [Ctl.defer_failure, deferred_session_failure]; split <;> exact h.family
  session := by
    simp only [Ctl.defer_failure, deferred_session_failure]; split <;> exact h.session
  callback_id := by
    simp only [Ctl.defer_failure, deferred_session_failure]; split <;> exact h.callback_id
  wanted := by simp only [Ctl.defer_failure, deferred_session_failure]; split <;> exact h.wanted
  pair_type := fun hp => by
    simp only [Ctl.defer_failure, deferred_session_failure]; split <;> exact h.pair_type hp
  state := by
    simp only [Ctl.defer_failure, deferred_session_failure]
    split
    · exact Or.inr (Or.inr (Or.inl rfl))
    · exact h.state
  ctxs := Or.inl ⟨h.ctxs, by
    simp only [Ctl.defer_failure, deferred_session_failure]; split <;> exact h.in_flight⟩
  log := ⟨[.deferred c0.rs.ptr], by
    simp only [Ctl.defer_failure, deferred_session_failure, Sys.emit]
    split <;> simp [h.log, h.ptr], by
    intro e he
    rw [List.mem_singleton] at he
    exact Or.inr he⟩

theorem sequence_continue_send_effect (seq_ctx : airplay_seq_ctx) (c0 c : Ctl)
    (h : BuildEffect seq_ctx.keeps_pair_type c0 c) :
    SendEffect seq_ctx c0 (sequence_continue_send seq_ctx c) := by
  simp only [sequence_continue_send]
  split
  · exact defer_failure_effect seq_ctx c0 _ (h.trans (call_buildEffect _ c))
  · exact
      { device := h.device, alive := h.alive, metadata := h.metadata, next_ptr := h.next_ptr,
        ptr := h.ptr, master := h.master, next_seq := h.next_seq, secret := h.secret,
        data_port := h.data_port, realm := h.realm, nonce := h.nonce, family := h.family,
        session := h.session, callback_id := h.callback_id, wanted := h.wanted,
        pair_type := h.pair_type, state := h.state,
        ctxs := Or.inr ⟨by simp [Ctl.emit, Ctl.call, h.ctxs], by
          simp [Ctl.emit, Ctl.call, h.in_flight]⟩,
        log := ⟨[.request c0.rs.ptr seq_ctx.seq_type seq_ctx.idx], by
          simp [Ctl.emit, Ctl.call, Sys.emit, Sys.call, h.log, h.ptr], by
          intro e he
          rw [List.mem_singleton] at he
          exact Or.inl he⟩ }

theorem sequence_continue_effect (fuel : Nat) (seq_ctx : airplay_seq_ctx) (c : Ctl) :
    SendEffect seq_ctx c (sequence_continue fuel seq_ctx c) := by
  cases fuel with
  | zero => exact defer_failure_effect seq_ctx c c (BuildEffect.refl _ _)
  | succ fuel =>
    simp only [sequence_continue, sequence_continue_error]
    split
    · exact defer_failure_effect seq_ctx c c (BuildEffect.refl _ _)
    · split
      · exact defer_failure_effect seq_ctx c _ (call_buildEffect _ c)
      · have h1 : BuildEffect seq_ctx.keeps_pair_type c (request_headers_add c.call.2).2 :=
          (call_buildEffect _ c).trans (request_headers_add_effect _ _)
        split
        · exact defer_failure_effect seq_ctx c _ h1
        · split
          · exact sequence_continue_send_effect seq_ctx c _ h1
          · rename_i cur _ _ _ _ pm hpm
            have hcur : seq_ctx.cur_request = some cur := by assumption
            have h2 := h1.trans ((payload_make_effect pm seq_ctx.payload_make_arg
              (request_headers_add c.call.2).2).mono (fun k => by
                rcases k with k | k
                · exact Or.inl k
                · refine Or.inr (fun e => k cur hcur ?_)
                  rw [hpm, e]))
            have h3 := payload_make_le pm seq_ctx.payload_make_arg
              (request_headers_add c.call.2).2
            split
            · omega
            · split
              · exact defer_failure_effect seq_ctx c _ h2
              · exact sequence_continue_send_effect seq_ctx c _ h2

/-- `sequence_start` traces its call and then does what `sequence_continue` does
for the first request of the sequence. -/
theorem sequence_start_effect (t : airplay_seq_type) (arg : payload_arg) (c : Ctl) :
    SendEffect (airplay_seq_ctx.first t c.rs.ptr arg)
      (c.emit (.sequence_start c.rs.ptr t)) (sequence_start t arg c) :=
  sequence_continue_effect 7 _ _


/-! ## Claim C9: which pairing sequence a start runs -/

theorem session_connection_setup_effect (rd : output_device) (family : sa_family) (c : Ctl) :
    (session_connection_setup rd family c).2.sys.log = c.sys.log ∧
    (session_connection_setup rd family c).2.rs.pair_type = c.rs.pair_type ∧
    (session_connection_setup rd family c).2.rs.next_seq = c.rs.next_seq ∧
    (session_connection_setup rd family c).2.rs.ptr = c.rs.ptr ∧
    (session_connection_setup rd family c).2.rs.state = c.rs.state ∧
    (session_connection_setup rd family c).2.rs.shared_secret = c.rs.shared_secret ∧
    (session_connection_setup rd family c).2.rs.data_port = c.rs.data_port ∧
    (session_connection_setup rd family c).2.seq_ctxs = c.seq_ctxs ∧
    (session_connection_setup rd family c).2.device = c.device := by
  cases family <;> simp only [session_connection_setup, Ctl.call, Sys.call] <;>
    (repeat' split) <;> simp

/-- What a session that `session_make` returns looks like. -/
theorem session_make_made (rd : output_device) (callback_id : Int) (c : Ctl)
    (h : (session_make rd callback_id c).1 = true) :
    (session_make rd callback_id c).2.sys.log = c.sys.log ∧
    (session_make rd callback_id c).2.rs.pair_type
      = (if !rd.requires_auth && rd.extra_device_info.supports_pairing_transient
         then .HOMEKIT_TRANSIENT else .HOMEKIT_NORMAL) ∧
    (session_make rd callback_id c).2.rs.next_seq = .CONTINUE ∧
    (session_make rd callback_id c).2.rs.ptr = c.next_ptr ∧
    (session_make rd callback_id c).2.rs.state = .STOPPED ∧
    (session_make rd callback_id c).2.rs.shared_secret = none ∧
    (session_make rd callback_id c).2.rs.data_port = 0 ∧
    (session_make rd callback_id c).2.seq_ctxs = [] ∧
    (session_make rd callback_id c).2.device = c.device ∧
    (session_make rd callback_id c).2.alive = true ∧
    (session_make rd callback_id c).2.rs.master_session.isSome = true := by
  revert h
  simp only [session_make]
  generalize hc0 : session_make_init rd callback_id c = c0
  have b0 : c0.sys.log = c.sys.log ∧ c0.rs.pair_type
      = (if !rd.requires_auth && rd.extra_device_info.supports_pairing_transient
         then .HOMEKIT_TRANSIENT else .HOMEKIT_NORMAL) ∧ c0.rs.next_seq = .CONTINUE ∧
      c0.rs.ptr = c.next_ptr ∧ c0.rs.state = .STOPPED ∧ c0.rs.shared_secret = none ∧
      c0.rs.data_port = 0 ∧ c0.seq_ctxs = [] ∧ c0.device = c.device := by
    subst hc0
    simp [session_make_init]
  obtain ⟨a1, a2, a3, a4, a5, a6, a7, a8, a9⟩ := b0
  have tail : ∀ (ret : Int) (c1 : Ctl), c1.sys.log = c0.sys.log →
      c1.rs.pair_type = c0.rs.pair_type → c1.rs.next_seq = c0.rs.next_seq →
      c1.rs.ptr = c0.rs.ptr → c1.rs.state = c0.rs.state →
      c1.rs.shared_secret = c0.rs.shared_secret → c1.rs.data_port = c0.rs.data_port →
      c1.seq_ctxs = c0.seq_ctxs → c1.device = c0.device →
      ∀ (res : Bool × Ctl), res = (if ret < 0 then (false, c1)
        else if c1.call.1.ret < 0 then (false, c1.call.2)
        else (true, { c1.call.2 with
                rs := { c1.call.2.rs with master_session := some c1.call.1.ret.toNat },
                alive := true })) →
      res.1 = true →
      res.2.sys.log = c.sys.log ∧
      res.2.rs.pair_type
        = (if !rd.requires_auth && rd.extra_device_info.supports_pairing_transient
           then .HOMEKIT_TRANSIENT else .HOMEKIT_NORMAL) ∧
      res.2.rs.next_seq = .CONTINUE ∧ res.2.rs.ptr = c.next_ptr ∧
      res.2.rs.state = .STOPPED ∧ res.2.rs.shared_secret = none ∧
      res.2.rs.data_port = 0 ∧ res.2.seq_ctxs = [] ∧ res.2.device = c.device ∧
      res.2.alive = true ∧ res.2.rs.master_session.isSome = true := by
    intro ret c1 h1 h2 h3 h4 h5 h6 h7 h8 h9 res hres hone
    subst hres
    by_cases hr : ret < 0
    · simp [hr] at hone
    · by_cases hm : c1.call.1.ret < 0
      · simp [hr, hm] at hone
      · simp only [hr, hm, if_false]
        simp [Ctl.call, Sys.call, h1, h2, h3, h4, h5, h6, h7, h8, h9, a1, a2, a3, a4, a5, a6,
          a7, a8, a9]
  have e6 := session_connection_setup_effect rd .AF_INET6 c0
  have e4 := session_connection_setup_effect rd .AF_INET
    (session_connection_setup rd .AF_INET6 c0).2
  obtain ⟨p1, p2, p3, p4, p5, p6, p7, p8, p9⟩ := e6
  obtain ⟨q1, q2, q3, q4, q5, q6, q7, q8, q9⟩ := e4
  by_cases hr6 : (session_connection_setup rd .AF_INET6 c0).1 < 0
  · intro h
    exact tail (session_connection_setup rd .AF_INET
        (session_connection_setup rd .AF_INET6 c0).2).1
      (session_connection_setup rd .AF_INET (session_connection_setup rd .AF_INET6 c0).2).2
      (q1.trans p1) (q2.trans p2) (q3.trans p3) (q4.trans p4) (q5.trans p5) (q6.trans p6)
      (q7.trans p7) (q8.trans p8) (q9.trans p9) _ (by simp only [hr6, if_true]) h
  · intro h
    exact tail (session_connection_setup rd .AF_INET6 c0).1
      (session_connection_setup rd .AF_INET6 c0).2 p1 p2 p3 p4 p5 p6 p7 p8 p9 _
      (by simp only [hr6, if_false]) h

set_option maxRecDepth 100000 in
/-- C9 (as stated, refuted): a device without stored key that supports transient
pairing but is flagged `requires_auth` (as after a 470 or a 403) is started with
PIN_START, not PAIR_TRANSIENT. -/
theorem start_of_flagged_transient_device_runs_pin_start :
    (exampleDevice none true).auth_key = none ∧
    (exampleDevice none true).extra_device_info.supports_pairing_transient = true ∧
    (airplay_device_start (exampleDevice none true) 7
        (exampleCtl (some (exampleDevice none true)) (exampleSession 1 .STOPPED) false 1)).1
      = 1 ∧
    (airplay_device_start (exampleDevice none true) 7
        (exampleCtl (some (exampleDevice none true)) (exampleSession 1 .STOPPED) false
          1)).2.sys.log
      = [.sequence_start 100 .PIN_START, .request 100 .PIN_START 0] := by
  decide

/-- C9 (amended): for every device for which a session can be made,
`airplay_device_start` and `airplay_device_probe` (`only_probe` false and true)
run PAIR_VERIFY if the device has a stored `auth_key`, otherwise PAIR_TRANSIENT
if the device supports transient pairing and is not flagged `requires_auth`,
otherwise PIN_START: that one `sequence_start` is traced, followed by at most
the request of its first step or the arming of the deferred failure; they set
`next_seq` to START (PROBE when probing) and return 1. -/
theorem airplay_device_start_generic_runs (device : output_device) (callback_id : Int)
    (only_probe : Bool) (c : Ctl) (h : (session_make device callback_id c).1 = true) :
    airplay_device_start device callback_id c
      = airplay_device_start_generic device callback_id false c ∧
    airplay_device_probe device callback_id c
      = airplay_device_start_generic device callback_id true c ∧
    (airplay_device_start_generic device callback_id only_probe c).1 = 1 ∧
    (airplay_device_start_generic device callback_id only_probe c).2.rs.next_seq
      = (if only_probe then .PROBE else .START) ∧
    ∃ evs, (airplay_device_start_generic device callback_id only_probe c).2.sys.log
        = c.sys.log ++ .sequence_start c.next_ptr
            (if device.auth_key.isSome then .PAIR_VERIFY
             else if !device.requires_auth && device.extra_device_info.supports_pairing_transient
               then .PAIR_TRANSIENT
             else .PIN_START) :: evs ∧
      ∀ e ∈ evs, e = .request c.next_ptr
            (if device.auth_key.isSome then .PAIR_VERIFY
             else if !device.requires_auth && device.extra_device_info.supports_pairing_transient
               then .PAIR_TRANSIENT
             else .PIN_START) 0 ∨ e = .deferred c.next_ptr := by
  obtain ⟨m1, m2, m3, m4, -⟩ := session_make_made device callback_id c h
  refine ⟨rfl, rfl, ?_, ?_, ?_⟩
  · simp [airplay_device_start_generic, h]
  · simp only [airplay_device_start_generic, h]
    simp only [Bool.not_true, Bool.false_eq_true, if_false]
    split
    · rw [(sequence_start_effect _ _ _).next_seq]; rfl
    · split
      · rw [(sequence_start_effect _ _ _).next_seq]; rfl
      · rw [(sequence_start_effect _ _ _).next_seq]; rfl
  · simp only [airplay_device_start_generic, h]
    simp only [Bool.not_true, Bool.false_eq_true, if_false]
    have key : ∀ (t : airplay_seq_type) (c1 : Ctl), c1.sys.log = c.sys.log →
        c1.rs.ptr = c.next_ptr →
        ∃ evs, (sequence_start t .null c1).sys.log
            = c.sys.log ++ .sequence_start c.next_ptr t :: evs ∧
          ∀ e ∈ evs, e = .request c.next_ptr t 0 ∨ e = .deferred c.next_ptr := by
      intro t c1 hl hp
      obtain ⟨evs, he, hevs⟩ := (sequence_start_effect t .null c1).log
      refine ⟨evs, ?_, ?_⟩
      · rw [he]; simp [Ctl.emit, Sys.emit, hl, hp]
      · intro e hm
        have := hevs e hm
        simpa [is_send_event, Ctl.emit, hp] using this
    by_cases hk : device.auth_key.isSome = true
    · simp only [hk, if_true]
      exact key _ _ m1 m4
    · simp only [hk, if_false, Bool.false_eq_true]
      rw [m2]
      by_cases ht : (!device.requires_auth
          && device.extra_device_info.supports_pairing_transient) = true
      · simp only [ht, if_true]
        exact key _ _ m1 m4
      · simp only [ht, if_false, Bool.false_eq_true, reduceCtorEq]
        exact key _ _ m1 m4

set_option maxRecDepth 100000 in
/-- Witness for `airplay_device_start_generic_runs`: a device with a stored key,
every call into the environment succeeding. -/
theorem airplay_device_start_generic_runs_witness :
    (session_make (exampleDevice (some "k") false) 7
      (exampleCtl (some (exampleDevice (some "k") false)) (exampleSession 1 .STOPPED) false
        1)).1 = true ∧
    (airplay_device_start_generic (exampleDevice (some "k") false) 7 false
      (exampleCtl (some (exampleDevice (some "k") false)) (exampleSession 1 .STOPPED) false
        1)).1 = 1 :=
  ⟨by decide,
   (airplay_device_start_generic_runs (exampleDevice (some "k") false) 7 false
      (exampleCtl (some (exampleDevice (some "k") false)) (exampleSession 1 .STOPPED) false 1)
      (by decide)).2.2.1⟩


/-! ## Claim C8: what the engine does with a response -/

theorem sequence_start_log (t : airplay_seq_type) (arg : payload_arg) (c : Ctl) :
    ∃ evs, (sequence_start t arg c).sys.log = c.sys.log ++ .sequence_start c.rs.ptr t :: evs ∧
      ∀ e ∈ evs, e = .request c.rs.ptr t 0 ∨ e = .deferred c.rs.ptr := by
  obtain ⟨evs, he, hevs⟩ := (sequence_start_effect t arg c).log
  refine ⟨evs, ?_, ?_⟩
  · rw [he]; simp [Ctl.emit, Sys.emit]
  · intro e hm
    simpa [is_send_event, Ctl.emit] using hevs e hm

theorem sequence_start_callback_events (t : airplay_seq_type) (arg : payload_arg) (c : Ctl)
    (starts : List airplay_seq_type) (ht : t ∈ starts) :
    ∃ evs, (sequence_start t arg c).sys.log = c.sys.log ++ evs ∧
      ∀ e ∈ evs, is_callback_event starts e := by
  obtain ⟨evs, he, hevs⟩ := sequence_start_log t arg c
  refine ⟨_, he, ?_⟩
  intro e hm
  rcases List.mem_cons.1 hm with rfl | hm
  · exact ⟨rfl, rfl, fun _ _ _ h => Event.noConfusion h⟩
  · rcases hevs e hm with rfl | rfl
    · exact ⟨rfl, rfl, fun _ _ _ h => by cases h; exact ht⟩
    · exact ⟨rfl, rfl, fun _ _ _ h => Event.noConfusion h⟩

theorem session_status_log (c : Ctl) :
    (session_status c).sys.log
      = c.sys.log ++ [.outputs_cb c.rs.callback_id c.rs.device_id
          (match c.rs.state with
            | .PASSWORD => .OUTPUT_STATE_PASSWORD
            | .FAILED => .OUTPUT_STATE_FAILED
            | .STOPPED => .OUTPUT_STATE_STOPPED
            | .STARTUP | .OPTIONS | .ANNOUNCE | .SETUP | .RECORD => .OUTPUT_STATE_STARTUP
            | .CONNECTED => .OUTPUT_STATE_CONNECTED
            | .STREAMING => .OUTPUT_STATE_STREAMING
            | .TEARDOWN => .OUTPUT_STATE_STOPPED)] := by
  simp [session_status, Ctl.emit, Sys.emit]

theorem session_status_callback_events (c : Ctl) (starts : List airplay_seq_type) :
    ∃ evs, (session_status c).sys.log = c.sys.log ++ evs ∧
      ∀ e ∈ evs, is_callback_event starts e := by
  refine ⟨_, session_status_log c, ?_⟩
  intro e hm
  rw [List.mem_singleton] at hm
  subst hm
  exact ⟨rfl, rfl, fun _ _ _ h => Event.noConfusion h⟩

theorem session_failure_callback_events (c : Ctl) (starts : List airplay_seq_type) :
    ∃ evs, (session_failure c).sys.log = c.sys.log ++ evs ∧
      ∀ e ∈ evs, is_callback_event starts e := by
  unfold session_failure session_cleanup
  split
  · exact session_status_callback_events { c with rs := { c.rs with state := .FAILED } } starts
  · exact session_status_callback_events c starts

theorem session_make_log (rd : output_device) (callback_id : Int) (c : Ctl) :
    (session_make rd callback_id c).2.sys.log = c.sys.log := by
  simp only [session_make]
  have a1 : (session_make_init rd callback_id c).sys.log = c.sys.log := rfl
  obtain ⟨p1, -⟩ := session_connection_setup_effect rd .AF_INET6
    (session_make_init rd callback_id c)
  obtain ⟨q1, -⟩ := session_connection_setup_effect rd .AF_INET
    (session_connection_setup rd .AF_INET6 (session_make_init rd callback_id c)).2
  by_cases h6 : (session_connection_setup rd .AF_INET6 (session_make_init rd callback_id c)).1 < 0
  · simp only [h6, if_true]
    repeat' split
    all_goals simp [Ctl.call, Sys.call, q1, p1, a1]
  · simp only [h6, if_false]
    repeat' split
    all_goals simp [Ctl.call, Sys.call, p1, a1]

theorem airplay_device_start_generic_callback_events (device : output_device)
    (callback_id : Int) (only_probe : Bool) (c : Ctl) :
    ∃ evs, (airplay_device_start_generic device callback_id only_probe c).2.sys.log
        = c.sys.log ++ evs ∧
      ∀ e ∈ evs, is_callback_event [.PAIR_VERIFY, .PAIR_TRANSIENT, .PIN_START] e := by
  have hl := session_make_log device callback_id c
  simp only [airplay_device_start_generic]
  split
  · exact ⟨[], by simp [hl], by simp⟩
  · rw [← hl]
    repeat' split
    all_goals exact sequence_start_callback_events _ _ _ _ (by simp)

theorem run_seq_callback_events (cb : seq_callback) (c : Ctl) :
    ∃ evs, (run_seq_callback cb c).sys.log = c.sys.log ++ evs ∧
      ∀ e ∈ evs, is_callback_event (cb.starts c.rs.next_seq) e := by
  cases cb <;> simp only [run_seq_callback, seq_callback.starts]
  · -- start_retry
    unfold start_retry
    split
    · exact session_failure_callback_events _ _
    · split
      · exact session_failure_callback_events _ _
      · split
        · exact session_failure_callback_events _ _
        · exact airplay_device_start_generic_callback_events _ _ _ _
  · exact session_status_callback_events _ _
  · exact sequence_start_callback_events _ _ _ _ (by simp)
  · exact session_status_callback_events _ _
  · unfold probe_failure
    split
    · exact session_failure_callback_events _ _
    · exact session_failure_callback_events _ _
  · exact session_status_callback_events _ _
  · exact session_failure_callback_events _ _
  · unfold session_pair_success
    split
    · exact sequence_start_callback_events _ _ _ _ (by simp)
    · exact session_status_callback_events _ _


/-! ## Lemmas: what the response handlers change -/

/-- A handler that starts no sequence and traces nothing. -/
theorem HandlerEffect.quiet {h : Option response_handler} {c : Ctl} {t : airplay_seq_type}
    {c1 : Ctl} (alive : c1.alive = c.alive) (ptr : c1.rs.ptr = c.rs.ptr)
    (master : c1.rs.master_session = c.rs.master_session)
    (next_seq : c1.rs.next_seq = c.rs.next_seq)
    (secret : c.rs.shared_secret.isSome = true → c1.rs.shared_secret.isSome = true)
    (secret_set : t = .CONTINUE →
      (h = some .pair_verify2 ∨ (h = some .pair_setup2 ∧ c.rs.pair_type = .HOMEKIT_TRANSIENT)) →
      c1.rs.shared_secret.isSome = true)
    (data_port : h ≠ some .setup_stream → c1.rs.data_port = c.rs.data_port)
    (data_port_set : h = some .setup_stream → t = .CONTINUE → c1.rs.data_port ≠ 0)
    (pair_type : c1.rs.pair_type = c.rs.pair_type ∨ (h = some .pair_setup1 ∧ t = .PIN_START))
    (state : c1.rs.state = c.rs.state ∨ (c1.rs.state ≠ .CONNECTED ∧ c1.rs.state ≠ .STREAMING)
      ∨ h = some .flush)
    (ret : t = .ABORT ∨ t = .CONTINUE ∨ t = .PIN_START
      ∨ ((h = some .options_probe ∨ h = some .options_start) ∧ t = .START_RERUN)
      ∨ (h = some .options_start ∧ t = .START_AP2))
    (ctxs : c1.seq_ctxs = c.seq_ctxs) (log : c1.sys.log = c.sys.log) :
    HandlerEffect h c t c1 :=
  { alive := alive, ptr := ptr, master := master, next_seq := next_seq, secret := secret,
    secret_set := secret_set, data_port := data_port, data_port_set := data_port_set,
    pair_type := pair_type, state := state, ret := ret,
    ctxs := ⟨[], by simp [ctxs], by simp⟩, log := ⟨[], by simp [log]⟩ }


set_option maxHeartbeats 4000000 in
theorem response_handler_pair_setup1_effect (req : evrtsp_request) (c : Ctl) :
    HandlerEffect (some .pair_setup1) c (response_handler_pair_setup1 req c).1
      (response_handler_pair_setup1 req c).2 := by
  simp only [response_handler_pair_setup1, response_handler_pair_generic]
  repeat' split
  all_goals apply HandlerEffect.quiet
  all_goals first
    | rfl
    | exact Or.inl rfl
    | exact Or.inr (Or.inl rfl)
    | exact Or.inr (Or.inr (Or.inl rfl))
    | exact Or.inr ⟨rfl, rfl⟩
    | exact Or.inr (Or.inl (by decide))
    | exact fun h => h
    | exact fun _ => rfl
    | exact fun _ _ => rfl
    | (intro h; exact absurd h (by decide))
    | simp_all [Ctl.call]

set_option maxHeartbeats 4000000 in
theorem response_handler_pair_setup2_effect (req : evrtsp_request) (c : Ctl) :
    HandlerEffect (some .pair_setup2) c (response_handler_pair_setup2 req c).1
      (response_handler_pair_setup2 req c).2 := by
  simp only [response_handler_pair_setup2, response_handler_pair_generic]
  repeat' split
  all_goals apply HandlerEffect.quiet
  all_goals first
    | rfl
    | exact Or.inl rfl
    | exact Or.inr (Or.inl rfl)
    | exact Or.inr (Or.inr (Or.inl rfl))
    | exact Or.inr ⟨rfl, rfl⟩
    | exact Or.inr (Or.inl (by decide))
    | exact fun h => h
    | exact fun _ => rfl
    | exact fun _ _ => rfl
    | (intro h; exact absurd h (by decide))
    | simp_all [Ctl.call]

set_option maxHeartbeats 4000000 in
theorem response_handler_pair_setup3_effect (req : evrtsp_request) (c : Ctl) :
    HandlerEffect (some .pair_setup3) c (response_handler_pair_setup3 req c).1
      (response_handler_pair_setup3 req c).2 := by
  simp only [response_handler_pair_setup3, response_handler_pair_generic]
  repeat' split
  all_goals apply HandlerEffect.quiet
  all_goals first
    | rfl
    | exact Or.inl rfl
    | exact Or.inr (Or.inl rfl)
    | exact Or.inr (Or.inr (Or.inl rfl))
    | exact Or.inr ⟨rfl, rfl⟩
    | exact Or.inr (Or.inl (by decide))
    | exact fun h => h
    | exact fun _ => rfl
    | exact fun _ _ => rfl
    | (intro h; exact absurd h (by decide))
    | simp_all [Ctl.call]

set_option maxHeartbeats 4000000 in
theorem response_handler_pair_verify1_effect (req : evrtsp_request) (c : Ctl) :
    HandlerEffect (some .pair_verify1) c (response_handler_pair_verify1 req c).1
      (response_handler_pair_verify1 req c).2 := by
  simp only [response_handler_pair_verify1, response_handler_pair_generic]
  repeat' split
  all_goals apply HandlerEffect.quiet
  all_goals first
    | rfl
    | exact Or.inl rfl
    | exact Or.inr (Or.inl rfl)
    | exact Or.inr (Or.inr (Or.inl rfl))
    | exact Or.inr ⟨rfl, rfl⟩
    | exact Or.inr (Or.inl (by decide))
    | exact fun h => h
    | exact fun _ => rfl
    | exact fun _ _ => rfl
    | (intro h; exact absurd h (by decide))
    | simp_all [Ctl.call]

set_option maxHeartbeats 4000000 in
theorem response_handler_pair_verify2_effect (req : evrtsp_request) (c : Ctl) :
    HandlerEffect (some .pair_verify2) c (response_handler_pair_verify2 req c).1
      (response_handler_pair_verify2 req c).2 := by
  simp only [response_handler_pair_verify2, response_handler_pair_generic]
  repeat' split
  all_goals apply HandlerEffect.quiet
  all_goals first
    | rfl
    | exact Or.inl rfl
    | exact Or.inr (Or.inl rfl)
    | exact Or.inr (Or.inr (Or.inl rfl))
    | exact Or.inr ⟨rfl, rfl⟩
    | exact Or.inr (Or.inl (by decide))
    | exact fun h => h
    | exact fun _ => rfl
    | exact fun _ _ => rfl
    | (intro h; exact absurd h (by decide))
    | simp_all [Ctl.call]

set_option maxHeartbeats 4000000 in
theorem response_handler_setup_stream_effect (req : evrtsp_request) (c : Ctl) :
    HandlerEffect (some .setup_stream) c (response_handler_setup_stream req c).1
      (response_handler_setup_stream req c).2 := by
  simp only [response_handler_setup_stream]
  repeat' split
  all_goals apply HandlerEffect.quiet
  all_goals first
    | rfl
    | exact Or.inl rfl
    | exact Or.inr (Or.inl rfl)
    | exact Or.inr (Or.inr (Or.inl rfl))
    | exact Or.inr ⟨rfl, rfl⟩
    | exact Or.inr (Or.inl (by decide))
    | exact fun h => h
    | exact fun _ => rfl
    | exact fun _ _ => rfl
    | (intro h; exact absurd h (by decide))
    | simp_all [Ctl.call]

set_option maxHeartbeats 4000000 in
theorem response_handler_setup_session_effect (req : evrtsp_request) (c : Ctl) :
    HandlerEffect (some .setup_session) c (response_handler_setup_session req c).1
      (response_handler_setup_session req c).2 := by
  simp only [response_handler_setup_session]
  repeat' split
  all_goals apply HandlerEffect.quiet
  all_goals first
    | rfl
    | exact Or.inl rfl
    | exact Or.inr (Or.inl rfl)
    | exact Or.inr (Or.inr (Or.inl rfl))
    | exact Or.inr ⟨rfl, rfl⟩
    | exact Or.inr (Or.inl (by decide))
    | exact fun h => h
    | exact fun _ => rfl
    | exact fun _ _ => rfl
    | (intro h; exact absurd h (by decide))
    | simp_all [Ctl.call]

set_option maxHeartbeats 4000000 in
theorem response_handler_options_probe_effect (req : evrtsp_request) (c : Ctl) :
    HandlerEffect (some .options_probe) c (response_handler_options_probe req c).1
      (response_handler_options_probe req c).2 := by
  simp only [response_handler_options_probe, response_handler_options_generic]
  rcases response_header_auth_parse_cases req c with ⟨realm, nonce, hparse⟩ | hparse <;>
    rw [hparse] <;> repeat' split
  all_goals apply HandlerEffect.quiet
  all_goals first
    | rfl
    | exact Or.inl rfl
    | exact Or.inr (Or.inl rfl)
    | exact Or.inr (Or.inr (Or.inl rfl))
    | exact Or.inr ⟨rfl, rfl⟩
    | exact Or.inr (Or.inl (by decide))
    | exact fun h => h
    | exact fun _ => rfl
    | exact fun _ _ => rfl
    | (intro h; exact absurd h (by decide))
    | simp_all [Ctl.call]

set_option maxHeartbeats 4000000 in
theorem response_handler_options_start_effect (req : evrtsp_request) (c : Ctl) :
    HandlerEffect (some .options_start) c (response_handler_options_start req c).1
      (response_handler_options_start req c).2 := by
  simp only [response_handler_options_start, response_handler_options_generic]
  rcases response_header_auth_parse_cases req c with ⟨realm, nonce, hparse⟩ | hparse <;>
    rw [hparse] <;> repeat' split
  all_goals apply HandlerEffect.quiet
  all_goals first
    | rfl
    | exact Or.inl rfl
    | exact Or.inr (Or.inl rfl)
    | exact Or.inr (Or.inr (Or.inl rfl))
    | exact Or.inr ⟨rfl, rfl⟩
    | exact Or.inr (Or.inl (by decide))
    | exact fun h => h
    | exact fun _ => rfl
    | exact fun _ _ => rfl
    | (intro h; exact absurd h (by decide))
    | simp_all [Ctl.call]


/-! ## Lemmas: steps that leave the session as the invariant reads it -/

theorem Stable.stable_refl (c : Ctl) : Stable c c :=
  ⟨rfl, rfl, rfl, rfl, rfl, rfl, rfl, Or.inl rfl, [], by simp⟩

theorem Stable.stable_trans {c c1 c2 : Ctl} (h1 : Stable c c1) (h2 : Stable c1 c2) : Stable c c2 where
  alive := h2.alive.trans h1.alive
  ptr := h2.ptr.trans h1.ptr
  master := h2.master.trans h1.master
  next_seq := h2.next_seq.trans h1.next_seq
  secret := h2.secret.trans h1.secret
  data_port := h2.data_port.trans h1.data_port
  pair_type := h2.pair_type.trans h1.pair_type
  state := by
    rcases h2.state with h | h
    · rw [h]; exact h1.state
    · exact Or.inr h
  log := by
    obtain ⟨e1, h1⟩ := h1.log
    obtain ⟨e2, h2⟩ := h2.log
    exact ⟨e1 ++ e2, by rw [h2, h1, List.append_assoc]⟩

theorem emit_stable (c : Ctl) (e : Event) : Stable c (c.emit e) :=
  ⟨rfl, rfl, rfl, rfl, rfl, rfl, rfl, Or.inl rfl, [e], rfl⟩

theorem SendEffect.stable {x : airplay_seq_ctx} {c c2 : Ctl} (h : SendEffect x c c2)
    (hk : x.keeps_pair_type) : Stable c c2 where
  alive := h.alive
  ptr := h.ptr
  master := h.master
  next_seq := h.next_seq
  secret := h.secret
  data_port := h.data_port
  pair_type := h.pair_type hk
  state := by
    rcases h.state with h | h | h | h
    · exact Or.inl h
    all_goals exact Or.inr (by rw [h]; decide)
  log := by
    obtain ⟨evs, he, -⟩ := h.log
    exact ⟨evs, he⟩

/-- Whether the first request of a sequence leaves the pairing type alone when
started with `arg`. -/
theorem first_keeps_pair_type (t : airplay_seq_type) (ptr : Nat) (arg : payload_arg)
    (h : (∀ pin, arg ≠ .pin pin) ∨ (t ≠ .PAIR_SETUP ∧ t ≠ .PAIR_TRANSIENT)) :
    (airplay_seq_ctx.first t ptr arg).keeps_pair_type := by
  rcases h with h | ⟨h1, h2⟩
  · exact Or.inl h
  · refine Or.inr ?_
    intro cur hcur
    cases t <;>
      simp [airplay_seq_ctx.first, airplay_seq_ctx.cur_request, airplay_seq_request_rows]
        at hcur h1 h2 <;> subst hcur <;> simp

theorem first_wf (t : airplay_seq_type) (ptr : Nat) (arg : payload_arg)
    (h : t ≠ .ABORT ∧ t ≠ .CONTINUE) : (airplay_seq_ctx.first t ptr arg).wf := by
  refine ⟨rfl, rfl, ?_⟩
  obtain ⟨h1, h2⟩ := h
  cases t <;>
    simp [airplay_seq_ctx.first, airplay_seq_ctx.cur_request, airplay_seq_request_rows]
      at h1 h2 ⊢

/-- `sequence_start` is stable, and the context it made is the only one that
may have joined the requests in flight. -/
theorem sequence_start_stable (t : airplay_seq_type) (arg : payload_arg) (c : Ctl)
    (h : (∀ pin, arg ≠ .pin pin) ∨ (t ≠ .PAIR_SETUP ∧ t ≠ .PAIR_TRANSIENT)) :
    Stable c (sequence_start t arg c) ∧
      ((sequence_start t arg c).seq_ctxs = c.seq_ctxs ∨
       (sequence_start t arg c).seq_ctxs
         = c.seq_ctxs ++ [airplay_seq_ctx.first t c.rs.ptr arg]) := by
  have e := sequence_start_effect t arg c
  refine ⟨(emit_stable c _).stable_trans (e.stable (first_keeps_pair_type t _ arg h)), ?_⟩
  rcases e.ctxs with ⟨h1, -⟩ | ⟨h1, -⟩
  · exact Or.inl h1
  · exact Or.inr h1


theorem Side.side_trans {c c1 c2 : Ctl} (h1 : Side c c1) (h2 : Side c1 c2) : Side c c2 := by
  obtain ⟨s1, e1, he1, hx1⟩ := h1
  obtain ⟨s2, e2, he2, hx2⟩ := h2
  refine ⟨s1.stable_trans s2, e1 ++ e2, by rw [he2, he1, List.append_assoc], ?_⟩
  intro x hx
  rcases List.mem_append.1 hx with hx | hx
  · exact hx1 x hx
  · exact hx2 x hx

theorem Side.side_refl (c : Ctl) : Side c c :=
  ⟨Stable.stable_refl c, [], by simp, by simp⟩

theorem Side.of_stable {c c2 : Ctl} (h : Stable c c2) (hc : c2.seq_ctxs = c.seq_ctxs) :
    Side c c2 :=
  ⟨h, [], by simp [hc], by simp⟩

theorem sequence_start_side (t : airplay_seq_type) (arg : payload_arg) (c : Ctl)
    (h1 : t.mainline = false) (h2 : t ≠ .FLUSH) (h3 : t ≠ .ABORT ∧ t ≠ .CONTINUE) :
    Side c (sequence_start t arg c) := by
  obtain ⟨s, hc⟩ := sequence_start_stable t arg c
    (Or.inr ⟨by rintro rfl; simp [airplay_seq_type.mainline] at h1,
             by rintro rfl; simp [airplay_seq_type.mainline] at h1⟩)
  refine ⟨s, ?_⟩
  rcases hc with hc | hc
  · exact ⟨[], by simp [hc], by simp⟩
  · refine ⟨_, hc, ?_⟩
    intro x hx
    rw [List.mem_singleton] at hx
    subst hx
    exact ⟨first_wf t _ arg h3, h1, h2⟩

theorem sequence_start_side_if (b : Bool) (t : airplay_seq_type) (arg : payload_arg) (c : Ctl)
    (h1 : t.mainline = false) (h2 : t ≠ .FLUSH) (h3 : t ≠ .ABORT ∧ t ≠ .CONTINUE) :
    Side c (if b = true then sequence_start t arg c else c) := by
  split
  · exact sequence_start_side t arg c h1 h2 h3
  · exact Side.side_refl c

theorem airplay_metadata_send_generic_side (metadata : output_metadata) (only_progress : Bool)
    (c : Ctl) : Side c (airplay_metadata_send_generic metadata only_progress c).2 := by
  simp only [airplay_metadata_send_generic]
  exact ((sequence_start_side_if _ .SEND_PROGRESS _ _ rfl (by decide) (by decide)).side_trans
    (sequence_start_side_if _ .SEND_TEXT _ _ rfl (by decide) (by decide))).side_trans
    (sequence_start_side_if _ .SEND_ARTWORK _ _ rfl (by decide) (by decide))

theorem airplay_metadata_startup_send_side (c : Ctl) :
    Side c (airplay_metadata_startup_send c).2 := by
  unfold airplay_metadata_startup_send
  split
  · exact Side.side_refl _
  · split
    · exact Side.side_refl _
    · rename_i md _ _
      have h1 : Side c { c with airplay_cur_metadata := some { md with startup := true } } :=
        ⟨⟨rfl, rfl, rfl, rfl, rfl, rfl, rfl, Or.inl rfl, [], by simp⟩, [], by simp, by simp⟩
      exact h1.side_trans (airplay_metadata_send_generic_side _ _ _)

theorem HandlerEffect.of_side {h : Option response_handler} {c c1 : Ctl} {t : airplay_seq_type}
    (hs : Side c c1)
    (h1 : h ≠ some .pair_verify2) (h2 : h ≠ some .pair_setup2) (h3 : h ≠ some .setup_stream)
    (ht : t = .ABORT ∨ t = .CONTINUE) : HandlerEffect h c t c1 where
  alive := hs.1.alive
  ptr := hs.1.ptr
  master := hs.1.master
  next_seq := hs.1.next_seq
  secret := fun hh => by rw [hs.1.secret]; exact hh
  secret_set := fun _ hh => by
    rcases hh with hh | ⟨hh, -⟩
    · exact absurd hh h1
    · exact absurd hh h2
  data_port := fun _ => hs.1.data_port
  data_port_set := fun hh => absurd hh h3
  pair_type := Or.inl hs.1.pair_type
  state := by
    rcases hs.1.state with hh | hh
    · exact Or.inl hh
    · exact Or.inr (Or.inl hh)
  ret := by
    rcases ht with ht | ht
    · exact Or.inl ht
    · exact Or.inr (Or.inl ht)
  ctxs := hs.2
  log := hs.1.log

theorem run_response_handler_effect (h : response_handler) (req : evrtsp_request) (c : Ctl) :
    HandlerEffect (some h) c (run_response_handler h req c).1 (run_response_handler h req c).2 := by
  cases h <;> simp only [run_response_handler]
  · apply HandlerEffect.quiet <;> simp
  · apply HandlerEffect.quiet <;> simp
  · exact response_handler_setup_stream_effect req c
  · split
    · exact HandlerEffect.of_side (airplay_metadata_startup_send_side c) (by simp) (by simp)
        (by simp) (Or.inl rfl)
    · exact HandlerEffect.of_side (airplay_metadata_startup_send_side c) (by simp) (by simp)
        (by simp) (Or.inr rfl)
  · exact response_handler_setup_session_effect req c
  · apply HandlerEffect.quiet <;> simp
  · apply HandlerEffect.quiet <;> simp
  · split <;> apply HandlerEffect.quiet <;> simp
  · exact response_handler_options_probe_effect req c
  · exact response_handler_options_start_effect req c
  · exact response_handler_pair_setup1_effect req c
  · exact response_handler_pair_setup2_effect req c
  · exact response_handler_pair_setup3_effect req c
  · exact response_handler_pair_verify1_effect req c
  · exact response_handler_pair_verify2_effect req c

/-- The traced call of the handler of a request: the effect of the handler, and
the call is in the trace. -/
theorem sequence_continue_cb_handle_effect (x : airplay_seq_ctx) (h : Option response_handler)
    (req : evrtsp_request) (c : Ctl) :
    HandlerEffect h c (sequence_continue_cb_handle x h req c).1
        (sequence_continue_cb_handle x h req c).2 ∧
      (h.isSome = true →
        .handler c.rs.ptr x.seq_type x.idx (sequence_continue_cb_handle x h req c).1 ∈
          (sequence_continue_cb_handle x h req c).2.sys.log) := by
  cases h with
  | none =>
    refine ⟨?_, by simp⟩
    apply HandlerEffect.quiet <;> simp [sequence_continue_cb_handle]
  | some h =>
    have e := run_response_handler_effect h req c
    refine ⟨?_, fun _ => ?_⟩
    · obtain ⟨evs, hl⟩ := e.log
      exact { e with log := ⟨evs ++ [.handler (run_response_handler h req c).2.rs.ptr x.seq_type
          x.idx (run_response_handler h req c).1], by
            simp [sequence_continue_cb_handle, Ctl.emit, Sys.emit, hl]⟩ }
    · simp [sequence_continue_cb_handle, Ctl.emit, Sys.emit, e.ptr]

theorem on_error_starts (t : airplay_seq_type) (cb : seq_callback) (next_seq : airplay_seq_type)
    (h : (airplay_seq_definition t).on_error = some cb) : t ∉ cb.starts next_seq := by
  cases t <;> simp [airplay_seq_definition] at h <;> subst h <;> simp [seq_callback.starts]

theorem sequence_continue_cb_enter_log (c : Ctl) :
    (sequence_continue_cb_enter c).sys.log = c.sys.log ∧
    (sequence_continue_cb_enter c).rs.ptr = c.rs.ptr := by
  simp only [sequence_continue_cb_enter]
  split <;> exact ⟨rfl, rfl⟩

/-- The error path of `sequence_continue_cb`, for a context with the `on_error`
of its sequence: the call of `on_error` is traced first, and what follows has no
call of a handler and no request of the sequence. -/
theorem sequence_continue_cb_error_events (x : airplay_seq_ctx) (c : Ctl)
    (herr : x.on_error = (airplay_seq_definition x.seq_type).on_error) :
    ∃ evs, (sequence_continue_cb_error x c).sys.log = c.sys.log ++ evs ∧
      (x.on_error.isSome = true → evs.head? = some (.on_error c.rs.ptr x.seq_type)) ∧
      ∀ e ∈ evs, e.is_handler = false ∧ ∀ p i, e ≠ .request p x.seq_type i := by
  unfold sequence_continue_cb_error
  split
  · rename_i cb hcb
    obtain ⟨evs, he, hevs⟩ := run_seq_callback_events cb (c.emit (.on_error c.rs.ptr x.seq_type))
    refine ⟨.on_error c.rs.ptr x.seq_type :: evs, ?_, fun _ => rfl, ?_⟩
    · rw [he]; simp [Ctl.emit, Sys.emit]
    · intro e hm
      rcases List.mem_cons.1 hm with rfl | hm
      · exact ⟨rfl, fun _ _ h => Event.noConfusion h⟩
      · obtain ⟨h1, -, h3⟩ := hevs e hm
        refine ⟨h1, fun p i h => ?_⟩
        exact on_error_starts x.seq_type cb _ (by rw [← herr, hcb]) (h3 p _ i h)
  · rename_i hnone
    exact ⟨[], by simp, by simp [hnone], by simp⟩

theorem sequence_continue_cb_eq (r : evrtsp_request) (x : airplay_seq_ctx)
    (cur : airplay_seq_request) (c : Ctl) (hcur : x.cur_request = some cur)
    (hok : r.response_code = RTSP_OK ∨ cur.proceed_on_rtsp_not_ok = true) :
    sequence_continue_cb (some r) x c =
      if (sequence_continue_cb_handle x cur.response_handler r
          (sequence_continue_cb_enter c)).1 ≠ .CONTINUE then
        if (sequence_continue_cb_handle x cur.response_handler r
            (sequence_continue_cb_enter c)).1 = .ABORT then
          sequence_continue_cb_error x (sequence_continue_cb_handle x cur.response_handler r
            (sequence_continue_cb_enter c)).2
        else sequence_start (sequence_continue_cb_handle x cur.response_handler r
            (sequence_continue_cb_enter c)).1 x.payload_make_arg
          (sequence_continue_cb_handle x cur.response_handler r (sequence_continue_cb_enter c)).2
      else sequence_continue_cb_next x (sequence_continue_cb_handle x cur.response_handler r
          (sequence_continue_cb_enter c)).2 := by
  have hno : ¬(r.response_code ≠ RTSP_OK ∧ (!cur.proceed_on_rtsp_not_ok) = true) := by
    rintro ⟨h1, h2⟩
    rcases hok with h | h
    · exact h1 h
    · simp [h] at h2
  simp only [sequence_continue_cb, hcur, hno, if_false]
  cases hh : cur.response_handler with
  | none => simp [sequence_continue_cb_handle]
  | some h => simp only [sequence_continue_cb_handle]

/-- C8: for a response delivered to `sequence_continue_cb` for the step `cur` of a
context with the `on_error` of its sequence. (1) With no response, or a response
whose code is not 200 when the step has `proceed_on_rtsp_not_ok` false, only
`on_error` runs: it is traced first, no response handler is called and no
request of the sequence is sent. (2) Otherwise the response handler is called
(CONTINUE stands for its absence) and its result `t` decides: ABORT runs
`on_error`; a sequence type starts that sequence on the same session, with
nothing but the first request of that sequence sent; CONTINUE sends the next
step of the row, and after the last step runs `on_success`, whose call is traced
exactly once when the sequence has one. -/
theorem sequence_continue_cb_cases (req : Option evrtsp_request) (seq_ctx : airplay_seq_ctx)
    (cur : airplay_seq_request) (c : Ctl) (hcur : seq_ctx.cur_request = some cur)
    (herr : seq_ctx.on_error = (airplay_seq_definition seq_ctx.seq_type).on_error) :
    ((req = none ∨ ∃ r, req = some r ∧ r.response_code ≠ RTSP_OK ∧
          cur.proceed_on_rtsp_not_ok = false) →
      sequence_continue_cb req seq_ctx c
        = sequence_continue_cb_error seq_ctx (sequence_continue_cb_enter c) ∧
      ∃ evs, (sequence_continue_cb req seq_ctx c).sys.log = c.sys.log ++ evs ∧
        (seq_ctx.on_error.isSome = true →
          evs.head? = some (.on_error c.rs.ptr seq_ctx.seq_type)) ∧
        ∀ e ∈ evs, e.is_handler = false ∧ ∀ p i, e ≠ .request p seq_ctx.seq_type i) ∧
    (∀ r, req = some r → (r.response_code = RTSP_OK ∨ cur.proceed_on_rtsp_not_ok = true) →
      ∀ t c1, sequence_continue_cb_handle seq_ctx cur.response_handler r
          (sequence_continue_cb_enter c) = (t, c1) →
      (t = .ABORT →
        sequence_continue_cb req seq_ctx c = sequence_continue_cb_error seq_ctx c1 ∧
        ∃ evs, (sequence_continue_cb req seq_ctx c).sys.log = c1.sys.log ++ evs ∧
          (seq_ctx.on_error.isSome = true →
            evs.head? = some (.on_error c.rs.ptr seq_ctx.seq_type)) ∧
          ∀ e ∈ evs, e.is_handler = false ∧ ∀ p i, e ≠ .request p seq_ctx.seq_type i) ∧
      (t ≠ .ABORT → t ≠ .CONTINUE →
        sequence_continue_cb req seq_ctx c = sequence_start t seq_ctx.payload_make_arg c1 ∧
        (sequence_continue_cb req seq_ctx c).rs.ptr = c.rs.ptr ∧
        ∃ evs, (sequence_continue_cb req seq_ctx c).sys.log
            = c1.sys.log ++ .sequence_start c.rs.ptr t :: evs ∧
          ∀ e ∈ evs, e = .request c.rs.ptr t 0 ∨ e = .deferred c.rs.ptr) ∧
      (t = .CONTINUE →
        ({ seq_ctx with idx := seq_ctx.idx + 1 }.cur_request.isSome = true →
          sequence_continue_cb req seq_ctx c
            = sequence_continue 7 { seq_ctx with idx := seq_ctx.idx + 1 } c1 ∧
          ∃ evs, (sequence_continue_cb req seq_ctx c).sys.log = c1.sys.log ++ evs ∧
            ∀ e ∈ evs, e = .request c.rs.ptr seq_ctx.seq_type (seq_ctx.idx + 1)
              ∨ e = .deferred c.rs.ptr) ∧
        ({ seq_ctx with idx := seq_ctx.idx + 1 }.cur_request.isSome = false →
          sequence_continue_cb req seq_ctx c
            = (match seq_ctx.on_success with
               | some on_success =>
                 run_seq_callback on_success (c1.emit (.on_success c.rs.ptr seq_ctx.seq_type))
               | none => c1) ∧
          ∃ evs, (sequence_continue_cb req seq_ctx c).sys.log = c1.sys.log ++ evs ∧
            evs.countP Event.is_on_success = (if seq_ctx.on_success.isSome then 1 else 0) ∧
            (seq_ctx.on_success.isSome = true →
              evs.head? = some (.on_success c.rs.ptr seq_ctx.seq_type))))) := by
  obtain ⟨hlog0, hptr0⟩ := sequence_continue_cb_enter_log c
  refine ⟨?_, ?_⟩
  · intro h
    have heq : sequence_continue_cb req seq_ctx c
        = sequence_continue_cb_error seq_ctx (sequence_continue_cb_enter c) := by
      rcases h with rfl | ⟨r, rfl, h1, h2⟩
      · simp only [sequence_continue_cb, hcur]
      · simp only [sequence_continue_cb, hcur]
        rw [if_pos ⟨h1, by simp [h2]⟩]
    refine ⟨heq, ?_⟩
    rw [heq, ← hlog0, ← hptr0]
    exact sequence_continue_cb_error_events seq_ctx _ herr
  · rintro r rfl hok t c1 hh
    have heq := sequence_continue_cb_eq r seq_ctx cur c hcur hok
    obtain ⟨eff, -⟩ := sequence_continue_cb_handle_effect seq_ctx cur.response_handler r
      (sequence_continue_cb_enter c)
    rw [hh] at heq eff
    simp only at heq eff
    have hptr1 : c1.rs.ptr = c.rs.ptr := eff.ptr.trans hptr0
    refine ⟨?_, ?_, ?_⟩
    · rintro rfl
      have heq2 : sequence_continue_cb (some r) seq_ctx c
          = sequence_continue_cb_error seq_ctx c1 := by
        rw [heq]; simp
      refine ⟨heq2, ?_⟩
      rw [heq2, ← hptr1]
      exact sequence_continue_cb_error_events seq_ctx _ herr
    · intro h1 h2
      have heq2 : sequence_continue_cb (some r) seq_ctx c
          = sequence_start t seq_ctx.payload_make_arg c1 := by
        rw [heq]; simp [h1, h2]
      refine ⟨heq2, ?_, ?_⟩
      · rw [heq2, (sequence_start_effect _ _ _).ptr]; exact hptr1
      · rw [heq2, ← hptr1]
        exact sequence_start_log t _ c1
    · rintro rfl
      have heq2 : sequence_continue_cb (some r) seq_ctx c = sequence_continue_cb_next seq_ctx c1 := by
        rw [heq]; simp
      refine ⟨?_, ?_⟩
      · intro hnext
        have heq3 : sequence_continue_cb (some r) seq_ctx c
            = sequence_continue 7 { seq_ctx with idx := seq_ctx.idx + 1 } c1 := by
          rw [heq2]; simp only [sequence_continue_cb_next, hnext, if_true]
        refine ⟨heq3, ?_⟩
        rw [heq3]
        obtain ⟨evs, he, hevs⟩ :=
          (sequence_continue_effect 7 { seq_ctx with idx := seq_ctx.idx + 1 } c1).log
        refine ⟨evs, he, fun e hm => ?_⟩
        simpa [is_send_event, hptr1] using hevs e hm
      · intro hnext
        have heq3 : sequence_continue_cb (some r) seq_ctx c
            = (match seq_ctx.on_success with
               | some on_success =>
                 run_seq_callback on_success (c1.emit (.on_success c.rs.ptr seq_ctx.seq_type))
               | none => c1) := by
          rw [heq2]; simp only [sequence_continue_cb_next, hnext, hptr1]; rfl
        refine ⟨heq3, ?_⟩
        rw [heq3]
        cases hs : seq_ctx.on_success with
        | none => exact ⟨[], by simp, by simp, by simp⟩
        | some cb =>
          obtain ⟨evs, he, hevs⟩ :=
            run_seq_callback_events cb (c1.emit (.on_success c.rs.ptr seq_ctx.seq_type))
          refine ⟨.on_success c.rs.ptr seq_ctx.seq_type :: evs, ?_, ?_, fun _ => rfl⟩
          · simp only [he]; simp [Ctl.emit, Sys.emit]
          · have : evs.countP Event.is_on_success = 0 := by
              rw [List.countP_eq_zero]
              intro e hm
              simp [(hevs e hm).2.1]
            simp [List.countP_cons, this, Event.is_on_success]

set_option maxRecDepth 100000 in
/-- Witness for `sequence_continue_cb_cases`: the OPTIONS request of START gets no
response. -/
theorem sequence_continue_cb_cases_witness :
    (airplay_seq_ctx.first .START 1 .null).cur_request
      = some { seq_type := .START, name := "OPTIONS", rtsp_type := .OPTIONS,
               payload_make := none, response_handler := some .options_start,
               content_type := none, uri := some "*", proceed_on_rtsp_not_ok := true } ∧
    (airplay_seq_ctx.first .START 1 .null).on_error
      = (airplay_seq_definition (airplay_seq_ctx.first .START 1 .null).seq_type).on_error ∧
    sequence_continue_cb none (airplay_seq_ctx.first .START 1 .null)
        (exampleCtl (some (exampleDevice none false)) (exampleSession 1 .STARTUP) true 0)
      = sequence_continue_cb_error (airplay_seq_ctx.first .START 1 .null)
          (sequence_continue_cb_enter
            (exampleCtl (some (exampleDevice none false)) (exampleSession 1 .STARTUP) true 0)) :=
  ⟨rfl, rfl,
   ((sequence_continue_cb_cases none (airplay_seq_ctx.first .START 1 .null) _
      (exampleCtl (some (exampleDevice none false)) (exampleSession 1 .STARTUP) true 0)
      rfl rfl).1 (Or.inl rfl)).1⟩

/-! ## Lemmas: steps that keep the invariant -/

theorem frame_refl (c : Ctl) : Frame c c :=
  ⟨rfl, rfl, rfl, rfl, rfl, rfl, Or.inl rfl, [], by simp⟩

theorem stable_frame {c c2 : Ctl} (h : Stable c c2) : Frame c c2 where
  alive := h.alive
  ptr := h.ptr
  master := h.master
  next_seq := h.next_seq
  secret := h.secret
  data_port := h.data_port
  state := by
    rcases h.state with h | h
    · exact Or.inl h
    · exact Or.inr (Or.inl h)
  log := h.log

theorem sendEffect_frame {x : airplay_seq_ctx} {c c2 : Ctl} (h : SendEffect x c c2) :
    Frame c c2 where
  alive := h.alive
  ptr := h.ptr
  master := h.master
  next_seq := h.next_seq
  secret := h.secret
  data_port := h.data_port
  state := by
    rcases h.state with h | h | h | h
    · exact Or.inl h
    all_goals exact Or.inr (Or.inl (by rw [h]; decide))
  log := by
    obtain ⟨evs, he, -⟩ := h.log
    exact ⟨evs, he⟩

theorem paired_mono {c c2 : Ctl} (h : Paired c) (hp : c2.rs.ptr = c.rs.ptr)
    (hs : c.rs.shared_secret.isSome = true → c2.rs.shared_secret.isSome = true)
    (hl : ∃ evs, c2.sys.log = c.sys.log ++ evs) : Paired c2 := by
  obtain ⟨evs, he⟩ := hl
  refine ⟨hs h.1, ?_⟩
  rw [he, hp]
  rcases h.2 with h | h
  · exact Or.inl (List.mem_append_left _ h)
  · exact Or.inr (List.mem_append_left _ h)

theorem setup_mono {c c2 : Ctl} (h : Setup c) (hp : c2.rs.ptr = c.rs.ptr)
    (hm : c2.rs.master_session = c.rs.master_session)
    (hs : c.rs.shared_secret.isSome = true → c2.rs.shared_secret.isSome = true)
    (hd : c2.rs.data_port = c.rs.data_port)
    (hl : ∃ evs, c2.sys.log = c.sys.log ++ evs) : Setup c2 :=
  ⟨by rw [hm]; exact h.1, paired_mono h.2.1 hp hs hl, by rw [hd]; exact h.2.2⟩

theorem frame_paired {c c2 : Ctl} (f : Frame c c2) (h : Paired c) : Paired c2 :=
  paired_mono h f.ptr (fun hh => by rw [f.secret]; exact hh) f.log

theorem frame_setup {c c2 : Ctl} (f : Frame c c2) (h : Setup c) : Setup c2 :=
  setup_mono h f.ptr f.master (fun hh => by rw [f.secret]; exact hh) f.data_port f.log

theorem ctx_ok_frame {c c2 : Ctl} {x : airplay_seq_ctx} (h : ctx_ok c x) (f : Frame c c2)
    (hpt : x.seq_type = .PAIR_TRANSIENT → c2.rs.pair_type = c.rs.pair_type) : ctx_ok c2 x where
  wf := h.wf
  transient := fun hx => by rw [hpt hx]; exact h.transient hx
  pair_setup := fun hx => by rw [f.next_seq]; exact h.pair_setup hx
  flush := fun hx => frame_setup f (h.flush hx)
  data_port := fun hx hi => by rw [f.data_port]; exact h.data_port hx hi
  paired := fun hx => frame_paired f (h.paired hx)
  state := fun hx => by
    have hs := h.state hx
    rcases f.state with e | e | e
    · rw [e]; exact hs
    · exact e
    · exact absurd e.1 hs.1

/-- The invariant after a step that frames the session and adds contexts. -/
theorem inv_frame {c c2 : Ctl} (h : Inv c) (f : Frame c c2) (extra : List airplay_seq_ctx)
    (hc : c2.seq_ctxs = c.seq_ctxs ++ extra)
    (hpt : (∃ y ∈ c.seq_ctxs ++ extra, y.seq_type = .PAIR_TRANSIENT) →
      c2.rs.pair_type = c.rs.pair_type)
    (hx : ∀ x ∈ extra, ctx_ok c x)
    (hone : (c.seq_ctxs ++ extra).countP (fun x => x.seq_type.mainline) ≤ 1)
    (hex : (∃ x ∈ c.seq_ctxs ++ extra, x.seq_type.mainline = true) →
      ∀ y ∈ c.seq_ctxs ++ extra, y.seq_type ≠ .FLUSH) : Inv c2 where
  master := fun ha => by rw [f.master]; exact h.master (by rw [← f.alive]; exact ha)
  next_seq := by rw [f.next_seq]; exact h.next_seq
  ctxs := fun x hm => by
    rw [hc] at hm
    have hok : ctx_ok c x := by
      rcases List.mem_append.1 hm with hm1 | hm1
      · exact h.ctxs x hm1
      · exact hx x hm1
    exact ctx_ok_frame hok f (fun hxt => hpt ⟨x, hm, hxt⟩)
  one := by rw [hc]; exact hone
  excl := by rw [hc]; exact hex
  setup := fun hs => by
    rcases f.state with e | e | e
    · exact frame_setup f (h.setup (by rw [← e]; exact hs))
    · rcases hs with hs | hs
      · exact absurd hs e.1
      · exact absurd hs e.2
    · exact frame_setup f (h.setup (Or.inl e.1))

/-- The invariant after a step that frames the session and keeps the contexts
and the pairing type. -/
theorem inv_frame_same {c c2 : Ctl} (h : Inv c) (f : Frame c c2)
    (hc : c2.seq_ctxs = c.seq_ctxs) (hpt : c2.rs.pair_type = c.rs.pair_type) : Inv c2 :=
  inv_frame h f [] (by simp [hc]) (fun _ => hpt) (by simp) (by simpa using h.one)
    (by simpa using h.excl)

theorem inv_side {c c2 : Ctl} (h : Inv c) (s : Side c c2) : Inv c2 := by
  obtain ⟨st, extra, hc, hx⟩ := s
  have hcount : extra.countP (fun x => x.seq_type.mainline) = 0 := by
    rw [List.countP_eq_zero]
    intro x hm
    simp [(hx x hm).2.1]
  refine inv_frame h (stable_frame st) extra hc (fun _ => st.pair_type) ?_ ?_ ?_
  · intro x hm
    obtain ⟨hw, hml, hfl⟩ := hx x hm
    have hnp : x.seq_type.after_pairing = false := by
      cases ht : x.seq_type <;> simp [ht, airplay_seq_type.mainline] at hml <;> rfl
    exact
      { wf := hw
        transient := fun e => by simp [e, airplay_seq_type.mainline] at hml
        pair_setup := fun e => by simp [e, airplay_seq_type.mainline] at hml
        flush := fun e => absurd e hfl
        data_port := fun e => by simp [e, airplay_seq_type.mainline] at hml
        paired := fun e => by simp [hnp] at e
        state := fun e => by simp [hml] at e }
  · rw [List.countP_append, hcount]; exact h.one
  · rintro ⟨x, hm, hxm⟩ y hy
    rcases List.mem_append.1 hm with hm | hm
    · rcases List.mem_append.1 hy with hy | hy
      · exact h.excl ⟨x, hm, hxm⟩ y hy
      · exact (hx y hy).2.2
    · simp [(hx x hm).2.1] at hxm

theorem frame_trans {c c1 c2 : Ctl} (h1 : Frame c c1) (h2 : Frame c1 c2) : Frame c c2 where
  alive := h2.alive.trans h1.alive
  ptr := h2.ptr.trans h1.ptr
  master := h2.master.trans h1.master
  next_seq := h2.next_seq.trans h1.next_seq
  secret := h2.secret.trans h1.secret
  data_port := h2.data_port.trans h1.data_port
  state := by
    rcases h2.state with e | e | e
    · rw [e]; exact h1.state
    · exact Or.inr (Or.inl e)
    · rcases h1.state with e1 | e1 | e1
      · exact Or.inr (Or.inr ⟨by rw [← e1]; exact e.1, e.2⟩)
      · exact absurd e.1 e1.1
      · rw [e1.2] at e; exact absurd e.1 (by decide)
  log := by
    obtain ⟨e1, h1⟩ := h1.log
    obtain ⟨e2, h2⟩ := h2.log
    exact ⟨e1 ++ e2, by rw [h2, h1, List.append_assoc]⟩

/-- The invariant after `sequence_continue` or `sequence_start` for a context
that the session allows. -/
theorem inv_send {x : airplay_seq_ctx} {c c2 : Ctl} (h : Inv c) (e : SendEffect x c c2)
    (hx : ctx_ok c x)
    (hpt : x.keeps_pair_type ∨ (c.seq_ctxs = [] ∧ x.seq_type ≠ .PAIR_TRANSIENT))
    (hm : x.seq_type.mainline = true →
      c.seq_ctxs.countP (fun y => y.seq_type.mainline) = 0 ∧
      ∀ y ∈ c.seq_ctxs, y.seq_type ≠ .FLUSH)
    (hf : x.seq_type = .FLUSH → c.seq_ctxs.countP (fun y => y.seq_type.mainline) = 0) :
    Inv c2 := by
  rcases e.ctxs with ⟨hc, -⟩ | ⟨hc, -⟩
  · refine inv_frame h (sendEffect_frame e) [] (by simp [hc]) ?_ (by simp) (by simpa using h.one)
      (by simpa using h.excl)
    rintro ⟨y, hy, hyt⟩
    rcases hpt with hk | ⟨hnil, -⟩
    · exact e.pair_type hk
    · simp [hnil] at hy
  · refine inv_frame h (sendEffect_frame e) [x] hc ?_ ?_ ?_ ?_
    · rintro ⟨y, hy, hyt⟩
      rcases hpt with hk | ⟨hnil, hne⟩
      · exact e.pair_type hk
      · simp [hnil] at hy
        subst hy
        exact absurd hyt hne
    · intro y hy
      rw [List.mem_singleton] at hy
      subst hy
      exact hx
    · rw [List.countP_append]
      by_cases hxm : x.seq_type.mainline = true
      · simp [(hm hxm).1, hxm]
      · have := h.one
        simp [hxm]
        exact this
    · rintro ⟨z, hz, hzm⟩ y hy
      by_cases hxm : x.seq_type.mainline = true
      · rcases List.mem_append.1 hy with hy | hy
        · exact (hm hxm).2 y hy
        · rw [List.mem_singleton] at hy
          subst hy
          intro hfl
          rw [hfl] at hxm
          simp [airplay_seq_type.mainline] at hxm
      · have hzl : z ∈ c.seq_ctxs := by
          rcases List.mem_append.1 hz with hz | hz
          · exact hz
          · rw [List.mem_singleton] at hz
            subst hz
            exact absurd hzm hxm
        rcases List.mem_append.1 hy with hy | hy
        · exact h.excl ⟨z, hzl, hzm⟩ y hy
        · rw [List.mem_singleton] at hy
          subst hy
          intro hfl
          have h0 := hf hfl
          rw [List.countP_eq_zero] at h0
          have := h0 z hzl
          simp [hzm] at this

theorem emit_frame (c : Ctl) (e : Event) : Frame c (c.emit e) :=
  stable_frame (emit_stable c e)

theorem inv_emit {c : Ctl} (h : Inv c) (e : Event) : Inv (c.emit e) :=
  inv_frame_same h (emit_frame c e) rfl rfl

theorem ctx_ok_emit {c : Ctl} {x : airplay_seq_ctx} (h : ctx_ok c x) (e : Event) :
    ctx_ok (c.emit e) x :=
  ctx_ok_frame h (emit_frame c e) (fun _ => rfl)

/-- The invariant after `sequence_start`. -/
theorem sequence_start_inv (t : airplay_seq_type) (arg : payload_arg) (c : Ctl) (h : Inv c)
    (hx : ctx_ok c (airplay_seq_ctx.first t c.rs.ptr arg))
    (hpt : ((∀ pin, arg ≠ .pin pin) ∨ (t ≠ .PAIR_SETUP ∧ t ≠ .PAIR_TRANSIENT)) ∨
      (c.seq_ctxs = [] ∧ t ≠ .PAIR_TRANSIENT))
    (hm : t.mainline = true →
      c.seq_ctxs.countP (fun y => y.seq_type.mainline) = 0 ∧
      ∀ y ∈ c.seq_ctxs, y.seq_type ≠ .FLUSH)
    (hf : t = .FLUSH → c.seq_ctxs.countP (fun y => y.seq_type.mainline) = 0) :
    Inv (sequence_start t arg c) := by
  refine inv_send (inv_emit h (.sequence_start c.rs.ptr t)) (sequence_start_effect t arg c)
    (ctx_ok_emit hx _) ?_ hm hf
  rcases hpt with hk | hk
  · exact Or.inl (first_keeps_pair_type t _ arg hk)
  · exact Or.inr hk

/-! ## Lemmas: a new session -/

theorem session_connection_setup_alive (rd : output_device) (family : sa_family) (c : Ctl) :
    (session_connection_setup rd family c).2.alive = c.alive := by
  cases family <;> simp only [session_connection_setup, Ctl.call, Sys.call] <;>
    (repeat' split) <;> simp

/-- What `session_make` leaves, made or not. -/
theorem session_make_fresh (rd : output_device) (callback_id : Int) (c : Ctl) :
    (session_make rd callback_id c).2.seq_ctxs = [] ∧
    (session_make rd callback_id c).2.rs.state = .STOPPED ∧
    (session_make rd callback_id c).2.rs.next_seq = .CONTINUE ∧
    ((session_make rd callback_id c).1 = false → (session_make rd callback_id c).2.alive = false) ∧
    ((session_make rd callback_id c).1 = true →
      (session_make rd callback_id c).2.rs.master_session.isSome = true) := by
  simp only [session_make]
  obtain ⟨-, -, p3, -, p5, -, -, p8, -⟩ := session_connection_setup_effect rd .AF_INET6
    (session_make_init rd callback_id c)
  obtain ⟨-, -, q3, -, q5, -, -, q8, -⟩ := session_connection_setup_effect rd .AF_INET
    (session_connection_setup rd .AF_INET6 (session_make_init rd callback_id c)).2
  have pa := session_connection_setup_alive rd .AF_INET6 (session_make_init rd callback_id c)
  have qa := session_connection_setup_alive rd .AF_INET
    (session_connection_setup rd .AF_INET6 (session_make_init rd callback_id c)).2
  have a3 : (session_make_init rd callback_id c).rs.next_seq = .CONTINUE := rfl
  have a5 : (session_make_init rd callback_id c).rs.state = .STOPPED := rfl
  have a8 : (session_make_init rd callback_id c).seq_ctxs = [] := rfl
  have aa : (session_make_init rd callback_id c).alive = false := rfl
  by_cases h6 : (session_connection_setup rd .AF_INET6 (session_make_init rd callback_id c)).1 < 0
  · simp only [h6, if_true]
    repeat' split
    all_goals simp [Ctl.call, Sys.call, q3, q5, q8, qa, p3, p5, p8, pa, a3, a5, a8, aa]
  · simp only [h6, if_false]
    repeat' split
    all_goals simp [Ctl.call, Sys.call, p3, p5, p8, pa, a3, a5, a8, aa]

/-- A session without contexts that is not CONNECTED or STREAMING satisfies the
invariant. -/
theorem inv_of_fresh {c : Ctl} (hc : c.seq_ctxs = [])
    (hs : c.rs.state ≠ .CONNECTED ∧ c.rs.state ≠ .STREAMING)
    (hn : c.rs.next_seq = .CONTINUE ∨ c.rs.next_seq = .START ∨ c.rs.next_seq = .PROBE)
    (hm : c.alive = true → c.rs.master_session.isSome = true) : Inv c where
  master := hm
  next_seq := hn
  ctxs := by simp [hc]
  one := by simp [hc]
  excl := by simp [hc]
  setup := fun h => by
    rcases h with h | h
    · exact absurd h hs.1
    · exact absurd h hs.2

theorem session_make_inv (rd : output_device) (callback_id : Int) (c : Ctl) :
    Inv (session_make rd callback_id c).2 := by
  obtain ⟨h1, h2, h3, h4, h5⟩ := session_make_fresh rd callback_id c
  refine inv_of_fresh h1 (by rw [h2]; decide) (Or.inl h3) ?_
  intro ha
  cases hm : (session_make rd callback_id c).1 with
  | true => exact h5 hm
  | false => rw [h4 hm] at ha; cases ha

theorem first_ctx_ok_fresh (t : airplay_seq_type) (arg : payload_arg) (c : Ctl)
    (hs : c.rs.state ≠ .CONNECTED ∧ c.rs.state ≠ .STREAMING)
    (ht : t = .PAIR_VERIFY ∨ (t = .PAIR_TRANSIENT ∧ c.rs.pair_type = .HOMEKIT_TRANSIENT) ∨
      t = .PIN_START ∨ (t = .PAIR_SETUP ∧ c.rs.next_seq = .CONTINUE)) :
    ctx_ok c (airplay_seq_ctx.first t c.rs.ptr arg) := by
  rcases ht with rfl | ⟨rfl, hp⟩ | rfl | ⟨rfl, hn⟩
  all_goals
    refine ⟨first_wf _ _ _ (by decide), ?_, ?_, ?_, ?_, ?_, ?_⟩ <;>
      simp [airplay_seq_ctx.first, airplay_seq_type.after_pairing, airplay_seq_type.mainline]
  all_goals first | exact hs | exact hp | exact hn

/-- Starting the first sequence of a new session keeps the invariant. -/
theorem first_sequence_inv (t : airplay_seq_type) (arg : payload_arg) (c : Ctl)
    (hc : c.seq_ctxs = []) (hs : c.rs.state ≠ .CONNECTED ∧ c.rs.state ≠ .STREAMING)
    (hn : c.rs.next_seq = .CONTINUE ∨ c.rs.next_seq = .START ∨ c.rs.next_seq = .PROBE)
    (hm : c.alive = true → c.rs.master_session.isSome = true)
    (ht : t = .PAIR_VERIFY ∨ (t = .PAIR_TRANSIENT ∧ c.rs.pair_type = .HOMEKIT_TRANSIENT) ∨
      t = .PIN_START ∨ (t = .PAIR_SETUP ∧ c.rs.next_seq = .CONTINUE))
    (harg : (∀ pin, arg ≠ .pin pin) ∨ t ≠ .PAIR_TRANSIENT) :
    Inv (sequence_start t arg c) := by
  refine sequence_start_inv t arg c (inv_of_fresh hc hs hn hm) (first_ctx_ok_fresh t arg c hs ht)
    ?_ (fun _ => ⟨by simp [hc], by simp [hc]⟩) (fun _ => by simp [hc])
  rcases harg with h | h
  · exact Or.inl (Or.inl h)
  · exact Or.inr ⟨hc, h⟩

theorem airplay_device_start_generic_inv (device : output_device) (callback_id : Int)
    (only_probe : Bool) (c : Ctl) :
    Inv (airplay_device_start_generic device callback_id only_probe c).2 := by
  obtain ⟨h1, h2, h3, h4, h5⟩ := session_make_fresh device callback_id c
  have hi := session_make_inv device callback_id c
  simp only [airplay_device_start_generic]
  generalize session_make device callback_id c = r at h1 h2 h3 h4 h5 hi
  obtain ⟨made, c1⟩ := r
  simp only at h1 h2 h3 h4 h5 hi
  have key : ∀ c2 : Ctl, c2.seq_ctxs = [] → c2.rs.state = .STOPPED →
      (c2.rs.next_seq = .CONTINUE ∨ c2.rs.next_seq = .START ∨ c2.rs.next_seq = .PROBE) →
      (c2.alive = true → c2.rs.master_session.isSome = true) →
      Inv (if device.auth_key.isSome = true then sequence_start .PAIR_VERIFY .null c2
           else if c2.rs.pair_type = .HOMEKIT_TRANSIENT then
             sequence_start .PAIR_TRANSIENT .null c2
           else sequence_start .PIN_START .null c2) := by
    intro c2 k1 k2 k3 k4
    have hs : c2.rs.state ≠ .CONNECTED ∧ c2.rs.state ≠ .STREAMING := by rw [k2]; decide
    split
    · exact first_sequence_inv _ _ c2 k1 hs k3 k4 (Or.inl rfl) (Or.inl (by simp))
    · split
      · rename_i hp
        exact first_sequence_inv _ _ c2 k1 hs k3 k4 (Or.inr (Or.inl ⟨rfl, hp⟩))
          (Or.inl (by simp))
      · exact first_sequence_inv _ _ c2 k1 hs k3 k4 (Or.inr (Or.inr (Or.inl rfl)))
          (Or.inl (by simp))
  cases made with
  | false => exact hi
  | true =>
    simp only [Bool.not_true, Bool.false_eq_true, if_false]
    exact key { c1 with rs := { c1.rs with next_seq := if only_probe then .PROBE else .START } }
      h1 h2 (by cases only_probe <;> simp) (fun _ => h5 rfl)

theorem airplay_device_authorize_inv (device : output_device) (pin : String)
    (callback_id : Int) (c : Ctl) :
    Inv (airplay_device_authorize device pin callback_id c).2 := by
  obtain ⟨h1, h2, h3, h4, h5⟩ := session_make_fresh device callback_id c
  have hi := session_make_inv device callback_id c
  simp only [airplay_device_authorize]
  generalize session_make device callback_id c = r at h1 h2 h3 h4 h5 hi
  obtain ⟨made, c1⟩ := r
  simp only at h1 h2 h3 h4 h5 hi
  cases made with
  | false => exact hi
  | true =>
    simp only [Bool.not_true, Bool.false_eq_true, if_false]
    exact first_sequence_inv .PAIR_SETUP (.pin pin) c1 h1 (by rw [h2]; decide) (Or.inl h3)
      (fun _ => h5 rfl) (Or.inr (Or.inr (Or.inr ⟨rfl, h3⟩))) (Or.inr (by decide))

/-! ## Lemmas: the callbacks of a sequence keep the invariant -/

theorem session_status_frame (c : Ctl) : Frame c (session_status c) := by
  simp only [session_status]
  exact ⟨rfl, rfl, rfl, rfl, rfl, rfl, Or.inl rfl, _, rfl⟩

theorem inv_status {c : Ctl} (h : Inv c) : Inv (session_status c) :=
  inv_frame_same h (session_status_frame c) rfl rfl

theorem inv_cleanup {c : Ctl} (h : Inv c) : Inv (session_cleanup c) where
  master := fun ha => by simp [session_cleanup] at ha
  next_seq := h.next_seq
  ctxs := by simp [session_cleanup]
  one := by simp [session_cleanup]
  excl := by simp [session_cleanup]
  setup := fun hs => h.setup hs

theorem inv_set_failed {c : Ctl} (h : Inv c) :
    Inv (if c.rs.state ≠ .PASSWORD then { c with rs := { c.rs with state := .FAILED } } else c) := by
  split
  · have f : Frame c { c with rs := { c.rs with state := .FAILED } } :=
      ⟨rfl, rfl, rfl, rfl, rfl, rfl, Or.inr (Or.inl ⟨by simp, by simp⟩), [], by simp⟩
    exact inv_frame_same h f rfl rfl
  · exact h

theorem inv_failure {c : Ctl} (h : Inv c) : Inv (session_failure c) := by
  unfold session_failure
  exact inv_cleanup (inv_status (inv_set_failed h))

theorem inv_success {c : Ctl} (h : Inv c) : Inv (session_success c) :=
  inv_cleanup (inv_status h)

theorem inv_set_device {c : Ctl} (h : Inv c) (d : Option output_device) :
    Inv { c with device := d } :=
  inv_frame_same h ⟨rfl, rfl, rfl, rfl, rfl, rfl, Or.inl rfl, [], by simp⟩ rfl rfl

theorem inv_probe_failure {c : Ctl} (h : Inv c) : Inv (probe_failure c) := by
  unfold probe_failure
  split
  · exact inv_failure h
  · exact inv_failure (inv_set_device h _)

theorem inv_start_failure {c : Ctl} (h : Inv c) : Inv (start_failure c) :=
  inv_side h (sequence_start_side .FAILURE .null c rfl (by decide) (by decide))

theorem inv_start_retry {c : Ctl} (h : Inv c) : Inv (start_retry c) := by
  unfold start_retry
  split
  · exact inv_failure h
  · split
    · exact inv_failure h
    · split
      · exact inv_failure h
      · exact airplay_device_start_generic_inv _ _ _ _

/-- The `on_error` of every sequence keeps the invariant. -/
theorem inv_on_error {c : Ctl} (h : Inv c) (x : airplay_seq_ctx) (hx : x.wf) :
    Inv (sequence_continue_cb_error x c) := by
  unfold sequence_continue_cb_error
  split
  · rename_i cb hcb
    have hi := inv_emit h (.on_error c.rs.ptr x.seq_type)
    have hcb2 : (airplay_seq_definition x.seq_type).on_error = some cb := by rw [← hx.2.1, hcb]
    generalize c.emit (.on_error c.rs.ptr x.seq_type) = c1 at hi
    cases ht : x.seq_type <;> rw [ht] at hcb2 <;>
      simp [airplay_seq_definition] at hcb2 <;> subst hcb2 <;>
      simp only [run_seq_callback]
    all_goals first
      | exact inv_start_retry hi
      | exact inv_start_failure hi
      | exact inv_probe_failure hi
      | exact inv_failure hi
  · exact h

theorem inv_connected {c : Ctl} (h : Inv c) (hs : Setup c)
    (hm : c.seq_ctxs.countP (fun y => y.seq_type.mainline) = 0) : Inv (session_connected c) := by
  unfold session_connected
  refine inv_status ?_
  rw [List.countP_eq_zero] at hm
  exact
    { master := h.master
      next_seq := h.next_seq
      ctxs := fun y hy => by
        have hy0 := h.ctxs y hy
        have hnm : y.seq_type.mainline = false := by simpa using hm y hy
        have hnp : y.seq_type.after_pairing = false := by
          cases ht : y.seq_type <;> simp [ht, airplay_seq_type.mainline] at hnm <;> rfl
        exact
          { wf := hy0.wf
            transient := fun e => by simp [e, airplay_seq_type.mainline] at hnm
            pair_setup := hy0.pair_setup
            flush := fun _ => hs
            data_port := fun e => by simp [e, airplay_seq_type.mainline] at hnm
            paired := fun e => by simp [hnp] at e
            state := fun e => by simp [hnm] at e }
      one := h.one
      excl := h.excl
      setup := fun _ => hs }

theorem inv_next_seq_continue {c : Ctl} (h : Inv c) :
    Inv { c with rs := { c.rs with next_seq := .CONTINUE } } where
  master := h.master
  next_seq := Or.inl rfl
  ctxs := fun y hy =>
    { wf := (h.ctxs y hy).wf
      transient := (h.ctxs y hy).transient
      pair_setup := fun _ => rfl
      flush := (h.ctxs y hy).flush
      data_port := (h.ctxs y hy).data_port
      paired := (h.ctxs y hy).paired
      state := (h.ctxs y hy).state }
  one := h.one
  excl := h.excl
  setup := h.setup

theorem inv_pair_success {c : Ctl} (h : Inv c)
    (hp : c.rs.next_seq ≠ .CONTINUE → Paired c ∧
      (c.rs.state ≠ .CONNECTED ∧ c.rs.state ≠ .STREAMING) ∧
      c.seq_ctxs.countP (fun y => y.seq_type.mainline) = 0 ∧
      ∀ y ∈ c.seq_ctxs, y.seq_type ≠ .FLUSH) : Inv (session_pair_success c) := by
  unfold session_pair_success
  split
  · rename_i hne
    obtain ⟨h1, h2, h3, h4⟩ := hp hne
    refine inv_next_seq_continue ?_
    have hn : c.rs.next_seq = .START ∨ c.rs.next_seq = .PROBE := by
      rcases h.next_seq with e | e | e
      · exact absurd e hne
      · exact Or.inl e
      · exact Or.inr e
    refine sequence_start_inv _ _ c h ?_ (Or.inl (Or.inl (by simp))) (fun _ => ⟨h3, h4⟩)
      (fun e => h3)
    rcases hn with e | e <;> rw [e] <;>
      refine ⟨first_wf _ _ _ (by decide), ?_, ?_, ?_, ?_, ?_, ?_⟩ <;>
      simp [airplay_seq_ctx.first, airplay_seq_type.after_pairing, airplay_seq_type.mainline]
    all_goals first | exact h1 | exact h2
  · exact inv_success h


/-! ## Lemmas: the table of requests -/

set_option maxHeartbeats 4000000 in
/-- Which handler stands at which step of which row of `airplay_seq_request`. -/
theorem row_facts (x : airplay_seq_ctx) (cur : airplay_seq_request)
    (hcur : x.cur_request = some cur) :
    (cur.response_handler = some .flush → x.seq_type = .FLUSH) ∧
    (cur.response_handler = some .setup_stream → x.seq_type = .START_AP2 ∧ x.idx = 2) ∧
    (x.seq_type = .START_AP2 → x.idx = 2 → cur.response_handler = some .setup_stream) ∧
    (cur.response_handler = some .pair_setup1 → x.seq_type.mainline = true) ∧
    ((cur.response_handler = some .options_probe ∨ cur.response_handler = some .options_start) →
      x.seq_type.after_pairing = true ∧ x.seq_type.mainline = true) ∧
    (x.seq_type = .PAIR_VERIFY → x.idx = 1 → cur.response_handler = some .pair_verify2) ∧
    (x.seq_type = .PAIR_TRANSIENT → x.idx = 1 → cur.response_handler = some .pair_setup2) ∧
    ({ x with idx := x.idx + 1 }.cur_request = none →
      (x.seq_type = .PAIR_VERIFY ∨ x.seq_type = .PAIR_TRANSIENT → x.idx = 1) ∧
      (x.seq_type = .START_AP2 → x.idx = 4)) ∧
    (∀ nxt, { x with idx := x.idx + 1 }.cur_request = some nxt →
      nxt.payload_make ≠ some .pair_setup1) := by
  obtain ⟨T, i, s, e, p, a⟩ := x
  simp only [airplay_seq_ctx.cur_request] at hcur ⊢
  cases T <;> simp only [airplay_seq_request_rows] at hcur ⊢ <;>
    rcases i with _ | _ | _ | _ | _ | i <;>
    simp [airplay_seq_type.mainline, airplay_seq_type.after_pairing] at hcur ⊢ <;>
    (try subst hcur) <;> simp

/-! ## Lemmas: a response keeps the invariant -/

theorem ctx_ok_side (c : Ctl) (x : airplay_seq_ctx) (hw : x.wf)
    (hml : x.seq_type.mainline = false) (hfl : x.seq_type ≠ .FLUSH) : ctx_ok c x := by
  have hnp : x.seq_type.after_pairing = false := by
    cases ht : x.seq_type <;> simp [ht, airplay_seq_type.mainline] at hml <;> rfl
  exact
    { wf := hw
      transient := fun e => by simp [e, airplay_seq_type.mainline] at hml
      pair_setup := fun e => by simp [e, airplay_seq_type.mainline] at hml
      flush := fun e => absurd e hfl
      data_port := fun e => by simp [e, airplay_seq_type.mainline] at hml
      paired := fun e => by simp [hnp] at e
      state := fun e => by simp [hml] at e }

theorem sequence_continue_cb_enter_frame (c : Ctl) :
    Frame c (sequence_continue_cb_enter c) ∧
    (sequence_continue_cb_enter c).seq_ctxs = c.seq_ctxs ∧
    (sequence_continue_cb_enter c).rs.pair_type = c.rs.pair_type := by
  simp only [sequence_continue_cb_enter]
  split
  · exact ⟨⟨rfl, rfl, rfl, rfl, rfl, rfl, Or.inl rfl, [], by simp⟩, rfl, rfl⟩
  · exact ⟨⟨rfl, rfl, rfl, rfl, rfl, rfl, Or.inl rfl, [], by simp⟩, rfl, rfl⟩

/-- Taking a context out of the requests in flight for its callback. -/
theorem pending_enter (c : Ctl) (before : List airplay_seq_ctx) (x : airplay_seq_ctx)
    (after : List airplay_seq_ctx) (h : Inv c) (ha : c.alive = true)
    (hc : c.seq_ctxs = before ++ x :: after) :
    Pending (sequence_continue_cb_enter { c with seq_ctxs := before ++ after }) x := by
  have hone := h.one
  rw [hc, List.countP_append, List.countP_cons] at hone
  have hsub : ∀ y ∈ before ++ after, y ∈ c.seq_ctxs := by
    intro y hy
    rw [hc]
    rcases List.mem_append.1 hy with hy | hy
    · exact List.mem_append_left _ hy
    · exact List.mem_append_right _ (List.mem_cons_of_mem _ hy)
  have hxin : x ∈ c.seq_ctxs := by rw [hc]; simp
  have f0 : Frame c { c with seq_ctxs := before ++ after } :=
    ⟨rfl, rfl, rfl, rfl, rfl, rfl, Or.inl rfl, [], by simp⟩
  have hcount : (before ++ after).countP (fun y => y.seq_type.mainline) ≤ 1 := by
    rw [List.countP_append]
    omega
  have hr : Pending { c with seq_ctxs := before ++ after } x :=
    { inv :=
        { master := h.master
          next_seq := h.next_seq
          ctxs := fun y hy => ctx_ok_frame (h.ctxs y (hsub y hy)) f0 (fun _ => rfl)
          one := hcount
          excl := by
            rintro ⟨z, hz, hzm⟩ y hy
            exact h.excl ⟨z, hsub z hz, hzm⟩ y (hsub y hy)
          setup := h.setup }
      alive := ha
      ok := ctx_ok_frame (h.ctxs x hxin) f0 (fun _ => rfl)
      main := fun hm => by
        refine ⟨?_, fun y hy => h.excl ⟨x, hxin, hm⟩ y (hsub y hy)⟩
        show (before ++ after).countP (fun y => y.seq_type.mainline) = 0
        rw [List.countP_append]
        rw [if_pos hm] at hone
        omega
      flush := fun hf => by
        show (before ++ after).countP (fun y => y.seq_type.mainline) = 0
        rw [List.countP_eq_zero]
        intro y hy hym
        exact h.excl ⟨y, hsub y hy, hym⟩ x hxin hf }
  obtain ⟨f, hcs, hpt⟩ := sequence_continue_cb_enter_frame { c with seq_ctxs := before ++ after }
  exact
    { inv := inv_frame_same hr.inv f hcs hpt
      alive := by rw [f.alive]; exact hr.alive
      ok := ctx_ok_frame hr.ok f (fun _ => hpt)
      main := by rw [hcs]; exact hr.main
      flush := by rw [hcs]; exact hr.flush }

/-- The invariant after the response handler of the step of `x` has run. -/
theorem pending_handler {c0 c1 : Ctl} {x : airplay_seq_ctx} {cur : airplay_seq_request}
    {t : airplay_seq_type} (p : Pending c0 x) (hcur : x.cur_request = some cur)
    (e : HandlerEffect cur.response_handler c0 t c1)
    (hev : cur.response_handler.isSome = true →
      .handler c0.rs.ptr x.seq_type x.idx t ∈ c1.sys.log) :
    Inv c1 ∧ c1.alive = true ∧
    (x.seq_type.mainline = true →
      c1.seq_ctxs.countP (fun y => y.seq_type.mainline) = 0 ∧
      ∀ y ∈ c1.seq_ctxs, y.seq_type ≠ .FLUSH) ∧
    (x.seq_type = .FLUSH → c1.seq_ctxs.countP (fun y => y.seq_type.mainline) = 0) ∧
    (t ≠ .PIN_START → ctx_ok c1 x) ∧
    (x.seq_type = .START_AP2 → x.idx = 2 → t = .CONTINUE → c1.rs.data_port ≠ 0) ∧
    ((x.seq_type = .PAIR_VERIFY ∨ x.seq_type = .PAIR_TRANSIENT) → x.idx = 1 → t = .CONTINUE →
      Paired c1) ∧
    (t = .START_RERUN ∨ t = .START_AP2 →
      x.seq_type.after_pairing = true ∧ x.seq_type.mainline = true) := by
  obtain ⟨T1, T2, T2b, T3, T4, T5, T6, -, -⟩ := row_facts x cur hcur
  obtain ⟨extra, hc, hextra⟩ := e.ctxs
  have hcount_extra : extra.countP (fun y => y.seq_type.mainline) = 0 := by
    rw [List.countP_eq_zero]
    intro y hy
    simp [(hextra y hy).2.1]
  have hpaired : Paired c0 → Paired c1 := fun h => paired_mono h e.ptr e.secret e.log
  have hsetup : cur.response_handler ≠ some .setup_stream → Setup c0 → Setup c1 :=
    fun hne h => setup_mono h e.ptr e.master e.secret (e.data_port hne) e.log
  have hstream : cur.response_handler = some .setup_stream → x.seq_type.mainline = true :=
    fun h => by rw [(T2 h).1]; rfl
  -- a mainline context in flight beside `x`: the handler is none of the special ones
  have hother : ∀ y ∈ c0.seq_ctxs, y.seq_type.mainline = true →
      x.seq_type.mainline = false ∧ x.seq_type ≠ .FLUSH := by
    intro y hy hym
    constructor
    · by_contra hxm
      simp at hxm
      have h0 := (p.main hxm).1
      rw [List.countP_eq_zero] at h0
      exact h0 y hy hym
    · intro hxf
      have h0 := p.flush hxf
      rw [List.countP_eq_zero] at h0
      exact h0 y hy hym
  have hold : ∀ y ∈ c0.seq_ctxs, ctx_ok c1 y := by
    intro y hy
    have hy0 := p.inv.ctxs y hy
    by_cases hym : y.seq_type.mainline = true
    · obtain ⟨hx1, hx2⟩ := hother y hy hym
      have hns : cur.response_handler ≠ some .setup_stream := fun h => by
        rw [hstream h] at hx1; cases hx1
      have hnf : cur.response_handler ≠ some .flush := fun h => hx2 (T1 h)
      have hn1 : cur.response_handler ≠ some .pair_setup1 := fun h => by
        rw [T3 h] at hx1; cases hx1
      exact
        { wf := hy0.wf
          transient := fun ey => by
            rcases e.pair_type with h | h
            · rw [h]; exact hy0.transient ey
            · exact absurd h.1 hn1
          pair_setup := fun ey => by rw [e.next_seq]; exact hy0.pair_setup ey
          flush := fun ey => hsetup hns (hy0.flush ey)
          data_port := fun ey hi => by rw [e.data_port hns]; exact hy0.data_port ey hi
          paired := fun ey => hpaired (hy0.paired ey)
          state := fun ey => by
            rcases e.state with h | h | h
            · rw [h]; exact hy0.state ey
            · exact h
            · exact absurd h hnf }
    · have hym2 : y.seq_type.mainline = false := by simpa using hym
      have hnp : y.seq_type.after_pairing = false := by
        cases ht : y.seq_type <;> simp [ht, airplay_seq_type.mainline] at hym2 <;> rfl
      exact
        { wf := hy0.wf
          transient := fun ey => by simp [ey, airplay_seq_type.mainline] at hym2
          pair_setup := fun ey => by simp [ey, airplay_seq_type.mainline] at hym2
          flush := fun ey => by
            refine hsetup (fun h => ?_) (hy0.flush ey)
            exact (p.main (hstream h)).2 y hy ey
          data_port := fun ey => by simp [ey, airplay_seq_type.mainline] at hym2
          paired := fun ey => by simp [hnp] at ey
          state := fun ey => by simp [hym2] at ey }
  have hinv : Inv c1 :=
    { master := fun ha => by rw [e.master]; exact p.inv.master (by rw [← e.alive]; exact ha)
      next_seq := by rw [e.next_seq]; exact p.inv.next_seq
      ctxs := fun y hy => by
        rw [hc] at hy
        rcases List.mem_append.1 hy with hy | hy
        · exact hold y hy
        · exact ctx_ok_side c1 y (hextra y hy).1 (hextra y hy).2.1 (hextra y hy).2.2
      one := by rw [hc, List.countP_append, hcount_extra]; exact p.inv.one
      excl := by
        rw [hc]
        rintro ⟨z, hz, hzm⟩ y hy
        rcases List.mem_append.1 hz with hz | hz
        · rcases List.mem_append.1 hy with hy | hy
          · exact p.inv.excl ⟨z, hz, hzm⟩ y hy
          · exact (hextra y hy).2.2
        · simp [(hextra z hz).2.1] at hzm
      setup := fun hs => by
        rcases e.state with h | h | h
        · rw [h] at hs
          refine hsetup (fun hh => ?_) (p.inv.setup hs)
          have := p.ok.state (hstream hh)
          rcases hs with hs | hs
          · exact this.1 hs
          · exact this.2 hs
        · rcases hs with hs | hs
          · exact absurd hs h.1
          · exact absurd hs h.2
        · refine hsetup (fun hh => ?_) (p.ok.flush (T1 h))
          rw [h] at hh
          cases hh }
  refine ⟨hinv, by rw [e.alive]; exact p.alive, ?_, ?_, ?_, ?_, ?_, ?_⟩
  · intro hxm
    obtain ⟨h1, h2⟩ := p.main hxm
    rw [hc]
    refine ⟨by rw [List.countP_append, hcount_extra, h1], fun y hy => ?_⟩
    rcases List.mem_append.1 hy with hy | hy
    · exact h2 y hy
    · exact (hextra y hy).2.2
  · intro hxf
    rw [hc, List.countP_append, hcount_extra, p.flush hxf]
  · intro htp
    exact
      { wf := p.ok.wf
        transient := fun ex => by
          rcases e.pair_type with h | h
          · rw [h]; exact p.ok.transient ex
          · exact absurd h.2 htp
        pair_setup := fun ex => by rw [e.next_seq]; exact p.ok.pair_setup ex
        flush := fun ex => by
          refine hsetup (fun hh => ?_) (p.ok.flush ex)
          rw [(T2 hh).1] at ex
          cases ex
        data_port := fun ex hi => by
          rw [e.data_port (fun hh => by have := (T2 hh).2; omega)]
          exact p.ok.data_port ex hi
        paired := fun ex => hpaired (p.ok.paired ex)
        state := fun ex => by
          rcases e.state with h | h | h
          · rw [h]; exact p.ok.state ex
          · exact h
          · rw [T1 h] at ex; cases ex }
  · intro h1 h2 h3
    exact e.data_port_set (T2b h1 h2) h3
  · intro h1 h2 h3
    have hh : cur.response_handler = some .pair_verify2 ∨
        (cur.response_handler = some .pair_setup2 ∧ c0.rs.pair_type = .HOMEKIT_TRANSIENT) := by
      rcases h1 with h1 | h1
      · exact Or.inl (T5 h1 h2)
      · exact Or.inr ⟨T6 h1 h2, p.ok.transient h1⟩
    have hsome : cur.response_handler.isSome = true := by
      rcases hh with hh | hh
      · rw [hh]; rfl
      · rw [hh.1]; rfl
    have hlog := hev hsome
    rw [h2, h3, ← e.ptr] at hlog
    refine ⟨e.secret_set h3 hh, ?_⟩
    rcases h1 with h1 | h1
    · rw [h1] at hlog; exact Or.inr hlog
    · rw [h1] at hlog; exact Or.inl hlog
  · intro ht
    rcases e.ret with h | h | h | h | h
    · rcases ht with ht | ht <;> rw [ht] at h <;> cases h
    · rcases ht with ht | ht <;> rw [ht] at h <;> cases h
    · rcases ht with ht | ht <;> rw [ht] at h <;> cases h
    · exact T4 h.1
    · exact T4 (Or.inr h.1)

/-- The invariant after `sequence_continue_cb_next`. -/
theorem sequence_continue_cb_next_inv {c1 : Ctl} {x : airplay_seq_ctx}
    {cur : airplay_seq_request} (hcur : x.cur_request = some cur) (hinv : Inv c1)
    (halive : c1.alive = true)
    (hmain : x.seq_type.mainline = true →
      c1.seq_ctxs.countP (fun y => y.seq_type.mainline) = 0 ∧
      ∀ y ∈ c1.seq_ctxs, y.seq_type ≠ .FLUSH)
    (hflush : x.seq_type = .FLUSH → c1.seq_ctxs.countP (fun y => y.seq_type.mainline) = 0)
    (hokx : ctx_ok c1 x)
    (hdp : x.seq_type = .START_AP2 → x.idx = 2 → c1.rs.data_port ≠ 0)
    (hpair : (x.seq_type = .PAIR_VERIFY ∨ x.seq_type = .PAIR_TRANSIENT) → x.idx = 1 → Paired c1) :
    Inv (sequence_continue_cb_next x c1) := by
  obtain ⟨-, -, -, -, -, -, -, T7, T8⟩ := row_facts x cur hcur
  simp only [sequence_continue_cb_next]
  split
  · rename_i hnext
    refine inv_send hinv (sequence_continue_effect 7 _ c1) ?_ (Or.inl (Or.inr T8)) hmain hflush
    exact
      { wf := ⟨hokx.wf.1, hokx.wf.2.1, hnext⟩
        transient := hokx.transient
        pair_setup := hokx.pair_setup
        flush := hokx.flush
        data_port := fun ex hi => by
          by_cases h2 : x.idx = 2
          · exact hdp ex h2
          · exact hokx.data_port ex (by simp only at hi; omega)
        paired := hokx.paired
        state := hokx.state }
  · rename_i hnext
    have hlast : { x with idx := x.idx + 1 }.cur_request = none := by
      simpa using hnext
    obtain ⟨L1, L2⟩ := T7 hlast
    have hi := inv_emit hinv (.on_success c1.rs.ptr x.seq_type)
    have hf := emit_frame c1 (.on_success c1.rs.ptr x.seq_type)
    have hsucc : x.on_success = (airplay_seq_definition x.seq_type).on_success := hokx.wf.1
    show Inv (match x.on_success with
      | some on_success => run_seq_callback on_success (c1.emit (.on_success c1.rs.ptr x.seq_type))
      | none => c1)
    rw [hsucc]
    generalize hce : c1.emit (.on_success c1.rs.ptr x.seq_type) = c1e at hi hf
    cases ht : x.seq_type <;> simp only [airplay_seq_definition, run_seq_callback]
    all_goals first
      | exact hinv
      | exact inv_success hi
      | exact inv_status hi
      | skip
    · -- START_AP2: session_connected
      have h4 := L2 ht
      refine inv_connected hi (frame_setup hf ⟨hinv.master halive, hokx.paired (by rw [ht]; rfl),
        hokx.data_port ht (by omega)⟩) ?_
      rw [← hce]
      exact (hmain (by rw [ht]; rfl)).1
    · -- PAIR_SETUP
      refine inv_pair_success hi (fun hne => ?_)
      exact absurd (by rw [hf.next_seq]; exact hokx.pair_setup ht) hne
    · -- PAIR_VERIFY
      refine inv_pair_success hi (fun _ => ?_)
      obtain ⟨m1, m2⟩ := hmain (by rw [ht]; rfl)
      refine ⟨frame_paired hf (hpair (Or.inl ht) (L1 (Or.inl ht))), ?_, ?_, ?_⟩
      · rw [← hce]; exact hokx.state (by rw [ht]; rfl)
      · rw [← hce]; exact m1
      · rw [← hce]; exact m2
    · -- PAIR_TRANSIENT
      refine inv_pair_success hi (fun _ => ?_)
      obtain ⟨m1, m2⟩ := hmain (by rw [ht]; rfl)
      refine ⟨frame_paired hf (hpair (Or.inr ht) (L1 (Or.inr ht))), ?_, ?_, ?_⟩
      · rw [← hce]; exact hokx.state (by rw [ht]; rfl)
      · rw [← hce]; exact m1
      · rw [← hce]; exact m2

/-- The invariant after a jump to the sequence a handler returned. -/
theorem sequence_jump_inv {c1 : Ctl} {x : airplay_seq_ctx} {t : airplay_seq_type}
    (hinv : Inv c1)
    (hmain : x.seq_type.mainline = true →
      c1.seq_ctxs.countP (fun y => y.seq_type.mainline) = 0 ∧
      ∀ y ∈ c1.seq_ctxs, y.seq_type ≠ .FLUSH)
    (hokx : t ≠ .PIN_START → ctx_ok c1 x)
    (hjump : t = .START_RERUN ∨ t = .START_AP2 →
      x.seq_type.after_pairing = true ∧ x.seq_type.mainline = true)
    (ht : t = .PIN_START ∨ t = .START_RERUN ∨ t = .START_AP2) :
    Inv (sequence_start t x.payload_make_arg c1) := by
  rcases ht with rfl | ht
  · exact sequence_start_inv _ _ c1 hinv
      (ctx_ok_side c1 _ (first_wf _ _ _ (by decide)) rfl
        (by simp [airplay_seq_ctx.first]))
      (Or.inl (Or.inr ⟨by decide, by decide⟩)) (fun h => by cases h) (fun h => by cases h)
  · obtain ⟨j1, j2⟩ := hjump ht
    have hne : t ≠ .PIN_START := by rcases ht with rfl | rfl <;> decide
    have hx := hokx hne
    have hmain2 := hmain j2
    refine sequence_start_inv _ _ c1 hinv ?_ (Or.inl (Or.inr ?_)) (fun _ => hmain2) ?_
    · rcases ht with rfl | rfl
      all_goals
        refine ⟨first_wf _ _ _ (by decide), ?_, ?_, ?_, ?_, ?_, ?_⟩ <;>
        simp [airplay_seq_ctx.first, airplay_seq_type.after_pairing, airplay_seq_type.mainline]
      all_goals first | exact hx.paired j1 | exact hx.state j2
    · rcases ht with rfl | rfl <;> exact ⟨by decide, by decide⟩
    · rcases ht with rfl | rfl <;> intro h <;> cases h

/-- A response, or the lack of one, keeps the invariant. -/
theorem sequence_continue_cb_inv (c : Ctl) (before : List airplay_seq_ctx) (x : airplay_seq_ctx)
    (after : List airplay_seq_ctx) (req : Option evrtsp_request) (h : Inv c)
    (ha : c.alive = true) (hc : c.seq_ctxs = before ++ x :: after) :
    Inv (sequence_continue_cb req x { c with seq_ctxs := before ++ after }) := by
  have p := pending_enter c before x after h ha hc
  generalize ({ c with seq_ctxs := before ++ after } : Ctl) = cR at p ⊢
  have hwf := p.ok.wf
  obtain ⟨cur, hcur⟩ := Option.isSome_iff_exists.1 hwf.2.2
  cases req with
  | none =>
    simp only [sequence_continue_cb, hcur]
    exact inv_on_error p.inv x hwf
  | some r =>
    by_cases hok : r.response_code = RTSP_OK ∨ cur.proceed_on_rtsp_not_ok = true
    · rw [sequence_continue_cb_eq r x cur cR hcur hok]
      obtain ⟨eff, hev⟩ := sequence_continue_cb_handle_effect x cur.response_handler r
        (sequence_continue_cb_enter cR)
      generalize sequence_continue_cb_handle x cur.response_handler r
        (sequence_continue_cb_enter cR) = res at eff hev ⊢
      obtain ⟨t, c1⟩ := res
      simp only at eff hev ⊢
      obtain ⟨hinv, halive, hmain, hflush, hokx, hdp, hpair, hjump⟩ :=
        pending_handler p hcur eff hev
      by_cases ht : t = .CONTINUE
      · subst ht
        simp only [ne_eq, not_true_eq_false, if_false]
        exact sequence_continue_cb_next_inv hcur hinv halive hmain hflush (hokx (by decide))
          (fun a b => hdp a b rfl) (fun a b => hpair a b rfl)
      · simp only [ne_eq, ht, not_false_eq_true, if_true]
        by_cases hab : t = .ABORT
        · simp only [hab, if_true]
          exact inv_on_error hinv x hwf
        · simp only [hab, if_false]
          refine sequence_jump_inv hinv hmain hokx hjump ?_
          rcases eff.ret with e | e | e | e | e
          · exact absurd e hab
          · exact absurd e ht
          · exact Or.inl e
          · exact Or.inr (Or.inl e.2)
          · exact Or.inr (Or.inr e.2)
    · have hno : r.response_code ≠ RTSP_OK ∧ (!cur.proceed_on_rtsp_not_ok) = true := by
        constructor
        · exact fun e => hok (Or.inl e)
        · cases hp : cur.proceed_on_rtsp_not_ok
          · rfl
          · exact absurd (Or.inr hp) hok
      simp only [sequence_continue_cb, hcur]
      rw [if_pos hno]
      exact inv_on_error p.inv x hwf


/-! ## Lemmas: what the data plane changes of a session -/

theorem dataEffect_refl (rs : airplay_session) : DataEffect rs rs :=
  ⟨rfl, rfl, rfl, rfl, rfl, rfl, Or.inl rfl, rfl⟩

theorem dataEffect_trans {a b d : airplay_session} (h1 : DataEffect a b) (h2 : DataEffect b d) :
    DataEffect a d where
  ptr := h2.ptr.trans h1.ptr
  master := h2.master.trans h1.master
  next_seq := h2.next_seq.trans h1.next_seq
  secret := h2.secret.trans h1.secret
  data_port := h2.data_port.trans h1.data_port
  pair_type := h2.pair_type.trans h1.pair_type
  state := by
    rcases h2.state with e | e | e
    · rw [e]; exact h1.state
    · exact Or.inr (Or.inl e)
    · rcases h1.state with e1 | e1 | e1
      · exact Or.inr (Or.inr ⟨by rw [← e1]; exact e.1, e.2⟩)
      · exact absurd e.1 e1.1
      · rw [e1.2] at e; exact absurd e.1 (by decide)
  in_flight := h2.in_flight.trans h1.in_flight

theorem dataStep_refl (l : List airplay_session) (sys : Sys) : DataStep l sys l sys := by
  refine ⟨?_, [], by simp⟩
  induction l with
  | nil => exact List.Forall₂.nil
  | cons a l ih => exact List.Forall₂.cons (dataEffect_refl a) ih

theorem forall₂_dataEffect_trans : ∀ {l1 l2 l3 : List airplay_session},
    List.Forall₂ DataEffect l1 l2 → List.Forall₂ DataEffect l2 l3 →
    List.Forall₂ DataEffect l1 l3
  | _, _, _, List.Forall₂.nil, List.Forall₂.nil => List.Forall₂.nil
  | _, _, _, List.Forall₂.cons h1 t1, List.Forall₂.cons h2 t2 =>
    List.Forall₂.cons (dataEffect_trans h1 h2) (forall₂_dataEffect_trans t1 t2)

theorem dataStep_trans {l1 l2 l3 : List airplay_session} {s1 s2 s3 : Sys}
    (h1 : DataStep l1 s1 l2 s2) (h2 : DataStep l2 s2 l3 s3) : DataStep l1 s1 l3 s3 := by
  obtain ⟨f1, e1, he1⟩ := h1
  obtain ⟨f2, e2, he2⟩ := h2
  exact ⟨forall₂_dataEffect_trans f1 f2, e1 ++ e2, by rw [he2, he1, List.append_assoc]⟩

theorem deferred_session_failure_data (rs : airplay_session) (sys : Sys) :
    DataEffect rs (deferred_session_failure rs sys).1 ∧
    ∃ evs, (deferred_session_failure rs sys).2.log = sys.log ++ evs := by
  simp only [deferred_session_failure]
  split
  · exact ⟨⟨rfl, rfl, rfl, rfl, rfl, rfl, Or.inr (Or.inl ⟨by simp, by simp⟩), rfl⟩, _, rfl⟩
  · exact ⟨⟨rfl, rfl, rfl, rfl, rfl, rfl, Or.inl rfl, rfl⟩, _, rfl⟩

theorem packet_send_data (rs : airplay_session) (pkt : rtp_packet) (sys : Sys) :
    DataEffect rs (packet_send rs pkt sys).2.1 ∧
    ∃ evs, (packet_send rs pkt sys).2.2.log = sys.log ++ evs := by
  simp only [packet_send]
  split
  · exact ⟨dataEffect_refl rs, [], by simp⟩
  · simp only [Sys.call]
    split
    · obtain ⟨h1, evs, h2⟩ := deferred_session_failure_data rs
        (Sys.emit { sys with tick := sys.tick + 1 } (.data_send rs.ptr _ (sys.ext sys.tick).ret))
      exact ⟨h1, [_] ++ evs, by rw [h2]; exact List.append_assoc _ _ _⟩
    · split
      · exact ⟨dataEffect_refl rs, _, rfl⟩
      · exact ⟨dataEffect_refl rs, _, rfl⟩

theorem packets_resend_loop_data (rtp : rtp_session) : ∀ (i s : Nat) (rs : airplay_session)
    (sys : Sys), DataEffect rs (packets_resend_loop rtp i s rs sys).1 ∧
      ∃ evs, (packets_resend_loop rtp i s rs sys).2.log = sys.log ++ evs
  | 0, _, rs, sys => ⟨dataEffect_refl rs, [], by simp [packets_resend_loop]⟩
  | i + 1, s, rs, sys => by
    simp only [packets_resend_loop]
    split
    · rename_i pkt _
      obtain ⟨h1, e1, he1⟩ := packet_send_data rs pkt sys
      obtain ⟨h2, e2, he2⟩ := packets_resend_loop_data rtp i ((s + 1) % 2 ^ 16)
        (packet_send rs pkt sys).2.1 (packet_send rs pkt sys).2.2
      exact ⟨dataEffect_trans h1 h2, e1 ++ e2, by rw [he2, he1, List.append_assoc]⟩
    · exact packets_resend_loop_data rtp i _ rs sys

theorem packets_send_loop_data (rms_id : Nat) : ∀ (sessions : List airplay_session)
    (pkt : rtp_packet) (sys : Sys),
    DataStep sessions sys (packets_send_loop rms_id sessions pkt sys).1
      (packets_send_loop rms_id sessions pkt sys).2.2
  | [], _, sys => by simpa [packets_send_loop] using dataStep_refl [] sys
  | rs :: rest, pkt, sys => by
    simp only [packets_send_loop]
    split
    · obtain ⟨f, evs, he⟩ := packets_send_loop_data rms_id rest pkt sys
      exact ⟨List.Forall₂.cons (dataEffect_refl rs) f, evs, he⟩
    · split
      · obtain ⟨h1, e1, he1⟩ := packet_send_data rs
          (pkt.set_header1 (((1 <<< 7) ||| RAOP_RTP_PAYLOADTYPE) % 256)) sys
        obtain ⟨f, e2, he2⟩ := packets_send_loop_data rms_id rest
          (pkt.set_header1 (((1 <<< 7) ||| RAOP_RTP_PAYLOADTYPE) % 256))
          (packet_send rs (pkt.set_header1 (((1 <<< 7) ||| RAOP_RTP_PAYLOADTYPE) % 256))
            sys).2.2
        exact ⟨List.Forall₂.cons h1 f, e1 ++ e2, by rw [he2, he1, List.append_assoc]⟩
      · split
        · obtain ⟨h1, e1, he1⟩ := packet_send_data rs (pkt.set_header1 RAOP_RTP_PAYLOADTYPE) sys
          obtain ⟨f, e2, he2⟩ := packets_send_loop_data rms_id rest
            (pkt.set_header1 RAOP_RTP_PAYLOADTYPE)
            (packet_send rs (pkt.set_header1 RAOP_RTP_PAYLOADTYPE) sys).2.2
          exact ⟨List.Forall₂.cons h1 f, e1 ++ e2, by rw [he2, he1, List.append_assoc]⟩
        · obtain ⟨f, evs, he⟩ := packets_send_loop_data rms_id rest pkt sys
          exact ⟨List.Forall₂.cons (dataEffect_refl rs) f, evs, he⟩

theorem packets_send_data (rms : airplay_master_session) (sessions : List airplay_session)
    (sys : Sys) :
    DataStep sessions sys (packets_send rms sessions sys).2.1 (packets_send rms sessions sys).2.2 :=
  packets_send_loop_data rms.id sessions (packets_send_packet rms) sys

theorem airplay_write_drain_data : ∀ (fuel : Nat) (rms : airplay_master_session)
    (sessions : List airplay_session) (sys : Sys),
    DataStep sessions sys (airplay_write_drain fuel rms sessions sys).2.1
      (airplay_write_drain fuel rms sessions sys).2.2
  | 0, _, sessions, sys => dataStep_refl sessions sys
  | fuel + 1, rms, sessions, sys => by
    simp only [airplay_write_drain]
    split
    · exact dataStep_trans (packets_send_data _ sessions sys) (airplay_write_drain_data fuel _ _ _)
    · exact dataStep_refl sessions sys

theorem control_packet_send_log (rs : airplay_session) (pkt : sync_packet) (sys : Sys) :
    ∃ evs, (control_packet_send rs pkt sys).log = sys.log ++ evs := by
  simp only [control_packet_send]
  split
  · exact ⟨_, rfl⟩
  · exact ⟨_, rfl⟩
  · exact ⟨[], by simp⟩

theorem packets_sync_send_loop_log (rms : airplay_master_session) (is_sync_time : Bool) :
    ∀ (sessions : List airplay_session) (sys : Sys),
    ∃ evs, (packets_sync_send_loop rms is_sync_time sessions sys).log = sys.log ++ evs
  | [], sys => ⟨[], by simp [packets_sync_send_loop]⟩
  | rs :: rest, sys => by
    simp only [packets_sync_send_loop]
    split
    · exact packets_sync_send_loop_log rms is_sync_time rest sys
    · split
      · obtain ⟨e1, he1⟩ := control_packet_send_log rs
          (rtp_sync_packet_next rms.rtp_session rms.cur_stamp 0x90) sys
        obtain ⟨e2, he2⟩ := packets_sync_send_loop_log rms is_sync_time rest
          (control_packet_send rs (rtp_sync_packet_next rms.rtp_session rms.cur_stamp 0x90) sys)
        exact ⟨e1 ++ e2, by rw [he2, he1, List.append_assoc]⟩
      · split
        · obtain ⟨e1, he1⟩ := control_packet_send_log rs
            (rtp_sync_packet_next rms.rtp_session rms.cur_stamp 0x80) sys
          obtain ⟨e2, he2⟩ := packets_sync_send_loop_log rms is_sync_time rest
            (control_packet_send rs (rtp_sync_packet_next rms.rtp_session rms.cur_stamp 0x80)
              sys)
          exact ⟨e1 ++ e2, by rw [he2, he1, List.append_assoc]⟩
        · exact packets_sync_send_loop_log rms is_sync_time rest sys

theorem packets_sync_send_log (rms : airplay_master_session) (sessions : List airplay_session)
    (sys : Sys) : ∃ evs, (packets_sync_send rms sessions sys).log = sys.log ++ evs := by
  simp only [packets_sync_send, Sys.call]
  exact packets_sync_send_loop_log rms _ sessions _

theorem airplay_write_data_data (pts : timespec) : ∀ (data : List output_data)
    (rms : airplay_master_session) (sessions : List airplay_session) (sys : Sys),
    DataStep sessions sys (airplay_write_data pts data rms sessions sys).2.1
      (airplay_write_data pts data rms sessions sys).2.2
  | [], _, sessions, sys => dataStep_refl sessions sys
  | d :: rest, rms, sessions, sys => by
    simp only [airplay_write_data]
    split
    · exact airplay_write_data_data pts rest rms sessions sys
    · obtain ⟨e1, he1⟩ := packets_sync_send_log (timestamp_set rms pts) sessions sys
      have h1 : DataStep sessions sys sessions (packets_sync_send (timestamp_set rms pts)
          sessions sys) := ⟨(dataStep_refl sessions sys).1, e1, he1⟩
      exact dataStep_trans h1 (dataStep_trans (airplay_write_drain_data _ _ _ _)
        (airplay_write_data_data pts rest _ _ _))

theorem airplay_write_masters_data (obuf : output_buffer) :
    ∀ (masters : List airplay_master_session) (sessions : List airplay_session) (sys : Sys),
    DataStep sessions sys (airplay_write_masters obuf masters sessions sys).2.1
      (airplay_write_masters obuf masters sessions sys).2.2
  | [], sessions, sys => dataStep_refl sessions sys
  | rms :: rest, sessions, sys => by
    simp only [airplay_write_masters]
    exact dataStep_trans (airplay_write_data_data obuf.pts obuf.data rms sessions sys)
      (airplay_write_masters_data obuf rest _ _)

theorem airplay_write_join_data : ∀ (sessions : List airplay_session) (pending : Bool)
    (sys : Sys),
    DataStep sessions sys (airplay_write_join sessions pending sys).1
      (airplay_write_join sessions pending sys).2.2
  | [], _, sys => dataStep_refl [] sys
  | rs :: rest, pending, sys => by
    simp only [airplay_write_join]
    split
    · obtain ⟨f, evs, he⟩ := airplay_write_join_data rest pending sys
      exact ⟨List.Forall₂.cons (dataEffect_refl rs) f, evs, he⟩
    · rename_i hs
      have hs2 : rs.state = .CONNECTED := by simpa using hs
      have hd : DataEffect rs { rs with state := .STREAMING } :=
        ⟨rfl, rfl, rfl, rfl, rfl, rfl, Or.inr (Or.inr ⟨hs2, rfl⟩), rfl⟩
      by_cases hp : (!pending) = true
      · rw [if_pos hp]
        obtain ⟨f, evs, he⟩ := airplay_write_join_data rest true (sys.emit .keep_alive_add)
        exact ⟨List.Forall₂.cons hd f, [_] ++ evs, by
          rw [he]; exact List.append_assoc _ _ _⟩
      · rw [if_neg hp]
        obtain ⟨f, evs, he⟩ := airplay_write_join_data rest true sys
        exact ⟨List.Forall₂.cons hd f, evs, he⟩

theorem airplay_write_data_step (obuf : output_buffer) (a : Audio) :
    DataStep a.airplay_sessions a.sys (airplay_write obuf a).airplay_sessions
      (airplay_write obuf a).sys := by
  simp only [airplay_write]
  exact dataStep_trans (airplay_write_masters_data obuf _ _ _) (airplay_write_join_data _ _ _)


/-! ## Lemmas: the other events keep the invariant -/

theorem inv_data {c : Ctl} (h : Inv c) (rs2 : airplay_session) (sys2 : Sys)
    (d : DataEffect c.rs rs2) (hl : ∃ evs, sys2.log = c.sys.log ++ evs) :
    Inv { c with rs := rs2, sys := sys2 } :=
  inv_frame_same h ⟨rfl, d.ptr, d.master, d.next_seq, d.secret, d.data_port, d.state, hl⟩ rfl
    d.pair_type

theorem airplay_write_session_inv (obuf : output_buffer)
    (masters : List airplay_master_session) (pending : Bool) (c : Ctl) (h : Inv c) :
    Inv (airplay_write_session obuf masters pending c) := by
  obtain ⟨f, hl⟩ := airplay_write_data_step obuf ⟨masters, [c.rs], pending, c.sys⟩
  simp only [airplay_write_session]
  generalize airplay_write obuf ⟨masters, [c.rs], pending, c.sys⟩ = a at f hl
  obtain ⟨m2, l2, p2, s2⟩ := a
  simp only at f hl ⊢
  cases f with
  | cons hd tl =>
    cases tl
    exact inv_data h _ _ hd hl

theorem airplay_control_resend_inv (rtp : rtp_session) (seq_start : Nat) (seq_len : Int)
    (c : Ctl) (h : Inv c) : Inv (airplay_control_resend rtp seq_start seq_len c) := by
  obtain ⟨d, hl⟩ := packets_resend_loop_data rtp seq_len.toNat seq_start c.rs c.sys
  exact inv_data h _ _ d hl

theorem inv_set_callback_id {c : Ctl} (h : Inv c) (callback_id : Int) :
    Inv { c with rs := { c.rs with callback_id := callback_id } } :=
  inv_frame_same h ⟨rfl, rfl, rfl, rfl, rfl, rfl, Or.inl rfl, [], by simp⟩ rfl rfl

theorem airplay_device_stop_inv (callback_id : Int) (c : Ctl) (h : Inv c) :
    Inv (airplay_device_stop callback_id c).2 := by
  simp only [airplay_device_stop]
  exact inv_side (inv_set_callback_id h callback_id)
    (sequence_start_side .STOP .null _ rfl (by decide) (by decide))

theorem airplay_device_flush_inv (callback_id : Int) (c : Ctl) (h : Inv c) :
    Inv (airplay_device_flush callback_id c).2 := by
  simp only [airplay_device_flush]
  split
  · exact h
  · rename_i hs
    have hs2 : c.rs.state = .STREAMING := by simpa using hs
    have h2 := inv_set_callback_id h callback_id
    generalize hc2 : ({ c with rs := { c.rs with callback_id := callback_id } } : Ctl) = c2 at h2
    have hst : c2.rs.state = .STREAMING := by rw [← hc2]; exact hs2
    have hcount : c2.seq_ctxs.countP (fun y => y.seq_type.mainline) = 0 := by
      rw [List.countP_eq_zero]
      intro y hy hym
      exact (h2.ctxs y hy).state hym |>.2 hst
    refine sequence_start_inv .FLUSH .null c2 h2 ?_ (Or.inl (Or.inl (by simp)))
      (fun hm => by cases hm) (fun _ => hcount)
    refine ⟨first_wf _ _ _ (by decide), ?_, ?_, ?_, ?_, ?_, ?_⟩ <;>
      simp [airplay_seq_ctx.first, airplay_seq_type.after_pairing, airplay_seq_type.mainline]
    exact h2.setup (Or.inr hst)

theorem airplay_set_volume_one_inv (device : output_device) (callback_id : Int) (c : Ctl)
    (h : Inv c) : Inv (airplay_set_volume_one device callback_id c).2 := by
  simp only [airplay_set_volume_one]
  split
  · exact h
  · refine inv_side ?_ (sequence_start_side .SEND_VOLUME .null _ rfl (by decide) (by decide))
    exact inv_frame_same h ⟨rfl, rfl, rfl, rfl, rfl, rfl, Or.inl rfl, [], by simp⟩ rfl rfl

theorem inv_set_metadata {c : Ctl} (h : Inv c) (md : Option output_metadata) :
    Inv { c with airplay_cur_metadata := md } :=
  inv_frame_same h ⟨rfl, rfl, rfl, rfl, rfl, rfl, Or.inl rfl, [], by simp⟩ rfl rfl

theorem airplay_metadata_send_inv (metadata : output_metadata) (c : Ctl) (h : Inv c) :
    Inv (airplay_metadata_send metadata c) := by
  simp only [airplay_metadata_send]
  refine inv_set_metadata ?_ _
  split
  · exact h
  · have h2 := inv_side h (airplay_metadata_send_generic_side metadata false c)
    generalize airplay_metadata_send_generic metadata false c = r at h2
    obtain ⟨ret, c2⟩ := r
    simp only at h2 ⊢
    split
    · exact inv_failure h2
    · exact h2

theorem airplay_keep_alive_timer_cb_inv (c : Ctl) (h : Inv c) :
    Inv (airplay_keep_alive_timer_cb c) := by
  simp only [airplay_keep_alive_timer_cb]
  refine inv_emit ?_ _
  split
  · exact h
  · exact inv_side h (sequence_start_side .FEEDBACK .null c rfl (by decide) (by decide))

theorem rtsp_close_cb_inv (c : Ctl) (h : Inv c) : Inv (rtsp_close_cb c) := by
  obtain ⟨d, hl⟩ := deferred_session_failure_data c.rs c.sys
  exact inv_data h _ _ d hl

/-- Every reachable state of the session state machine satisfies the invariant. -/
theorem reachable_inv {c : Ctl} (h : Reachable c) : Inv c := by
  induction h with
  | start device callback_id c _ => exact airplay_device_start_generic_inv _ _ _ _
  | probe device callback_id c _ => exact airplay_device_start_generic_inv _ _ _ _
  | authorize device pin callback_id c _ => exact airplay_device_authorize_inv _ _ _ _
  | response c before x after req _ ha hc ih =>
    exact sequence_continue_cb_inv c before x after req ih ha hc
  | write c obuf masters pending _ _ ih => exact airplay_write_session_inv _ _ _ _ ih
  | resend c rtp seq_start seq_len _ _ ih => exact airplay_control_resend_inv _ _ _ _ ih
  | stop c callback_id _ _ ih => exact airplay_device_stop_inv _ _ ih
  | flush c callback_id _ _ ih => exact airplay_device_flush_inv _ _ ih
  | cb_set c callback_id _ _ ih => exact inv_set_callback_id ih _
  | set_volume c device callback_id _ _ ih => exact airplay_set_volume_one_inv _ _ _ ih
  | metadata_send c metadata _ _ ih => exact airplay_metadata_send_inv _ _ ih
  | keep_alive c _ _ ih => exact airplay_keep_alive_timer_cb_inv _ ih
  | deferred c _ _ _ ih => exact inv_failure ih
  | rtsp_close c _ _ _ ih => exact rtsp_close_cb_inv _ ih
  | device_update c device _ ih => exact inv_set_device ih _

/-- C6: in every reachable state of the session state machine, a session whose
state is STREAMING has a master session, a shared secret together with the call,
in the trace of the session, of the response handler of step 2 of PAIR_TRANSIENT
or of PAIR_VERIFY that returned CONTINUE (the two places that set the secret),
and a data port that is not 0. -/
theorem streaming_session_is_set_up (c : Ctl) (h : Reachable c)
    (hs : c.rs.state = .STREAMING) :
    c.rs.master_session.isSome = true ∧
    (c.rs.shared_secret.isSome = true ∧
      (.handler c.rs.ptr .PAIR_TRANSIENT 1 .CONTINUE ∈ c.sys.log ∨
       .handler c.rs.ptr .PAIR_VERIFY 1 .CONTINUE ∈ c.sys.log)) ∧
    c.rs.data_port ≠ 0 :=
  (reachable_inv h).setup (Or.inr hs)


/-- The response to the oldest request in flight of a live session is a step
of the state machine. -/
theorem reachable_deliver (req : Option evrtsp_request) (c : Ctl) (h : Reachable c)
    (ha : c.alive = true) : Reachable (deliver req c) := by
  unfold deliver
  split
  · exact h
  · rename_i x rest hc
    exact Reachable.response c [] x rest req h ha hc

set_option maxRecDepth 100000 in
/-- The run of `exampleStreaming` is a run of the state machine. -/
theorem exampleStreaming_reachable : Reachable exampleStreaming := by
  have s0 : Reachable exampleStarted := Reachable.start _ _ _ rfl
  have s1 := reachable_deliver (some (exampleOk none)) _ s0 (by decide)
  have s2 : Reachable examplePaired := reachable_deliver (some (exampleOk none)) _ s1 (by decide)
  have s3 := reachable_deliver (some (exampleOk none)) _ s2 (by decide)
  have s4 := reachable_deliver (some (exampleOk (some exampleSetupReply))) _ s3 (by decide)
  have s5 := reachable_deliver (some (exampleOk none)) _ s4 (by decide)
  have s6 := reachable_deliver (some (exampleOk (some exampleSetupReply))) _ s5 (by decide)
  have s7 := reachable_deliver (some (exampleOk none)) _ s6 (by decide)
  have s8 : Reachable exampleConnected :=
    reachable_deliver (some (exampleOk none)) _ s7 (by decide)
  exact Reachable.write _ _ _ _ s8 (by decide)

set_option maxRecDepth 100000 in
/-- Witness for `streaming_session_is_set_up`: the session of `exampleStreaming`,
started, paired by PAIR_TRANSIENT, set up by START and START_AP2 and written to,
is STREAMING, on data port 7002. -/
theorem streaming_session_is_set_up_witness :
    Reachable exampleStreaming ∧ exampleStreaming.rs.state = .STREAMING ∧
    exampleStreaming.rs.data_port = 7002 ∧
    (exampleStreaming.rs.master_session.isSome = true ∧
      (exampleStreaming.rs.shared_secret.isSome = true ∧
        (.handler exampleStreaming.rs.ptr .PAIR_TRANSIENT 1 .CONTINUE ∈ exampleStreaming.sys.log ∨
         .handler exampleStreaming.rs.ptr .PAIR_VERIFY 1 .CONTINUE ∈ exampleStreaming.sys.log)) ∧
      exampleStreaming.rs.data_port ≠ 0) :=
  ⟨exampleStreaming_reachable, by decide, by decide,
   streaming_session_is_set_up exampleStreaming exampleStreaming_reachable (by decide)⟩


/-! ## OPTIONS answered with 401 (C11) -/

/-- C11, as the code behaves: a 401 to the OPTIONS of START_RERUN, whose row does
not proceed on a response that is not 200, takes the error path of
`sequence_continue_cb` without calling the response handler; `on_error` is
`start_retry`, which for a session without RTSP session string calls
`session_failure`: unless the state was PASSWORD before the response it becomes
FAILED, the player is notified with OUTPUT_STATE_FAILED (the only events traced
are `on_error` and this callback), and the session is removed. -/
theorem options_rerun_unauthorized_fails (req : evrtsp_request) (c : Ctl)
    (hcode : req.response_code = RTSP_UNAUTHORIZED) (hsession : c.rs.session = none)
    (hstate : c.rs.state ≠ .PASSWORD) :
    (sequence_continue_cb (some req) (airplay_seq_ctx.first .START_RERUN c.rs.ptr .null) c).rs.state
      = .FAILED ∧
    (sequence_continue_cb (some req) (airplay_seq_ctx.first .START_RERUN c.rs.ptr .null) c).alive
      = false ∧
    (sequence_continue_cb (some req) (airplay_seq_ctx.first .START_RERUN c.rs.ptr .null)
        c).sys.log
      = c.sys.log ++ [.on_error c.rs.ptr .START_RERUN,
                      .outputs_cb c.rs.callback_id c.rs.device_id .OUTPUT_STATE_FAILED] := by
  have hs : (sequence_continue_cb_enter c).rs.session = none := by
    simp only [sequence_continue_cb_enter]; split <;> exact hsession
  have hst : (sequence_continue_cb_enter c).rs.state ≠ .PASSWORD := by
    simp only [sequence_continue_cb_enter]; split <;> exact hstate
  have hp : (sequence_continue_cb_enter c).rs.ptr = c.rs.ptr := by
    simp only [sequence_continue_cb_enter]; split <;> rfl
  have hcb : (sequence_continue_cb_enter c).rs.callback_id = c.rs.callback_id := by
    simp only [sequence_continue_cb_enter]; split <;> rfl
  have hd : (sequence_continue_cb_enter c).rs.device_id = c.rs.device_id := by
    simp only [sequence_continue_cb_enter]; split <;> rfl
  have hl : (sequence_continue_cb_enter c).sys.log = c.sys.log := by
    simp only [sequence_continue_cb_enter]; split <;> rfl
  have e : sequence_continue_cb (some req) (airplay_seq_ctx.first .START_RERUN c.rs.ptr .null) c
      = session_failure ((sequence_continue_cb_enter c).emit
          (.on_error (sequence_continue_cb_enter c).rs.ptr .START_RERUN)) := by
    simp only [sequence_continue_cb, airplay_seq_ctx.cur_request, airplay_seq_ctx.first,
      airplay_seq_request_rows, airplay_seq_definition, hcode]
    have hcode2 : req.response_code = 401 := hcode
    simp [hcode2, RTSP_OK, sequence_continue_cb_error, run_seq_callback, start_retry,
      Ctl.emit, hs]
    cases (sequence_continue_cb_enter c).device <;> rfl
  rw [e]
  generalize sequence_continue_cb_enter c = c1 at hs hst hp hcb hd hl
  simp [session_failure, session_cleanup, session_status, Ctl.emit, Sys.emit, hst, hp, hcb, hd,
    hl]

set_option maxRecDepth 100000 in
/-- Witness for `options_rerun_unauthorized_fails`: the run `exampleRerun`, in
which the OPTIONS of START_RERUN carries an Authorization header and is in flight
alone, gets a 401. -/
theorem options_rerun_unauthorized_fails_witness :
    exampleRerun.rs.req_has_auth = true ∧
    exampleRerun.seq_ctxs = [airplay_seq_ctx.first .START_RERUN exampleRerun.rs.ptr .null] ∧
    exampleRerun.rs.state = .STARTUP ∧
    (deliver (some (exampleResponse 401 none)) exampleRerun).rs.state = .FAILED ∧
    (deliver (some (exampleResponse 401 none)) exampleRerun).sys.log.getLast?
      = some (.outputs_cb 7 1 .OUTPUT_STATE_FAILED) :=
  ⟨by decide, by decide, by decide,
   (options_rerun_unauthorized_fails (exampleResponse 401 none)
      { exampleRerun with seq_ctxs := [] } (by decide) (by decide) (by decide)).1,
   by decide⟩


/-! ## Pair-verify step 1 refused (C12) -/

theorem sequence_continue_cb_enter_fields (c : Ctl) :
    (sequence_continue_cb_enter c).device = c.device ∧
    (sequence_continue_cb_enter c).sys = c.sys ∧
    (sequence_continue_cb_enter c).rs.ptr = c.rs.ptr ∧
    (sequence_continue_cb_enter c).rs.callback_id = c.rs.callback_id ∧
    (sequence_continue_cb_enter c).rs.device_id = c.rs.device_id ∧
    (sequence_continue_cb_enter c).rs.state = c.rs.state ∧
    (sequence_continue_cb_enter c).rs.session = c.rs.session ∧
    (sequence_continue_cb_enter c).rs.family = c.rs.family := by
  simp only [sequence_continue_cb_enter]
  split <;> exact ⟨rfl, rfl, rfl, rfl, rfl, rfl, rfl, rfl⟩

/-- C12: when the pairing library does not accept the response to step 1 of
PAIR_VERIFY (whatever its code: the row proceeds on a response that is not 200),
the stored `auth_key` of the device (if it is still registered) is cleared, the
session state becomes PASSWORD, and the sequence ends on its error path: after
the handler, traced returning ABORT, `on_error` runs, which is
`session_failure`; it keeps PASSWORD, notifies the player with
OUTPUT_STATE_PASSWORD and removes the session. No request is sent, so step 2 is
not. -/
theorem pair_verify1_refused (req : evrtsp_request) (arg : payload_arg) (c : Ctl)
    (hrefused : (c.sys.ext c.sys.tick).ret < 0) :
    (sequence_continue_cb (some req) (airplay_seq_ctx.first .PAIR_VERIFY c.rs.ptr arg) c).device
      = c.device.map (fun d => { d with auth_key := none }) ∧
    (sequence_continue_cb (some req) (airplay_seq_ctx.first .PAIR_VERIFY c.rs.ptr arg) c).rs.state
      = .PASSWORD ∧
    (sequence_continue_cb (some req) (airplay_seq_ctx.first .PAIR_VERIFY c.rs.ptr arg) c).alive
      = false ∧
    (sequence_continue_cb (some req) (airplay_seq_ctx.first .PAIR_VERIFY c.rs.ptr arg) c).seq_ctxs
      = [] ∧
    (sequence_continue_cb (some req) (airplay_seq_ctx.first .PAIR_VERIFY c.rs.ptr arg)
        c).sys.log
      = c.sys.log ++ [.handler c.rs.ptr .PAIR_VERIFY 0 .ABORT,
                      .on_error c.rs.ptr .PAIR_VERIFY,
                      .outputs_cb c.rs.callback_id c.rs.device_id .OUTPUT_STATE_PASSWORD] := by
  obtain ⟨hd, hsys, hp, hcb, hdi, -, -, -⟩ := sequence_continue_cb_enter_fields c
  have hr : ((sequence_continue_cb_enter c).sys.ext (sequence_continue_cb_enter c).sys.tick).ret
      < 0 := by rw [hsys]; exact hrefused
  simp only [sequence_continue_cb, airplay_seq_ctx.cur_request, airplay_seq_ctx.first,
    airplay_seq_request_rows, airplay_seq_definition]
  generalize sequence_continue_cb_enter c = c1 at hd hsys hp hcb hdi hr
  rw [← hd, ← hsys, ← hp, ← hcb, ← hdi]
  cases hdev : c1.device <;>
    simp [run_response_handler, response_handler_pair_verify1, response_handler_pair_generic,
      Ctl.call, Sys.call, hr, hdev, sequence_continue_cb_error, run_seq_callback,
      session_failure, session_cleanup, session_status, Ctl.emit, Sys.emit]

set_option maxRecDepth 100000 in
/-- Witness for `pair_verify1_refused`: the run `exampleVerifying`, with a 200
that the pairing library refuses. -/
theorem pair_verify1_refused_witness :
    exampleVerifying.seq_ctxs = [airplay_seq_ctx.first .PAIR_VERIFY exampleVerifying.rs.ptr .null] ∧
    (exampleVerifying.device.bind (fun d => d.auth_key)) = some "key" ∧
    ((deliver (some (exampleOk none)) exampleVerifying).device.bind (fun d => d.auth_key)) = none ∧
    (deliver (some (exampleOk none)) exampleVerifying).rs.state = .PASSWORD ∧
    (deliver (some (exampleOk none)) exampleVerifying).sys.log.getLast?
      = some (.outputs_cb 7 1 .OUTPUT_STATE_PASSWORD) :=
  ⟨by decide, by decide, by decide,
   (pair_verify1_refused (exampleOk none) .null { exampleVerifying with seq_ctxs := [] }
      (by decide)).2.1,
   by decide⟩


/-! ## The fallback to IPv4 (C13) -/

theorem session_connection_setup_session (rd : output_device) (family : sa_family) (c : Ctl) :
    (session_connection_setup rd family c).2.rs.session = c.rs.session := by
  simp only [session_connection_setup]
  repeat' split
  all_goals rfl

/-- The session `session_make` makes has no RTSP session string: `calloc` leaves
`rs->session` `NULL` and nothing assigns it. -/
theorem session_make_session (rd : output_device) (callback_id : Int) (c : Ctl) :
    (session_make rd callback_id c).2.rs.session = none := by
  have h0 : (session_make_init rd callback_id c).rs.session = none := rfl
  simp only [session_make]
  generalize session_make_init rd callback_id c = c0 at h0
  have h1 := session_connection_setup_session rd .AF_INET6 c0
  have h2 := session_connection_setup_session rd .AF_INET
    (session_connection_setup rd .AF_INET6 c0).2
  repeat' split
  all_goals simp_all [Ctl.call]

/-- C13, as the code behaves: for a session without RTSP session string (and
`rs->session` is never set) `start_retry` is `session_failure`, whatever the
addresses of the device, the family of the session and its state: the device is
not flagged, and no session is made over IPv4. -/
theorem start_retry_never_falls_back (c : Ctl) (hsession : c.rs.session = none) :
    start_retry c = session_failure c := by
  simp only [start_retry, hsession]
  cases c.device <;> rfl

set_option maxRecDepth 100000 in
/-- Witness for `start_retry_never_falls_back`: in the run `exampleDualPaired`
the device has both addresses, the session is over IPv6 and in state STARTUP,
and the OPTIONS of START gets no response: the session fails, the player is
told so, and the device is not flagged. -/
theorem start_retry_never_falls_back_witness :
    (exampleDualPaired.device.map (fun d => (d.v4_address, d.v6_address, d.v6_disabled)))
      = some (some "192.168.1.10", some "fe80::10", false) ∧
    exampleDualPaired.rs.family = .AF_INET6 ∧
    exampleDualPaired.rs.state = .STARTUP ∧
    exampleDualPaired.seq_ctxs = [airplay_seq_ctx.first .START exampleDualPaired.rs.ptr .null] ∧
    start_retry exampleDualPaired = session_failure exampleDualPaired ∧
    (deliver none exampleDualPaired).alive = false ∧
    (deliver none exampleDualPaired).rs.state = .FAILED ∧
    ((deliver none exampleDualPaired).device.map (fun d => d.v6_disabled)) = some false ∧
    (deliver none exampleDualPaired).sys.log.drop exampleDualPaired.sys.log.length
      = [.on_error exampleDualPaired.rs.ptr .START, .outputs_cb 7 1 .OUTPUT_STATE_FAILED] :=
  ⟨by decide, by decide, by decide, by decide,
   start_retry_never_falls_back exampleDualPaired (by decide),
   by decide, by decide, by decide, by decide⟩

theorem start_retry_without_session (c : Ctl) (hsession : c.rs.session = none) :
    start_retry c = session_failure c := by
  simp only [start_retry, hsession]
  cases c.device <;> rfl

/-! ## A closed connection, a request without response (C14) -/

theorem session_failure_result (c : Ctl) :
    (session_failure c).alive = false ∧ (session_failure c).seq_ctxs = [] ∧
    (session_failure c).rs.state = (if c.rs.state = .PASSWORD then .PASSWORD else .FAILED) ∧
    (session_failure c).sys.log = c.sys.log ++ [.outputs_cb c.rs.callback_id c.rs.device_id
      (if c.rs.state = .PASSWORD then .OUTPUT_STATE_PASSWORD else .OUTPUT_STATE_FAILED)] := by
  by_cases h : c.rs.state = .PASSWORD <;>
    simp [session_failure, session_cleanup, session_status, Ctl.emit, Sys.emit, h]

set_option maxRecDepth 100000 in
/-- C14 does not hold as stated: in the run `exampleStarted` step 1 of
PAIR_TRANSIENT is in flight and `payload_make_pair_setup1` has put the session in
state PASSWORD; when the request gets no response the state stays PASSWORD and
the player callback is given OUTPUT_STATE_PASSWORD, not OUTPUT_STATE_FAILED. -/
theorem no_response_in_password_state_reports_password :
    exampleStarted.alive = true ∧
    exampleStarted.seq_ctxs = [airplay_seq_ctx.first .PAIR_TRANSIENT exampleStarted.rs.ptr .null] ∧
    (deliver none exampleStarted).rs.state = .PASSWORD ∧
    (deliver none exampleStarted).sys.log.getLast?
      = some (.outputs_cb 7 1 .OUTPUT_STATE_PASSWORD) ∧
    (deliver none exampleStarted).alive = false := by
  decide

/-- C14, amended: when the device closes the RTSP connection (`rtsp_close_cb`,
then the timer it arms), or when a request of a sequence other than START_AP2
gets no response, the session state becomes FAILED unless it is PASSWORD, which
it stays; the player callback is given OUTPUT_STATE_FAILED, respectively
OUTPUT_STATE_PASSWORD, and the session is removed with its requests. For
START_AP2 a request without response starts the FAILURE sequence instead. The
session has no RTSP session string (none ever has), so `start_retry` fails the
session. -/
theorem connection_loss_fails_session (x : airplay_seq_ctx) (c : Ctl)
    (hx : x.on_error = (airplay_seq_definition x.seq_type).on_error)
    (hseq : x.seq_type ≠ .ABORT ∧ x.seq_type ≠ .CONTINUE)
    (hsession : c.rs.session = none) :
    (x.seq_type ≠ .START_AP2 →
      (sequence_continue_cb none x c).alive = false ∧
      (sequence_continue_cb none x c).seq_ctxs = [] ∧
      (sequence_continue_cb none x c).rs.state
        = (if c.rs.state = .PASSWORD then .PASSWORD else .FAILED) ∧
      (sequence_continue_cb none x c).sys.log
        = c.sys.log ++ [.on_error c.rs.ptr x.seq_type,
            .outputs_cb c.rs.callback_id c.rs.device_id
              (if c.rs.state = .PASSWORD then .OUTPUT_STATE_PASSWORD
               else .OUTPUT_STATE_FAILED)]) ∧
    (x.seq_type = .START_AP2 →
      sequence_continue_cb none x c
        = sequence_start .FAILURE .null
            ((sequence_continue_cb_enter c).emit (.on_error c.rs.ptr .START_AP2))) ∧
    (deferred_session_failure_cb (rtsp_close_cb c)).alive = false ∧
    (deferred_session_failure_cb (rtsp_close_cb c)).seq_ctxs = [] ∧
    (deferred_session_failure_cb (rtsp_close_cb c)).rs.state
      = (if c.rs.state = .PASSWORD then .PASSWORD else .FAILED) ∧
    (deferred_session_failure_cb (rtsp_close_cb c)).sys.log
      = c.sys.log ++ [.deferred c.rs.ptr,
          .outputs_cb c.rs.callback_id c.rs.device_id
            (if c.rs.state = .PASSWORD then .OUTPUT_STATE_PASSWORD
             else .OUTPUT_STATE_FAILED)] := by
  obtain ⟨hd, hsys, hp, hcb, hdi, hst, hss, -⟩ := sequence_continue_cb_enter_fields c
  have e : sequence_continue_cb none x c = sequence_continue_cb_error x (sequence_continue_cb_enter c) := by
    simp only [sequence_continue_cb]
    cases x.cur_request <;> rfl
  refine ⟨?_, ?_, ?_⟩
  · intro hne
    rw [e]
    have key : sequence_continue_cb_error x (sequence_continue_cb_enter c)
        = session_failure ((sequence_continue_cb_enter c).emit (.on_error c.rs.ptr x.seq_type))
        ∨ ∃ d, sequence_continue_cb_error x (sequence_continue_cb_enter c)
        = session_failure { (sequence_continue_cb_enter c).emit (.on_error c.rs.ptr x.seq_type)
            with device := d } := by
      generalize sequence_continue_cb_enter c = c1 at hss hp
      have hs1 : (c1.emit (.on_error c.rs.ptr x.seq_type)).rs.session = none := by
        rw [← hsession, ← hss]; rfl
      obtain ⟨st, idx, os, oe, s, a⟩ := x
      simp only at hx hne hseq hs1 ⊢
      subst hx
      cases st
      case ABORT => exact absurd rfl hseq.1
      case CONTINUE => exact absurd rfl hseq.2
      case START_AP2 => exact absurd rfl hne
      case START =>
        left
        simp only [sequence_continue_cb_error, airplay_seq_definition, run_seq_callback, hp]
        exact start_retry_without_session _ hs1
      case START_RERUN =>
        left
        simp only [sequence_continue_cb_error, airplay_seq_definition, run_seq_callback, hp]
        exact start_retry_without_session _ hs1
      case PROBE =>
        simp only [sequence_continue_cb_error, airplay_seq_definition, run_seq_callback, hp,
          probe_failure]
        cases hdev : c1.device with
        | none => left; simp [Ctl.emit, hdev]
        | some dev => right; exact ⟨some { dev with auth_key := none }, by simp [Ctl.emit, hdev]⟩
      all_goals
        left
        simp only [sequence_continue_cb_error, airplay_seq_definition, run_seq_callback, hp]
    rcases key with h | ⟨d, h⟩
    · rw [h]
      have r := session_failure_result
        ((sequence_continue_cb_enter c).emit (.on_error c.rs.ptr x.seq_type))
      simpa [Ctl.emit, Sys.emit, hsys, hst, hcb, hdi] using r
    · rw [h]
      have r := session_failure_result
        { (sequence_continue_cb_enter c).emit (.on_error c.rs.ptr x.seq_type) with device := d }
      simpa [Ctl.emit, Sys.emit, hsys, hst, hcb, hdi] using r
  · intro heq
    rw [e]
    simp [sequence_continue_cb_error, hx, heq, airplay_seq_definition, run_seq_callback,
      start_failure, hp]
  · have r := session_failure_result (rtsp_close_cb c)
    by_cases h : c.rs.state = .PASSWORD <;>
      simpa [deferred_session_failure_cb, rtsp_close_cb, Ctl.defer_failure,
        deferred_session_failure, Sys.emit, h] using r

set_option maxRecDepth 100000 in
/-- Witness for `connection_loss_fails_session`: in the run `examplePaired` the
session is in state STARTUP and the OPTIONS of START, in flight alone, gets no
response. -/
theorem connection_loss_fails_session_witness :
    examplePaired.seq_ctxs = [airplay_seq_ctx.first .START examplePaired.rs.ptr .null] ∧
    examplePaired.rs.state = .STARTUP ∧
    (deliver none examplePaired).alive = false ∧
    (deliver none examplePaired).seq_ctxs = [] ∧
    (deliver none examplePaired).rs.state = .FAILED ∧
    (deliver none examplePaired).sys.log
      = examplePaired.sys.log ++ [.on_error examplePaired.rs.ptr .START,
                                  .outputs_cb 7 1 .OUTPUT_STATE_FAILED] :=
  ⟨by decide, by decide,
   (connection_loss_fails_session (airplay_seq_ctx.first .START examplePaired.rs.ptr .null)
      { examplePaired with seq_ctxs := [] } rfl (by decide) (by decide)).1 (by decide)⟩


/-! ## Lemmas: `reqs_in_flight` counts the requests in flight -/

theorem counts_same {c c2 : Ctl} (ha : c2.alive = c.alive) (hc : c2.seq_ctxs = c.seq_ctxs)
    (hr : c2.rs.reqs_in_flight = c.rs.reqs_in_flight) : Counts 0 c c2 :=
  Or.inr (Or.inr ⟨ha, by rw [hc, hr]; simp⟩)

theorem counts_refl (c : Ctl) : Counts 0 c c := counts_same rfl rfl rfl

theorem counts_trans {k : Int} {c c1 c2 : Ctl} (h1 : Counts k c c1) (h2 : Counts 0 c1 c2) :
    Counts k c c2 := by
  rcases h2 with h | h | ⟨ha, hg⟩
  · exact Or.inl h
  · exact Or.inr (Or.inl h)
  · rcases h1 with h' | h' | ⟨ha', hg'⟩
    · exact Or.inl (ha.trans h')
    · exact Or.inr (Or.inl (by omega))
    · exact Or.inr (Or.inr ⟨ha.trans ha', by omega⟩)

/-- After a step from a session that counts its requests in flight, the session
is gone or counts them. -/
theorem counts_of_counted {c c2 : Ctl} (hc : c.rs.reqs_in_flight = c.seq_ctxs.length)
    (h : Counts 0 c c2) (k : Int) (c0 : Ctl) : Counts k c0 c2 := by
  rcases h with h | h | ⟨-, hg⟩
  · exact Or.inl h
  · exact Or.inr (Or.inl h)
  · exact Or.inr (Or.inl (by omega))

theorem counted_step {c c2 : Ctl} (h : Counted c) (s : Counts 0 c c2) : Counted c2 := by
  intro ha
  rcases s with s | s | ⟨sa, sg⟩
  · rw [s] at ha; exact absurd ha (by decide)
  · exact s
  · have := h (sa ▸ ha)
    omega

theorem counts_send {x : airplay_seq_ctx} {c c2 : Ctl} (h : SendEffect x c c2) :
    Counts 0 c c2 := by
  rcases h.ctxs with ⟨hc, hr⟩ | ⟨hc, hr⟩
  · exact counts_same h.alive hc hr
  · refine Or.inr (Or.inr ⟨h.alive, ?_⟩)
    rw [hc, hr, List.length_append, List.length_singleton]
    push_cast
    omega

theorem emit_counts (c : Ctl) (e : Event) : Counts 0 c (c.emit e) := counts_same rfl rfl rfl

theorem sequence_start_counts (t : airplay_seq_type) (arg : payload_arg) (c : Ctl) :
    Counts 0 c (sequence_start t arg c) :=
  counts_trans (emit_counts c _) (counts_send (sequence_start_effect t arg c))

theorem session_failure_counts (k : Int) (c0 c : Ctl) : Counts k c0 (session_failure c) :=
  Or.inl (session_failure_result c).1

theorem session_pair_success_counts (c : Ctl) : Counts 0 c (session_pair_success c) := by
  simp only [session_pair_success]
  split
  · exact counts_trans (sequence_start_counts _ _ c) (counts_same rfl rfl rfl)
  · exact Or.inl rfl

theorem session_connection_setup_in_flight (rd : output_device) (family : sa_family)
    (c : Ctl) : (session_connection_setup rd family c).2.rs.reqs_in_flight
      = c.rs.reqs_in_flight := by
  simp only [session_connection_setup]
  repeat' split
  all_goals rfl

theorem session_make_in_flight (rd : output_device) (callback_id : Int) (c : Ctl) :
    (session_make rd callback_id c).2.rs.reqs_in_flight = 0 := by
  have h0 : (session_make_init rd callback_id c).rs.reqs_in_flight = 0 := rfl
  simp only [session_make]
  generalize session_make_init rd callback_id c = c0 at h0
  have h1 := session_connection_setup_in_flight rd .AF_INET6 c0
  have h2 := session_connection_setup_in_flight rd .AF_INET
    (session_connection_setup rd .AF_INET6 c0).2
  repeat' split
  all_goals simp_all [Ctl.call]

theorem airplay_device_start_generic_counts (device : output_device) (callback_id : Int)
    (only_probe : Bool) (c : Ctl) (k : Int) (c0 : Ctl) :
    Counts k c0 (airplay_device_start_generic device callback_id only_probe c).2 := by
  have hf := session_make_fresh device callback_id c
  have hr := session_make_in_flight device callback_id c
  simp only [airplay_device_start_generic]
  generalize session_make device callback_id c = r at hf hr
  obtain ⟨made, c1⟩ := r
  simp only at hf hr ⊢
  cases made
  · exact Or.inl (hf.2.2.2.1 rfl)
  · simp only [Bool.not_true, Bool.false_eq_true, if_false]
    have hc : ∀ n, ({ c1 with rs := { c1.rs with next_seq := n } } : Ctl).rs.reqs_in_flight
        = (({ c1 with rs := { c1.rs with next_seq := n } } : Ctl).seq_ctxs.length : Int) := by
      intro n
      simp [hr, hf.1]
    repeat' split
    all_goals exact counts_of_counted (hc _) (sequence_start_counts _ _ _) k c0

theorem airplay_device_authorize_counts (device : output_device) (pin : String)
    (callback_id : Int) (c : Ctl) (k : Int) (c0 : Ctl) :
    Counts k c0 (airplay_device_authorize device pin callback_id c).2 := by
  have hf := session_make_fresh device callback_id c
  have hr := session_make_in_flight device callback_id c
  simp only [airplay_device_authorize]
  generalize session_make device callback_id c = r at hf hr
  obtain ⟨made, c1⟩ := r
  simp only at hf hr ⊢
  cases made
  · exact Or.inl (hf.2.2.2.1 rfl)
  · simp only [Bool.not_true, Bool.false_eq_true, if_false]
    exact counts_of_counted (by simp [hr, hf.1]) (sequence_start_counts _ _ _) k c0

theorem start_retry_counts (c : Ctl) : Counts 0 c (start_retry c) := by
  simp only [start_retry]
  repeat' split
  all_goals first
    | exact session_failure_counts 0 c c
    | exact airplay_device_start_generic_counts _ _ _ _ 0 c

theorem run_seq_callback_counts (cb : seq_callback) (c : Ctl) :
    Counts 0 c (run_seq_callback cb c) := by
  cases cb <;> simp only [run_seq_callback]
  · exact start_retry_counts c
  · exact counts_same rfl rfl rfl
  · exact sequence_start_counts _ _ c
  · exact Or.inl rfl
  · simp only [probe_failure]
    split <;> exact session_failure_counts 0 c _
  · exact counts_same rfl rfl rfl
  · exact session_failure_counts 0 c c
  · exact session_pair_success_counts c

theorem sequence_start_counts_if (b : Bool) (t : airplay_seq_type) (arg : payload_arg)
    (c : Ctl) : Counts 0 c (if b = true then sequence_start t arg c else c) := by
  split
  · exact sequence_start_counts t arg c
  · exact counts_refl c

theorem airplay_metadata_send_generic_counts (metadata : output_metadata) (only_progress : Bool)
    (c : Ctl) : Counts 0 c (airplay_metadata_send_generic metadata only_progress c).2 := by
  simp only [airplay_metadata_send_generic]
  exact counts_trans (counts_trans (sequence_start_counts_if _ .SEND_PROGRESS _ _)
    (sequence_start_counts_if _ .SEND_TEXT _ _)) (sequence_start_counts_if _ .SEND_ARTWORK _ _)

theorem airplay_metadata_startup_send_counts (c : Ctl) :
    Counts 0 c (airplay_metadata_startup_send c).2 := by
  unfold airplay_metadata_startup_send
  split
  · exact counts_refl c
  · split
    · exact counts_refl c
    · rename_i md _ _
      have h1 : Counts 0 c { c with airplay_cur_metadata := some { md with startup := true } } :=
        counts_same rfl rfl rfl
      exact counts_trans h1 (airplay_metadata_send_generic_counts _ _ _)

set_option maxHeartbeats 4000000 in
theorem response_handler_pair_setup1_in_flight (req : evrtsp_request) (c : Ctl) :
    (response_handler_pair_setup1 req c).2.alive = c.alive ∧
    (response_handler_pair_setup1 req c).2.seq_ctxs = c.seq_ctxs ∧
    (response_handler_pair_setup1 req c).2.rs.reqs_in_flight = c.rs.reqs_in_flight := by
  simp only [response_handler_pair_setup1, response_handler_pair_generic]
  repeat' split
  all_goals refine ⟨?_, ?_, ?_⟩
  all_goals rfl

set_option maxHeartbeats 4000000 in
theorem response_handler_pair_setup2_in_flight (req : evrtsp_request) (c : Ctl) :
    (response_handler_pair_setup2 req c).2.alive = c.alive ∧
    (response_handler_pair_setup2 req c).2.seq_ctxs = c.seq_ctxs ∧
    (response_handler_pair_setup2 req c).2.rs.reqs_in_flight = c.rs.reqs_in_flight := by
  simp only [response_handler_pair_setup2, response_handler_pair_generic]
  repeat' split
  all_goals refine ⟨?_, ?_, ?_⟩
  all_goals rfl

set_option maxHeartbeats 4000000 in
theorem response_handler_pair_setup3_in_flight (req : evrtsp_request) (c : Ctl) :
    (response_handler_pair_setup3 req c).2.alive = c.alive ∧
    (response_handler_pair_setup3 req c).2.seq_ctxs = c.seq_ctxs ∧
    (response_handler_pair_setup3 req c).2.rs.reqs_in_flight = c.rs.reqs_in_flight := by
  simp only [response_handler_pair_setup3, response_handler_pair_generic]
  repeat' split
  all_goals refine ⟨?_, ?_, ?_⟩
  all_goals rfl

set_option maxHeartbeats 4000000 in
theorem response_handler_pair_verify1_in_flight (req : evrtsp_request) (c : Ctl) :
    (response_handler_pair_verify1 req c).2.alive = c.alive ∧
    (response_handler_pair_verify1 req c).2.seq_ctxs = c.seq_ctxs ∧
    (response_handler_pair_verify1 req c).2.rs.reqs_in_flight = c.rs.reqs_in_flight := by
  simp only [response_handler_pair_verify1, response_handler_pair_generic]
  repeat' split
  all_goals refine ⟨?_, ?_, ?_⟩
  all_goals rfl

set_option maxHeartbeats 4000000 in
theorem response_handler_pair_verify2_in_flight (req : evrtsp_request) (c : Ctl) :
    (response_handler_pair_verify2 req c).2.alive = c.alive ∧
    (response_handler_pair_verify2 req c).2.seq_ctxs = c.seq_ctxs ∧
    (response_handler_pair_verify2 req c).2.rs.reqs_in_flight = c.rs.reqs_in_flight := by
  simp only [response_handler_pair_verify2, response_handler_pair_generic]
  repeat' split
  all_goals refine ⟨?_, ?_, ?_⟩
  all_goals rfl

set_option maxHeartbeats 4000000 in
theorem response_handler_setup_stream_in_flight (req : evrtsp_request) (c : Ctl) :
    (response_handler_setup_stream req c).2.alive = c.alive ∧
    (response_handler_setup_stream req c).2.seq_ctxs = c.seq_ctxs ∧
    (response_handler_setup_stream req c).2.rs.reqs_in_flight = c.rs.reqs_in_flight := by
  simp only [response_handler_setup_stream]
  repeat' split
  all_goals refine ⟨?_, ?_, ?_⟩
  all_goals rfl

set_option maxHeartbeats 4000000 in
theorem response_handler_setup_session_in_flight (req : evrtsp_request) (c : Ctl) :
    (response_handler_setup_session req c).2.alive = c.alive ∧
    (response_handler_setup_session req c).2.seq_ctxs = c.seq_ctxs ∧
    (response_handler_setup_session req c).2.rs.reqs_in_flight = c.rs.reqs_in_flight := by
  simp only [response_handler_setup_session]
  repeat' split
  all_goals refine ⟨?_, ?_, ?_⟩
  all_goals rfl

set_option maxHeartbeats 4000000 in
theorem response_handler_options_generic_in_flight (req : evrtsp_request) (c : Ctl) :
    (response_handler_options_generic req c).2.alive = c.alive ∧
    (response_handler_options_generic req c).2.seq_ctxs = c.seq_ctxs ∧
    (response_handler_options_generic req c).2.rs.reqs_in_flight = c.rs.reqs_in_flight := by
  simp only [response_handler_options_generic, response_header_auth_parse]
  repeat' split
  all_goals refine ⟨?_, ?_, ?_⟩
  all_goals rfl

theorem response_handler_options_start_in_flight (req : evrtsp_request) (c : Ctl) :
    (response_handler_options_start req c).2.alive = c.alive ∧
    (response_handler_options_start req c).2.seq_ctxs = c.seq_ctxs ∧
    (response_handler_options_start req c).2.rs.reqs_in_flight = c.rs.reqs_in_flight := by
  have h := response_handler_options_generic_in_flight req c
  simp only [response_handler_options_start]
  split <;> exact h

/-- The response handlers other than that of the volume of START_AP2 leave the
requests in flight and their count alone. -/
theorem response_handler_in_flight (h : response_handler) (req : evrtsp_request) (c : Ctl)
    (hv : h ≠ .volume_start) :
    (run_response_handler h req c).2.alive = c.alive ∧
    (run_response_handler h req c).2.seq_ctxs = c.seq_ctxs ∧
    (run_response_handler h req c).2.rs.reqs_in_flight = c.rs.reqs_in_flight := by
  cases h
  case volume_start => exact absurd rfl hv
  case setup_stream => exact response_handler_setup_stream_in_flight req c
  case setup_session => exact response_handler_setup_session_in_flight req c
  case options_probe => exact response_handler_options_generic_in_flight req c
  case options_start => exact response_handler_options_start_in_flight req c
  case pair_setup1 => exact response_handler_pair_setup1_in_flight req c
  case pair_setup2 => exact response_handler_pair_setup2_in_flight req c
  case pair_setup3 => exact response_handler_pair_setup3_in_flight req c
  case pair_verify1 => exact response_handler_pair_verify1_in_flight req c
  case pair_verify2 => exact response_handler_pair_verify2_in_flight req c
  case teardown_failure =>
    simp only [run_response_handler]
    split <;> exact ⟨rfl, rfl, rfl⟩
  all_goals exact ⟨rfl, rfl, rfl⟩

theorem run_response_handler_counts (h : response_handler) (req : evrtsp_request) (c : Ctl) :
    Counts 0 c (run_response_handler h req c).2 := by
  by_cases hv : h = .volume_start
  · subst hv
    simp only [run_response_handler]
    split <;> exact airplay_metadata_startup_send_counts c
  · obtain ⟨h1, h2, h3⟩ := response_handler_in_flight h req c hv
    exact counts_same h1 h2 h3

theorem sequence_continue_cb_enter_counts (c : Ctl) :
    Counts (-1) c (sequence_continue_cb_enter c) := by
  refine Or.inr (Or.inr ?_)
  simp only [sequence_continue_cb_enter]
  split <;> exact ⟨rfl, by simp; omega⟩

theorem sequence_continue_cb_error_counts (x : airplay_seq_ctx) (c : Ctl) :
    Counts 0 c (sequence_continue_cb_error x c) := by
  simp only [sequence_continue_cb_error]
  split
  · exact counts_trans (emit_counts c _) (run_seq_callback_counts _ _)
  · exact counts_refl c

theorem sequence_continue_cb_next_counts (x : airplay_seq_ctx) (c : Ctl) :
    Counts 0 c (sequence_continue_cb_next x c) := by
  simp only [sequence_continue_cb_next]
  split
  · exact counts_send (sequence_continue_effect 7 _ c)
  · split
    · exact counts_trans (emit_counts c _) (run_seq_callback_counts _ _)
    · exact counts_refl c

theorem sequence_continue_cb_counts (req : Option evrtsp_request) (x : airplay_seq_ctx)
    (c : Ctl) : Counts (-1) c (sequence_continue_cb req x c) := by
  have he := sequence_continue_cb_enter_counts c
  simp only [sequence_continue_cb]
  generalize sequence_continue_cb_enter c = c1 at he
  split
  · exact counts_trans he (sequence_continue_cb_error_counts x c1)
  · exact counts_trans he (sequence_continue_cb_error_counts x c1)
  · split
    · exact counts_trans he (sequence_continue_cb_error_counts x c1)
    · split
      · exact counts_trans he (sequence_continue_cb_next_counts x c1)
      · rename_i r _ _ _ handler _
        have hh : Counts 0 c1 ((run_response_handler handler r c1).2.emit
            (.handler (run_response_handler handler r c1).2.rs.ptr x.seq_type x.idx
              (run_response_handler handler r c1).1)) :=
          counts_trans (run_response_handler_counts handler r c1) (emit_counts _ _)
        split
        · split
          · exact counts_trans he (counts_trans hh (sequence_continue_cb_error_counts x _))
          · exact counts_trans he (counts_trans hh (sequence_start_counts _ _ _))
        · exact counts_trans he (counts_trans hh (sequence_continue_cb_next_counts x _))

theorem counted_data {c : Ctl} (h : Counted c) (rs2 : airplay_session) (sys2 : Sys)
    (d : DataEffect c.rs rs2) : Counted { c with rs := rs2, sys := sys2 } := by
  intro ha
  have := h ha
  simp only [d.in_flight]
  exact this

theorem airplay_write_session_counted (obuf : output_buffer)
    (masters : List airplay_master_session) (pending : Bool) (c : Ctl) (h : Counted c) :
    Counted (airplay_write_session obuf masters pending c) := by
  obtain ⟨f, hl⟩ := airplay_write_data_step obuf ⟨masters, [c.rs], pending, c.sys⟩
  simp only [airplay_write_session]
  generalize airplay_write obuf ⟨masters, [c.rs], pending, c.sys⟩ = a at f hl
  obtain ⟨m2, l2, p2, s2⟩ := a
  simp only at f hl ⊢
  cases f with
  | cons hd tl =>
    cases tl
    exact counted_data h _ _ hd

theorem airplay_control_resend_counted (rtp : rtp_session) (seq_start : Nat) (seq_len : Int)
    (c : Ctl) (h : Counted c) : Counted (airplay_control_resend rtp seq_start seq_len c) := by
  obtain ⟨d, -⟩ := packets_resend_loop_data rtp seq_len.toNat seq_start c.rs c.sys
  exact counted_data h _ _ d


/-! ## Requests in flight (C15) -/

set_option maxRecDepth 100000 in
/-- C15 does not hold as stated: on the STREAMING session of
`exampleMetadataStreaming`, which has no request in flight and wants progress,
text and artwork, `airplay_metadata_send` starts SEND_PROGRESS, SEND_TEXT and
SEND_ARTWORK one after the other; `sequence_continue` sends the second request
with `reqs_in_flight` at 1 and the third with 2, and 3 requests are in flight. -/
theorem metadata_send_has_three_requests_in_flight :
    exampleMetadataStreaming.alive = true ∧
    exampleMetadataStreaming.rs.state = .STREAMING ∧
    exampleMetadataStreaming.rs.reqs_in_flight = 0 ∧
    (sequence_start .SEND_PROGRESS (.metadata exampleMetadata)
      exampleMetadataStreaming).rs.reqs_in_flight = 1 ∧
    (sequence_start .SEND_TEXT (.metadata exampleMetadata)
      (sequence_start .SEND_PROGRESS (.metadata exampleMetadata)
        exampleMetadataStreaming)).rs.reqs_in_flight = 2 ∧
    (airplay_metadata_send exampleMetadata exampleMetadataStreaming).rs.reqs_in_flight = 3 ∧
    (airplay_metadata_send exampleMetadata exampleMetadataStreaming).sys.log.drop
        exampleMetadataStreaming.sys.log.length
      = [.sequence_start 100 .SEND_PROGRESS, .request 100 .SEND_PROGRESS 0,
         .sequence_start 100 .SEND_TEXT, .request 100 .SEND_TEXT 0,
         .sequence_start 100 .SEND_ARTWORK, .request 100 .SEND_ARTWORK 0] := by
  decide

/-- In every state of the session state machine, a live session counts in
`reqs_in_flight` its requests in flight. -/
theorem reachable_counted (c : Ctl) (h : Reachable c) : Counted c := by
  induction h with
  | start device callback_id c _ =>
    exact counted_step (fun _ => rfl)
      (airplay_device_start_generic_counts device callback_id false c 0
        { c with rs := { c.rs with reqs_in_flight := 0 }, seq_ctxs := [] })
  | probe device callback_id c _ =>
    exact counted_step (fun _ => rfl)
      (airplay_device_start_generic_counts device callback_id true c 0
        { c with rs := { c.rs with reqs_in_flight := 0 }, seq_ctxs := [] })
  | authorize device pin callback_id c _ =>
    exact counted_step (fun _ => rfl)
      (airplay_device_authorize_counts device pin callback_id c 0
        { c with rs := { c.rs with reqs_in_flight := 0 }, seq_ctxs := [] })
  | response c before x after req _ ha hc ih =>
    have hr := ih ha
    intro ha2
    rcases sequence_continue_cb_counts req x { c with seq_ctxs := before ++ after } with s | s | s
    · rw [s] at ha2; exact absurd ha2 (by decide)
    · exact s
    · obtain ⟨-, sg⟩ := s
      simp only [List.length_append] at sg
      simp only [hc, List.length_append, List.length_cons] at hr
      push_cast at sg hr
      omega
  | write c obuf masters pending _ _ ih => exact airplay_write_session_counted _ _ _ _ ih
  | resend c rtp seq_start seq_len _ _ ih => exact airplay_control_resend_counted _ _ _ _ ih
  | stop c callback_id _ _ ih =>
    have h1 : Counted { c with rs := { c.rs with callback_id := callback_id } } := ih
    exact counted_step h1 (sequence_start_counts _ _ _)
  | flush c callback_id _ _ ih =>
    simp only [airplay_device_flush]
    split
    · exact ih
    · have h1 : Counted { c with rs := { c.rs with callback_id := callback_id } } := ih
      exact counted_step h1 (sequence_start_counts _ _ _)
  | cb_set c callback_id _ _ ih => exact ih
  | set_volume c device callback_id _ _ ih =>
    simp only [airplay_set_volume_one]
    split
    · exact ih
    · have h1 : Counted { c with rs := { c.rs with volume := device.volume,
                                                   callback_id := callback_id } } := ih
      exact counted_step h1 (sequence_start_counts _ _ _)
  | metadata_send c metadata _ _ ih =>
    have h1 : Counts 0 c (airplay_metadata_send metadata c) := by
      simp only [airplay_metadata_send]
      split
      · exact counts_same rfl rfl rfl
      · split
        · exact counts_trans (session_failure_counts 0 c _) (counts_same rfl rfl rfl)
        · exact counts_trans (airplay_metadata_send_generic_counts metadata false c)
            (counts_same rfl rfl rfl)
    exact counted_step ih h1
  | keep_alive c _ _ ih =>
    have h1 : Counts 0 c (airplay_keep_alive_timer_cb c) := by
      simp only [airplay_keep_alive_timer_cb]
      split
      · exact emit_counts c _
      · exact counts_trans (sequence_start_counts _ _ c) (emit_counts _ _)
    exact counted_step ih h1
  | deferred c _ _ _ ih => exact counted_step ih (session_failure_counts 0 c c)
  | rtsp_close c _ _ _ ih =>
    have h1 : Counts 0 c (rtsp_close_cb c) := by
      simp only [rtsp_close_cb, Ctl.defer_failure, deferred_session_failure]
      split <;> exact counts_same rfl rfl rfl
    exact counted_step ih h1
  | device_update c device _ ih => exact ih

/-- C15, amended: in every state of the session state machine a live session has
`reqs_in_flight` equal to the number of its requests in flight, and at most one
of these belongs to a sequence that brings the session up (PAIR_SETUP,
PAIR_VERIFY, PAIR_TRANSIENT, START, START_RERUN, START_AP2, PROBE). The requests
of the other sequences are sent whatever `reqs_in_flight` is, so it can exceed
1. -/
theorem reqs_in_flight_counts_requests (c : Ctl) (h : Reachable c) (ha : c.alive = true) :
    c.rs.reqs_in_flight = c.seq_ctxs.length ∧
    c.seq_ctxs.countP (fun x => x.seq_type.mainline) ≤ 1 :=
  ⟨reachable_counted c h ha, (reachable_inv h).one⟩

set_option maxRecDepth 100000 in
/-- The run of `exampleMetadataStreaming`, followed by `airplay_metadata_send`,
is a run of the state machine. -/
theorem exampleMetadataStreaming_reachable :
    Reachable (airplay_metadata_send exampleMetadata exampleMetadataStreaming) := by
  have s0 := Reachable.start exampleMetadataDevice 7
    { device := some exampleMetadataDevice, rs := exampleSession 1 .STOPPED,
      alive := false, seq_ctxs := [], airplay_cur_metadata := none,
      timing_6svc_fd := 3, control_6svc_fd := 4, next_ptr := 100, sys := exampleSysOk } rfl
  have s1 := reachable_deliver (some (exampleOk none)) _ s0 (by decide)
  have s2 := reachable_deliver (some (exampleOk none)) _ s1 (by decide)
  have s3 := reachable_deliver (some (exampleOk none)) _ s2 (by decide)
  have s4 := reachable_deliver (some (exampleOk (some exampleSetupReply))) _ s3 (by decide)
  have s5 := reachable_deliver (some (exampleOk none)) _ s4 (by decide)
  have s6 := reachable_deliver (some (exampleOk (some exampleSetupReply))) _ s5 (by decide)
  have s7 := reachable_deliver (some (exampleOk none)) _ s6 (by decide)
  have s8 := reachable_deliver (some (exampleOk none)) _ s7 (by decide)
  have s9 : Reachable exampleMetadataStreaming :=
    Reachable.write _ (exampleBuffer 0) [] false s8 (by decide)
  exact Reachable.metadata_send _ exampleMetadata s9 (by decide)

set_option maxRecDepth 100000 in
/-- Witness for `reqs_in_flight_counts_requests`: after `airplay_metadata_send`
on the session of `exampleMetadataStreaming`, `reqs_in_flight` is 3 and three
requests are in flight, none of a sequence that brings the session up. -/
theorem reqs_in_flight_counts_requests_witness :
    (airplay_metadata_send exampleMetadata exampleMetadataStreaming).rs.reqs_in_flight = 3 ∧
    (airplay_metadata_send exampleMetadata exampleMetadataStreaming).seq_ctxs.map
        (fun x => x.seq_type) = [.SEND_PROGRESS, .SEND_TEXT, .SEND_ARTWORK] ∧
    ((airplay_metadata_send exampleMetadata exampleMetadataStreaming).rs.reqs_in_flight
        = (airplay_metadata_send exampleMetadata exampleMetadataStreaming).seq_ctxs.length ∧
      (airplay_metadata_send exampleMetadata exampleMetadataStreaming).seq_ctxs.countP
        (fun x => x.seq_type.mainline) ≤ 1) :=
  ⟨by decide, by decide,
   reqs_in_flight_counts_requests _ exampleMetadataStreaming_reachable (by decide)⟩


/-! ## Progress metadata (C16, C17) and the anchor (C18) -/

/-- C16: for a master session of sample rate 44100 whose anchor position
`cur_stamp.pos` is `start` (a `uint32_t`), and metadata with `pos_ms = 0`,
`startup` set and `pts` equal to `cur_stamp.ts`, the body
`payload_make_send_progress` writes is `progress: D/P/E` followed by CR LF, with
`P = start`, `D = start - 15360` and `E = start + len_ms * 44100 / 1000`, all
three modulo 2^32 and in decimal. -/
theorem payload_make_send_progress_at_start (rms : airplay_master_session)
    (metadata : output_metadata)
    (hrate : rms.rtp_session.quality.sample_rate = 44100) (hpos : metadata.pos_ms = 0)
    (hstartup : metadata.startup = true) (hpts : metadata.pts = rms.cur_stamp.ts)
    (h32 : rms.cur_stamp.pos < 2 ^ 32) :
    payload_make_send_progress rms metadata
      = "progress: " ++ toString ((rms.cur_stamp.pos + 2 ^ 32 - 15360) % 2 ^ 32) ++ "/"
        ++ toString rms.cur_stamp.pos ++ "/"
        ++ toString ((rms.cur_stamp.pos + metadata.len_ms * 44100 / 1000) % 2 ^ 32)
        ++ "\r\n" := by
  have hs : (metadata_rtptimes_get rms metadata).start = rms.cur_stamp.pos := by
    simp only [metadata_rtptimes_get, hrate, hpos, hpts]
    simp
    omega
  have hd : (metadata_rtptimes_get rms metadata).display
      = (rms.cur_stamp.pos + 2 ^ 32 - 15360) % 2 ^ 32 := by
    have e : (metadata_rtptimes_get rms metadata).display
        = ((((metadata_rtptimes_get rms metadata).start : Int)
            - (RAOP_MD_DELAY_STARTUP : Int)) % 2 ^ 32).toNat := by
      simp only [metadata_rtptimes_get, hstartup, if_true]
    rw [e, hs]
    simp only [RAOP_MD_DELAY_STARTUP]
    omega
  have hp : (metadata_rtptimes_get rms metadata).pos = rms.cur_stamp.pos := by
    have e : (metadata_rtptimes_get rms metadata).pos
        = max rms.cur_stamp.pos (metadata_rtptimes_get rms metadata).start := rfl
    rw [e, hs, max_self]
  have he : (metadata_rtptimes_get rms metadata).end_
      = (rms.cur_stamp.pos + metadata.len_ms * 44100 / 1000) % 2 ^ 32 := by
    have e : (metadata_rtptimes_get rms metadata).end_
        = if Int.tdiv ((metadata.len_ms : Int) * 44100) 1000 ≠ 0
          then ((((metadata_rtptimes_get rms metadata).start : Int)
            + Int.tdiv ((metadata.len_ms : Int) * 44100) 1000) % 2 ^ 32).toNat
          else (metadata_rtptimes_get rms metadata).pos := by
      simp only [metadata_rtptimes_get, hrate]
    rw [e, hs, hp]
    have hl : Int.tdiv ((metadata.len_ms : Int) * 44100) 1000
        = ((metadata.len_ms * 44100 / 1000 : Nat) : Int) := by
      rw [Int.tdiv_eq_ediv (Int.mul_nonneg (Int.ofNat_nonneg _) (by decide)) (by decide)]
      norm_cast
    rw [hl]
    split
    · omega
    · rename_i h
      have : metadata.len_ms * 44100 / 1000 = 0 := by
        have h2 : ((metadata.len_ms * 44100 / 1000 : Nat) : Int) = 0 := not_not.mp h
        exact_mod_cast h2
      rw [this, Nat.add_zero, Nat.mod_eq_of_lt h32]
  simp only [payload_make_send_progress, hd, hp, he]

set_option maxRecDepth 100000 in
/-- Witness for `payload_make_send_progress_at_start`: anchor at RTP time 100000,
an item of three minutes at its start. -/
theorem payload_make_send_progress_at_start_witness :
    (exampleStamped 100000).rtp_session.quality.sample_rate = 44100 ∧
    (exampleProgress 0 180000).pts = (exampleStamped 100000).cur_stamp.ts ∧
    payload_make_send_progress (exampleStamped 100000) (exampleProgress 0 180000)
      = "progress: 84640/100000/8038000\r\n" :=
  ⟨rfl, rfl,
   (payload_make_send_progress_at_start (exampleStamped 100000) (exampleProgress 0 180000)
      rfl rfl rfl rfl (by decide)).trans (by decide)⟩

set_option maxRecDepth 100000 in
/-- C17, as the code behaves: `*start` is stored in a `uint32_t` before the
maximum is taken, so the position is the maximum of the two unsigned 32-bit
values `cur_stamp.pos` and `(cur_stamp.pos - elapsed_samples) mod 2^32`. With
the anchor at RTP time 100 and an item that is 10 ms (441 samples) in, `start`
is -341 as a signed 64-bit value, and the position is 4294966955 where the
signed maximum cast to 32 bits is 100. -/
theorem progress_position_is_unsigned_maximum :
    (∀ rms metadata,
      (metadata_rtptimes_get rms metadata).pos
        = max rms.cur_stamp.pos (metadata_rtptimes_get rms metadata).start ∧
      (metadata_rtptimes_get rms metadata).start < 2 ^ 32) ∧
    (metadata_rtptimes_get (exampleStamped 100) (exampleProgress 10 180000)).start
      = 4294966955 ∧
    (metadata_rtptimes_get (exampleStamped 100) (exampleProgress 10 180000)).pos
      = 4294966955 ∧
    progress_pos_signed64 (exampleStamped 100) (exampleProgress 10 180000) = 100 ∧
    payload_make_send_progress (exampleStamped 100) (exampleProgress 10 180000)
      = "progress: 4294951595/4294966955/7937659\r\n" := by
  refine ⟨fun rms metadata => ⟨rfl, ?_⟩, by decide, by decide, by decide, by decide⟩
  simp only [metadata_rtptimes_get]
  omega

/-- C18: `timestamp_set` stores `ts` in `cur_stamp.ts` and
`rtp_session.pos + evbuf_samples - output_buffer_samples` modulo 2^32 in
`cur_stamp.pos`, and leaves the RTP session (with its `pos`), `evbuf_samples`,
`output_buffer_samples` and everything else of the master session as they
were. -/
theorem timestamp_set_anchor (rms : airplay_master_session) (ts : timespec) :
    (timestamp_set rms ts).cur_stamp.ts = ts ∧
    ((timestamp_set rms ts).cur_stamp.pos : Int)
      = ((rms.rtp_session.pos : Int) + rms.evbuf_samples - rms.output_buffer_samples) % 2 ^ 32 ∧
    (timestamp_set rms ts).cur_stamp.pos < 2 ^ 32 ∧
    (timestamp_set rms ts).rtp_session = rms.rtp_session ∧
    (timestamp_set rms ts).evbuf_samples = rms.evbuf_samples ∧
    (timestamp_set rms ts).output_buffer_samples = rms.output_buffer_samples ∧
    timestamp_set rms ts = { rms with cur_stamp := (timestamp_set rms ts).cur_stamp } := by
  refine ⟨rfl, ?_, ?_, rfl, rfl, rfl, rfl⟩
  · simp only [timestamp_set]
    omega
  · simp only [timestamp_set]
    omega


/-! ## Lemmas: rounding to `float` and `double` -/

theorem log2_fuel_spec : ∀ (fuel n : Nat), n ≤ fuel → n ≠ 0 →
    2 ^ log2_fuel fuel n ≤ n ∧ n < 2 ^ (log2_fuel fuel n + 1)
  | 0, n, h, h0 => absurd (Nat.le_zero.mp h) h0
  | fuel + 1, n, h, h0 => by
    simp only [log2_fuel]
    split
    · obtain ⟨a, b⟩ := log2_fuel_spec fuel (n / 2) (by omega) (by omega)
      rw [pow_succ] at b
      rw [pow_succ, pow_succ, pow_succ]
      generalize 2 ^ log2_fuel fuel (n / 2) = x at a b ⊢
      constructor <;> omega
    · constructor
      · simp; omega
      · simp; omega

theorem ilog2_spec (n : Nat) (h : n ≠ 0) : 2 ^ ilog2 n ≤ n ∧ n < 2 ^ (ilog2 n + 1) :=
  log2_fuel_spec n n (le_refl n) h

theorem binade_spec (q : ℚ) (hq : q ≠ 0) :
    (2 : ℚ) ^ binade q ≤ |q| ∧ |q| < (2 : ℚ) ^ (binade q + 1) := by
  have ha : q.num.natAbs ≠ 0 := by
    rw [Ne, Int.natAbs_eq_zero, Rat.num_eq_zero]
    exact hq
  obtain ⟨a1, a2⟩ := ilog2_spec _ ha
  obtain ⟨b1, b2⟩ := ilog2_spec _ q.den_nz
  have habs : |q| = (q.num.natAbs : ℚ) / (q.den : ℚ) := by
    rw [Rat.abs_def, Rat.divInt_eq_div]
    push_cast
    rw [Nat.cast_natAbs]
    push_cast
    rfl
  have a1q : (2 : ℚ) ^ ilog2 q.num.natAbs ≤ (q.num.natAbs : ℚ) := by exact_mod_cast a1
  have a2q : (q.num.natAbs : ℚ) < (2 : ℚ) ^ (ilog2 q.num.natAbs + 1) := by exact_mod_cast a2
  have b1q : (2 : ℚ) ^ ilog2 q.den ≤ (q.den : ℚ) := by exact_mod_cast b1
  have b2q : (q.den : ℚ) < (2 : ℚ) ^ (ilog2 q.den + 1) := by exact_mod_cast b2
  have hden : (0 : ℚ) < q.den := by exact_mod_cast q.den_pos
  unfold binade
  rw [habs]
  generalize (q.num.natAbs : ℚ) = A at a1q a2q ⊢
  generalize (q.den : ℚ) = B at b1q b2q hden ⊢
  generalize ilog2 q.num.natAbs = la at a1q a2q ⊢
  generalize ilog2 q.den = lb at b1q b2q ⊢
  have e0 : (2 : ℚ) ^ ((la : Int) - (lb : Int)) = (2 : ℚ) ^ la / (2 : ℚ) ^ lb := by
    rw [zpow_sub₀ (by norm_num : (2 : ℚ) ≠ 0), zpow_natCast, zpow_natCast]
  have pa : (0 : ℚ) < (2 : ℚ) ^ la := by positivity
  have pb : (0 : ℚ) < (2 : ℚ) ^ lb := by positivity
  have hlt : A / B < (2 : ℚ) ^ ((la : Int) - (lb : Int)) * 2 := by
    rw [e0, div_mul_eq_mul_div, div_lt_div_iff₀ hden pb]
    rw [pow_succ] at a2q
    nlinarith
  have hgt : (2 : ℚ) ^ ((la : Int) - (lb : Int)) / 2 ≤ A / B := by
    rw [e0, div_div, div_le_div_iff₀ (by positivity) hden]
    rw [pow_succ] at b2q
    nlinarith
  generalize (la : Int) - (lb : Int) = e at hlt hgt ⊢
  have h2 : (2 : ℚ) ≠ 0 := by norm_num
  split
  · rename_i h
    exact ⟨h, by rw [zpow_add_one₀ h2]; exact hlt⟩
  · rename_i h
    constructor
    · rw [zpow_sub_one₀ h2, ← div_eq_mul_inv]
      exact hgt
    · rw [sub_add_cancel]
      exact lt_of_not_le h

theorem round_even_cases (y : ℚ) : round_even y = ⌊y⌋ ∨
    (round_even y = ⌊y⌋ + 1 ∧ 1 / 2 ≤ y - ⌊y⌋) := by
  unfold round_even
  split
  · exact Or.inl rfl
  · rename_i h
    split
    · exact Or.inr ⟨rfl, le_of_not_lt h⟩
    · split
      · exact Or.inl rfl
      · exact Or.inr ⟨rfl, le_of_not_lt h⟩

theorem round_even_error (y : ℚ) : |(round_even y : ℚ) - y| ≤ 1 / 2 := by
  have h1 := Int.floor_le y
  have h2 := Int.lt_floor_add_one y
  unfold round_even
  rw [abs_le]
  split
  · constructor <;> linarith
  · split
    · push_cast
      constructor <;> linarith
    · split
      · constructor <;> linarith
      · push_cast
        constructor <;> linarith

theorem round_even_intCast (n : Int) : round_even (n : ℚ) = n := by
  unfold round_even
  simp

theorem round_even_le (y : ℚ) (n : Int) (h : y ≤ n) : round_even y ≤ n := by
  have hf : ⌊y⌋ ≤ n := by
    have h0 : ((⌊y⌋ : Int) : ℚ) ≤ (n : ℚ) := le_trans (Int.floor_le y) h
    exact_mod_cast h0
  rcases round_even_cases y with e | ⟨e, h1⟩
  · rw [e]; exact hf
  · rw [e]
    rcases lt_or_eq_of_le hf with h2 | h2
    · omega
    · exfalso
      have : (n : ℚ) ≤ y := by rw [← h2]; exact Int.floor_le y
      have h3 : y = n := le_antisymm h this
      rw [h3, Int.floor_intCast] at h1
      simp at h1
      linarith

theorem le_round_even (y : ℚ) (n : Int) (h : (n : ℚ) ≤ y) : n ≤ round_even y := by
  have hf : n ≤ ⌊y⌋ := Int.le_floor.mpr h
  rcases round_even_cases y with e | ⟨e, -⟩ <;> rw [e] <;> omega

theorem ulp_pos (p : Nat) (emin : Int) (q : ℚ) : 0 < ulp p emin q := by
  unfold ulp
  positivity

theorem fl_eq (p : Nat) (emin : Int) (q : ℚ) :
    fl p emin q = round_even (q / ulp p emin q) * ulp p emin q := by
  unfold fl
  split
  · rename_i h
    rw [h]
    simp [round_even]
  · rfl


theorem binade_lt (q : ℚ) (hq : q ≠ 0) (n : Int) (h : |q| < (2 : ℚ) ^ n) : binade q < n := by
  have h1 := (binade_spec q hq).1
  exact (zpow_lt_zpow_iff_right₀ (by norm_num : (1 : ℚ) < 2)).mp (lt_of_le_of_lt h1 h)

theorem le_binade (q : ℚ) (hq : q ≠ 0) (n : Int) (h : (2 : ℚ) ^ n ≤ |q|) : n ≤ binade q := by
  have h1 := (binade_spec q hq).2
  have := (zpow_lt_zpow_iff_right₀ (by norm_num : (1 : ℚ) < 2)).mp (lt_of_le_of_lt h h1)
  omega

/-- Below `2^p` the spacing of the format is a power of two that is at most 1. -/
theorem ulp_small (p : Nat) (emin : Int) (q : ℚ) (hemin : emin ≤ (p : Int) - 1) (hq : q ≠ 0)
    (hb : |q| < (2 : ℚ) ^ p) : ∃ k : Nat, ulp p emin q * (2 : ℚ) ^ k = 1 := by
  have hb2 : |q| < (2 : ℚ) ^ (p : Int) := by rw [zpow_natCast]; exact hb
  have h1 := binade_lt q hq p hb2
  refine ⟨((p : Int) - 1 - max (binade q) emin).toNat, ?_⟩
  unfold ulp
  rw [← zpow_natCast, ← zpow_add₀ (by norm_num : (2 : ℚ) ≠ 0)]
  have : max (binade q) emin - ((p : Int) - 1)
      + (((p : Int) - 1 - max (binade q) emin).toNat : Int) = 0 := by
    rw [Int.toNat_of_nonneg (by omega)]
    omega
  rw [this, zpow_zero]

theorem fl_le_intCast (p : Nat) (emin : Int) (q : ℚ) (n : Int) (hemin : emin ≤ (p : Int) - 1)
    (h : q ≤ n) (hb : |q| < (2 : ℚ) ^ p) : fl p emin q ≤ n := by
  by_cases hq : q = 0
  · rw [hq] at h ⊢
    simpa [fl] using h
  · obtain ⟨k, hk⟩ := ulp_small p emin q hemin hq hb
    have hu := ulp_pos p emin q
    have hpk : (0 : ℚ) < (2 : ℚ) ^ k := by positivity
    have e : q / ulp p emin q = q * (2 : ℚ) ^ k := by
      field_simp
      rw [mul_assoc, mul_comm ((2 : ℚ) ^ k), hk, mul_one]
    have hr : round_even (q / ulp p emin q) ≤ n * 2 ^ k := by
      apply round_even_le
      rw [e]
      push_cast
      exact mul_le_mul_of_nonneg_right h (le_of_lt hpk)
    have hr2 : ((round_even (q / ulp p emin q) : Int) : ℚ) ≤ (n : ℚ) * (2 : ℚ) ^ k := by
      exact_mod_cast hr
    rw [fl_eq]
    calc (round_even (q / ulp p emin q) : ℚ) * ulp p emin q
        ≤ ((n : ℚ) * (2 : ℚ) ^ k) * ulp p emin q := mul_le_mul_of_nonneg_right hr2 (le_of_lt hu)
      _ = n := by rw [mul_assoc, mul_comm ((2 : ℚ) ^ k), hk, mul_one]

theorem intCast_le_fl (p : Nat) (emin : Int) (q : ℚ) (n : Int) (hemin : emin ≤ (p : Int) - 1)
    (h : (n : ℚ) ≤ q) (hb : |q| < (2 : ℚ) ^ p) : (n : ℚ) ≤ fl p emin q := by
  by_cases hq : q = 0
  · rw [hq] at h ⊢
    simpa [fl] using h
  · obtain ⟨k, hk⟩ := ulp_small p emin q hemin hq hb
    have hu := ulp_pos p emin q
    have hpk : (0 : ℚ) < (2 : ℚ) ^ k := by positivity
    have e : q / ulp p emin q = q * (2 : ℚ) ^ k := by
      field_simp
      rw [mul_assoc, mul_comm ((2 : ℚ) ^ k), hk, mul_one]
    have hr : n * 2 ^ k ≤ round_even (q / ulp p emin q) := by
      apply le_round_even
      rw [e]
      push_cast
      exact mul_le_mul_of_nonneg_right h (le_of_lt hpk)
    have hr2 : (n : ℚ) * (2 : ℚ) ^ k ≤ ((round_even (q / ulp p emin q) : Int) : ℚ) := by
      exact_mod_cast hr
    rw [fl_eq]
    calc (n : ℚ) = ((n : ℚ) * (2 : ℚ) ^ k) * ulp p emin q := by
          rw [mul_assoc, mul_comm ((2 : ℚ) ^ k), hk, mul_one]
      _ ≤ (round_even (q / ulp p emin q) : ℚ) * ulp p emin q :=
          mul_le_mul_of_nonneg_right hr2 (le_of_lt hu)

/-- An integer below `2^p` in absolute value is a value of the format. -/
theorem fl_intCast (p : Nat) (emin : Int) (n : Int) (hemin : emin ≤ (p : Int) - 1)
    (hb : |(n : ℚ)| < (2 : ℚ) ^ p) : fl p emin (n : ℚ) = n :=
  le_antisymm (fl_le_intCast p emin n n hemin (le_refl _) hb)
    (intCast_le_fl p emin n n hemin (le_refl _) hb)

/-- The error of rounding in the normal range is at most `2^-p` of the value. -/
theorem fl_error (p : Nat) (emin : Int) (q : ℚ) (h : (2 : ℚ) ^ emin ≤ |q|) :
    |fl p emin q - q| ≤ |q| / (2 : ℚ) ^ p := by
  have hq : q ≠ 0 := by
    intro h0
    rw [h0, abs_zero] at h
    have : (0 : ℚ) < (2 : ℚ) ^ emin := by positivity
    linarith
  have he := le_binade q hq emin h
  have hu := ulp_pos p emin q
  have hr := round_even_error (q / ulp p emin q)
  have e1 : fl p emin q - q = ((round_even (q / ulp p emin q) : ℚ) - q / ulp p emin q)
      * ulp p emin q := by
    rw [fl_eq]
    field_simp
  have e2 : ulp p emin q = (2 : ℚ) ^ binade q * 2 / (2 : ℚ) ^ p := by
    unfold ulp
    rw [max_eq_left he, zpow_sub₀ (by norm_num : (2 : ℚ) ≠ 0),
      zpow_sub₀ (by norm_num : (2 : ℚ) ≠ 0), zpow_natCast, zpow_one]
    field_simp
  rw [e1, abs_mul, abs_of_pos hu]
  have hb := (binade_spec q hq).1
  have hp : (0 : ℚ) < (2 : ℚ) ^ p := by positivity
  calc |(round_even (q / ulp p emin q) : ℚ) - q / ulp p emin q| * ulp p emin q
      ≤ 1 / 2 * ulp p emin q := mul_le_mul_of_nonneg_right hr (le_of_lt hu)
    _ = (2 : ℚ) ^ binade q / (2 : ℚ) ^ p := by rw [e2]; field_simp
    _ ≤ |q| / (2 : ℚ) ^ p := div_le_div_of_nonneg_right hb (le_of_lt hp)

/-- The error of rounding, for every value: at most `2^-p` of the value plus half
the spacing of the subnormal values. -/
theorem fl_error_any (p : Nat) (emin : Int) (q : ℚ) :
    |fl p emin q - q| ≤ |q| / (2 : ℚ) ^ p + (2 : ℚ) ^ emin / (2 : ℚ) ^ p := by
  have hp : (0 : ℚ) < (2 : ℚ) ^ p := by positivity
  have hm : (0 : ℚ) < (2 : ℚ) ^ emin := by positivity
  by_cases h : (2 : ℚ) ^ emin ≤ |q|
  · have := fl_error p emin q h
    have : (0 : ℚ) ≤ (2 : ℚ) ^ emin / (2 : ℚ) ^ p := by positivity
    linarith
  · by_cases hq : q = 0
    · rw [hq]
      simp [fl]
      positivity
    · have hlt : binade q < emin := binade_lt q hq emin (lt_of_not_le h)
      have hu := ulp_pos p emin q
      have hr := round_even_error (q / ulp p emin q)
      have e1 : fl p emin q - q = ((round_even (q / ulp p emin q) : ℚ) - q / ulp p emin q)
          * ulp p emin q := by
        rw [fl_eq]
        field_simp
      have e2 : ulp p emin q = (2 : ℚ) ^ emin * 2 / (2 : ℚ) ^ p := by
        unfold ulp
        rw [max_eq_right (le_of_lt hlt), zpow_sub₀ (by norm_num : (2 : ℚ) ≠ 0),
          zpow_sub₀ (by norm_num : (2 : ℚ) ≠ 0), zpow_natCast, zpow_one]
        field_simp
      rw [e1, abs_mul, abs_of_pos hu]
      have : (0 : ℚ) ≤ |q| / (2 : ℚ) ^ p := by positivity
      calc |(round_even (q / ulp p emin q) : ℚ) - q / ulp p emin q| * ulp p emin q
          ≤ 1 / 2 * ulp p emin q := mul_le_mul_of_nonneg_right hr (le_of_lt hu)
        _ = (2 : ℚ) ^ emin / (2 : ℚ) ^ p := by rw [e2]; field_simp
        _ ≤ |q| / (2 : ℚ) ^ p + (2 : ℚ) ^ emin / (2 : ℚ) ^ p := by linarith


/-- Rounding leaves a value of the format as it is. -/
theorem fl_of_representable (p : Nat) (emin : Int) (q : ℚ) (h : representable p emin q) :
    fl p emin q = q := by
  obtain ⟨z, k, hq, hz, hk⟩ := h
  by_cases h0 : q = 0
  · rw [h0]
    simp [fl]
  · have h2 : (2 : ℚ) ≠ 0 := by norm_num
    have hzq : |(z : ℚ)| < (2 : ℚ) ^ (p : Int) := by
      rw [zpow_natCast]
      exact_mod_cast hz
    have hlt : |q| < (2 : ℚ) ^ ((p : Int) + k) := by
      rw [hq, abs_mul, abs_of_pos (by positivity : (0 : ℚ) < (2 : ℚ) ^ k), zpow_add₀ h2]
      exact mul_lt_mul_of_pos_right hzq (by positivity)
    have hb := binade_lt q h0 _ hlt
    have hu : max (binade q) emin - ((p : Int) - 1) ≤ k := by omega
    have e : q / ulp p emin q
        = ((z * 2 ^ (k - (max (binade q) emin - ((p : Int) - 1))).toNat : Int) : ℚ) := by
      unfold ulp
      generalize max (binade q) emin - ((p : Int) - 1) = u at hu ⊢
      push_cast
      rw [← zpow_natCast, Int.toNat_of_nonneg (by omega), zpow_sub₀ h2, ← mul_div_assoc, ← hq]
    rw [fl_eq, e, round_even_intCast, ← e]
    field_simp [ne_of_gt (ulp_pos p emin q)]

/-- The result of rounding is a value of the format. -/
theorem fl_representable (p : Nat) (emin : Int) (q : ℚ) (hp : 0 < p) :
    representable p emin (fl p emin q) := by
  by_cases h0 : q = 0
  · refine ⟨0, emin - ((p : Int) - 1), ?_, ?_, le_refl _⟩
    · rw [h0]; simp [fl]
    · simp
  · have h2 : (2 : ℚ) ≠ 0 := by norm_num
    have hu := ulp_pos p emin q
    have hspec := (binade_spec q h0).2
    have hy : |q / ulp p emin q| < (2 : ℚ) ^ p := by
      rw [abs_div, abs_of_pos hu, div_lt_iff₀ hu]
      have e : (2 : ℚ) ^ p * ulp p emin q = (2 : ℚ) ^ (max (binade q) emin + 1) := by
        unfold ulp
        rw [← zpow_natCast, ← zpow_add₀ h2]
        congr 1
        omega
      rw [e]
      refine lt_of_lt_of_le hspec ?_
      exact zpow_le_zpow_right₀ (by norm_num) (by omega)
    obtain ⟨y1, y2⟩ := abs_lt.mp hy
    have hz1 : round_even (q / ulp p emin q) ≤ 2 ^ p :=
      round_even_le _ _ (by push_cast; exact le_of_lt y2)
    have hz2 : -(2 ^ p) ≤ round_even (q / ulp p emin q) :=
      le_round_even _ _ (by push_cast; exact le_of_lt y1)
    rw [fl_eq]
    generalize round_even (q / ulp p emin q) = z at hz1 hz2
    have hpp : (2 : Int) ^ p = 2 * 2 ^ (p - 1) := by
      rw [← pow_succ']
      congr 1
      omega
    have hpos : (0 : Int) < 2 ^ (p - 1) := by positivity
    by_cases hlt : |z| < 2 ^ p
    · exact ⟨z, max (binade q) emin - ((p : Int) - 1), rfl, hlt, by omega⟩
    · have hcase : z = 2 ^ p ∨ z = -(2 ^ p) := by
        rw [abs_lt, not_and_or] at hlt
        rcases hlt with h | h
        · right; omega
        · left; omega
      rcases hcase with hz | hz
      · refine ⟨2 ^ (p - 1), max (binade q) emin - ((p : Int) - 1) + 1, ?_, ?_, by omega⟩
        · rw [hz, hpp, zpow_add_one₀ h2, ulp]
          push_cast
          ring
        · rw [abs_of_pos hpos, hpp]
          omega
      · refine ⟨-(2 ^ (p - 1)), max (binade q) emin - ((p : Int) - 1) + 1, ?_, ?_, by omega⟩
        · rw [hz, hpp, zpow_add_one₀ h2, ulp]
          push_cast
          ring
        · rw [abs_neg, abs_of_pos hpos, hpp]
          omega

/-- The fractional part of a value of the format is a value of the format. -/
theorem representable_sub_intCast (p : Nat) (emin : Int) (d : ℚ) (t : Int)
    (h : representable p emin d) (hfrac : |d - t| < 1) (ht : t ≠ 0 → 1 ≤ |d|) :
    representable p emin (d - t) := by
  by_cases ht0 : t = 0
  · rw [ht0]
    simpa using h
  · have hd := ht ht0
    obtain ⟨z, k, hq, hz, hk⟩ := h
    have h2 : (2 : ℚ) ≠ 0 := by norm_num
    by_cases hk0 : 0 ≤ k
    · -- an integer
      have e : d - t = ((z * 2 ^ k.toNat - t : Int) : ℚ) := by
        push_cast
        rw [← zpow_natCast, Int.toNat_of_nonneg hk0, hq]
      rw [e] at hfrac ⊢
      have hi : |z * 2 ^ k.toNat - t| < 1 := by exact_mod_cast hfrac
      have hzero : z * 2 ^ k.toNat - t = 0 := by
        rw [abs_lt] at hi
        omega
      rw [hzero]
      exact ⟨0, k, by simp, by simp, hk⟩
    · have hk1 : k < 0 := lt_of_not_le hk0
      have hpk : (0 : ℚ) < (2 : ℚ) ^ k := by positivity
      have hinv : (2 : ℚ) ^ k * (2 : ℚ) ^ (-k).toNat = 1 := by
        rw [← zpow_natCast, Int.toNat_of_nonneg (by omega), ← zpow_add₀ h2]
        simp
      have e : d - t = ((z - t * 2 ^ (-k).toNat : Int) : ℚ) * (2 : ℚ) ^ k := by
        push_cast
        rw [sub_mul, mul_assoc, mul_comm ((2 : ℚ) ^ (-k).toNat), hinv, mul_one, hq]
      refine ⟨z - t * 2 ^ (-k).toNat, k, e, ?_, hk⟩
      -- |w| * 2^k < 1 <= |z| * 2^k
      have h1 : |((z - t * 2 ^ (-k).toNat : Int) : ℚ)| * (2 : ℚ) ^ k < 1 := by
        rw [e, abs_mul, abs_of_pos hpk] at hfrac
        exact hfrac
      have h3 : 1 ≤ |(z : ℚ)| * (2 : ℚ) ^ k := by
        rw [hq, abs_mul, abs_of_pos hpk] at hd
        exact hd
      have h4 : |((z - t * 2 ^ (-k).toNat : Int) : ℚ)| < |(z : ℚ)| := by
        by_contra hc
        have := mul_le_mul_of_nonneg_right (le_of_not_lt hc) (le_of_lt hpk)
        linarith
      have h5 : |z - t * 2 ^ (-k).toNat| < |z| := by exact_mod_cast h4
      omega

/-- A million times a `float` is a `double`. -/
theorem representable_million (f : ℚ) (h : representable 24 (-126) f) :
    representable 53 (-1022) (1000000 * f) := by
  obtain ⟨z, k, hq, hz, hk⟩ := h
  refine ⟨15625 * z, k + 6, ?_, ?_, by omega⟩
  · rw [hq, zpow_add₀ (by norm_num : (2 : ℚ) ≠ 0)]
    push_cast
    norm_num
    ring
  · rw [abs_mul]
    have : |(15625 : Int)| = 15625 := by decide
    rw [this]
    norm_num at hz ⊢
    omega


/-! ## Lemmas: the volume in floating point -/

theorem c_int_of_nonneg (q : ℚ) (h : 0 ≤ q) : c_int q = ⌊q⌋ := by
  unfold c_int
  rw [Int.tdiv_eq_ediv (Rat.num_nonneg.mpr h) (Int.ofNat_nonneg _), Rat.floor_def]

theorem c_int_neg (q : ℚ) : c_int (-q) = -c_int q := by
  unfold c_int
  simp [Int.neg_tdiv]

theorem c_int_of_nonpos (q : ℚ) (h : q ≤ 0) : c_int q = -⌊-q⌋ := by
  have e := c_int_neg (-q)
  rw [neg_neg] at e
  rw [e, c_int_of_nonneg (-q) (by linarith)]

theorem toString_int_of_nonneg (n : Int) (h : 0 ≤ n) :
    (toString n : String) = toString n.toNat := by
  obtain ⟨m, rfl⟩ := Int.eq_ofNat_of_zero_le h
  rfl

theorem printf_06d_of_nonneg (n : Int) (h : 0 ≤ n) :
    printf_06d n
      = String.mk (List.replicate (6 - (toString n.toNat).length) '0') ++ toString n.toNat := by
  obtain ⟨m, rfl⟩ := Int.eq_ofNat_of_zero_le h
  simp [printf_06d]

theorem c_float_intCast (n : Int) (h : |(n : ℚ)| < (2 : ℚ) ^ 24) : c_float (n : ℚ) = n :=
  fl_intCast 24 (-126) n (by decide) h

theorem c_double_intCast (n : Int) (h : |(n : ℚ)| < (2 : ℚ) ^ 53) : c_double (n : ℚ) = n :=
  fl_intCast 53 (-1022) n (by decide) h

/-- Rounding to `double` keeps a value between two integers between them. -/
theorem c_double_between (q : ℚ) (a b : Int) (ha : (a : ℚ) ≤ q) (hb : q ≤ b)
    (ha2 : -(2 : ℚ) ^ 53 < a) (hb2 : (b : ℚ) < (2 : ℚ) ^ 53) :
    (a : ℚ) ≤ c_double q ∧ c_double q ≤ b := by
  have h : |q| < (2 : ℚ) ^ 53 := by
    rw [abs_lt]
    constructor <;> linarith
  exact ⟨intCast_le_fl 53 (-1022) q a (by decide) ha h,
    fl_le_intCast 53 (-1022) q b (by decide) hb h⟩

/-- Rounding to `float` keeps a value between two integers between them. -/
theorem c_float_between (q : ℚ) (a b : Int) (ha : (a : ℚ) ≤ q) (hb : q ≤ b)
    (ha2 : -(2 : ℚ) ^ 24 < a) (hb2 : (b : ℚ) < (2 : ℚ) ^ 24) :
    (a : ℚ) ≤ c_float q ∧ c_float q ≤ b := by
  have h : |q| < (2 : ℚ) ^ 24 := by
    rw [abs_lt]
    constructor <;> linarith
  exact ⟨intCast_le_fl 24 (-126) q a (by decide) ha h,
    fl_le_intCast 24 (-126) q b (by decide) hb h⟩

theorem volume_float (m v : Int) (hm1 : 1 ≤ m) (hm2 : m ≤ 11) (hv1 : 0 < v) (hv2 : v ≤ 100) :
    c_float (c_double (-30 +
      c_double (c_double (c_float (c_float (m : ℚ) * c_float (v : ℚ)) * 30)
        / c_double (100 * c_double ((11 : Nat) : ℚ)))))
      = c_float (c_double (-30 + c_double (((m * v * 30 : Int) : ℚ) / 1100))) := by
  have hmq0 : (1 : ℚ) ≤ m := by exact_mod_cast hm1
  have hmq1 : (m : ℚ) ≤ 11 := by exact_mod_cast hm2
  have hvq0 : (0 : ℚ) < v := by exact_mod_cast hv1
  have hvq1 : (v : ℚ) ≤ 100 := by exact_mod_cast hv2
  have hmv0 : (0 : ℚ) ≤ (m : ℚ) * v := by positivity
  have hmv1 : (m : ℚ) * v ≤ 1100 := by nlinarith
  have e1 : c_float (m : ℚ) = m := c_float_intCast m (by
    rw [abs_lt]; constructor <;> norm_num <;> linarith)
  have e2 : c_float (v : ℚ) = v := c_float_intCast v (by
    rw [abs_lt]; constructor <;> norm_num <;> linarith)
  have e3 : c_float ((m : ℚ) * (v : ℚ)) = (m : ℚ) * v := by
    have := c_float_intCast (m * v) (by
      push_cast; rw [abs_lt]; constructor <;> norm_num <;> linarith)
    push_cast at this
    exact this
  have e4 : c_double ((m : ℚ) * v * 30) = (m : ℚ) * v * 30 := by
    have := c_double_intCast (m * v * 30) (by
      push_cast; rw [abs_lt]; constructor <;> norm_num <;> linarith)
    push_cast at this
    exact this
  have e5 : c_double ((11 : Nat) : ℚ) = 11 := by decide!
  have e6 : c_double (100 * (11 : ℚ)) = 1100 := by decide!
  rw [e1, e2, e3, e4, e5, e6]
  push_cast
  rfl

/-- `airplay_volume_from_pct` for a percentage in 1..100, with the products of
integers done: the quotient and the sum are rounded to `double`, the result to
`float`. -/
theorem airplay_volume_from_pct_eq (volume : Int) (cfg : Option Int)
    (hv : 0 < volume ∧ volume ≤ 100) :
    ∃ m : Int, 1 ≤ m ∧ m ≤ 11 ∧
      m = (match cfg with
            | some m => if 1 ≤ m ∧ m ≤ 11 then m else 11
            | none => 11) ∧
      airplay_volume_from_pct volume cfg
        = c_float (c_double (-30 + c_double (((m * volume * 30 : Int) : ℚ) / 1100))) := by
  cases cfg with
  | none =>
    refine ⟨11, by decide, by decide, rfl, ?_⟩
    rw [← volume_float 11 volume (by decide) (by decide) hv.1 hv.2]
    simp [airplay_volume_from_pct, RAOP_CONFIG_MAX_VOLUME, hv]
  | some v =>
    by_cases h : 1 ≤ v ∧ v ≤ 11
    · refine ⟨v, h.1, h.2, by simp [h], ?_⟩
      rw [← volume_float v volume h.1 h.2 hv.1 hv.2]
      have h2 : ¬ (v < 1 ∨ v > 11) := by omega
      simp [airplay_volume_from_pct, RAOP_CONFIG_MAX_VOLUME, hv, h2]
    · refine ⟨11, by decide, by decide, by simp [h], ?_⟩
      rw [← volume_float 11 volume (by decide) (by decide) hv.1 hv.2]
      have h2 : v < 1 ∨ v > 11 := by omega
      simp [airplay_volume_from_pct, RAOP_CONFIG_MAX_VOLUME, hv, h2]


theorem c_double_error (q : ℚ) : |c_double q - q| ≤ |q| / 2 ^ 53 + 1 / 2 ^ 60 := by
  have h := fl_error_any 53 (-1022) q
  have t : (2 : ℚ) ^ (-1022 : Int) / 2 ^ 53 ≤ 1 / 2 ^ 60 := by
    have h1 : (2 : ℚ) ^ (-1022 : Int) ≤ (2 : ℚ) ^ (-7 : Int) :=
      zpow_le_zpow_right₀ (by norm_num) (by decide)
    have h2 : (2 : ℚ) ^ (-7 : Int) = 1 / 128 := by norm_num [zpow_neg]
    rw [h2] at h1
    calc (2 : ℚ) ^ (-1022 : Int) / 2 ^ 53 ≤ (1 / 128) / 2 ^ 53 :=
          div_le_div_of_nonneg_right h1 (by positivity)
      _ = 1 / 2 ^ 60 := by norm_num
  exact le_trans h (by linarith)

theorem c_float_error (q : ℚ) : |c_float q - q| ≤ |q| / 2 ^ 24 + 1 / 2 ^ 60 := by
  have h := fl_error_any 24 (-126) q
  have t : (2 : ℚ) ^ (-126 : Int) / 2 ^ 24 ≤ 1 / 2 ^ 60 := by
    have h1 : (2 : ℚ) ^ (-126 : Int) ≤ (2 : ℚ) ^ (-36 : Int) :=
      zpow_le_zpow_right₀ (by norm_num) (by decide)
    have h2 : (2 : ℚ) ^ (-36 : Int) = 1 / 2 ^ 36 := by norm_num [zpow_neg]
    rw [h2] at h1
    calc (2 : ℚ) ^ (-126 : Int) / 2 ^ 24 ≤ (1 / 2 ^ 36) / 2 ^ 24 :=
          div_le_div_of_nonneg_right h1 (by positivity)
      _ = 1 / 2 ^ 60 := by norm_num
  exact le_trans h (by linarith)

/-- The value of `airplay_volume_from_pct` for a percentage in 1..100 and a
`max_volume` in 1..11: between -30 and 0, and within `2^-19` of the exact
value. -/
theorem volume_float_near (m v : Int) (hm1 : 1 ≤ m) (hm2 : m ≤ 11) (hv1 : 0 < v)
    (hv2 : v ≤ 100) :
    -30 ≤ c_float (c_double (-30 + c_double (((m * v * 30 : Int) : ℚ) / 1100))) ∧
    c_float (c_double (-30 + c_double (((m * v * 30 : Int) : ℚ) / 1100))) ≤ 0 ∧
    |c_float (c_double (-30 + c_double (((m * v * 30 : Int) : ℚ) / 1100)))
      - (-30 + ((m : ℚ) * (v : ℚ) * 30) / (100 * 11))| ≤ 1 / 2 ^ 19 := by
  have hmq0 : (1 : ℚ) ≤ m := by exact_mod_cast hm1
  have hmq1 : (m : ℚ) ≤ 11 := by exact_mod_cast hm2
  have hvq0 : (0 : ℚ) < v := by exact_mod_cast hv1
  have hvq1 : (v : ℚ) ≤ 100 := by exact_mod_cast hv2
  have hmv0 : (0 : ℚ) ≤ (m : ℚ) * v := by positivity
  have hmv1 : (m : ℚ) * v ≤ 1100 := by nlinarith
  have ex : ((m * v * 30 : Int) : ℚ) / 1100 = (m : ℚ) * v * 30 / (100 * 11) := by
    push_cast
    norm_num
  rw [ex]
  have hx0 : (0 : ℚ) ≤ (m : ℚ) * v * 30 / (100 * 11) := by positivity
  have hx1 : (m : ℚ) * v * 30 / (100 * 11) ≤ 30 := by
    rw [div_le_iff₀ (by norm_num)]
    linarith
  generalize (m : ℚ) * v * 30 / (100 * 11) = x1 at hx0 hx1 ⊢
  -- the quotient
  obtain ⟨q0, q1⟩ := c_double_between x1 0 30 (by simpa using hx0) (by simpa using hx1)
    (by norm_num) (by norm_num)
  have qe := c_double_error x1
  rw [abs_of_nonneg hx0] at qe
  generalize c_double x1 = q at q0 q1 qe ⊢
  simp only [Int.cast_zero, Int.cast_ofNat] at q0 q1
  -- the sum
  obtain ⟨s0, s1⟩ := c_double_between (-30 + q) (-30) 0 (by push_cast; linarith)
    (by push_cast; linarith) (by norm_num) (by norm_num)
  have se := c_double_error (-30 + q)
  have sabs : |(-30 : ℚ) + q| ≤ 30 := by rw [abs_le]; constructor <;> linarith
  generalize c_double (-30 + q) = s at s0 s1 se ⊢
  simp only [Int.cast_zero, Int.cast_neg, Int.cast_ofNat] at s0 s1
  -- the float
  obtain ⟨d0, d1⟩ := c_float_between s (-30) 0 (by push_cast; linarith)
    (by push_cast; linarith) (by norm_num) (by norm_num)
  have de := c_float_error s
  have dabs : |s| ≤ 30 := by rw [abs_le]; constructor <;> linarith
  generalize c_float s = d at d0 d1 de ⊢
  simp only [Int.cast_zero, Int.cast_neg, Int.cast_ofNat] at d0 d1
  refine ⟨d0, d1, ?_⟩
  rw [abs_le] at qe se de ⊢
  have b1 : x1 / 2 ^ 53 ≤ 30 / 2 ^ 53 := div_le_div_of_nonneg_right hx1 (by positivity)
  have b2 : |(-30 : ℚ) + q| / 2 ^ 53 ≤ 30 / 2 ^ 53 :=
    div_le_div_of_nonneg_right sabs (by positivity)
  have b3 : |s| / 2 ^ 24 ≤ 30 / 2 ^ 24 := div_le_div_of_nonneg_right dabs (by positivity)
  have num : (30 : ℚ) / 2 ^ 24 + 30 / 2 ^ 53 + 30 / 2 ^ 53 + 3 / 2 ^ 60 ≤ 1 / 2 ^ 19 := by
    norm_num
  constructor <;> linarith [qe.1, qe.2, se.1, se.2, de.1, de.2]


/-- The value of `airplay_volume_from_pct`: a `float` between -144 and 0. -/
theorem airplay_volume_from_pct_range (volume : Int) (cfg : Option Int) :
    -144 ≤ airplay_volume_from_pct volume cfg ∧ airplay_volume_from_pct volume cfg ≤ 0 ∧
    representable 24 (-126) (airplay_volume_from_pct volume cfg) := by
  by_cases hv : 0 < volume ∧ volume ≤ 100
  · obtain ⟨m, h1, h2, -, e⟩ := airplay_volume_from_pct_eq volume cfg hv
    obtain ⟨n0, n1, -⟩ := volume_float_near m volume h1 h2 hv.1 hv.2
    rw [e]
    exact ⟨by linarith, n1, fl_representable 24 (-126) _ (by decide)⟩
  · have e : airplay_volume_from_pct volume cfg = c_float (-144) := by
      simp [airplay_volume_from_pct, hv]
    rw [e]
    refine ⟨?_, ?_, fl_representable 24 (-126) _ (by decide)⟩
    · have : c_float (-144) = -144 := by decide!
      rw [this]
    · have : c_float (-144) = -144 := by decide!
      rw [this]
      norm_num

/-- The two roundings in `payload_make_set_volume` change nothing: the fractional
part of a `float` is a `float`, and a million times it is a `double`. -/
theorem payload_make_set_volume_exact (d : ℚ) (h0 : d ≤ 0) (h1 : -144 ≤ d)
    (hr : representable 24 (-126) d) :
    c_double (1000000 * c_float (d - c_float (c_int d : ℚ)))
      = 1000000 * (d - (c_int d : ℚ)) := by
  have hc := c_int_of_nonpos d h0
  have hf0 : (0 : Int) ≤ ⌊-d⌋ := Int.floor_nonneg.mpr (by linarith)
  have hf1 : ((⌊-d⌋ : Int) : ℚ) ≤ -d := Int.floor_le _
  have hf2 : -d < ((⌊-d⌋ : Int) : ℚ) + 1 := Int.lt_floor_add_one _
  have hfq : (0 : ℚ) ≤ ((⌊-d⌋ : Int) : ℚ) := by exact_mod_cast hf0
  have ht : c_float (c_int d : ℚ) = (c_int d : ℚ) := by
    apply c_float_intCast
    rw [hc, abs_lt]
    push_cast
    constructor <;> norm_num <;> linarith
  have hsub : representable 24 (-126) (d - (c_int d : ℚ)) := by
    apply representable_sub_intCast 24 (-126) d (c_int d) hr
    · rw [hc, abs_lt]
      push_cast
      constructor <;> linarith
    · intro hne
      rw [hc] at hne
      have : (1 : Int) ≤ ⌊-d⌋ := by omega
      have : (1 : ℚ) ≤ ((⌊-d⌋ : Int) : ℚ) := by exact_mod_cast this
      rw [abs_of_nonpos h0]
      linarith
  rw [ht]
  have e1 : c_float (d - (c_int d : ℚ)) = d - (c_int d : ℚ) :=
    fl_of_representable 24 (-126) _ hsub
  rw [e1]
  exact fl_of_representable 53 (-1022) _ (representable_million _ hsub)


/-! ## Volume (C19, C20) -/

/-- C19, as the code behaves: for 100 percent and `max_volume` 11 (configured, or
the default of a device without section) `airplay_volume_from_pct` gives 0 dB,
`payload_make_set_volume` writes it as `-0.000000`, and `airplay_volume_to_pct`
refuses this text with -1: `atof` gives zero and the text does not start with
the digit 0. For 50 percent the text is `-15.000000` and comes back as 50. -/
theorem full_volume_text_is_refused :
    airplay_volume_from_pct 100 (some 11) = 0 ∧
    payload_make_set_volume 100 (some 11) = "volume: -0.000000\r\n" ∧
    payload_make_set_volume_value (airplay_volume_from_pct 100 (some 11)) = "-0.000000" ∧
    airplay_volume_to_pct (some 11)
      (payload_make_set_volume_value (airplay_volume_from_pct 100 (some 11))) = -1 ∧
    airplay_volume_to_pct none
      (payload_make_set_volume_value (airplay_volume_from_pct 100 none)) = -1 ∧
    payload_make_set_volume_value (airplay_volume_from_pct 50 (some 11)) = "-15.000000" ∧
    airplay_volume_to_pct (some 11)
      (payload_make_set_volume_value (airplay_volume_from_pct 50 (some 11))) = 50 := by
  refine ⟨?_, ?_, ?_, ?_, ?_, ?_, ?_⟩ <;> decide!

/-- C20 does not hold as stated: the result is a `float`, and the value of the
formula is rounded to it. For 99 percent at `max_volume` 11 the formula gives
-3/10, which no `float` equals; the function returns -5033165/2^24, the `float`
next to it. For 2 percent the formula gives -147/5 and the function returns
-15414067/2^19. -/
theorem airplay_volume_from_pct_is_rounded :
    -30 + ((11 : ℚ) * 99 * 30) / (100 * 11) = -3 / 10 ∧
    airplay_volume_from_pct 99 (some 11) = -5033165 / 2 ^ 24 ∧
    airplay_volume_from_pct 99 (some 11) ≠ -30 + ((11 : ℚ) * 99 * 30) / (100 * 11) ∧
    -30 + ((11 : ℚ) * 2 * 30) / (100 * 11) = -147 / 5 ∧
    airplay_volume_from_pct 2 (some 11) = -15414067 / 2 ^ 19 ∧
    airplay_volume_from_pct 2 none ≠ -30 + ((11 : ℚ) * 2 * 30) / (100 * 11) := by
  refine ⟨?_, ?_, ?_, ?_, ?_, ?_⟩ <;> decide!

/-- C20, amended: `airplay_volume_from_pct` returns -144 when the percentage is 0
or outside 1..100. Otherwise it returns a `float` (a 24-bit significand times a
power of two) between -30 and 0 that is within 2^-19 of
`-30 + m * pct * 30 / (100 * 11)`, where `m` is the configured `max_volume` if it
is in 1..11 and 11 if it is not or the device has no section in the
configuration. -/
theorem airplay_volume_from_pct_rounded_formula (pct : Int) (cfg : Option Int) :
    representable 24 (-126) (airplay_volume_from_pct pct cfg) ∧
    if 1 ≤ pct ∧ pct ≤ 100 then
      -30 ≤ airplay_volume_from_pct pct cfg ∧ airplay_volume_from_pct pct cfg ≤ 0 ∧
      |airplay_volume_from_pct pct cfg
        - ((-30 : ℚ) + (((match cfg with
                    | some m => if 1 ≤ m ∧ m ≤ 11 then m else 11
                    | none => 11 : Int) : ℚ) * (pct : ℚ) * 30) / (100 * 11))| ≤ 1 / 2 ^ 19
    else airplay_volume_from_pct pct cfg = -144 := by
  refine ⟨(airplay_volume_from_pct_range pct cfg).2.2, ?_⟩
  split
  · rename_i hp
    obtain ⟨m, h1, h2, hm, e⟩ := airplay_volume_from_pct_eq pct cfg ⟨by omega, hp.2⟩
    have h := volume_float_near m pct h1 h2 (by omega) hp.2
    rw [e, ← hm]
    exact h
  · rename_i hp
    have hv : ¬ (pct > 0 ∧ pct ≤ 100) := by omega
    have e : airplay_volume_from_pct pct cfg = c_float (-144) := by
      simp [airplay_volume_from_pct, hv]
    rw [e]
    decide!


/-! ## The volume body (C21) and the range of `airplay_volume_to_pct` (C28) -/

/-- C21: for every session volume and configuration, with `d` the `float` that
`airplay_volume_from_pct` returns (never positive), the body
`payload_make_set_volume` writes is `volume: -I.FFFFFF` followed by CR LF, where
`I` is the integer part of `|d|` in decimal and `FFFFFF` the first six decimals
of `|d|` (the integer part of a million times its fractional part, below a
million), padded with zeros on the left to six digits. For 99 percent at
`max_volume` 11, about -0.3 dB, the body is `volume: -0.300000`; for 2 percent,
a `float` just above -29.4, it is `volume: -29.399999`. -/
theorem payload_make_set_volume_text (volume : Int) (cfg : Option Int) :
    airplay_volume_from_pct volume cfg ≤ 0 ∧
    payload_make_set_volume volume cfg
      = "volume: -" ++ toString ⌊-airplay_volume_from_pct volume cfg⌋.toNat ++ "."
        ++ String.mk (List.replicate
            (6 - (toString ⌊1000000 * Int.fract (-airplay_volume_from_pct volume cfg)⌋.toNat).length)
            '0')
        ++ toString ⌊1000000 * Int.fract (-airplay_volume_from_pct volume cfg)⌋.toNat
        ++ "\r\n" ∧
    ⌊1000000 * Int.fract (-airplay_volume_from_pct volume cfg)⌋.toNat < 1000000 ∧
    payload_make_set_volume 99 (some 11) = "volume: -0.300000\r\n" ∧
    payload_make_set_volume 2 (some 11) = "volume: -29.399999\r\n" := by
  obtain ⟨hlo, hd, hr⟩ := airplay_volume_from_pct_range volume cfg
  refine ⟨hd, ?_, ?_, by decide!, by decide!⟩
  · simp only [payload_make_set_volume, payload_make_set_volume_value]
    generalize airplay_volume_from_pct volume cfg = d at hd hlo hr
    rw [payload_make_set_volume_exact d hd hlo hr]
    have hf0 : 0 ≤ Int.fract (-d) := Int.fract_nonneg _
    have h1 : -(c_int d) = ⌊-d⌋ := by rw [c_int_of_nonpos d hd, neg_neg]
    have h2 : -(c_int (1000000 * (d - (c_int d : ℚ)))) = ⌊1000000 * Int.fract (-d)⌋ := by
      have e : 1000000 * (d - (c_int d : ℚ)) = -(1000000 * Int.fract (-d)) := by
        rw [c_int_of_nonpos d hd, Int.fract]
        push_cast
        ring
      rw [e, c_int_neg, neg_neg, c_int_of_nonneg _ (by positivity)]
    have h3 : (0 : Int) ≤ ⌊-d⌋ := Int.floor_nonneg.mpr (by linarith)
    have h4 : (0 : Int) ≤ ⌊1000000 * Int.fract (-d)⌋ := Int.floor_nonneg.mpr (by positivity)
    have hs : "volume: -" = "volume: " ++ "-" := by decide
    rw [h1, h2, toString_int_of_nonneg _ h3, printf_06d_of_nonneg _ h4, hs]
    simp only [String.append_assoc]
  · generalize airplay_volume_from_pct volume cfg = d
    have hf1 : Int.fract (-d) < 1 := Int.fract_lt_one _
    have hf0 : 0 ≤ Int.fract (-d) := Int.fract_nonneg _
    have h : ⌊1000000 * Int.fract (-d)⌋ < 1000000 := by
      rw [Int.floor_lt]
      push_cast
      linarith
    omega

/-- C28, as the code behaves: the result of `airplay_volume_to_pct` is not kept
within 0..100. With `max_volume` 1 the text `-15.000000` gives 550 and the text
`0` gives 1100 (the value is divided by `max_volume / 11` and not clamped); with
`max_volume` 11 the text `-0.000000` gives -1. Only for `max_volume` 11 (here:
no section in the configuration) is the result at most 100, and it is never
below -1. -/
theorem volume_percent_is_not_clamped :
    airplay_volume_to_pct (some 1) "-15.000000" = 550 ∧
    airplay_volume_to_pct (some 1) "0" = 1100 ∧
    airplay_volume_to_pct (some 5) "-3.5" = 194 ∧
    airplay_volume_to_pct (some 11) "-0.000000" = -1 ∧
    ∀ volume : String, -1 ≤ airplay_volume_to_pct none volume ∧
      airplay_volume_to_pct none volume ≤ 100 := by
  refine ⟨by decide!, by decide!, by decide!, by decide!, fun volume => ?_⟩
  simp only [airplay_volume_to_pct, RAOP_CONFIG_MAX_VOLUME]
  generalize (atof volume).to_float = r
  cases r with
  | inf negative => simp
  | nan => simp
  | num v =>
    simp only
    split
    · decide
    · split
      · rename_i hv
        have e11 : c_float (((if ((11 : Nat) : Int) < 1 ∨ ((11 : Nat) : Int) > ((11 : Nat) : Int)
            then ((11 : Nat) : Int) else ((11 : Nat) : Int)) : Int) : ℚ) = 11 := by decide!
        have e11d : c_double ((11 : Nat) : ℚ) = 11 := by decide!
        rw [e11, e11d]
        have a1 := c_double_between (v / 30) (-1) 0 (by push_cast; linarith [hv.1])
          (by push_cast; linarith [hv.2]) (by norm_num) (by norm_num)
        push_cast at a1
        have a2 := c_double_between (c_double (v / 30) + 1) 0 1 (by push_cast; linarith [a1.1])
          (by push_cast; linarith [a1.2]) (by norm_num) (by norm_num)
        push_cast at a2
        have a3 := c_double_between (100 * c_double (c_double (v / 30) + 1)) 0 100
          (by push_cast; linarith [a2.1]) (by push_cast; linarith [a2.2]) (by norm_num)
          (by norm_num)
        push_cast at a3
        have a4 := c_double_between (c_double (100 * c_double (c_double (v / 30) + 1)) * 11) 0 1100
          (by push_cast; linarith [a3.1]) (by push_cast; linarith [a3.2]) (by norm_num)
          (by norm_num)
        push_cast at a4
        have a5 := c_double_between
          (c_double (c_double (100 * c_double (c_double (v / 30) + 1)) * 11) / 11) 0 100
          (by push_cast; linarith [a4.1]) (by push_cast; linarith [a4.2]) (by norm_num)
          (by norm_num)
        push_cast at a5
        generalize c_double
          (c_double (c_double (100 * c_double (c_double (v / 30) + 1)) * 11) / 11) = w at a5
        have h2 : c_int w = ⌊w⌋ := c_int_of_nonneg _ a5.1
        have h3 : (0 : Int) ≤ ⌊w⌋ := Int.floor_nonneg.mpr a5.1
        have h4 : ⌊w⌋ ≤ 100 := by
          have := Int.floor_le w
          have h5 : ((⌊w⌋ : Int) : ℚ) ≤ ((100 : Int) : ℚ) := by
            push_cast; linarith [a5.2]
          exact_mod_cast h5
        rw [h2]
        omega
      · decide


/-! ## NTP stamps (C22) -/

/-- The `double` constants of the two conversions: `1e-9` and `1e-9 * FRAC`. -/
theorem ntp_constants :
    c_double (1 / 1000000000) = 4835703278458517 / 2 ^ 82 ∧
    c_double (c_double (1 / 1000000000) * FRAC) = 4835703278458517 / 2 ^ 50 := by
  refine ⟨?_, ?_⟩ <;> decide!

/-- The fraction of the NTP stamp of `n` nanoseconds, before the truncation to
an integer: a `double` within 10^-6 of `n * 2^32 / 10^9 `. -/
theorem timespec_to_ntp_frac (n : Int) (hn0 : 0 ≤ n) (hn1 : n < 1000000000) :
    0 ≤ c_double (c_double (c_double (n : ℚ) * c_double (1 / 1000000000)) * FRAC) ∧
    c_double (c_double (c_double (n : ℚ) * c_double (1 / 1000000000)) * FRAC) < 4294967296 ∧
    |c_double (c_double (c_double (n : ℚ) * c_double (1 / 1000000000)) * FRAC)
      - (n : ℚ) * (4835703278458517 / 2 ^ 50)| ≤ 1 / 1000000 := by
  have q0 : (0 : ℚ) ≤ n := by exact_mod_cast hn0
  have q1 : (n : ℚ) ≤ 999999999 := by exact_mod_cast (by omega : n ≤ 999999999)
  have hn : c_double (n : ℚ) = n := by
    apply c_double_intCast
    rw [abs_lt]
    constructor <;> norm_num <;> linarith
  rw [hn, ntp_constants.1]
  unfold FRAC
  have e1 := c_double_error ((n : ℚ) * (4835703278458517 / 2 ^ 82))
  have p1 : (0 : ℚ) ≤ (n : ℚ) * (4835703278458517 / 2 ^ 82) := by positivity
  rw [abs_of_nonneg p1, abs_le] at e1
  have b1 := c_double_between ((n : ℚ) * (4835703278458517 / 2 ^ 82)) 0 1
    (by push_cast; linarith) (by push_cast; norm_num; linarith) (by norm_num) (by norm_num)
  push_cast at b1
  generalize c_double ((n : ℚ) * (4835703278458517 / 2 ^ 82)) = a at e1 b1
  have e2 := c_double_error (a * 4294967296)
  have p2 : (0 : ℚ) ≤ a * 4294967296 := by linarith [b1.1]
  rw [abs_of_nonneg p2, abs_le] at e2
  have b2 := c_double_between (a * 4294967296) 0 4294967296
    (by push_cast; linarith) (by push_cast; linarith [b1.2]) (by norm_num) (by norm_num)
  push_cast at b2
  generalize c_double (a * 4294967296) = b at e2 b2
  norm_num at e1 e2
  refine ⟨b2.1, ?_, ?_⟩
  · linarith [e1.1, e1.2, e2.1, e2.2]
  · rw [abs_le]
    norm_num
    constructor <;> linarith [e1.1, e1.2, e2.1, e2.2]


/-- C22 does not hold as stated: the seconds go through an unsigned 32-bit field
with the NTP epoch added, so a `tv_sec` outside 0..2^32-1 does not come back:
-1 comes back as 4294967295 and 2^32 (the year 2106) as 0. -/
theorem ntp_round_trip_wraps_seconds :
    (ntp_to_timespec (timespec_to_ntp { tv_sec := -1, tv_nsec := 0 })).tv_sec = 4294967295 ∧
    (ntp_to_timespec (timespec_to_ntp { tv_sec := 4294967296, tv_nsec := 0 })).tv_sec = 0 := by
  refine ⟨?_, ?_⟩ <;> decide!

/-- C22, amended: for `tv_sec` in 0..2^32-1 and `tv_nsec` in 0..10^9-1 the round
trip through the NTP stamp gives back `tv_sec`, and `tv_nsec` or `tv_nsec - 1`. -/
theorem ntp_round_trip (t : timespec) (hs0 : 0 ≤ t.tv_sec) (hs1 : t.tv_sec < 2 ^ 32)
    (hn0 : 0 ≤ t.tv_nsec) (hn1 : t.tv_nsec < 1000000000) :
    (ntp_to_timespec (timespec_to_ntp t)).tv_sec = t.tv_sec ∧
    t.tv_nsec - 1 ≤ (ntp_to_timespec (timespec_to_ntp t)).tv_nsec ∧
    (ntp_to_timespec (timespec_to_ntp t)).tv_nsec ≤ t.tv_nsec := by
  obtain ⟨s, n⟩ := t
  simp only at hs0 hs1 hn0 hn1
  have q0 : (0 : ℚ) ≤ n := by exact_mod_cast hn0
  have q1 : (n : ℚ) ≤ 999999999 := by exact_mod_cast (by omega : n ≤ 999999999)
  obtain ⟨hb0, hb1, hb⟩ := timespec_to_ntp_frac n hn0 hn1
  rw [abs_le] at hb
  have hF := c_int_of_nonneg _ hb0
  have hF0 : (0 : Int) ≤ ⌊c_double (c_double (c_double (n : ℚ) * c_double (1 / 1000000000))
      * FRAC)⌋ := Int.floor_nonneg.mpr hb0
  have hF1 : ⌊c_double (c_double (c_double (n : ℚ) * c_double (1 / 1000000000)) * FRAC)⌋
      < 4294967296 := by
    rw [Int.floor_lt]
    exact_mod_cast hb1
  have hle := Int.floor_le (c_double (c_double (c_double (n : ℚ) * c_double (1 / 1000000000))
      * FRAC))
  have hlt := Int.lt_floor_add_one (c_double (c_double (c_double (n : ℚ)
      * c_double (1 / 1000000000)) * FRAC))
  have hfrac : (timespec_to_ntp { tv_sec := s, tv_nsec := n }).frac
      = ⌊c_double (c_double (c_double (n : ℚ) * c_double (1 / 1000000000)) * FRAC)⌋.toNat := by
    simp only [timespec_to_ntp, hF]
    congr 1
    omega
  generalize c_double (c_double (c_double (n : ℚ) * c_double (1 / 1000000000)) * FRAC) = b
    at hb hF hF0 hF1 hle hlt hfrac
  generalize ⌊b⌋ = F at hF hF0 hF1 hle hlt hfrac
  have hcast : ((F.toNat : Nat) : ℚ) = (F : ℚ) := by
    have : ((F.toNat : Nat) : Int) = F := Int.toNat_of_nonneg hF0
    exact_mod_cast this
  have f0 : (0 : ℚ) ≤ F := by exact_mod_cast hF0
  have f1 : (F : ℚ) ≤ 4294967295 := by exact_mod_cast (by omega : F ≤ 4294967295)
  have hcF : c_double (F : ℚ) = F := by
    apply c_double_intCast
    rw [abs_lt]
    constructor <;> norm_num <;> linarith
  have hx : (F : ℚ) / (4835703278458517 / 2 ^ 50)
      = (F : ℚ) * (1125899906842624 / 4835703278458517) := by
    norm_num
    ring
  have e3 := c_double_error ((F : ℚ) * (1125899906842624 / 4835703278458517))
  have p3 : (0 : ℚ) ≤ (F : ℚ) * (1125899906842624 / 4835703278458517) := by positivity
  rw [abs_of_nonneg p3, abs_le] at e3
  have b3 := c_double_between ((F : ℚ) * (1125899906842624 / 4835703278458517)) 0 1000000000
    (by push_cast; linarith) (by push_cast; linarith) (by norm_num) (by norm_num)
  push_cast at b3
  have hr : (ntp_to_timespec (timespec_to_ntp { tv_sec := s, tv_nsec := n })).tv_nsec
      = ⌊c_double ((F : ℚ) * (1125899906842624 / 4835703278458517))⌋ := by
    simp only [ntp_to_timespec, hfrac, hcast, hcF, ntp_constants.2, hx]
    exact c_int_of_nonneg _ b3.1
  generalize c_double ((F : ℚ) * (1125899906842624 / 4835703278458517)) = r at e3 b3 hr
  norm_num at e3 hb
  refine ⟨?_, ?_, ?_⟩
  · simp only [ntp_to_timespec, timespec_to_ntp, NTP_EPOCH_DELTA]
    omega
  · rw [hr]
    show n - 1 ≤ ⌊r⌋
    rw [Int.le_floor]
    push_cast
    linarith [e3.1, hb.1]
  · rw [hr]
    show ⌊r⌋ ≤ n
    have : ⌊r⌋ < n + 1 := by
      rw [Int.floor_lt]
      push_cast
      linarith [e3.2, hb.2]
    omega

/-- Witness for `ntp_round_trip`: 10.000000001 s comes back as 10.000000000 s,
10.5 s as 10.499999999 s, and 10.75 s as itself. -/
theorem ntp_round_trip_witness :
    ntp_to_timespec (timespec_to_ntp { tv_sec := 10, tv_nsec := 1 })
      = { tv_sec := 10, tv_nsec := 0 } ∧
    ntp_to_timespec (timespec_to_ntp { tv_sec := 10, tv_nsec := 500000000 })
      = { tv_sec := 10, tv_nsec := 499999999 } ∧
    ntp_to_timespec (timespec_to_ntp { tv_sec := 10, tv_nsec := 750000000 })
      = { tv_sec := 10, tv_nsec := 750000000 } ∧
    (ntp_to_timespec (timespec_to_ntp { tv_sec := 10, tv_nsec := 1 })).tv_sec = 10 ∧
    (1 : Int) - 1 ≤ (ntp_to_timespec (timespec_to_ntp { tv_sec := 10, tv_nsec := 1 })).tv_nsec ∧
    (ntp_to_timespec (timespec_to_ntp { tv_sec := 10, tv_nsec := 1 })).tv_nsec ≤ 1 := by
  have h0 : (0 : Int) ≤ 10 := by decide
  have h1 : (10 : Int) < 2 ^ 32 := by norm_num
  have h2 : (0 : Int) ≤ 1 := by decide
  have h3 : (1 : Int) < 1000000000 := by norm_num
  exact ⟨by decide!, by decide!, by decide!,
    ntp_round_trip { tv_sec := 10, tv_nsec := 1 } h0 h1 h2 h3⟩


/-! ## The timing reply (C23) -/

theorem readBytes_ofList (l : List Nat) (s n : Nat) (h : s + n ≤ l.length) :
    readBytes (Mem.ofList l) s n = (l.drop s).take n := by
  apply List.ext_getElem
  · simp [readBytes]
    omega
  · intro i h1 h2
    simp only [readBytes, List.length_map, List.length_range] at h1
    have h3 : s + i < l.length := by omega
    simp [readBytes, Mem.ofList, List.getD_eq_getElem?_getD, List.getElem?_eq_getElem h3]

/-- What `recvfrom` leaves in `req[32]`: of a datagram of at least 32 bytes the
first 32, and the return value is 32; of a shorter one the return value is its
length. -/
theorem recvfrom_32 (bytes : List Nat) (stack : Mem) :
    (32 ≤ bytes.length →
      (recvfrom (some bytes) stack 32).1 = 32 ∧
      ∀ i, i < 32 → (recvfrom (some bytes) stack 32).2 i = Mem.ofList bytes i) ∧
    (bytes.length < 32 → (recvfrom (some bytes) stack 32).1 = bytes.length) := by
  constructor
  · intro h
    have hl : (bytes.take 32).length = 32 := by simp [List.length_take, h]
    refine ⟨by simp [recvfrom, h], ?_⟩
    intro i hi
    have hi2 : i < bytes.length := by omega
    simp [recvfrom, memcpy, Mem.ofList, hl, hi, List.getD_eq_getElem?_getD, List.getElem?_take,
      hi2]
  · intro h
    have : min 32 bytes.length = bytes.length := by omega
    simp [recvfrom, List.length_take, this]

/-- C23 does not hold as stated: a datagram of 40 bytes that starts with `80 d2`
is answered. `recvfrom` stores the first 32 bytes in `req[32]`, discards the
rest and returns 32, so the test of the length passes. -/
theorem long_timing_request_is_answered :
    (exampleTimingRequest ++ List.replicate 8 0xff).length = 40 ∧
    airplay_timing_cb (some { tv_sec := 10, tv_nsec := 0 })
        (some (exampleTimingRequest ++ List.replicate 8 0xff)) (fun _ => 0)
        (some { tv_sec := 10, tv_nsec := 500000000 })
      = some [0x80, 0xd3, 7, 0, 0, 0, 0, 0, 1, 2, 3, 4, 5, 6, 7, 8,
              0x83, 0xaa, 0x7e, 0x8a, 0, 0, 0, 0, 0x83, 0xaa, 0x7e, 0x8a, 0x80, 0, 0, 0] := by
  refine ⟨by decide, by decide!⟩

/-- C23, amended: `airplay_timing_cb` replies exactly when the receive time could
be read, `recvfrom` gives a datagram of at least 32 bytes, and the datagram
starts with `80 d2`. The reply is the 32 bytes `80 d3 req[2] 0 0 0 0 0`,
`req[24..31]`, the receive stamp and the transmit stamp, each as seconds and
fraction in network order, where `req` are the first 32 bytes of the datagram;
it does not depend on what `req[32]` held before. When the clock cannot be read
for the transmit stamp, the receive stamp stands in its place. -/
theorem airplay_timing_cb_reply (recv : timespec) (dgram : Option (List Nat)) (stack : Mem)
    (xmit_clock : Option timespec) :
    airplay_timing_cb (some recv) dgram stack xmit_clock
      = (match dgram with
         | none => none
         | some bytes =>
           if 32 ≤ bytes.length ∧ bytes.take 2 = [0x80, 0xd2] then
             some ([0x80, 0xd3, bytes.getD 2 0, 0, 0, 0, 0, 0] ++ (bytes.drop 24).take 8
               ++ be32 (timespec_to_ntp recv).sec ++ be32 (timespec_to_ntp recv).frac
               ++ be32 ((xmit_clock.map timespec_to_ntp).getD (timespec_to_ntp recv)).sec
               ++ be32 ((xmit_clock.map timespec_to_ntp).getD (timespec_to_ntp recv)).frac)
           else none) ∧
    (∀ reply, airplay_timing_cb (some recv) dgram stack xmit_clock = some reply →
      reply.length = 32) ∧
    airplay_timing_cb none dgram stack xmit_clock = none ∧
    airplay_timing_cb (some { tv_sec := 10, tv_nsec := 0 }) (some exampleTimingRequest)
        (fun _ => 0) (some { tv_sec := 10, tv_nsec := 500000000 })
      = some [0x80, 0xd3, 7, 0, 0, 0, 0, 0, 1, 2, 3, 4, 5, 6, 7, 8,
              0x83, 0xaa, 0x7e, 0x8a, 0, 0, 0, 0, 0x83, 0xaa, 0x7e, 0x8a, 0x80, 0, 0, 0] ∧
    airplay_timing_cb (some { tv_sec := 10, tv_nsec := 0 }) (some (exampleTimingRequest.take 31))
        (fun _ => 0) (some { tv_sec := 10, tv_nsec := 500000000 }) = none := by
  have main : airplay_timing_cb (some recv) dgram stack xmit_clock
      = (match dgram with
         | none => none
         | some bytes =>
           if 32 ≤ bytes.length ∧ bytes.take 2 = [0x80, 0xd2] then
             some ([0x80, 0xd3, bytes.getD 2 0, 0, 0, 0, 0, 0] ++ (bytes.drop 24).take 8
               ++ be32 (timespec_to_ntp recv).sec ++ be32 (timespec_to_ntp recv).frac
               ++ be32 ((xmit_clock.map timespec_to_ntp).getD (timespec_to_ntp recv)).sec
               ++ be32 ((xmit_clock.map timespec_to_ntp).getD (timespec_to_ntp recv)).frac)
           else none) := by
    cases dgram with
    | none => simp [airplay_timing_cb, airplay_timing_get_clock_ntp, recvfrom]
    | some bytes =>
      simp only
      by_cases hlen : 32 ≤ bytes.length
      · obtain ⟨hret, hreq⟩ := (recvfrom_32 bytes stack).1 hlen
        have h24 : readBytes (recvfrom (some bytes) stack 32).2 24 8 = (bytes.drop 24).take 8 := by
          rw [← readBytes_ofList bytes 24 8 (by omega)]
          apply readBytes_congr
          intro a _ h2
          exact hreq a (by omega)
        have hhead : bytes.take 2 = [0x80, 0xd2]
            ↔ (recvfrom (some bytes) stack 32).2 0 = 0x80
              ∧ (recvfrom (some bytes) stack 32).2 1 = 0xd2 := by
          rw [hreq 0 (by decide), hreq 1 (by decide)]
          match bytes, hlen with
          | b0 :: b1 :: rest, _ => simp [Mem.ofList]
        have h2 : (recvfrom (some bytes) stack 32).2 2 = bytes.getD 2 0 := hreq 2 (by decide)
        by_cases h : (recvfrom (some bytes) stack 32).2 0 = 0x80
            ∧ (recvfrom (some bytes) stack 32).2 1 = 0xd2
        · rw [if_pos ⟨hlen, hhead.mpr h⟩, ← h24, ← h2]
          obtain ⟨h0, h1⟩ := h
          simp only [airplay_timing_cb, airplay_timing_get_clock_ntp, Option.map_some', hret]
          generalize (recvfrom (some bytes) stack 32).2 = req at h0 h1
          generalize hr : timespec_to_ntp recv = r
          cases xmit_clock with
          | none =>
            simp [h0, h1, readBytes, memcpy, Mem.store, be32, List.range, List.range.loop]
          | some x =>
            generalize hx : timespec_to_ntp x = xs
            simp [h0, h1, readBytes, memcpy, Mem.store, be32, List.range, List.range.loop, hx]
        · have ht : ¬ (32 ≤ bytes.length ∧ bytes.take 2 = [0x80, 0xd2]) := by
            intro hc
            exact h (hhead.mp hc.2)
          rw [if_neg ht]
          have h4 : (recvfrom (some bytes) stack 32).2 0 ≠ 0x80
              ∨ (recvfrom (some bytes) stack 32).2 1 ≠ 0xd2 := by
            by_contra hc
            push_neg at hc
            exact h hc
          simp only [airplay_timing_cb, airplay_timing_get_clock_ntp, Option.map_some', hret]
          simp [h4]
      · have hret := (recvfrom_32 bytes stack).2 (by omega)
        have ht : ¬ (32 ≤ bytes.length ∧ bytes.take 2 = [0x80, 0xd2]) := fun hc => hlen hc.1
        rw [if_neg ht]
        simp only [airplay_timing_cb, airplay_timing_get_clock_ntp, Option.map_some', hret]
        have h1 : ¬ ((bytes.length : Int) < 0) := by omega
        have h2 : (bytes.length : Int) ≠ 32 := by omega
        simp [h1, h2]
  refine ⟨main, ?_, rfl, by decide!, by decide!⟩
  intro reply hr
  rw [main] at hr
  cases dgram with
  | none => cases hr
  | some bytes =>
    simp only at hr
    split at hr
    · rename_i h
      cases hr
      simp [be32, List.length_take, List.length_drop]
      omega
    · cases hr


/-! ## The sample count of the buffered audio (C26) -/

theorem packets_send_fields (rms : airplay_master_session) (sessions : List airplay_session)
    (sys : Sys) :
    (packets_send rms sessions sys).1.evbuf = rms.evbuf ∧
    (packets_send rms sessions sys).1.evbuf_samples = rms.evbuf_samples ∧
    (packets_send rms sessions sys).1.rawbuf_size = rms.rawbuf_size ∧
    (packets_send rms sessions sys).1.samples_per_packet = rms.samples_per_packet ∧
    (packets_send rms sessions sys).1.rtp_session.quality = rms.rtp_session.quality :=
  ⟨rfl, rfl, rfl, rfl, rfl⟩

theorem airplay_write_drain_buffered (q : media_quality) (fuel : Nat) :
    ∀ (rms : airplay_master_session) (sessions : List airplay_session) (sys : Sys),
    rms.rtp_session.quality = q → rms.buffered →
    (airplay_write_drain fuel rms sessions sys).1.rtp_session.quality = q ∧
    (airplay_write_drain fuel rms sessions sys).1.buffered ∧
    (rms.evbuf.length < fuel → 0 < rms.rawbuf_size →
      (airplay_write_drain fuel rms sessions sys).1.drained) := by
  induction fuel with
  | zero =>
    intro rms sessions sys hq hb
    exact ⟨hq, hb, fun h _ => absurd h (Nat.not_lt_zero _)⟩
  | succ fuel ih =>
    intro rms sessions sys hq hb
    simp only [airplay_write_drain]
    split
    · rename_i hge
      obtain ⟨f1, f2, f3, f4, f5⟩ := packets_send_fields
        { rms with rawbuf := rms.evbuf.take rms.rawbuf_size,
                   evbuf := rms.evbuf.drop rms.rawbuf_size,
                   evbuf_samples := rms.evbuf_samples - rms.samples_per_packet } sessions sys
      simp only at f1 f2 f3 f4 f5
      have hb2 : (packets_send
          { rms with rawbuf := rms.evbuf.take rms.rawbuf_size,
                     evbuf := rms.evbuf.drop rms.rawbuf_size,
                     evbuf_samples := rms.evbuf_samples - rms.samples_per_packet }
          sessions sys).1.buffered := by
        obtain ⟨b1, b2⟩ := hb
        refine ⟨?_, ?_⟩
        · rw [f1, f2, f5, List.length_drop, sub_mul, sub_mul, b1, b2]
          have : rms.rawbuf_size ≤ rms.evbuf.length := hge
          omega
        · rw [f3, f4, f5]
          exact b2
      obtain ⟨i1, i2, i3⟩ := ih _ (packets_send _ _ _).2.1 (packets_send _ _ _).2.2
        (f5.trans hq) hb2
      refine ⟨i1, i2, fun hl hr => i3 ?_ ?_⟩
      · rw [f1, List.length_drop]
        have : rms.rawbuf_size ≤ rms.evbuf.length := hge
        omega
      · rw [f3]; exact hr
    · rename_i hlt
      exact ⟨hq, hb, fun _ _ => Nat.lt_of_not_ge hlt⟩

theorem airplay_write_data_buffered (q : media_quality) (pts : timespec)
    (data : List output_data) :
    ∀ (rms : airplay_master_session) (sessions : List airplay_session) (sys : Sys),
    rms.rtp_session.quality = q → rms.buffered →
    (∀ d ∈ data, d.quality = q →
      d.samples * (q.bits_per_sample / 8) * q.channels = (d.buffer.length : Int)) →
    (airplay_write_data pts data rms sessions sys).1.rtp_session.quality = q ∧
    (airplay_write_data pts data rms sessions sys).1.buffered ∧
    (rms.drained → (airplay_write_data pts data rms sessions sys).1.drained) := by
  induction data with
  | nil => intro rms sessions sys hq hb _; exact ⟨hq, hb, fun h => h⟩
  | cons d rest ih =>
    intro rms sessions sys hq hb hd
    simp only [airplay_write_data]
    split
    · exact ih rms sessions sys hq hb (fun x hx => hd x (List.mem_cons_of_mem _ hx))
    · rename_i hdq
      have hdq2 : d.quality = q := (not_not.mp hdq).trans hq
      have hlen := hd d (List.mem_cons_self _ _) hdq2
      have hb3 : ({ timestamp_set rms pts with
            evbuf := (timestamp_set rms pts).evbuf ++ d.buffer,
            evbuf_samples := (timestamp_set rms pts).evbuf_samples + d.samples }
          : airplay_master_session).buffered := by
        obtain ⟨b1, b2⟩ := hb
        refine ⟨?_, b2⟩
        show (rms.evbuf_samples + d.samples) * (rms.rtp_session.quality.bits_per_sample / 8)
          * rms.rtp_session.quality.channels = ((rms.evbuf ++ d.buffer).length : Int)
        rw [List.length_append, add_mul, add_mul, b1, hq, hlen]
        push_cast
        rfl
      obtain ⟨d1, d2, d3⟩ := airplay_write_drain_buffered q
        ((timestamp_set rms pts).evbuf ++ d.buffer).length.succ
        { timestamp_set rms pts with
            evbuf := (timestamp_set rms pts).evbuf ++ d.buffer,
            evbuf_samples := (timestamp_set rms pts).evbuf_samples + d.samples } sessions
        (packets_sync_send (timestamp_set rms pts) sessions sys) hq hb3
      obtain ⟨i1, i2, i3⟩ := ih _
        (airplay_write_drain ((timestamp_set rms pts).evbuf ++ d.buffer).length.succ
          { timestamp_set rms pts with
            evbuf := (timestamp_set rms pts).evbuf ++ d.buffer,
            evbuf_samples := (timestamp_set rms pts).evbuf_samples + d.samples } sessions
          (packets_sync_send (timestamp_set rms pts) sessions sys)).2.1
        (airplay_write_drain ((timestamp_set rms pts).evbuf ++ d.buffer).length.succ
          { timestamp_set rms pts with
            evbuf := (timestamp_set rms pts).evbuf ++ d.buffer,
            evbuf_samples := (timestamp_set rms pts).evbuf_samples + d.samples } sessions
          (packets_sync_send (timestamp_set rms pts) sessions sys)).2.2 d1 d2
        (fun x hx => hd x (List.mem_cons_of_mem _ hx))
      refine ⟨i1, i2, fun hdr => i3 (d3 (Nat.lt_succ_self _) ?_)⟩
      exact Nat.lt_of_le_of_lt (Nat.zero_le _) hdr

theorem airplay_write_masters_buffered (obuf : output_buffer)
    (masters : List airplay_master_session) :
    ∀ (sessions : List airplay_session) (sys : Sys),
    (∀ m ∈ masters, m.buffered) →
    (∀ d ∈ obuf.data, ∀ m ∈ masters, d.quality = m.rtp_session.quality →
      d.samples * (d.quality.bits_per_sample / 8) * d.quality.channels
        = (d.buffer.length : Int)) →
    (∀ m ∈ (airplay_write_masters obuf masters sessions sys).1, m.buffered) ∧
    ((∀ m ∈ masters, m.drained) →
      ∀ m ∈ (airplay_write_masters obuf masters sessions sys).1, m.drained) := by
  induction masters with
  | nil =>
    intro sessions sys _ _
    simp [airplay_write_masters]
  | cons rms rest ih =>
    intro sessions sys hb hd
    obtain ⟨-, w2, w3⟩ := airplay_write_data_buffered rms.rtp_session.quality obuf.pts obuf.data
      rms sessions sys rfl (hb rms (List.mem_cons_self _ _))
      (fun d hdm hq => by
        have := hd d hdm rms (List.mem_cons_self _ _) hq
        rw [hq] at this
        exact this)
    obtain ⟨r1, r2⟩ := ih (airplay_write_data obuf.pts obuf.data rms sessions sys).2.1
      (airplay_write_data obuf.pts obuf.data rms sessions sys).2.2
      (fun m hm => hb m (List.mem_cons_of_mem _ hm))
      (fun d hdm m hm => hd d hdm m (List.mem_cons_of_mem _ hm))
    refine ⟨?_, ?_⟩
    · intro m hm
      simp only [airplay_write_masters, List.mem_cons] at hm
      rcases hm with hm | hm
      · rw [hm]; exact w2
      · exact r1 m hm
    · intro hdr m hm
      simp only [airplay_write_masters, List.mem_cons] at hm
      rcases hm with hm | hm
      · rw [hm]; exact w3 (hdr rms (List.mem_cons_self _ _))
      · exact r2 (fun x hx => hdr x (List.mem_cons_of_mem _ hx)) m hm

/-- C26: `airplay_write` keeps, for every master session, the sample count of
`evbuf` in step with its length: if before the call
`evbuf_samples * bytes_per_sample * channels = len(evbuf)` and
`rawbuf_size = samples_per_packet * bytes_per_sample * channels` hold for every
master session, and every entry of the buffer written whose quality is that of a
master session has `bufsize = samples * bytes_per_sample * channels`, then both
hold after the call. The drain loop ends: master sessions that had less than a
packet buffered have less than a packet buffered afterwards. -/
theorem airplay_write_keeps_evbuf_samples (obuf : output_buffer) (a : Audio)
    (hb : ∀ m ∈ a.airplay_master_sessions, m.buffered)
    (hd : ∀ d ∈ obuf.data, ∀ m ∈ a.airplay_master_sessions,
      d.quality = m.rtp_session.quality →
      d.samples * (d.quality.bits_per_sample / 8) * d.quality.channels
        = (d.buffer.length : Int)) :
    (∀ m ∈ (airplay_write obuf a).airplay_master_sessions, m.buffered) ∧
    ((∀ m ∈ a.airplay_master_sessions, m.drained) →
      ∀ m ∈ (airplay_write obuf a).airplay_master_sessions, m.drained) := by
  have h := airplay_write_masters_buffered obuf a.airplay_master_sessions a.airplay_sessions
    a.sys hb hd
  simpa only [airplay_write] using h


/-- Witness for `airplay_write_keeps_evbuf_samples`: a write of 500 samples (2000
bytes) to a master session of the default quality with nothing buffered and no
session attached leaves 148 samples, 592 bytes, in `evbuf`. -/
theorem airplay_write_keeps_evbuf_samples_witness :
    (exampleMaster 7 1000).buffered ∧
    ((airplay_write (exampleBuffer 500)
        { airplay_master_sessions := [exampleMaster 7 1000], airplay_sessions := [],
          keep_alive_pending := false, sys := exampleSys 0 }).airplay_master_sessions.map
      (fun m => (m.evbuf_samples, m.evbuf.length)) = [(148, 592)]) ∧
    ∀ m ∈ (airplay_write (exampleBuffer 500)
        { airplay_master_sessions := [exampleMaster 7 1000], airplay_sessions := [],
          keep_alive_pending := false, sys := exampleSys 0 }).airplay_master_sessions,
      m.buffered :=
  ⟨⟨by decide, by decide⟩, by decide!,
   (airplay_write_keeps_evbuf_samples (exampleBuffer 500)
      { airplay_master_sessions := [exampleMaster 7 1000], airplay_sessions := [],
        keep_alive_pending := false, sys := exampleSys 0 }
      (by intro m hm; rw [List.mem_singleton] at hm; subst hm; exact ⟨by decide, by decide⟩)
      (by
        intro d hd m hm _
        simp only [exampleBuffer, List.mem_singleton] at hd
        subst hd
        simp only [airplay_quality_default, List.length_replicate]
        norm_num)).1⟩


/-! ## The marker bit within one write (C25) -/

theorem packets_send_connected (sys : Sys) (rms : airplay_master_session)
    (rs : airplay_session) (hm : rs.master_session = some rms.id)
    (hs : rs.state = .CONNECTED) (hsized : sys.aead.sized)
    (henc : ∀ key nonce ad plain, (sys.aead key nonce ad plain).isSome)
    (hsend : ∀ n, 0 ≤ (sys.ext n).ret) :
    ∃ bytes ret,
      (packets_send rms [rs] sys).2.1 = [rs] ∧
      (packets_send rms [rs] sys).2.2
        = { sys with tick := sys.tick + 1,
                     log := sys.log ++ [.data_send rs.ptr bytes ret] } ∧
      bytes.getD 1 0 = 0xe0 := by
  obtain ⟨g1, g2, -⟩ := packets_send_packet_header rms
  have hh : 2 ≤ ((packets_send_packet rms).set_header1
      (((1 <<< 7) ||| RAOP_RTP_PAYLOADTYPE) % 256)).header.length := by
    simp [rtp_packet.set_header1, g1]
  have hdl : ((packets_send_packet rms).set_header1
      (((1 <<< 7) ||| RAOP_RTP_PAYLOADTYPE) % 256)).data_len
      = ((packets_send_packet rms).set_header1
          (((1 <<< 7) ||| RAOP_RTP_PAYLOADTYPE) % 256)).header.length
        + ((packets_send_packet rms).set_header1
          (((1 <<< 7) ||| RAOP_RTP_PAYLOADTYPE) % 256)).payload.length := by
    simp [rtp_packet.set_header1, g2]
  obtain ⟨bytes, ret, p1, p2, p3⟩ := packet_send_ok rs _ sys hsized henc hsend hh hdl
  refine ⟨bytes, ret, ?_, ?_, ?_⟩
  · simp only [packets_send, packets_send_loop, hm, hs, ne_eq, not_true_eq_false, if_false,
      if_true, p1]
  · simp only [packets_send, packets_send_loop, hm, hs, ne_eq, not_true_eq_false, if_false,
      if_true, p2]
  · rw [p3]
    have : 1 < (packets_send_packet rms).header.length := by rw [g1]; decide
    simp [rtp_packet.set_header1, List.getD_eq_getElem?_getD, List.getElem?_set, this,
      RAOP_RTP_PAYLOADTYPE]

theorem airplay_write_drain_connected (rs : airplay_session) (hs : rs.state = .CONNECTED)
    (aead : Aead) (ext : Nat → ExtVal) (hsized : aead.sized)
    (henc : ∀ key nonce ad plain, (aead key nonce ad plain).isSome)
    (hsend : ∀ n, 0 ≤ (ext n).ret) (fuel : Nat) :
    ∀ (rms : airplay_master_session) (sys : Sys), rs.master_session = some rms.id →
    sys.aead = aead → sys.ext = ext → 0 < rms.rawbuf_size →
    ∃ bs : List (List Nat × Int),
      (airplay_write_drain fuel rms [rs] sys).2.1 = [rs] ∧
      (airplay_write_drain fuel rms [rs] sys).2.2.log
        = sys.log ++ bs.map (fun b => Event.data_send rs.ptr b.1 b.2) ∧
      (airplay_write_drain fuel rms [rs] sys).2.2.aead = aead ∧
      (∀ b ∈ bs, b.1.getD 1 0 = 0xe0) ∧
      bs.length = min fuel (rms.evbuf.length / rms.rawbuf_size) := by
  induction fuel with
  | zero =>
    intro rms sys _ ha _ _
    exact ⟨[], rfl, by simp [airplay_write_drain], ha, by simp, by simp⟩
  | succ fuel ih =>
    intro rms sys hm ha he hr
    simp only [airplay_write_drain]
    split
    · rename_i hge
      have hge2 : rms.rawbuf_size ≤ rms.evbuf.length := hge
      obtain ⟨bytes, ret, p1, p2, p3⟩ := packets_send_connected sys
        { rms with rawbuf := rms.evbuf.take rms.rawbuf_size,
                   evbuf := rms.evbuf.drop rms.rawbuf_size,
                   evbuf_samples := rms.evbuf_samples - rms.samples_per_packet }
        rs hm hs (by rw [ha]; exact hsized) (by rw [ha]; exact henc) (by rw [he]; exact hsend)
      obtain ⟨f1, -, f3, -, -⟩ := packets_send_fields
        { rms with rawbuf := rms.evbuf.take rms.rawbuf_size,
                   evbuf := rms.evbuf.drop rms.rawbuf_size,
                   evbuf_samples := rms.evbuf_samples - rms.samples_per_packet } [rs] sys
      simp only at p1 p2 f1 f3
      obtain ⟨bs, q1, q2, q5, q3, q4⟩ := ih
        (packets_send
          { rms with rawbuf := rms.evbuf.take rms.rawbuf_size,
                     evbuf := rms.evbuf.drop rms.rawbuf_size,
                     evbuf_samples := rms.evbuf_samples - rms.samples_per_packet } [rs] sys).1
        (packets_send
          { rms with rawbuf := rms.evbuf.take rms.rawbuf_size,
                     evbuf := rms.evbuf.drop rms.rawbuf_size,
                     evbuf_samples := rms.evbuf_samples - rms.samples_per_packet } [rs] sys).2.2
        hm (by rw [p2]; exact ha) (by rw [p2]; exact he) (by rw [f3]; exact hr)
      rw [p1]
      refine ⟨(bytes, ret) :: bs, q1, ?_, q5, ?_, ?_⟩
      · rw [q2, p2]
        simp
      · intro b hb
        rcases List.mem_cons.mp hb with hb | hb
        · rw [hb]; exact p3
        · exact q3 b hb
      · rw [List.length_cons, q4, f1, f3, List.length_drop]
        have h1 : (rms.evbuf.length - rms.rawbuf_size) / rms.rawbuf_size + 1
            = rms.evbuf.length / rms.rawbuf_size := by
          rw [← Nat.add_div_right _ hr, Nat.sub_add_cancel hge2]
        omega
    · rename_i hlt
      have h0 : rms.evbuf.length / rms.rawbuf_size = 0 :=
        Nat.div_eq_of_lt (Nat.lt_of_not_ge hlt)
      exact ⟨[], rfl, by simp, ha, by simp, by simp [h0]⟩

theorem packets_sync_send_connected (sys : Sys) (rms : airplay_master_session)
    (rs : airplay_session) (hm : rs.master_session = some rms.id)
    (hs : rs.state = .CONNECTED) :
    ∃ pre, (packets_sync_send rms [rs] sys).log = sys.log ++ pre ∧
      (∀ e ∈ pre, ∀ p b r, e ≠ Event.data_send p b r) ∧
      (packets_sync_send rms [rs] sys).aead = sys.aead ∧
      (packets_sync_send rms [rs] sys).ext = sys.ext := by
  simp only [packets_sync_send, packets_sync_send_loop, hm, hs, ne_eq, not_true_eq_false,
    if_false, if_true, control_packet_send, Sys.call]
  cases rs.family
  · exact ⟨[], by simp, by simp, rfl, rfl⟩
  · exact ⟨[_], rfl, by simp, rfl, rfl⟩
  · exact ⟨[_], rfl, by simp, rfl, rfl⟩

/-- C25, as the code behaves: in a call of `airplay_write`, every audio packet
sent to a session that is CONNECTED when the call starts carries the marker bit
(header byte 1 is `0xe0`), not the first one only: `packets_send` tests the
state of the session for each packet, and the state becomes STREAMING in the
last loop of `airplay_write`, after all packets of the call are sent. Here for
one master session, one session attached to it and one entry of its quality in
the buffer, with a cipher and a `send` that succeed: the packets sent are as
many as the buffered bytes hold, and all are marked. -/
theorem joining_write_marks_every_packet (sys : Sys) (rms : airplay_master_session)
    (rs : airplay_session) (pts : timespec) (d : output_data) (pending : Bool)
    (hm : rs.master_session = some rms.id) (hs : rs.state = .CONNECTED)
    (hsized : sys.aead.sized)
    (henc : ∀ key nonce ad plain, (sys.aead key nonce ad plain).isSome)
    (hsend : ∀ n, 0 ≤ (sys.ext n).ret)
    (hq : d.quality = rms.rtp_session.quality) (hr : 0 < rms.rawbuf_size) :
    ∃ (pre : List Event) (bs : List (List Nat × Int)) (post : List Event),
      (airplay_write { pts := pts, data := [d] }
          { airplay_master_sessions := [rms], airplay_sessions := [rs],
            keep_alive_pending := pending, sys := sys }).sys.log
        = sys.log ++ pre ++ bs.map (fun b => Event.data_send rs.ptr b.1 b.2) ++ post ∧
      (∀ e ∈ pre ++ post, ∀ p b r, e ≠ Event.data_send p b r) ∧
      bs.length = (rms.evbuf.length + d.buffer.length) / rms.rawbuf_size ∧
      (∀ b ∈ bs, b.1.getD 1 0 = 0xe0) ∧
      (airplay_write { pts := pts, data := [d] }
          { airplay_master_sessions := [rms], airplay_sessions := [rs],
            keep_alive_pending := pending, sys := sys }).airplay_sessions
        = [{ rs with state := .STREAMING }] := by
  obtain ⟨pre, s1, s2, s3, s4⟩ := packets_sync_send_connected sys (timestamp_set rms pts) rs
    hm hs
  obtain ⟨bs, q1, q2, -, q3, q4⟩ := airplay_write_drain_connected rs hs sys.aead sys.ext
    hsized henc hsend (((timestamp_set rms pts).evbuf ++ d.buffer).length + 1)
    { timestamp_set rms pts with
        evbuf := (timestamp_set rms pts).evbuf ++ d.buffer,
        evbuf_samples := (timestamp_set rms pts).evbuf_samples + d.samples }
    (packets_sync_send (timestamp_set rms pts) [rs] sys) hm s3 s4 hr
  have hlen : bs.length = (rms.evbuf.length + d.buffer.length) / rms.rawbuf_size := by
    rw [q4]
    show min ((rms.evbuf ++ d.buffer).length + 1) ((rms.evbuf ++ d.buffer).length
      / rms.rawbuf_size) = _
    rw [List.length_append]
    have := Nat.div_le_self (rms.evbuf.length + d.buffer.length) rms.rawbuf_size
    omega
  have hnq : ¬ (d.quality ≠ rms.rtp_session.quality) := not_not.mpr hq
  simp only [airplay_write, airplay_write_masters, airplay_write_data, hnq, if_false]
  rw [q1]
  by_cases hp : pending = true
  · refine ⟨pre, bs, [], ?_, ?_, hlen, q3, ?_⟩
    · simp only [airplay_write_join, hs, ne_eq, not_true_eq_false, if_false, hp,
        Bool.not_true, Bool.false_eq_true]
      rw [q2, s1]
      simp
    · simpa using s2
    · simp only [airplay_write_join, hs, ne_eq, not_true_eq_false, if_false]
  · have hp2 : pending = false := by simpa using hp
    refine ⟨pre, bs, [.keep_alive_add], ?_, ?_, hlen, q3, ?_⟩
    · simp only [airplay_write_join, hs, ne_eq, not_true_eq_false, if_false, hp2,
        Bool.not_false, if_true, Sys.emit]
      rw [q2, s1]
    · intro e he
      rcases List.mem_append.mp he with he | he
      · exact s2 e he
      · rw [List.mem_singleton] at he
        subst he
        intro p b r h
        cases h
    · simp only [airplay_write_join, hs, ne_eq, not_true_eq_false, if_false]

/-- Witness for `joining_write_marks_every_packet`: a write of 704 samples (two
packets of 1408 bytes) to a fresh master session with one CONNECTED session,
under the stand-in cipher, every `send` returning 36: two audio packets are
sent, both with the marker bit. -/
theorem joining_write_marks_every_packet_witness :
    ∃ (pre : List Event) (bs : List (List Nat × Int)) (post : List Event),
      (airplay_write { pts := { tv_sec := 10, tv_nsec := 0 },
                       data := [{ quality := airplay_quality_default,
                                  buffer := List.replicate 2816 0, samples := 704 }] }
          { airplay_master_sessions := [exampleMaster 7 1000],
            airplay_sessions := [exampleSession 1 .CONNECTED],
            keep_alive_pending := false, sys := exampleSys 36 }).sys.log
        = (exampleSys 36).log ++ pre
          ++ bs.map (fun b => Event.data_send (exampleSession 1 .CONNECTED).ptr b.1 b.2)
          ++ post ∧
      (∀ e ∈ pre ++ post, ∀ p b r, e ≠ Event.data_send p b r) ∧
      bs.length = 2 ∧
      (∀ b ∈ bs, b.1.getD 1 0 = 0xe0) := by
  obtain ⟨pre, bs, post, h1, h2, h3, h4, -⟩ := joining_write_marks_every_packet (exampleSys 36)
    (exampleMaster 7 1000) (exampleSession 1 .CONNECTED) { tv_sec := 10, tv_nsec := 0 }
    { quality := airplay_quality_default, buffer := List.replicate 2816 0, samples := 704 }
    false rfl rfl toyAead_sized (fun _ _ _ _ => rfl)
    (fun _ => (by decide : (0 : Int) ≤ 36)) rfl (by decide)
  refine ⟨pre, bs, post, h1, h2, ?_, h4⟩
  rw [h3]
  simp only [exampleMaster, List.length_replicate, List.length_nil]

/-! ## Retransmit requests (C24) -/

theorem packets_resend_loop_fold (rtp : rtp_session) : ∀ (i s : Nat) (rs : airplay_session)
    (sys : Sys), s < 2 ^ 16 →
    packets_resend_loop rtp i s rs sys
      = (resend_seqnums s i).foldl
          (fun st q => match rtp_packet_get rtp q with
            | some pkt => (packet_send st.1 pkt st.2).2
            | none => st) (rs, sys)
  | 0, s, rs, sys, _ => by simp [packets_resend_loop, resend_seqnums]
  | i + 1, s, rs, sys, hs => by
    have hlist : resend_seqnums s (i + 1) = s :: resend_seqnums ((s + 1) % 2 ^ 16) i := by
      simp only [resend_seqnums, List.range_succ_eq_map, List.map_cons, List.map_map,
        Nat.add_zero, Nat.mod_eq_of_lt hs]
      congr 1
      apply List.map_congr_left
      intro k _
      simp only [Function.comp]
      omega
    rw [hlist, List.foldl_cons]
    simp only [packets_resend_loop]
    have hs1 : (s + 1) % 2 ^ 16 < 2 ^ 16 := Nat.mod_lt _ (by norm_num)
    cases hget : rtp_packet_get rtp s with
    | none => exact packets_resend_loop_fold rtp i _ rs sys hs1
    | some pkt => exact packets_resend_loop_fold rtp i _ _ _ hs1

theorem span_first_match {α : Type} (p : α → Bool) (x : α) (after : List α) :
    ∀ before : List α, (∀ y ∈ before, p y = true) → p x = false →
      (before ++ x :: after).span p = (before, x :: after)
  | [], _, hx => by simp [List.span_eq_take_drop, List.takeWhile, List.dropWhile, hx]
  | y :: before, hb, hx => by
    have hy : p y = true := hb y (List.mem_cons_self _ _)
    have ih := span_first_match p x after before
      (fun z hz => hb z (List.mem_cons_of_mem _ hz)) hx
    simp only [List.span_eq_take_drop] at ih ⊢
    simp only [List.cons_append, List.takeWhile_cons, List.dropWhile_cons, hy, if_true]
    rw [Prod.mk.injEq] at ih ⊢
    exact ⟨by rw [ih.1], ih.2⟩

/-- C24: `airplay_control_cb`, for a datagram of 8 bytes with header `0x80 0xd5`
that arrives on the service of its family and whose source matches a session
(`rs` is the first session of `airplay_sessions` with the family and the address
of the source), reads `seq_start` and `seq_len` as the big-endian 16-bit values
at offsets 4 and 6 and walks the `seq_len` sequence numbers
`(seq_start + i) mod 2^16`, `i = 0 .. seq_len - 1`, in order: each is looked up in
the retransmit ring of the master session of `rs`, a packet found is sent to `rs`
by `packet_send`, and for one not found nothing is sent. Nothing else of the
module changes. -/
theorem airplay_control_cb_resends (svc : sa_family) (sa_addr : airplay_session → List Nat)
    (dg : control_datagram) (a : Audio) (before after : List airplay_session)
    (rs : airplay_session) (rms : airplay_master_session)
    (hret : dg.ret = 8) (h0 : dg.req.getD 0 0 = 0x80) (h1 : dg.req.getD 1 0 = 0xd5)
    (hfam : dg.family ≠ .AF_UNSPEC) (hsvc : svc = dg.family)
    (hlist : a.airplay_sessions = before ++ rs :: after)
    (hbefore : ∀ x ∈ before, ¬ (x.family = dg.family ∧ dg.addr = sa_addr x))
    (hrs : rs.family = dg.family ∧ dg.addr = sa_addr rs)
    (hrms : a.airplay_master_sessions.find? (fun rms => rs.master_session == some rms.id)
      = some rms) :
    airplay_control_cb svc sa_addr dg a
      = some { a with
          airplay_sessions := before ++
            ((resend_seqnums (dg.req.getD 4 0 % 256 * 256 + dg.req.getD 5 0 % 256)
                (dg.req.getD 6 0 % 256 * 256 + dg.req.getD 7 0 % 256)).foldl
              (fun st q => match rtp_packet_get rms.rtp_session q with
                | some pkt => (packet_send st.1 pkt st.2).2
                | none => st) (rs, a.sys)).1 :: after,
          sys :=
            ((resend_seqnums (dg.req.getD 4 0 % 256 * 256 + dg.req.getD 5 0 % 256)
                (dg.req.getD 6 0 % 256 * 256 + dg.req.getD 7 0 % 256)).foldl
              (fun st q => match rtp_packet_get rms.rtp_session q with
                | some pkt => (packet_send st.1 pkt st.2).2
                | none => st) (rs, a.sys)).2 } := by
  have hspan := span_first_match
    (fun rs => !(decide (rs.family = dg.family) && decide (dg.addr = sa_addr rs))) rs after
    before
    (fun x hx => by
      have := hbefore x hx
      simp only [Bool.not_eq_true', Bool.and_eq_false_imp, decide_eq_true_eq,
        decide_eq_false_iff_not]
      intro hf hadr
      exact this ⟨hf, hadr⟩)
    (by simp [hrs.1, hrs.2])
  have hstart : dg.req.getD 4 0 % 256 * 256 + dg.req.getD 5 0 % 256 < 2 ^ 16 := by
    have h4 := Nat.mod_lt (dg.req.getD 4 0) (by norm_num : 0 < 256)
    have h5 := Nat.mod_lt (dg.req.getD 5 0) (by norm_num : 0 < 256)
    omega
  simp only [airplay_control_cb, hret, hfam, hsvc, hlist, hspan, h0, h1, hrms, be16toh,
    packets_resend, Int.toNat_ofNat]
  have hfold := packets_resend_loop_fold rms.rtp_session
    (dg.req.getD 6 0 % 256 * 256 + dg.req.getD 7 0 % 256)
    (dg.req.getD 4 0 % 256 * 256 + dg.req.getD 5 0 % 256) rs a.sys hstart
  rw [hfold]
  simp

/-- Witness for `airplay_control_cb_resends`: the request `80 d5 00 00 03 EA 00 03`
names the sequence numbers 1002, 1003 and 1004; with 1002 and 1003 in the ring,
the session is sent two packets (39 bytes each, header, cipher text, tag and
nonce) and nothing for 1004. -/
theorem airplay_control_cb_resends_witness :
    resend_seqnums 1002 3 = [1002, 1003, 1004] ∧
    (airplay_control_cb .AF_INET (fun _ => [192, 168, 1, 10]) exampleResendRequest
        exampleRing).map (fun a => a.sys.log)
      = some [.data_send 1 [0x80, 0x60, 3, 234, 0, 0, 0, 0, 0, 0, 0, 1, 2, 3, 4,
                32, 32, 32, 32, 32, 32, 32, 32, 32, 32, 32, 32, 32, 32, 32, 32,
                234, 3, 0, 0, 0, 0, 0, 0] 39,
              .data_send 1 [0x80, 0x60, 3, 235, 0, 0, 0, 0, 0, 0, 0, 1, 2, 3, 4,
                32, 32, 32, 32, 32, 32, 32, 32, 32, 32, 32, 32, 32, 32, 32, 32,
                235, 3, 0, 0, 0, 0, 0, 0] 39] ∧
    airplay_control_cb .AF_INET (fun _ => [192, 168, 1, 10]) exampleResendRequest exampleRing
      = some { exampleRing with
          airplay_sessions := [] ++
            ((resend_seqnums (exampleResendRequest.req.getD 4 0 % 256 * 256
                  + exampleResendRequest.req.getD 5 0 % 256)
                (exampleResendRequest.req.getD 6 0 % 256 * 256
                  + exampleResendRequest.req.getD 7 0 % 256)).foldl
              (fun st q =>
                match rtp_packet_get (exampleRing.airplay_master_sessions.headD
                    (exampleMaster 0 0)).rtp_session q with
                | some pkt => (packet_send st.1 pkt st.2).2
                | none => st) (exampleSession 1 .STREAMING, exampleRing.sys)).1 :: [],
          sys :=
            ((resend_seqnums (exampleResendRequest.req.getD 4 0 % 256 * 256
                  + exampleResendRequest.req.getD 5 0 % 256)
                (exampleResendRequest.req.getD 6 0 % 256 * 256
                  + exampleResendRequest.req.getD 7 0 % 256)).foldl
              (fun st q =>
                match rtp_packet_get (exampleRing.airplay_master_sessions.headD
                    (exampleMaster 0 0)).rtp_session q with
                | some pkt => (packet_send st.1 pkt st.2).2
                | none => st) (exampleSession 1 .STREAMING, exampleRing.sys)).2 } :=
  ⟨by decide, by decide,
   airplay_control_cb_resends .AF_INET (fun _ => [192, 168, 1, 10]) exampleResendRequest
    exampleRing [] [] (exampleSession 1 .STREAMING)
    (exampleRing.airplay_master_sessions.headD (exampleMaster 0 0))
    rfl rfl rfl (by decide) rfl rfl (fun _ h => absurd h (List.not_mem_nil _))
    ⟨rfl, rfl⟩ rfl⟩

/-! ## The `Content-Type` of a request (C27) -/

/-- C27 (counterexample): the step SETPEERS, second of the sequence START_AP2,
carries the Content-Type `/peer-list-changed` (the column `content_type` of its
table entry), which is none of the six content types listed. -/
theorem setpeers_content_type_not_listed :
    (airplay_seq_request_rows .START_AP2).get? 1
      = some { seq_type := .START_AP2, name := "SETPEERS", rtsp_type := .SETPEERS,
               payload_make := some .setpeers, response_handler := none,
               content_type := some "/peer-list-changed", uri := none,
               proceed_on_rtsp_not_ok := false } ∧
    (∀ arg, ((airplay_seq_request_rows .START_AP2).get? 1).map
        (fun r => request_content_types r arg) = some ["/peer-list-changed"]) ∧
    "/peer-list-changed" ∉ spec_content_types := by
  refine ⟨by decide, ?_, by decide⟩
  intro arg
  cases arg <;> rfl

theorem row_content_type (t : airplay_seq_type) :
    ∀ r ∈ airplay_seq_request_rows t,
      r.content_type = none ∨ (∃ v ∈ spec_content_types, r.content_type = some v)
        ∨ (r.content_type = some "/peer-list-changed" ∧ r.name = "SETPEERS") := by
  cases t <;> decide

theorem payload_make_content_type_cases (pm : payload_maker) (arg : payload_arg) :
    payload_make_content_type pm arg = none
      ∨ payload_make_content_type pm arg = some "image/png"
      ∨ payload_make_content_type pm arg = some "image/jpeg" := by
  unfold payload_make_content_type
  split
  · split
    · exact Or.inr (Or.inl rfl)
    · split
      · exact Or.inr (Or.inr rfl)
      · exact Or.inl rfl
  · exact Or.inl rfl

/-- C27 (amended): every Content-Type value on the request of a step of the
sequence table, from the column `content_type` or from the payload maker, is one
of the six listed or `/peer-list-changed`, and the latter stands on the step
SETPEERS only. -/
theorem request_content_type_listed (t : airplay_seq_type) (r : airplay_seq_request)
    (arg : payload_arg) (v : String) (hr : r ∈ airplay_seq_request_rows t)
    (hv : v ∈ request_content_types r arg) :
    v ∈ spec_content_types ∨ (v = "/peer-list-changed" ∧ r.name = "SETPEERS") := by
  simp only [request_content_types, List.mem_append, Option.mem_toList, Option.mem_def] at hv
  rcases hv with hv | hv
  · rcases row_content_type t r hr with h | ⟨w, hw, h⟩ | ⟨h, hn⟩
    · rw [h] at hv
      cases hv
    · rw [h] at hv
      cases hv
      exact Or.inl hw
    · rw [h] at hv
      cases hv
      exact Or.inr ⟨rfl, hn⟩
  · cases hpm : r.payload_make with
    | none =>
      rw [hpm] at hv
      cases hv
    | some pm =>
      rw [hpm] at hv
      simp only [Option.bind] at hv
      rcases payload_make_content_type_cases pm arg with h | h | h
      · rw [h] at hv
        cases hv
      · rw [h] at hv
        cases hv
        exact Or.inl (by decide)
      · rw [h] at hv
        cases hv
        exact Or.inl (by decide)

/-- Witness for `request_content_type_listed`: the artwork step with the JPEG
artwork of the example metadata carries `image/jpeg`. -/
theorem request_content_type_listed_witness :
    request_content_types
        { seq_type := .SEND_ARTWORK, name := "SET_PARAMETER (artwork)",
          rtsp_type := .SET_PARAMETER, payload_make := some .send_artwork,
          response_handler := none, content_type := none, uri := none,
          proceed_on_rtsp_not_ok := true } (.metadata exampleMetadata) = ["image/jpeg"] ∧
    ("image/jpeg" ∈ spec_content_types ∨
      ("image/jpeg" = "/peer-list-changed" ∧
        ({ seq_type := .SEND_ARTWORK, name := "SET_PARAMETER (artwork)",
           rtsp_type := .SET_PARAMETER, payload_make := some .send_artwork,
           response_handler := none, content_type := none, uri := none,
           proceed_on_rtsp_not_ok := true } : airplay_seq_request).name = "SETPEERS")) :=
  ⟨by decide,
   request_content_type_listed .SEND_ARTWORK _ (.metadata exampleMetadata) "image/jpeg"
    (by decide) (by decide)⟩

/-! ## What `alac_encode` reads and writes (C29) -/

theorem framesBytes_congr (raw raw2 : Mem) (n : Nat) (h : ∀ i, i < 4 * n → raw i = raw2 i) :
    framesBytes raw 0 n = framesBytes raw2 0 n := by
  simp only [framesBytes, List.flatMap, Nat.zero_add]
  congr 1
  apply List.map_congr_left
  intro k hk
  rw [List.mem_range] at hk
  simp only [frameBytes]
  rw [h (4 * k + 1) (by omega), h (4 * k) (by omega), h (4 * k + 3) (by omega),
    h (4 * k + 2) (by omega)]

/-- C29: for `len` a multiple of 4, `len >= 0`, what `alac_encode(dst, raw, len)`
leaves in `dst` depends on `raw[0 .. len-1]` only (two buffers that agree there
give the same result), it leaves every byte of `dst` from offset `len + 3` on as
it was, and each byte before that offset is written: it no longer depends on what
`dst` held. The writer ends on the last of these bytes, `dst[len + 2]`, so with
`len = rawbuf_size` the bytes written are the `ALAC_HEADER_LEN + rawbuf_size`
bytes of the payload that `packets_send` asks `rtp_packet_next` for. -/
theorem alac_encode_footprint (dst dst2 raw raw2 : Mem) (len : Int) (h0 : 0 ≤ len)
    (h4 : len % 4 = 0) (hraw : ∀ i : Nat, (i : Int) < len → raw i = raw2 i) :
    (∀ a : Nat, len + 3 ≤ a → (alac_encode dst raw len).mem a = dst a) ∧
    (∀ a : Nat, (a : Int) < len + 3 →
      (alac_encode dst raw len).mem a = (alac_encode dst2 raw2 len).mem a) ∧
    ((alac_encode dst raw len).p : Int) = len + 2 ∧
    (∀ rms : airplay_master_session, (rms.rawbuf_size : Int) = len →
      (alac_encode dst raw len).p < (packets_send_packet rms).payload.length ∧
      ((packets_send_packet rms).payload.length : Int) = ALAC_HEADER_LEN + len) := by
  obtain ⟨n, hn⟩ : ∃ n : Nat, len = ((4 * n : Nat) : Int) := by
    refine ⟨len.toNat / 4, ?_⟩
    have := Int.toNat_of_nonneg h0
    omega
  subst hn
  have hraw2 : ∀ i, i < 4 * n → raw i = raw2 i := fun i hi => hraw i (by exact_mod_cast hi)
  obtain ⟨b1, p1, -, r1⟩ := alac_encode_bytes dst raw n
  obtain ⟨b2, -, -, -⟩ := alac_encode_bytes dst2 raw2 n
  refine ⟨?_, ?_, ?_, ?_⟩
  · intro a ha
    exact r1 a (by exact_mod_cast ha)
  · intro a ha
    have ha2 : a < 4 * n + 3 := by exact_mod_cast ha
    have e1 := readBytes_getD (alac_encode dst raw (4 * n : Nat)).mem 0 (4 * n + 3) a ha2
    have e2 := readBytes_getD (alac_encode dst2 raw2 (4 * n : Nat)).mem 0 (4 * n + 3) a ha2
    rw [Nat.zero_add] at e1 e2
    rw [← e1, ← e2, b1, b2, framesBytes_congr raw raw2 n hraw2]
  · rw [p1]
    push_cast
    ring
  · intro rms hrms
    have hlen : (packets_send_packet rms).payload.length = ALAC_HEADER_LEN + rms.rawbuf_size := by
      simp [packets_send_packet, rtp_packet_next, readBytes_length]
    have hrms2 : rms.rawbuf_size = 4 * n := by exact_mod_cast hrms
    refine ⟨?_, ?_⟩
    · rw [p1, hlen, hrms2, ALAC_HEADER_LEN]
      omega
    · rw [hlen, hrms2]
      push_cast
      ring

/-- Witness for `alac_encode_footprint`: one packet of the example master session
(1408 bytes of silence), encoded into two buffers that differ, from two sources
that differ past the 1408 bytes. -/
theorem alac_encode_footprint_witness :
    (∀ a : Nat, (1408 : Int) + 3 ≤ a →
      (alac_encode (fun _ => 255) (fun _ => 0) 1408).mem a = (fun _ => 255 : Mem) a) ∧
    (∀ a : Nat, (a : Int) < 1408 + 3 →
      (alac_encode (fun _ => 255) (fun _ => 0) 1408).mem a
        = (alac_encode (fun _ => 0) (fun i => if i < 1408 then 0 else 7) 1408).mem a) ∧
    ((alac_encode (fun _ => 255) (fun _ => 0) 1408).p : Int) = 1408 + 2 ∧
    (∀ rms : airplay_master_session, (rms.rawbuf_size : Int) = 1408 →
      (alac_encode (fun _ => 255) (fun _ => 0) 1408).p
        < (packets_send_packet rms).payload.length ∧
      ((packets_send_packet rms).payload.length : Int) = ALAC_HEADER_LEN + 1408) :=
  alac_encode_footprint (fun _ => 255) (fun _ => 0) (fun _ => 0)
    (fun i => if i < 1408 then 0 else 7) 1408 (by decide) (by decide)
    (fun i hi => by
      have : i < 1408 := by exact_mod_cast hi
      simp [this])

/-! ## Jumps between sequences (C30) -/

set_option maxHeartbeats 4000000 in
theorem run_response_handler_jump (h : response_handler) (req : evrtsp_request) (c : Ctl) :
    (run_response_handler h req c).1 = .ABORT ∨ (run_response_handler h req c).1 = .CONTINUE ∨
    ((h = .options_probe ∨ h = .options_start) ∧
      (run_response_handler h req c).1 = .START_RERUN ∧
      req.response_code = RTSP_UNAUTHORIZED) ∨
    ((h = .options_probe ∨ h = .options_start) ∧
      (run_response_handler h req c).1 = .PIN_START ∧ req.response_code = RTSP_FORBIDDEN) ∨
    (h = .options_start ∧ (run_response_handler h req c).1 = .START_AP2
      ∧ req.response_code = RTSP_OK) ∨
    (h = .pair_setup1 ∧ (run_response_handler h req c).1 = .PIN_START ∧
      req.response_code = RTSP_CONNECTION_AUTH_REQUIRED) := by
  cases h
  case pin_start => exact Or.inr (Or.inl rfl)
  case record => exact Or.inr (Or.inl rfl)
  case flush => exact Or.inr (Or.inl rfl)
  case teardown => exact Or.inr (Or.inl rfl)
  case teardown_failure => exact Or.inr (Or.inl rfl)
  case volume_start =>
    simp only [run_response_handler]
    split
    · exact Or.inl rfl
    · exact Or.inr (Or.inl rfl)
  case setup_stream =>
    simp only [run_response_handler, response_handler_setup_stream]
    repeat' split
    all_goals first | exact Or.inl rfl | exact Or.inr (Or.inl rfl)
  case setup_session =>
    simp only [run_response_handler, response_handler_setup_session]
    repeat' split
    all_goals first | exact Or.inl rfl | exact Or.inr (Or.inl rfl)
  case options_probe =>
    simp only [run_response_handler, response_handler_options_probe,
      response_handler_options_generic]
    repeat' split
    all_goals first
      | exact Or.inl rfl
      | exact Or.inr (Or.inl rfl)
      | simp_all
  case options_start =>
    simp only [run_response_handler, response_handler_options_start,
      response_handler_options_generic]
    repeat' split
    all_goals first
      | exact Or.inl rfl
      | exact Or.inr (Or.inl rfl)
      | simp_all
  case pair_setup1 =>
    simp only [run_response_handler, response_handler_pair_setup1,
      response_handler_pair_generic]
    repeat' split
    all_goals first
      | exact Or.inl rfl
      | exact Or.inr (Or.inl rfl)
      | simp_all
  case pair_setup2 =>
    simp only [run_response_handler, response_handler_pair_setup2,
      response_handler_pair_generic]
    repeat' split
    all_goals first | exact Or.inl rfl | exact Or.inr (Or.inl rfl)
  case pair_setup3 =>
    simp only [run_response_handler, response_handler_pair_setup3,
      response_handler_pair_generic]
    repeat' split
    all_goals first | exact Or.inl rfl | exact Or.inr (Or.inl rfl)
  case pair_verify1 =>
    simp only [run_response_handler, response_handler_pair_verify1,
      response_handler_pair_generic]
    repeat' split
    all_goals first | exact Or.inl rfl | exact Or.inr (Or.inl rfl)
  case pair_verify2 =>
    simp only [run_response_handler, response_handler_pair_verify2,
      response_handler_pair_generic]
    repeat' split
    all_goals first | exact Or.inl rfl | exact Or.inr (Or.inl rfl)

theorem row_jump_facts (x : airplay_seq_ctx) (cur : airplay_seq_request)
    (hcur : x.cur_request = some cur) :
    (cur.response_handler = some .options_start →
      x.idx = 0 ∧ (x.seq_type = .START ∨
        (x.seq_type = .START_RERUN ∧ cur.proceed_on_rtsp_not_ok = false))) ∧
    (cur.response_handler = some .options_probe → x.idx = 0 ∧ x.seq_type = .PROBE) ∧
    (cur.response_handler = some .pair_setup1 →
      x.idx = 0 ∧ (x.seq_type = .PAIR_TRANSIENT ∨
        (x.seq_type = .PAIR_SETUP ∧ cur.proceed_on_rtsp_not_ok = false))) ∧
    (cur.response_handler = some .volume_start → x.seq_type = .START_AP2 ∧ x.idx = 3) := by
  obtain ⟨T, i, s, e, p, a⟩ := x
  simp only [airplay_seq_ctx.cur_request] at hcur ⊢
  cases T <;> simp only [airplay_seq_request_rows] at hcur ⊢ <;>
    rcases i with _ | _ | _ | _ | _ | i <;>
    simp at hcur ⊢ <;>
    (try subst hcur) <;> simp

theorem requests_left_bounds (x : airplay_seq_ctx) (h : x.cur_request.isSome = true) :
    0 < x.requests_left ∧ x.requests_left ≤ 7 := by
  obtain ⟨T, i, s, e, p, a⟩ := x
  simp only [airplay_seq_ctx.cur_request] at h
  have hi := (List.getElem?_eq_some_iff.mp (Option.eq_some_of_isSome h)).1
  cases T <;> simp only [airplay_seq_request_rows, List.length_cons, List.length_nil,
    airplay_seq_ctx.requests_left] at hi ⊢ <;> omega

theorem seq_ctx_next_requests_left (x y : airplay_seq_ctx) (h : seq_ctx_next x y) :
    y.requests_left < x.requests_left := by
  obtain ⟨⟨-, -, hw⟩, h⟩ := h
  obtain ⟨T, i, s, e, p, a⟩ := x
  obtain ⟨U, j, s2, e2, p2, a2⟩ := y
  simp only [airplay_seq_ctx.cur_request] at hw
  have hj := (List.getElem?_eq_some_iff.mp (Option.eq_some_of_isSome hw)).1
  simp only at h
  rcases h with ⟨hU, hji⟩ | ⟨hi, hj0, hjump⟩ | ⟨hT, hi, hj0, hU⟩
  · subst hU hji
    cases U <;> simp only [airplay_seq_request_rows, List.length_cons, List.length_nil,
      airplay_seq_ctx.requests_left] at hj ⊢ <;> omega
  · subst hi hj0
    cases T <;> cases U <;> simp only [seq_jump, Bool.false_eq_true] at hjump <;>
      simp [airplay_seq_ctx.requests_left, airplay_seq_request_rows]
  · subst hT hi hj0
    rcases hU with hU | hU | hU <;> subst hU <;>
      simp [airplay_seq_ctx.requests_left, airplay_seq_request_rows]

theorem sequence_start_ctxs (t : airplay_seq_type) (arg : payload_arg) (c : Ctl) :
    (sequence_start t arg c).seq_ctxs = c.seq_ctxs ∨
    (sequence_start t arg c).seq_ctxs = c.seq_ctxs ++ [airplay_seq_ctx.first t c.rs.ptr arg] := by
  rcases (sequence_start_effect t arg c).ctxs with h | h
  · exact Or.inl h.1
  · exact Or.inr h.1

theorem metadata_start_ctxs (b : Bool) (t : airplay_seq_type) (arg : payload_arg) (c : Ctl)
    (ht : t = .SEND_PROGRESS ∨ t = .SEND_TEXT ∨ t = .SEND_ARTWORK) :
    ∃ extra, (if b = true then sequence_start t arg c else c).seq_ctxs = c.seq_ctxs ++ extra ∧
      ∀ y ∈ extra, y.wf ∧ y.idx = 0 ∧
        (y.seq_type = .SEND_PROGRESS ∨ y.seq_type = .SEND_TEXT ∨ y.seq_type = .SEND_ARTWORK) := by
  split
  · rcases sequence_start_ctxs t arg c with h | h
    · exact ⟨[], by simp [h], by simp⟩
    · refine ⟨[airplay_seq_ctx.first t c.rs.ptr arg], h, ?_⟩
      intro y hy
      rw [List.mem_singleton] at hy
      subst hy
      refine ⟨first_wf t _ _ ?_, rfl, ht⟩
      rcases ht with ht | ht | ht <;> subst ht <;> decide
  · exact ⟨[], by simp, by simp⟩

theorem airplay_metadata_send_generic_ctxs (metadata : output_metadata) (only_progress : Bool)
    (c : Ctl) :
    ∃ extra, (airplay_metadata_send_generic metadata only_progress c).2.seq_ctxs
        = c.seq_ctxs ++ extra ∧
      ∀ y ∈ extra, y.wf ∧ y.idx = 0 ∧
        (y.seq_type = .SEND_PROGRESS ∨ y.seq_type = .SEND_TEXT ∨ y.seq_type = .SEND_ARTWORK) := by
  simp only [airplay_metadata_send_generic]
  obtain ⟨e1, h1, p1⟩ := metadata_start_ctxs (c.rs.wanted_metadata &&& RAOP_MD_WANTS_PROGRESS != 0)
    .SEND_PROGRESS (.metadata metadata) c (Or.inl rfl)
  generalize (if (c.rs.wanted_metadata &&& RAOP_MD_WANTS_PROGRESS != 0) = true
    then sequence_start .SEND_PROGRESS (.metadata metadata) c else c) = c1 at h1 ⊢
  obtain ⟨e2, h2, p2⟩ := metadata_start_ctxs
    (!only_progress && (c1.rs.wanted_metadata &&& RAOP_MD_WANTS_TEXT != 0))
    .SEND_TEXT (.metadata metadata) c1 (Or.inr (Or.inl rfl))
  generalize (if (!only_progress && (c1.rs.wanted_metadata &&& RAOP_MD_WANTS_TEXT != 0)) = true
    then sequence_start .SEND_TEXT (.metadata metadata) c1 else c1) = c2 at h2 ⊢
  obtain ⟨e3, h3, p3⟩ := metadata_start_ctxs
    (!only_progress && (c2.rs.wanted_metadata &&& RAOP_MD_WANTS_ARTWORK != 0)
      && metadata.artwork.isSome)
    .SEND_ARTWORK (.metadata metadata) c2 (Or.inr (Or.inr rfl))
  refine ⟨e1 ++ e2 ++ e3, ?_, ?_⟩
  · rw [h3, h2, h1]
    simp
  · intro y hy
    rcases List.mem_append.mp hy with hy | hy
    · rcases List.mem_append.mp hy with hy | hy
      · exact p1 y hy
      · exact p2 y hy
    · exact p3 y hy

theorem airplay_metadata_startup_send_ctxs (c : Ctl) :
    ∃ extra, (airplay_metadata_startup_send c).2.seq_ctxs = c.seq_ctxs ++ extra ∧
      ∀ y ∈ extra, y.wf ∧ y.idx = 0 ∧
        (y.seq_type = .SEND_PROGRESS ∨ y.seq_type = .SEND_TEXT ∨ y.seq_type = .SEND_ARTWORK) := by
  unfold airplay_metadata_startup_send
  split
  · exact ⟨[], by simp, by simp⟩
  · split
    · exact ⟨[], by simp, by simp⟩
    · rename_i md _ _
      exact airplay_metadata_send_generic_ctxs { md with startup := true } false
        { c with airplay_cur_metadata := some { md with startup := true } }

/-- The contexts a response handler queues: none, except the metadata contexts of
the handler of the volume step of START_AP2. -/
theorem sequence_continue_cb_handle_ctxs (x : airplay_seq_ctx) (cur : airplay_seq_request)
    (req : evrtsp_request) (c : Ctl) (hcur : x.cur_request = some cur) :
    ∃ extra, (sequence_continue_cb_handle x cur.response_handler req c).2.seq_ctxs
        = c.seq_ctxs ++ extra ∧
      ∀ y ∈ extra, seq_ctx_next x y := by
  cases hh : cur.response_handler with
  | none => exact ⟨[], by simp [sequence_continue_cb_handle], by simp⟩
  | some h =>
    by_cases hv : h = .volume_start
    · subst hv
      obtain ⟨hT, hi⟩ := (row_jump_facts x cur hcur).2.2.2 hh
      obtain ⟨extra, h1, h2⟩ := airplay_metadata_startup_send_ctxs c
      refine ⟨extra, ?_, ?_⟩
      · simp only [sequence_continue_cb_handle, run_response_handler, Ctl.emit]
        split <;> exact h1
      · intro y hy
        obtain ⟨w, i0, ht⟩ := h2 y hy
        exact ⟨w, Or.inr (Or.inr ⟨hT, hi, i0, ht⟩)⟩
    · refine ⟨[], ?_, by simp⟩
      simp only [sequence_continue_cb_handle, Ctl.emit, List.append_nil]
      exact (response_handler_in_flight h req c hv).2.1

theorem on_error_isSome (x : airplay_seq_ctx) (h : x.cur_request.isSome = true) :
    (airplay_seq_definition x.seq_type).on_error.isSome = true := by
  obtain ⟨T, i, s, e, p, a⟩ := x
  cases T <;> simp [airplay_seq_ctx.cur_request, airplay_seq_request_rows] at h ⊢ <;> rfl

theorem sequence_continue_cb_enter_ctxs (c : Ctl) :
    (sequence_continue_cb_enter c).seq_ctxs = c.seq_ctxs := by
  simp only [sequence_continue_cb_enter]
  split <;> rfl

theorem sequence_continue_cb_error_runs (x : airplay_seq_ctx) (c0 c : Ctl) (pre : List Event)
    (hx : x.wf) (hlog : c.sys.log = c0.sys.log ++ pre) (hptr : c.rs.ptr = c0.rs.ptr) :
    ∃ evs, (sequence_continue_cb_error x c).sys.log = c0.sys.log ++ evs ∧
      (.on_error c0.rs.ptr x.seq_type ∈ evs ∨ .on_success c0.rs.ptr x.seq_type ∈ evs) := by
  obtain ⟨evs, h1, h2, -⟩ := sequence_continue_cb_error_events x c hx.2.1
  have hs : x.on_error.isSome = true := by
    rw [hx.2.1]
    exact on_error_isSome x hx.2.2
  refine ⟨pre ++ evs, by rw [h1, hlog, List.append_assoc], Or.inl ?_⟩
  have hh := h2 hs
  rw [hptr] at hh
  exact List.mem_append_right _ (List.mem_of_mem_head? hh)

/-- One response for the request of a context `x` made by `sequence_start`:
`sequence_continue_cb` runs `on_error` or `on_success` of the sequence of `x`, or
each context it queues is the next step of the row of `x`, the first step of a
sequence `x` jumps to, or a metadata context. -/
theorem sequence_continue_cb_queue (req : Option evrtsp_request) (x : airplay_seq_ctx)
    (c : Ctl) (hx : x.wf) :
    (∃ evs, (sequence_continue_cb req x c).sys.log = c.sys.log ++ evs ∧
      (.on_error c.rs.ptr x.seq_type ∈ evs ∨ .on_success c.rs.ptr x.seq_type ∈ evs)) ∨
    (∃ new, (sequence_continue_cb req x c).seq_ctxs = c.seq_ctxs ++ new ∧
      ∀ y ∈ new, seq_ctx_next x y) := by
  obtain ⟨cur, hcur⟩ := Option.isSome_iff_exists.mp hx.2.2
  obtain ⟨-, esys, eptr, -⟩ := sequence_continue_cb_enter_fields c
  have ectx := sequence_continue_cb_enter_ctxs c
  have herr : ∀ c1 pre, c1.sys.log = c.sys.log ++ pre → c1.rs.ptr = c.rs.ptr →
      ∃ evs, (sequence_continue_cb_error x c1).sys.log = c.sys.log ++ evs ∧
        (.on_error c.rs.ptr x.seq_type ∈ evs ∨ .on_success c.rs.ptr x.seq_type ∈ evs) :=
    fun c1 pre h1 h2 => sequence_continue_cb_error_runs x c c1 pre hx h1 h2
  cases req with
  | none =>
    left
    have e : sequence_continue_cb none x c
        = sequence_continue_cb_error x (sequence_continue_cb_enter c) := by
      simp only [sequence_continue_cb, hcur]
    rw [e]
    exact herr _ [] (by rw [esys, List.append_nil]) eptr
  | some r =>
    by_cases hok : r.response_code = RTSP_OK ∨ cur.proceed_on_rtsp_not_ok = true
    swap
    · left
      have e : sequence_continue_cb (some r) x c
          = sequence_continue_cb_error x (sequence_continue_cb_enter c) := by
        have h1 : r.response_code ≠ RTSP_OK ∧ (!cur.proceed_on_rtsp_not_ok) = true := by
          constructor
          · exact fun h => hok (Or.inl h)
          · cases hp : cur.proceed_on_rtsp_not_ok
            · rfl
            · exact absurd (Or.inr hp) hok
        simp only [sequence_continue_cb, hcur]
        rw [if_pos h1]
      rw [e]
      exact herr _ [] (by rw [esys, List.append_nil]) eptr
    · rw [sequence_continue_cb_eq r x cur c hcur hok]
      obtain ⟨eff, -⟩ := sequence_continue_cb_handle_effect x cur.response_handler r
        (sequence_continue_cb_enter c)
      obtain ⟨extra, hextra, pextra⟩ := sequence_continue_cb_handle_ctxs x cur r
        (sequence_continue_cb_enter c) hcur
      obtain ⟨pre, hpre⟩ := eff.log
      have hptr := eff.ptr
      rw [eptr] at hptr
      rw [esys] at hpre
      rw [ectx] at hextra
      have hjump : (sequence_continue_cb_handle x cur.response_handler r
            (sequence_continue_cb_enter c)).1 ≠ .CONTINUE →
          (sequence_continue_cb_handle x cur.response_handler r
            (sequence_continue_cb_enter c)).1 ≠ .ABORT →
          x.idx = 0 ∧ seq_jump x.seq_type (sequence_continue_cb_handle x cur.response_handler r
            (sequence_continue_cb_enter c)).1 = true := by
        intro h1 h2
        cases hh : cur.response_handler with
        | none =>
          rw [hh] at h1
          exact absurd rfl h1
        | some h =>
          rw [hh] at h1 h2
          have e : (sequence_continue_cb_handle x (some h) r (sequence_continue_cb_enter c)).1
              = (run_response_handler h r (sequence_continue_cb_enter c)).1 := rfl
          rw [e] at h1 h2 ⊢
          obtain ⟨f1, f2, f3, -⟩ := row_jump_facts x cur hcur
          have hcode : cur.proceed_on_rtsp_not_ok = false → r.response_code = 200 := by
            intro hp
            rcases hok with hok | hok
            · exact hok
            · rw [hp] at hok
              cases hok
          rcases run_response_handler_jump h r (sequence_continue_cb_enter c) with
            j | j | ⟨jh, jt, jc⟩ | ⟨jh, jt, jc⟩ | ⟨jh, jt, jc⟩ | ⟨jh, jt, jc⟩
          · exact absurd j h2
          · exact absurd j h1
          · rw [jt]
            rcases jh with jh | jh
            · obtain ⟨i0, hT⟩ := f2 (by rw [hh, jh])
              rw [hT]
              exact ⟨i0, rfl⟩
            · obtain ⟨i0, hT | ⟨hT, hp⟩⟩ := f1 (by rw [hh, jh])
              · rw [hT]
                exact ⟨i0, rfl⟩
              · have := hcode hp
                rw [jc] at this
                exact absurd this (by decide)
          · rw [jt]
            rcases jh with jh | jh
            · obtain ⟨i0, hT⟩ := f2 (by rw [hh, jh])
              rw [hT]
              exact ⟨i0, rfl⟩
            · obtain ⟨i0, hT | ⟨hT, hp⟩⟩ := f1 (by rw [hh, jh])
              · rw [hT]
                exact ⟨i0, rfl⟩
              · have := hcode hp
                rw [jc] at this
                exact absurd this (by decide)
          · rw [jt]
            obtain ⟨i0, hT | ⟨hT, hp⟩⟩ := f1 (by rw [hh, jh])
            · rw [hT]
              exact ⟨i0, rfl⟩
            · rw [hT]
              exact ⟨i0, rfl⟩
          · rw [jt]
            obtain ⟨i0, hT | ⟨hT, hp⟩⟩ := f3 (by rw [hh, jh])
            · rw [hT]
              exact ⟨i0, rfl⟩
            · have := hcode hp
              rw [jc] at this
              exact absurd this (by decide)
      generalize (sequence_continue_cb_handle x cur.response_handler r
        (sequence_continue_cb_enter c)).1 = t at hjump ⊢
      generalize (sequence_continue_cb_handle x cur.response_handler r
        (sequence_continue_cb_enter c)).2 = c1 at hpre hptr hextra ⊢
      split
      · rename_i hne
        split
        · left
          exact herr c1 pre hpre hptr
        · rename_i hna
          right
          obtain ⟨i0, hj⟩ := hjump hne hna
          rcases sequence_start_ctxs t x.payload_make_arg c1 with h | h
          · exact ⟨extra, by rw [h, hextra], pextra⟩
          · refine ⟨extra ++ [airplay_seq_ctx.first t c1.rs.ptr x.payload_make_arg], by
              rw [h, hextra, List.append_assoc], ?_⟩
            intro y hy
            rcases List.mem_append.mp hy with hy | hy
            · exact pextra y hy
            · rw [List.mem_singleton] at hy
              subst hy
              refine ⟨first_wf t _ _ ?_, Or.inr (Or.inl ⟨i0, rfl, hj⟩)⟩
              constructor
              · exact hna
              · exact hne
      · simp only [sequence_continue_cb_next]
        split
        · rename_i hnext
          right
          rcases (sequence_continue_effect 7 { x with idx := x.idx + 1 } c1).ctxs with h | h
          · exact ⟨extra, by rw [h.1, hextra], pextra⟩
          · refine ⟨extra ++ [{ x with idx := x.idx + 1 }], by
              rw [h.1, hextra, List.append_assoc], ?_⟩
            intro y hy
            rcases List.mem_append.mp hy with hy | hy
            · exact pextra y hy
            · rw [List.mem_singleton] at hy
              subst hy
              exact ⟨⟨hx.1, hx.2.1, hnext⟩, Or.inl ⟨rfl, rfl⟩⟩
        · split
          · rename_i cb hcb
            left
            obtain ⟨evs, he, -⟩ := run_seq_callback_events cb
              (c1.emit (.on_success c1.rs.ptr x.seq_type))
            refine ⟨pre ++ [.on_success c.rs.ptr x.seq_type] ++ evs, ?_, Or.inr ?_⟩
            · rw [he]
              simp [Ctl.emit, Sys.emit, hpre, hptr]
            · simp
          · right
            exact ⟨extra, hextra, pextra⟩

theorem sequence_continues_next (x y : airplay_seq_ctx) (hx : x.wf)
    (h : sequence_continues x y) : seq_ctx_next x y := by
  obtain ⟨req, c, hno, hy⟩ := h
  rcases sequence_continue_cb_queue req x c hx with ⟨evs, hl, hev⟩ | ⟨new, hn, pn⟩
  · rw [hl, List.drop_left] at hno
    rcases hev with hev | hev
    · exact absurd rfl (hno _ hev).1
    · exact absurd rfl (hno _ hev).2
  · rw [hn, List.drop_left] at hy
    exact pn y hy

theorem sequence_chain_length : ∀ (xs : List airplay_seq_ctx) (n : Nat),
    List.Chain' sequence_continues xs →
    (∀ x, xs.head? = some x → x.wf ∧ x.requests_left ≤ n) → xs.length ≤ n
  | [], n, _, _ => Nat.zero_le n
  | [x], n, _, h => by
    obtain ⟨hw, hn⟩ := h x rfl
    have := (requests_left_bounds x hw.2.2).1
    simp only [List.length_singleton]
    omega
  | x :: y :: rest, n, hc, h => by
    obtain ⟨hw, hn⟩ := h x rfl
    rw [List.chain'_cons] at hc
    have hnext := sequence_continues_next x y hw hc.1
    have hlt := seq_ctx_next_requests_left x y hnext
    have ih := sequence_chain_length (y :: rest) (n - 1) hc.2 (fun z hz => by
      simp only [List.head?_cons, Option.some.injEq] at hz
      subst hz
      exact ⟨hnext.1, by omega⟩)
    simp only [List.length_cons] at ih ⊢
    omega

set_option maxRecDepth 100000 in
/-- C30 (as stated, refuted): a jump that is not among those listed. In a probe of the
device with a password (`airplay_device_probe`, transient pairing done, the
OPTIONS of PROBE in flight without Authorization header), a 401 with a digest
challenge makes the response handler of PROBE return START_RERUN, and
`sequence_continue_cb` starts the sequence START_RERUN on the session: PROBE
jumps to START_RERUN. -/
theorem probe_jumps_to_start_rerun :
    exampleProbing.seq_ctxs = [airplay_seq_ctx.first .PROBE 100 .null] ∧
    exampleProbing.rs.req_has_auth = false ∧
    (deliver (some (exampleResponse 401 (some exampleChallenge))) exampleProbing).sys.log.drop
        exampleProbing.sys.log.length
      = [.handler 100 .PROBE 0 .START_RERUN, .sequence_start 100 .START_RERUN,
         .request 100 .START_RERUN 0] ∧
    (deliver (some (exampleResponse 401 (some exampleChallenge))) exampleProbing).seq_ctxs
      = [airplay_seq_ctx.first .START_RERUN 100 .null] := by
  decide

/-- C30 (amended): the jumps are those of `seq_jump` (START to START_RERUN,
START_AP2 or PIN_START; PROBE to START_RERUN or PIN_START; START_RERUN to
START_AP2 only, its handler sees nothing but a 200; PAIR_TRANSIENT to PIN_START),
and they go down in `requests_left`, so they form no cycle. For a context `x`
made by `sequence_start`, at any step of its row, `requests_left` is between 1
and 7, and for every response and every state of the module
`sequence_continue_cb` either runs `on_error` or `on_success` of the sequence of
`x`, or every context it queues is the next step of the row, the first step of a
sequence `x` jumps to, or a metadata context started by the volume step of
START_AP2, each with fewer `requests_left` than `x`. So in every series of
responses in which no callback of the sequences runs, the requests sent one for
the other from `x` on, the one of `x` included, are at most `requests_left`, at
most 7. -/
theorem sequence_requests_bounded (x : airplay_seq_ctx) (hx : x.wf) :
    (0 < x.requests_left ∧ x.requests_left ≤ 7) ∧
    (∀ t u s a, seq_jump t u = true →
      (airplay_seq_ctx.first u s a).requests_left
        < (airplay_seq_ctx.first t s a).requests_left) ∧
    (∀ (req : Option evrtsp_request) (c : Ctl),
      (∃ evs, (sequence_continue_cb req x c).sys.log = c.sys.log ++ evs ∧
        (.on_error c.rs.ptr x.seq_type ∈ evs ∨ .on_success c.rs.ptr x.seq_type ∈ evs)) ∨
      (∃ new, (sequence_continue_cb req x c).seq_ctxs = c.seq_ctxs ++ new ∧
        ∀ y ∈ new, seq_ctx_next x y ∧ y.requests_left < x.requests_left)) ∧
    (∀ xs, List.Chain' sequence_continues (x :: xs) →
      (x :: xs).length ≤ x.requests_left) := by
  refine ⟨requests_left_bounds x hx.2.2, ?_, ?_, ?_⟩
  · intro t u s a h
    cases t <;> cases u <;> simp only [seq_jump, Bool.false_eq_true] at h <;>
      simp [airplay_seq_ctx.requests_left, airplay_seq_ctx.first, airplay_seq_request_rows]
  · intro req c
    rcases sequence_continue_cb_queue req x c hx with h | ⟨new, hn, pn⟩
    · exact Or.inl h
    · exact Or.inr ⟨new, hn, fun y hy =>
        ⟨pn y hy, seq_ctx_next_requests_left x y (pn y hy)⟩⟩
  · intro xs hc
    exact sequence_chain_length (x :: xs) x.requests_left hc (fun z hz => by
      simp only [List.head?_cons, Option.some.injEq] at hz
      subst hz
      exact ⟨hx, le_refl _⟩)

/-- Witness for `sequence_requests_bounded`: the context of the OPTIONS of PROBE
of the session 100, which has 7 `requests_left` (its own, the one of START_RERUN
and the five of START_AP2). -/
theorem sequence_requests_bounded_witness :
    (airplay_seq_ctx.first .PROBE 100 .null).wf ∧
    (airplay_seq_ctx.first .PROBE 100 .null).requests_left = 7 ∧
    ((0 < (airplay_seq_ctx.first .PROBE 100 .null).requests_left ∧
        (airplay_seq_ctx.first .PROBE 100 .null).requests_left ≤ 7) ∧
      (∀ t u s a, seq_jump t u = true →
        (airplay_seq_ctx.first u s a).requests_left
          < (airplay_seq_ctx.first t s a).requests_left) ∧
      (∀ (req : Option evrtsp_request) (c : Ctl),
        (∃ evs, (sequence_continue_cb req (airplay_seq_ctx.first .PROBE 100 .null) c).sys.log
            = c.sys.log ++ evs ∧
          (.on_error c.rs.ptr (airplay_seq_ctx.first .PROBE 100 .null).seq_type ∈ evs ∨
            .on_success c.rs.ptr (airplay_seq_ctx.first .PROBE 100 .null).seq_type ∈ evs)) ∨
        (∃ new, (sequence_continue_cb req (airplay_seq_ctx.first .PROBE 100 .null) c).seq_ctxs
            = c.seq_ctxs ++ new ∧
          ∀ y ∈ new, seq_ctx_next (airplay_seq_ctx.first .PROBE 100 .null) y ∧
            y.requests_left < (airplay_seq_ctx.first .PROBE 100 .null).requests_left)) ∧
      (∀ xs, List.Chain' sequence_continues (airplay_seq_ctx.first .PROBE 100 .null :: xs) →
        (airplay_seq_ctx.first .PROBE 100 .null :: xs).length
          ≤ (airplay_seq_ctx.first .PROBE 100 .null).requests_left)) :=
  ⟨⟨rfl, rfl, rfl⟩, rfl,
   sequence_requests_bounded (airplay_seq_ctx.first .PROBE 100 .null) ⟨rfl, rfl, rfl⟩⟩

end Airplay
